import Mathlib

/-!
# HTC power algorithm of the MAX17050 battery driver

Shallow embedding of `drivers/power/max17050_battery.c` (the charge state
machine, the charging availability gate, the charger command dispatch, the
cable, reverse protection and charger switch handlers) and of the parts of
`drivers/power/max17050_gauge.c` it calls (gauge sample conversion,
protection flags, state-of-charge register), with the voltage curve
translator of `max17050_gauge.c`.

Conventions of the embedding.

* The file-level statics of `max17050_battery.c` (`poweralg`, `config`, the
  safety timers, the function-local `static` counters) are the fields of one
  record, `State`, which every function takes and returns.
* `BOOL` values are `Bool`; the charge state and the charger command are
  enumerations (they are only ever assigned enumerators).
* The fields of `struct battery_type`, `struct poweralg_type` and
  `struct poweralg_config_type` are declared in `linux/max17050_battery.h`,
  which is not part of the sources at hand.  They are `INT32` values, kept as
  integers; division is C's truncating division.  A product of a
  configuration field with a constant is `int` arithmetic and is reduced to
  its 32 bits (`INT32_of_int`), and a comparison of a configuration field with
  a `UINT32` variable converts the field to `UINT32` (`UINT32_of_int`).
  Variables whose C type is visible (`UINT32` counters and timers) are
  naturals reduced modulo `2^32`.
* The kernel clock `ktime_get_real()` and the gauge registers read over I2C
  are inputs of one evaluation cycle (`CycleInput`): a cycle is evaluated at
  one instant `now` (milliseconds, so `MSPERIOD(a, b) = a - b`) against one
  snapshot of the registers.  A register whose read fails is `none`; the
  destination field then keeps its previous value, as the driver ignores the
  error code.
* Calls that only talk to the outside (printk, udelay, gauge register writes,
  shared memory) have no effect on `State`; the notifier chain calls are
  recorded in `State.notified`, and the `state change(a->b)` kernel log line
  of the state machine in `State.state_change_log`.
* The voltage curve translator computes in `DWORD`, the 32 bit unsigned type:
  its values are naturals below `2^32`, its subtraction, multiplication and
  addition are reduced modulo `2^32`, and its result is read as an `INT32`.
  A lookup that would read past the array or divide by zero yields the fault
  instead of a capacity.
-/

namespace Max17050

/-- Charge states of the power algorithm (`CHARGE_STATE_*`). -/
inductive ChargeState where
  | CHARGE_STATE_UNKNOWN
  | CHARGE_STATE_PREDICTION
  | CHARGE_STATE_DISCHARGE
  | CHARGE_STATE_CHARGING
  | CHARGE_STATE_PENDING
  | CHARGE_STATE_FULL_WAIT_STABLE
  | CHARGE_STATE_FULL_CHARGING
  | CHARGE_STATE_FULL_PENDING
  | CHARGE_STATE_FULL_RECHARGING
  deriving DecidableEq

/-- Charger control commands; `DISABLE` is the zero command. -/
inductive ChargerCtl where
  | DISABLE
  | ENABLE_SLOW_CHG
  | ENABLE_FAST_CHG
  | ENABLE_SUPER_CHG
  | TOGGLE_CHARGER
  | ENABLE_MIN_TAPER
  | DISABLE_MIN_TAPER
  deriving DecidableEq

/-- What is handed to `blocking_notifier_call_chain`: a charging control
command (`none` when the pointer was overwritten with `DISABLE`, i.e. NULL)
or a level update. -/
inductive Notification where
  | CHARGING_CONTROL (v : Option ChargerCtl)
  | LEVEL_UPDATE (level : Int)
  deriving DecidableEq

/-- The fields of `struct battery_type` used by the live code. -/
structure battery_type where
  voltage_adc : Int
  current_adc : Int
  temp_adc : Int
  voltage_mV : Int
  current_mA : Int
  temp_01c : Int
  last_temp_01c : Int
  charge_counter_mAh : Int
  charge_full_design_mAh : Int
  charge_full_real_mAh : Int
  capacity_raw : Int
  id_index : Int
  deriving DecidableEq

/-- The data fields of `struct protect_flags_type`; the function pointer
`func_update_charging_protect_flag` is `Platform.func_update_charging_protect_flag`. -/
structure protect_flags_type where
  is_charging_enable_available : Bool
  is_charging_high_current_avaialble : Bool
  is_battery_dead : Bool
  is_charging_reverse_protect : Bool
  is_fake_room_temp : Bool
  is_temperature_fault : Int
  deriving DecidableEq

/-- The fields of `struct poweralg_type` used by the live code. -/
structure poweralg_type where
  charge_state : ChargeState
  capacity_01p : Int
  last_capacity_01p : Int
  fst_discharge_capacity_01p : Int
  fst_discharge_acr_mAh : Int
  is_charge_over_load : Bool
  is_cable_in : Bool
  is_china_ac_in : Bool
  is_super_ac : Bool
  is_voltage_stable : Bool
  is_software_charger_timeout : Bool
  is_superchg_software_charger_timeout : Bool
  is_need_toggle_charger : Bool
  is_gauge_driver_ready : Bool
  last_charger_enable_toggled_time_ms : Nat
  start_ktime : Int
  charging_source : Int
  charging_enable : ChargerCtl
  battery : battery_type
  protect_flags : protect_flags_type
  deriving DecidableEq

/-- The fields of `struct poweralg_config_type` (see `poweralg_config_init`). -/
structure poweralg_config_type where
  full_charging_mv : Int
  full_charging_ma : Int
  full_pending_ma : Int
  full_charging_timeout_sec : Int
  voltage_recharge_mv : Int
  capacity_recharge_p : Int
  voltage_exit_full_mv : Int
  min_taper_current_mv : Int
  min_taper_current_ma : Int
  wait_votlage_statble_sec : Int
  predict_timeout_sec : Int
  software_charger_timeout_sec : Int
  superchg_software_charger_timeout_sec : Int
  charger_hw_safety_timer_watchdog_sec : Int
  debug_disable_shutdown : Bool
  debug_fake_room_temp : Bool
  debug_disable_hw_timer : Bool
  debug_always_predict : Bool
  full_level : Int
  deriving DecidableEq

/-- The statics of `max17050_battery.c`, with the two records of what the
driver sends out. -/
structure State where
  poweralg : poweralg_type
  config : poweralg_config_type
  g_first_update_charger_ctl : Int
  charger_control : Int
  force_update_batt_info : Int
  force_set_chg : Int
  delta_time_sec : Nat
  chg_en_time_sec : Nat
  chg_kick_time_sec : Nat
  super_chg_on_time_sec : Nat
  b_is_charge_off_by_bounding : Bool
  pingpong : Int
  count_charging_full_condition : Nat
  count_charge_over_load : Nat
  s_bFirstEntry : Bool
  s_level : Int
  s_pre_time_ktime : Int
  pre_param_update_ktime : Int
  notified : List Notification
  state_change_log : List (ChargeState × ChargeState)
  deriving DecidableEq

/-- One snapshot of the gauge registers as the I2C reads of a cycle deliver
them; `none` is a failed read. -/
structure GaugeRegs where
  VCELL : Option Int
  Current : Option Int
  TEMP : Option Int
  FullCAP : Option Int
  RepSOC : Option Int
  deriving DecidableEq

/-- The inputs of one evaluation cycle: the instant at which it runs
(milliseconds of `ktime_get_real()`) and the gauge registers at that instant. -/
structure CycleInput where
  now : Int
  regs : GaugeRegs
  deriving DecidableEq

/-- What the board and the absent headers supply: the `CEILING` macro, the id
of the unknown battery, the optional board strategy for the protection flags
(it receives current, voltage, temperature and the three flags it may
rewrite) and whether a charger kick hook is installed. -/
structure Platform where
  CEILING : Int → Int → Int
  BATTERY_ID_UNKNOWN : Int
  func_update_charging_protect_flag :
    Option (Int → Int → Int → Bool → Bool → Int → Bool × Bool × Int)
  func_kick_charger_ic : Bool

/-- Reduction of a `UINT32` value. -/
def UINT32 (n : Nat) : Nat := n % 4294967296

/-- Reduction of the result of `int` arithmetic to its 32 bits, read as a
signed number: what a product of two `int` operands is in the code. -/
def INT32_of_int (x : Int) : Int := (x + 2147483648) % 4294967296 - 2147483648

/-- Conversion of an `int` to `UINT32`, which a comparison of an `int` with a
`UINT32` applies to the `int`: a negative value becomes a large one. -/
def UINT32_of_int (x : Int) : Nat := (x % 4294967296).toNat

/-- `MSPERIOD(end, start)`: milliseconds from `start` to `end`. -/
def MSPERIOD (e s : Int) : Int := e - s

/-! ## max17050_gauge.c -/

def over_high_temp_lock_01c : Int := 600
def over_high_temp_release_01c : Int := 570
def over_low_temp_lock_01c : Int := 0
def over_low_temp_release_01c : Int := 30
def BATTERY_DEAD_VOLTAGE_LEVEL : Int := 3420
def BATTERY_DEAD_VOLTAGE_RELEASE : Int := 3450

/-- A 2-byte I2C read into a field: the register value, or the old value of
the field when the transfer failed. -/
def max17050_i2c_read (reg : Option Int) (field : Int) : Int :=
  match reg with
  | some v => v
  | none => field

def is_over_temp (battery : battery_type) : Bool :=
  if battery.temp_01c < over_low_temp_lock_01c ∨ battery.temp_01c ≥ over_high_temp_lock_01c then
    true
  else
    false

def is_not_over_temp (battery : battery_type) : Bool :=
  if battery.temp_01c ≥ over_low_temp_release_01c ∧
      battery.temp_01c < over_high_temp_release_01c then
    true
  else
    false

def __protect_flags_update (p : Platform) (battery : battery_type)
    (flags : protect_flags_type) : protect_flags_type :=
  let flags :=
    match p.func_update_charging_protect_flag with
    | some f =>
      let r := f battery.current_mA battery.voltage_mV battery.temp_01c
        flags.is_charging_enable_available flags.is_charging_high_current_avaialble
        flags.is_temperature_fault
      let flags := { flags with
        is_charging_enable_available := r.1
        is_charging_high_current_avaialble := r.2.1
        is_temperature_fault := r.2.2 }
      if flags.is_fake_room_temp then
        { flags with
          is_charging_enable_available := true
          is_charging_high_current_avaialble := true }
      else flags
    | none =>
      if is_over_temp battery then
        { flags with
          is_charging_enable_available := false
          is_charging_high_current_avaialble := false }
      else if is_not_over_temp battery then
        { flags with
          is_charging_enable_available := true
          is_charging_high_current_avaialble := true }
      else flags
  if battery.voltage_mV < BATTERY_DEAD_VOLTAGE_LEVEL then
    { flags with is_battery_dead := true }
  else if battery.voltage_mV > BATTERY_DEAD_VOLTAGE_RELEASE then
    { flags with is_battery_dead := false }
  else flags

/-- The live `__battery_param_udpate`: four register reads whose status is
ignored, then the conversion to physical units.  It always returns TRUE. -/
def __battery_param_udpate (regs : GaugeRegs) (battery : battery_type) :
    battery_type × Bool :=
  let battery := { battery with
    voltage_adc := max17050_i2c_read regs.VCELL battery.voltage_adc }
  let battery := { battery with
    current_adc := max17050_i2c_read regs.Current battery.current_adc }
  let battery := { battery with
    temp_adc := max17050_i2c_read regs.TEMP battery.temp_adc }
  let battery := { battery with
    charge_full_real_mAh := max17050_i2c_read regs.FullCAP battery.charge_full_real_mAh }
  let battery := { battery with
    voltage_mV := Int.tdiv (battery.voltage_adc * 20) 256 }
  let battery := { battery with
    current_mA := Int.tdiv (battery.current_adc * 5) 32 }
  let battery := { battery with
    temp_01c := (Int.tdiv battery.temp_adc 256) * 10 }
  let battery := { battery with
    charge_full_real_mAh := Int.tdiv battery.charge_full_real_mAh 2 }
  (battery, true)

/-- The function `battery_param_update`: sample the gauge, then evaluate the
protection flags; an unknown battery id switches charging off. -/
def battery_param_update (p : Platform) (regs : GaugeRegs) (battery : battery_type)
    (flags : protect_flags_type) : battery_type × protect_flags_type × Bool :=
  let r := __battery_param_udpate regs battery
  if !r.2 then
    (r.1, flags, false)
  else
    let battery := r.1
    let flags := __protect_flags_update p battery flags
    let flags :=
      if battery.id_index = p.BATTERY_ID_UNKNOWN then
        { flags with is_charging_enable_available := false }
      else flags
    (battery, flags, true)

/-- The function `max17050_get_batt_level`: read the state-of-charge register
into `capacity_raw` and scale it to tenths of a percent. -/
def max17050_get_batt_level (regs : GaugeRegs) (battery : battery_type) :
    battery_type × Int :=
  let battery := { battery with
    capacity_raw := max17050_i2c_read regs.RepSOC battery.capacity_raw }
  let level := Int.tdiv (battery.capacity_raw * 10) 256
  let level := if level ≥ 1000 then 1000 else level
  let level := if level < 0 then 0 else level
  (battery, level)

/-- The function `BAHW_MyGetMSecs`: the wall clock in milliseconds, as a DWORD. -/
def BAHW_MyGetMSecs (now : Int) : Nat := (now % 4294967296).toNat

/-! ## max17050_battery.c -/

/-- The function `bounding_fullly_charged_level`, with its `static int pingpong`
kept in `State.pingpong`. -/
def bounding_fullly_charged_level (p : Platform) (upperbd : Int) (s : State) : State :=
  let s := { s with b_is_charge_off_by_bounding := false }
  if upperbd ≤ 0 then
    s
  else
    let lowerbd := upperbd - 5
    let lowerbd := if lowerbd < 0 then 0 else lowerbd
    let current_level := p.CEILING s.poweralg.capacity_01p 10
    if s.pingpong = 1 ∧ upperbd ≤ current_level then
      { s with b_is_charge_off_by_bounding := true, pingpong := 0 }
    else if s.pingpong = 0 ∧ lowerbd < current_level then
      { s with b_is_charge_off_by_bounding := true }
    else if s.pingpong = 0 ∧ current_level ≤ lowerbd then
      { s with pingpong := 1 }
    else
      s

def is_charge_off_by_bounding_condition (s : State) : Bool :=
  s.b_is_charge_off_by_bounding

/-- The function `is_charging_avaiable`: a flag that starts TRUE and is
cleared by each disabling condition in turn. -/
def is_charging_avaiable (p : Platform) (s : State) : Bool :=
  let chg_avalible := true
  let chg_avalible :=
    if s.poweralg.is_superchg_software_charger_timeout then false else chg_avalible
  let chg_avalible :=
    if s.poweralg.is_software_charger_timeout then false else chg_avalible
  let chg_avalible :=
    if !s.poweralg.protect_flags.is_charging_enable_available &&
        !s.poweralg.protect_flags.is_fake_room_temp then false else chg_avalible
  let chg_avalible :=
    if s.poweralg.protect_flags.is_charging_reverse_protect then false else chg_avalible
  let chg_avalible := if !s.poweralg.is_cable_in then false else chg_avalible
  let chg_avalible :=
    if s.poweralg.charge_state = ChargeState.CHARGE_STATE_PENDING then false else chg_avalible
  let chg_avalible :=
    if s.poweralg.charge_state = ChargeState.CHARGE_STATE_FULL_PENDING then false
    else chg_avalible
  let chg_avalible :=
    if s.poweralg.charge_state = ChargeState.CHARGE_STATE_PREDICTION then false
    else chg_avalible
  let chg_avalible := if is_charge_off_by_bounding_condition s then false else chg_avalible
  let chg_avalible :=
    if s.poweralg.battery.id_index = p.BATTERY_ID_UNKNOWN then false else chg_avalible
  let chg_avalible := if s.charger_control ≠ 0 then false else chg_avalible
  chg_avalible

def is_high_current_charging_avaialable (s : State) : Bool :=
  if !s.poweralg.protect_flags.is_charging_high_current_avaialble &&
      !s.poweralg.protect_flags.is_fake_room_temp then false
  else if !s.poweralg.is_china_ac_in then false
  else if s.poweralg.charge_state = ChargeState.CHARGE_STATE_UNKNOWN then false
  else true

def is_super_current_charging_avaialable (s : State) : Bool :=
  if !s.poweralg.is_super_ac then false else true

def is_set_min_taper_current (s : State) : Bool :=
  if s.config.min_taper_current_ma > 0 ∧
      s.config.min_taper_current_mv > 0 ∧
      s.poweralg.battery.current_mA < s.config.min_taper_current_ma ∧
      s.config.min_taper_current_mv < s.poweralg.battery.voltage_mV then
    true
  else
    false

/-- Steps 1 and 2 of the loop body of `update_next_charge_state`: the next
state decided by the cable and the protection flags alone. -/
def next_state_by_cable (s : State) : ChargeState :=
  let next_charge_state := s.poweralg.charge_state
  if next_charge_state = s.poweralg.charge_state then
    let next_charge_state :=
      if s.poweralg.charge_state = ChargeState.CHARGE_STATE_UNKNOWN ∨
          s.poweralg.charge_state = ChargeState.CHARGE_STATE_CHARGING ∨
          s.poweralg.charge_state = ChargeState.CHARGE_STATE_PENDING ∨
          s.poweralg.charge_state = ChargeState.CHARGE_STATE_FULL_WAIT_STABLE ∨
          s.poweralg.charge_state = ChargeState.CHARGE_STATE_FULL_CHARGING ∨
          s.poweralg.charge_state = ChargeState.CHARGE_STATE_FULL_RECHARGING ∨
          s.poweralg.charge_state = ChargeState.CHARGE_STATE_FULL_PENDING then
        if !s.poweralg.is_cable_in then
          ChargeState.CHARGE_STATE_DISCHARGE
        else if !s.poweralg.protect_flags.is_charging_enable_available then
          ChargeState.CHARGE_STATE_PENDING
        else next_charge_state
      else next_charge_state
    if s.poweralg.charge_state = ChargeState.CHARGE_STATE_UNKNOWN ∨
        s.poweralg.charge_state = ChargeState.CHARGE_STATE_DISCHARGE then
      if s.poweralg.is_cable_in then
        ChargeState.CHARGE_STATE_CHARGING
      else next_charge_state
    else next_charge_state
  else next_charge_state

/-- The charge full terminate condition tested by the CHARGING and
FULL_WAIT_STABLE handlers. -/
def terminate_condition (s : State) : Bool :=
  decide (s.poweralg.battery.voltage_mV ≥ s.config.full_charging_mv ∧
    s.poweralg.battery.current_mA ≥ 0 ∧
    s.poweralg.battery.current_mA ≤ s.config.full_charging_ma ∧
    s.poweralg.capacity_01p > 930)

/-- Step 3 of the loop body of `update_next_charge_state`: the `switch` over
the current charge state.  It returns the updated statics and
`next_charge_state`. -/
def state_handler (now : Int) (s : State) : State × ChargeState :=
  let next_charge_state := s.poweralg.charge_state
  match s.poweralg.charge_state with
  | ChargeState.CHARGE_STATE_PREDICTION =>
    let end_ktime := now
    if MSPERIOD end_ktime s.poweralg.start_ktime ≥ 50 * 1000 then
      ({ s with poweralg.start_ktime := end_ktime }, next_charge_state)
    else if MSPERIOD end_ktime s.poweralg.start_ktime ≥
        INT32_of_int (s.config.predict_timeout_sec * 1000) then
      (s, ChargeState.CHARGE_STATE_UNKNOWN)
    else (s, next_charge_state)
  | ChargeState.CHARGE_STATE_CHARGING =>
    let s :=
      if s.poweralg.capacity_01p > 990 then { s with poweralg.capacity_01p := 990 } else s
    let next_charge_state :=
      if terminate_condition s then ChargeState.CHARGE_STATE_FULL_WAIT_STABLE
      else next_charge_state
    let s :=
      if s.poweralg.battery.current_mA ≤ 0 then
        if s.count_charge_over_load < 5 then
          { s with count_charge_over_load := UINT32 (s.count_charge_over_load + 1) }
        else
          { s with poweralg.is_charge_over_load := true }
      else
        { s with count_charge_over_load := 0, poweralg.is_charge_over_load := false }
    let s :=
      if !s.poweralg.protect_flags.is_fake_room_temp ∧
          s.config.software_charger_timeout_sec ≠ 0 ∧
          UINT32_of_int s.config.software_charger_timeout_sec ≤ s.chg_en_time_sec then
        { s with poweralg.is_software_charger_timeout := true }
      else s
    (s, next_charge_state)
  | ChargeState.CHARGE_STATE_FULL_WAIT_STABLE =>
    let r : State × ChargeState :=
      if terminate_condition s then
        ({ s with count_charging_full_condition := UINT32 (s.count_charging_full_condition + 1) },
          next_charge_state)
      else
        ({ s with count_charging_full_condition := 0 }, ChargeState.CHARGE_STATE_CHARGING)
    if r.1.count_charging_full_condition ≥ 3 then
      ({ r.1 with poweralg.capacity_01p := 1000 }, ChargeState.CHARGE_STATE_FULL_CHARGING)
    else r
  | ChargeState.CHARGE_STATE_FULL_CHARGING =>
    let end_ktime := now
    if s.poweralg.battery.voltage_mV < s.config.voltage_exit_full_mv then
      let s :=
        if s.poweralg.capacity_01p > 990 then { s with poweralg.capacity_01p := 990 } else s
      (s, ChargeState.CHARGE_STATE_CHARGING)
    else if s.config.full_pending_ma ≠ 0 ∧
        s.poweralg.battery.current_mA ≥ 0 ∧
        s.poweralg.battery.current_mA ≤ s.config.full_pending_ma then
      (s, ChargeState.CHARGE_STATE_FULL_PENDING)
    else if MSPERIOD end_ktime s.poweralg.start_ktime ≥
        INT32_of_int (s.config.full_charging_timeout_sec * 1000) then
      (s, ChargeState.CHARGE_STATE_FULL_PENDING)
    else (s, next_charge_state)
  | ChargeState.CHARGE_STATE_FULL_PENDING =>
    if (s.poweralg.battery.voltage_mV ≥ 0 ∧
        s.poweralg.battery.voltage_mV < s.config.voltage_recharge_mv) ∨
       (s.poweralg.capacity_01p ≥ 0 ∧
        s.poweralg.capacity_01p ≤ INT32_of_int (s.config.capacity_recharge_p * 10)) then
      (s, ChargeState.CHARGE_STATE_FULL_RECHARGING)
    else (s, next_charge_state)
  | ChargeState.CHARGE_STATE_FULL_RECHARGING =>
    if s.poweralg.battery.voltage_mV < s.config.voltage_exit_full_mv then
      let s :=
        if s.poweralg.capacity_01p > 990 then { s with poweralg.capacity_01p := 990 } else s
      (s, ChargeState.CHARGE_STATE_CHARGING)
    else if s.poweralg.battery.voltage_mV ≥ s.config.full_charging_mv ∧
        s.poweralg.battery.current_mA ≥ 0 ∧
        s.poweralg.battery.current_mA ≤ s.config.full_charging_ma then
      (s, ChargeState.CHARGE_STATE_FULL_CHARGING)
    else (s, next_charge_state)
  | ChargeState.CHARGE_STATE_PENDING
  | ChargeState.CHARGE_STATE_DISCHARGE =>
    let end_ktime := now
    let s :=
      if !s.poweralg.is_voltage_stable then
        if MSPERIOD end_ktime s.poweralg.start_ktime ≥
            INT32_of_int (s.config.wait_votlage_statble_sec * 1000) then
          { s with poweralg.is_voltage_stable := true }
        else s
      else s
    if s.poweralg.is_cable_in ∧ s.poweralg.protect_flags.is_charging_enable_available then
      (s, ChargeState.CHARGE_STATE_CHARGING)
    else (s, next_charge_state)
  | ChargeState.CHARGE_STATE_UNKNOWN => (s, next_charge_state)

/-- The `state exit` switch of step 4 of the loop body of
`update_next_charge_state`, over the state that is left. -/
def state_exit (p : Platform) (i : CycleInput) (s : State) : State :=
  match s.poweralg.charge_state with
  | ChargeState.CHARGE_STATE_UNKNOWN =>
    let s :=
      if s.poweralg.capacity_01p > 990 then { s with poweralg.capacity_01p := 990 } else s
    let s :=
      if s.poweralg.capacity_01p < 0 then { s with poweralg.capacity_01p := 0 } else s
    { s with
      poweralg.fst_discharge_capacity_01p := s.poweralg.capacity_01p
      poweralg.fst_discharge_acr_mAh := s.poweralg.battery.charge_counter_mAh }
  | ChargeState.CHARGE_STATE_PREDICTION =>
    let r := battery_param_update p i.regs s.poweralg.battery s.poweralg.protect_flags
    let s : State := { s with poweralg.battery := r.1, poweralg.protect_flags := r.2.1 }
    let s :=
      if s.poweralg.capacity_01p > 1000 then { s with poweralg.capacity_01p := 1000 } else s
    let s :=
      if s.poweralg.capacity_01p < 0 then { s with poweralg.capacity_01p := 0 } else s
    { s with poweralg.fst_discharge_capacity_01p := s.poweralg.capacity_01p }
  | _ => s

/-- The `state init` switch of step 4 of the loop body of
`update_next_charge_state`, over the state that is entered. -/
def state_init (i : CycleInput) (next_charge_state : ChargeState) (s : State) : State :=
  match next_charge_state with
  | ChargeState.CHARGE_STATE_DISCHARGE
  | ChargeState.CHARGE_STATE_PENDING =>
    { s with
      poweralg.fst_discharge_capacity_01p := s.poweralg.capacity_01p
      poweralg.is_voltage_stable := false }
  | ChargeState.CHARGE_STATE_CHARGING =>
    { s with
      poweralg.is_need_toggle_charger := false
      poweralg.last_charger_enable_toggled_time_ms := BAHW_MyGetMSecs i.now
      poweralg.is_software_charger_timeout := false
      poweralg.is_charge_over_load := false
      count_charge_over_load := 0
      poweralg.battery.charge_full_real_mAh := s.poweralg.battery.charge_full_design_mAh }
  | ChargeState.CHARGE_STATE_FULL_WAIT_STABLE =>
    { s with count_charging_full_condition := 0 }
  | _ => s

/-- Step 4 of the loop body of `update_next_charge_state`: the exit action of
the state that is left, the restart of `start_ktime`, the entry action of
`next_charge_state`, the log line and the assignment of the new state. -/
def state_transition (p : Platform) (i : CycleInput) (s : State)
    (next_charge_state : ChargeState) : State :=
  let s := state_exit p i s
  let s := { s with poweralg.start_ktime := i.now }
  let s := state_init i next_charge_state s
  { s with
    state_change_log := s.state_change_log ++ [(s.poweralg.charge_state, next_charge_state)]
    poweralg.charge_state := next_charge_state }

/-- One pass through the body of the `for` loop of `update_next_charge_state`.
The Boolean is TRUE when the pass ended in `continue` (the state changed) and
FALSE when it ended in `break`. -/
def loop_body (p : Platform) (i : CycleInput) (s : State) : State × Bool :=
  let next_charge_state := next_state_by_cable s
  let r : State × ChargeState :=
    if next_charge_state = s.poweralg.charge_state then state_handler i.now s
    else (s, next_charge_state)
  if r.2 ≠ r.1.poweralg.charge_state then
    (state_transition p i r.1 r.2, true)
  else
    (r.1, false)

/-- The `for` loop of `update_next_charge_state` with `n` passes left. -/
def transition_loop (p : Platform) (i : CycleInput) : Nat → State → State
  | 0, s => s
  | n + 1, s =>
    let r := loop_body p i s
    if r.2 then transition_loop p i n r.1 else r.1

/-- The check at the head of `update_next_charge_state`: a start time that
lies after the clock is reassigned to the clock. -/
def start_ktime_check (end_ktime : Int) (s : State) : State :=
  if MSPERIOD s.poweralg.start_ktime end_ktime > 0 then
    { s with poweralg.start_ktime := end_ktime }
  else s

/-- The function `update_next_charge_state`: the check of the start time,
then at most 25 passes of the transition loop. -/
def update_next_charge_state (p : Platform) (i : CycleInput) (_bFirstEntry : Bool)
    (s : State) : State :=
  transition_loop p i 25 (start_ktime_check i.now s)

def __update_capacity (bFirstEntry : Bool) (s : State) : State :=
  let s :=
    if s.poweralg.charge_state = ChargeState.CHARGE_STATE_PREDICTION ∨
        s.poweralg.charge_state = ChargeState.CHARGE_STATE_UNKNOWN then
      if bFirstEntry then { s with poweralg.capacity_01p := 550 } else s
    else if s.poweralg.charge_state = ChargeState.CHARGE_STATE_FULL_CHARGING ∨
        s.poweralg.charge_state = ChargeState.CHARGE_STATE_FULL_RECHARGING ∨
        s.poweralg.charge_state = ChargeState.CHARGE_STATE_FULL_PENDING then
      { s with poweralg.capacity_01p := 1000 }
    else s
  let s :=
    if s.poweralg.capacity_01p > 1000 then { s with poweralg.capacity_01p := 1000 } else s
  let s :=
    if s.poweralg.capacity_01p < 0 then { s with poweralg.capacity_01p := 0 } else s
  s

/-- The two events this driver passes to `max17050_blocking_notify`, with the
value its pointer argument points to. -/
inductive NotifyEvent where
  | MAX17050_CHARGING_CONTROL (chg_ctl : ChargerCtl)
  | MAX17050_LEVEL_UPDATE (level : Int)
  deriving DecidableEq

/-- The function `max17050_blocking_notify`.  A `return 0` before the last
line leaves `notified` as it is; reaching the last line appends what is handed
to the notifier chain. -/
def max17050_blocking_notify (p : Platform) (val : NotifyEvent) (s : State) : State :=
  match val with
  | NotifyEvent.MAX17050_CHARGING_CONTROL chg_ctl =>
    if s.poweralg.battery.id_index ≠ p.BATTERY_ID_UNKNOWN ∧
        (ChargerCtl.TOGGLE_CHARGER = chg_ctl ∨ ChargerCtl.ENABLE_MIN_TAPER = chg_ctl ∨
          ChargerCtl.DISABLE_MIN_TAPER = chg_ctl) then
      if s.poweralg.charging_enable = ChargerCtl.DISABLE then
        s
      else
        { s with notified := s.notified ++ [Notification.CHARGING_CONTROL (some chg_ctl)] }
    else if s.poweralg.battery.id_index ≠ p.BATTERY_ID_UNKNOWN ∧
        s.poweralg.charge_state ≠ ChargeState.CHARGE_STATE_PREDICTION then
      if s.g_first_update_charger_ctl = 1 then
        { s with
          g_first_update_charger_ctl := 0
          poweralg.charging_enable := chg_ctl
          notified := s.notified ++ [Notification.CHARGING_CONTROL (some chg_ctl)] }
      else if s.poweralg.charging_enable = chg_ctl ∧ s.force_set_chg = 0 then
        s
      else if s.force_set_chg = 1 then
        { s with
          force_set_chg := 0
          poweralg.charging_enable := chg_ctl
          notified := s.notified ++ [Notification.CHARGING_CONTROL (some chg_ctl)] }
      else
        { s with
          poweralg.charging_enable := chg_ctl
          notified := s.notified ++ [Notification.CHARGING_CONTROL (some chg_ctl)] }
    else
      if s.poweralg.charging_enable = ChargerCtl.DISABLE then
        { s with notified := s.notified ++ [Notification.CHARGING_CONTROL (some chg_ctl)] }
      else
        { s with
          poweralg.charging_enable := ChargerCtl.DISABLE
          notified := s.notified ++ [Notification.CHARGING_CONTROL none] }
  | NotifyEvent.MAX17050_LEVEL_UPDATE level =>
    { s with notified := s.notified ++ [Notification.LEVEL_UPDATE level] }

/-- The function `max17050_charger_control`: each of the seven commands is
passed on to `max17050_blocking_notify`. -/
def max17050_charger_control (p : Platform) (type : ChargerCtl) (s : State) : State :=
  max17050_blocking_notify p (NotifyEvent.MAX17050_CHARGING_CONTROL type) s

/-- First block of the available branch of `check_charging_function`: the
charging timers advance by `delta_time_sec` and the charger is kicked every
600 seconds when the board installed a kick hook. -/
def charging_time_count (p : Platform) (s : State) : State :=
  let s := { s with chg_en_time_sec := UINT32 (s.chg_en_time_sec + s.delta_time_sec) }
  let s := { s with chg_kick_time_sec := UINT32 (s.chg_kick_time_sec + s.delta_time_sec) }
  if p.func_kick_charger_ic ∧ 600 ≤ s.chg_kick_time_sec then
    { s with chg_kick_time_sec := 0 }
  else s

/-- Second block of the available branch of `check_charging_function`: the
software toggle that keeps the hardware safety timer of the charger from
expiring. -/
def hw_safety_timer_watchdog (p : Platform) (s : State) : State :=
  if s.config.charger_hw_safety_timer_watchdog_sec ≠ 0 then
    if UINT32_of_int s.config.charger_hw_safety_timer_watchdog_sec ≤ s.chg_en_time_sec then
      let s := { s with
        chg_en_time_sec := 0
        chg_kick_time_sec := 0
        poweralg.is_need_toggle_charger := false
        poweralg.protect_flags.is_charging_reverse_protect := false }
      max17050_charger_control p ChargerCtl.DISABLE s
    else s
  else s

/-- Third block of the available branch of `check_charging_function`: the
enable command chosen by the current capability. -/
def charger_enable_by_current (p : Platform) (s : State) : State :=
  if is_high_current_charging_avaialable s then
    if is_super_current_charging_avaialable s then
      max17050_charger_control p ChargerCtl.ENABLE_SUPER_CHG s
    else
      max17050_charger_control p ChargerCtl.ENABLE_FAST_CHG s
  else
    max17050_charger_control p ChargerCtl.ENABLE_SLOW_CHG s

/-- Fourth block of the available branch of `check_charging_function`: the
minimum taper current control. -/
def min_taper_current_control (p : Platform) (s : State) : State :=
  if s.config.min_taper_current_ma > 0 then
    if is_set_min_taper_current s then
      max17050_charger_control p ChargerCtl.ENABLE_MIN_TAPER s
    else
      max17050_charger_control p ChargerCtl.DISABLE_MIN_TAPER s
  else s

/-- The function `check_charging_function`; the four blocks of its available
branch are the four definitions above, in the order of the source. -/
def check_charging_function (p : Platform) (s : State) : State :=
  let s :=
    if is_charging_avaiable p s then
      min_taper_current_control p
        (charger_enable_by_current p (hw_safety_timer_watchdog p (charging_time_count p s)))
    else
      let s := max17050_charger_control p ChargerCtl.DISABLE s
      { s with
        chg_en_time_sec := 0
        chg_kick_time_sec := 0
        super_chg_on_time_sec := 0
        poweralg.is_need_toggle_charger := false
        poweralg.protect_flags.is_charging_reverse_protect := false }
  if s.config.debug_disable_hw_timer ∧ s.poweralg.is_charge_over_load then
    max17050_charger_control p ChargerCtl.DISABLE s
  else s

/-- Steps 0 and 1 of `do_power_alg` up to the gauge sample: the check of the
clock and, on the first entry or every 3 seconds, `battery_param_update` and
`max17050_get_batt_level`.  The Boolean is FALSE when `battery_param_update`
failed, which makes `do_power_alg` return FALSE at once. -/
def do_power_alg_sample (p : Platform) (i : CycleInput) (s : State) : State × Bool :=
  let now_time_ktime := i.now
  let s :=
    if MSPERIOD s.pre_param_update_ktime now_time_ktime > 0 ∨
        MSPERIOD s.s_pre_time_ktime now_time_ktime > 0 then
      { s with pre_param_update_ktime := now_time_ktime, s_pre_time_ktime := now_time_ktime }
    else s
  if s.s_bFirstEntry ∨ MSPERIOD now_time_ktime s.pre_param_update_ktime ≥ 3 * 1000 then
    let s := { s with pre_param_update_ktime := now_time_ktime }
    let u := battery_param_update p i.regs s.poweralg.battery s.poweralg.protect_flags
    let s := { s with poweralg.battery := u.1, poweralg.protect_flags := u.2.1 }
    if !u.2.2 then
      (s, false)
    else
      let l := max17050_get_batt_level i.regs s.poweralg.battery
      ({ s with poweralg.battery := l.1, poweralg.capacity_01p := l.2 }, true)
  else (s, true)

/-- The middle of `do_power_alg`: `update_next_charge_state`, the gauge ready
flag, step 2 (`__update_capacity`) and the `debug_disable_shutdown`
adjustment. -/
def do_power_alg_capacity (p : Platform) (i : CycleInput) (is_event_triggered : Bool)
    (s : State) : State :=
  let now_time_ktime := i.now
  let s := update_next_charge_state p i s.s_bFirstEntry s
  let s :=
    if s.poweralg.charge_state ≠ ChargeState.CHARGE_STATE_UNKNOWN then
      { s with poweralg.is_gauge_driver_ready := true }
    else s
  let s :=
    if s.s_bFirstEntry ∨ MSPERIOD now_time_ktime s.s_pre_time_ktime ≥ 10 * 1000 ∨
        !is_event_triggered then
      let s := __update_capacity s.s_bFirstEntry s
      { s with s_bFirstEntry := false, s_pre_time_ktime := now_time_ktime }
    else s
  if s.config.debug_disable_shutdown then
    if s.poweralg.capacity_01p ≤ 0 then { s with poweralg.capacity_01p := 1 } else s
  else s

/-- The level notification of `do_power_alg`: `s_level` is recomputed and
sent to the notifier chain when the level or the temperature changed. -/
def level_update (p : Platform) (s : State) : State :=
  let s := { s with s_level := p.CEILING s.poweralg.capacity_01p 10 }
  if p.CEILING s.poweralg.last_capacity_01p 10 ≠ s.s_level ∨
      s.poweralg.battery.last_temp_01c ≠ s.poweralg.battery.temp_01c then
    let s := { s with
      poweralg.battery.last_temp_01c := s.poweralg.battery.temp_01c
      poweralg.last_capacity_01p := s.poweralg.capacity_01p }
    max17050_blocking_notify p (NotifyEvent.MAX17050_LEVEL_UPDATE s.s_level) s
  else s

/-- The super charger timer of `do_power_alg`. -/
def superchg_software_charger_timer (s : State) : State :=
  if s.config.superchg_software_charger_timeout_sec ≠ 0 ∧ s.poweralg.is_super_ac ∧
      false = s.poweralg.is_superchg_software_charger_timeout then
    let s := { s with
      super_chg_on_time_sec := UINT32 (s.super_chg_on_time_sec + s.delta_time_sec) }
    if UINT32_of_int s.config.superchg_software_charger_timeout_sec ≤ s.super_chg_on_time_sec then
      { s with poweralg.is_superchg_software_charger_timeout := true }
    else s
  else s

/-- The rest of `do_power_alg`: level notification, bounding, super charger
timer, step 3 (the charging function) and the reset of
`force_update_batt_info`. -/
def do_power_alg_charging (p : Platform) (s : State) : State :=
  let s :=
    check_charging_function p
      (superchg_software_charger_timer
        (bounding_fullly_charged_level p (level_update p s).config.full_level (level_update p s)))
  if s.force_update_batt_info ≠ 0 then { s with force_update_batt_info := 0 } else s

/-- The function `do_power_alg`: the updated statics and the returned BOOL. -/
def do_power_alg (p : Platform) (i : CycleInput) (is_event_triggered : Bool)
    (s : State) : State × Bool :=
  let r := do_power_alg_sample p i s
  if !r.2 then
    (r.1, false)
  else
    (do_power_alg_charging p (do_power_alg_capacity p i is_event_triggered r.1), true)

/-- The fields of `struct battery_info_reply` that `max17050_get_battery_info`
fills. -/
structure battery_info_reply where
  batt_id : Int
  batt_vol : Int
  batt_temp : Int
  batt_current : Int
  level : Int
  charging_source : Int
  charging_enabled : ChargerCtl
  full_bat : Int
  temp_fault : Int
  batt_state : Bool
  deriving DecidableEq

/-- The function `max17050_get_battery_info`: the reply filled from the
statics. -/
def max17050_get_battery_info (p : Platform) (s : State) : battery_info_reply :=
  let batt_info : battery_info_reply :=
    { batt_id := s.poweralg.battery.id_index
      batt_vol := s.poweralg.battery.voltage_mV
      batt_temp := s.poweralg.battery.temp_01c
      batt_current := s.poweralg.battery.current_mA
      level := p.CEILING s.poweralg.capacity_01p 10
      charging_source := s.poweralg.charging_source
      charging_enabled := s.poweralg.charging_enable
      full_bat := s.poweralg.battery.charge_full_real_mAh
      temp_fault := s.poweralg.protect_flags.is_temperature_fault
      batt_state := s.poweralg.is_gauge_driver_ready }
  if s.config.debug_fake_room_temp ∧ 680 < s.poweralg.battery.temp_01c then
    { batt_info with batt_temp := 680 }
  else batt_info

/-- Enumerators the event handlers compare against.  Their declarations
(the cable types of the board header, the reverse protection codes of
`linux/max17050_battery.h`) are not part of the sources at hand. -/
structure Enumerators where
  CONNECT_TYPE_NONE : Int
  CONNECT_TYPE_USB : Int
  CONNECT_TYPE_AC : Int
  CONNECT_TYPE_9V_AC : Int
  CONNECT_TYPE_MAX : Int
  REVERSE_PROTECTION_HAPPEND : Int
  REVERSE_PROTECTION_CONTER_CLEAR : Int

/-- The polling period `FAST_POLL`, in seconds. -/
def FAST_POLL : Nat := 1 * 60

/-- The function `max17050_program_alarm`: of the statics it writes
`delta_time_sec`; the alarm it starts is outside the statics. -/
def max17050_program_alarm (seconds : Nat) (s : State) : State :=
  { s with delta_time_sec := seconds }

/-- The function `max17050_battery_work` once the alarm delta is ready: one
`do_power_alg(0)` cycle, then the alarm is programmed `FAST_POLL` ahead. -/
def max17050_battery_work (p : Platform) (i : CycleInput) (s : State) : State :=
  max17050_program_alarm FAST_POLL (do_power_alg p i false s).1

/-- The function `cable_status_handler_func`.  `action` is the cable type
of the notification, `smem_cable_type` what `get_cable_type()` returns,
`param` the integer the third argument points to (`none` for NULL) and
`g_di_ptr` whether the device pointer is set. -/
def cable_status_handler_func (p : Platform) (k : Enumerators) (g_di_ptr : Bool)
    (action smem_cable_type : Int) (param : Option Int) (s : State) : State :=
  let cable_type := action
  let cable_type :=
    if cable_type ≠ smem_cable_type ∧ cable_type < k.CONNECT_TYPE_MAX then smem_cable_type
    else cable_type
  if cable_type = k.CONNECT_TYPE_NONE then
    let s := { s with
      poweralg.is_cable_in := false
      poweralg.is_china_ac_in := false
      poweralg.is_super_ac := false
      poweralg.charging_source := cable_type
      chg_en_time_sec := 0
      super_chg_on_time_sec := 0
      delta_time_sec := 0
      chg_kick_time_sec := 0
      force_update_batt_info := 1 }
    let s :=
      if true = s.poweralg.is_superchg_software_charger_timeout then
        { s with poweralg.is_superchg_software_charger_timeout := false }
      else s
    let s :=
      if !is_charging_avaiable p s then
        { s with poweralg.protect_flags.is_charging_reverse_protect := false }
      else s
    if g_di_ptr then max17050_program_alarm 0 s else s
  else if cable_type = k.CONNECT_TYPE_USB then
    let s := { s with
      poweralg.is_cable_in := true
      poweralg.is_china_ac_in := false
      poweralg.is_super_ac := false
      poweralg.charging_source := cable_type
      chg_en_time_sec := 0
      super_chg_on_time_sec := 0
      delta_time_sec := 0
      chg_kick_time_sec := 0
      force_update_batt_info := 1
      force_set_chg := 1 }
    if g_di_ptr then max17050_program_alarm 0 s else s
  else if cable_type = k.CONNECT_TYPE_AC then
    let s := { s with
      poweralg.is_cable_in := true
      poweralg.is_china_ac_in := true
      poweralg.is_super_ac := false
      poweralg.charging_source := cable_type
      chg_en_time_sec := 0
      super_chg_on_time_sec := 0
      delta_time_sec := 0
      chg_kick_time_sec := 0
      force_update_batt_info := 1
      force_set_chg := 1 }
    if g_di_ptr then max17050_program_alarm 0 s else s
  else if cable_type = k.CONNECT_TYPE_9V_AC then
    let s := { s with
      poweralg.is_cable_in := true
      poweralg.is_china_ac_in := true
      poweralg.is_super_ac := true
      poweralg.charging_source := cable_type
      chg_en_time_sec := 0
      super_chg_on_time_sec := 0
      delta_time_sec := 0
      chg_kick_time_sec := 0
      force_update_batt_info := 1
      force_set_chg := 1 }
    if g_di_ptr then max17050_program_alarm 0 s else s
  else if cable_type = 255 then
    match param with
    | some full_level => { s with config.full_level := full_level }
    | none => s
  else if cable_type = 16 then
    { s with poweralg.protect_flags.is_fake_room_temp := true }
  else s

/-- The function `reverse_protection_handler`.  Its counter
`reverse_protecion_counter` is only printed and is not kept. -/
def reverse_protection_handler (k : Enumerators) (status : Int) (s : State) : State :=
  if status = k.REVERSE_PROTECTION_HAPPEND then
    if s.poweralg.charging_source ≠ k.CONNECT_TYPE_NONE then
      { s with poweralg.protect_flags.is_charging_reverse_protect := true }
    else s
  else s

/-- The function `max17050_charger_switch`; `g_di_ptr` is whether the device
pointer is set. -/
def max17050_charger_switch (g_di_ptr : Bool) (charger_switch : Int) (s : State) : State :=
  let s :=
    if charger_switch = 0 then
      { s with
        chg_en_time_sec := 0
        chg_kick_time_sec := 0
        super_chg_on_time_sec := 0
        poweralg.is_need_toggle_charger := false
        poweralg.protect_flags.is_charging_reverse_protect := false
        charger_control := 1 }
    else
      { s with charger_control := 0 }
  if g_di_ptr then max17050_program_alarm 0 s else s

/-! ## max17050_gauge.c: the voltage curve translator -/

/-- Reduction of a value to `INT32`: the 32 bits read as a signed number. -/
def INT32 (n : Nat) : Int :=
  if n % 4294967296 < 2147483648 then (n % 4294967296 : Nat)
  else ((n % 4294967296 : Nat) : Int) - 4294967296

/-- Subtraction of two `DWORD` values, which wraps around below zero. -/
def DWORD_sub (a b : Nat) : Nat := UINT32 (a + 4294967296 - UINT32 b)

/-- Capacity of the array `sampled_points`. -/
def NUM_SAMPLED_POINTS_MAX : Nat := 12

/-- One anchor point of a curve (`struct sampled_point_type`); both fields
are `DWORD`, naturals below `2^32`. -/
structure sampled_point_type where
  voltage : Nat
  capacity : Nat
  deriving DecidableEq

/-- The curve (`struct voltage_curve_translator`): the four bounds are
`DWORD`, the count is an `int`, the array has `NUM_SAMPLED_POINTS_MAX`
entries. -/
structure voltage_curve_translator where
  voltage_min : Nat
  voltage_max : Nat
  capacity_min : Nat
  capacity_max : Nat
  sampled_point_count : Int
  sampled_points : List sampled_point_type
  deriving DecidableEq

/-- What a lookup yields: the capacity returned, or one of the two faults a
lookup could run into, a read past the end of `sampled_points` and a division
by zero. -/
inductive curve_lookup where
  | capacity (c : Int)
  | out_of_bounds
  | divide_by_zero
  deriving DecidableEq

/-- The function `voltage_curve_translator_init`: `memset` to zero. -/
def voltage_curve_translator_init : voltage_curve_translator :=
  { voltage_min := 0
    voltage_max := 0
    capacity_min := 0
    capacity_max := 0
    sampled_point_count := 0
    sampled_points := List.replicate NUM_SAMPLED_POINTS_MAX { voltage := 0, capacity := 0 } }

/-- The function `voltage_curve_translator_add`; the arguments are converted
to `DWORD`. -/
def voltage_curve_translator_add (t : voltage_curve_translator) (voltage capacity : Nat) :
    voltage_curve_translator :=
  if t.sampled_point_count ≥ NUM_SAMPLED_POINTS_MAX then
    t
  else
    let pt : sampled_point_type := { voltage := UINT32 voltage, capacity := UINT32 capacity }
    let t := { t with
      sampled_points := t.sampled_points.set t.sampled_point_count.toNat pt }
    let t := { t with sampled_point_count := t.sampled_point_count + 1 }
    let t := if pt.voltage > t.voltage_max then { t with voltage_max := pt.voltage } else t
    let t := if pt.voltage < t.voltage_min then { t with voltage_min := pt.voltage } else t
    let t := if pt.capacity > t.capacity_max then { t with capacity_max := pt.capacity } else t
    let t := if pt.capacity < t.capacity_min then { t with capacity_min := pt.capacity } else t
    t

/-- The two clamps of the query voltage at the head of
`voltage_curve_translator_get`. -/
def voltage_curve_translator_clamp (t : voltage_curve_translator) (voltage : Nat) : Nat :=
  let voltage := UINT32 voltage
  let voltage := if voltage > t.voltage_max then t.voltage_max else voltage
  let voltage := if voltage < t.voltage_min then t.voltage_min else voltage
  voltage

/-- The `for` loop of `voltage_curve_translator_get` with `n` passes left
before `i` reaches `sampled_point_count - 1`: the index `i` of `p0` when the
loop ends (`p1` is the entry after `p0`), or `none` when the test of the loop
reads `p1` past the end of the array. -/
def voltage_curve_translator_search (t : voltage_curve_translator) (voltage : Nat) :
    Nat → Nat → Option Nat
  | 0, i => some i
  | n + 1, i =>
    match t.sampled_points[i + 1]? with
    | none => none
    | some p1 =>
      if voltage < p1.voltage then voltage_curve_translator_search t voltage n (i + 1)
      else some i

/-- The two bracketing points `p0` and `p1` that `voltage_curve_translator_get`
selects for the clamped voltage, or `none` when one of them is read past the
end of the array. -/
def voltage_curve_translator_bracket (t : voltage_curve_translator) (voltage : Nat) :
    Option (sampled_point_type × sampled_point_type) :=
  match voltage_curve_translator_search t voltage (t.sampled_point_count - 1).toNat 0 with
  | none => none
  | some i =>
    match t.sampled_points[i]?, t.sampled_points[i + 1]? with
    | some p0, some p1 => some (p0, p1)
    | _, _ => none

/-- Division of two `DWORD` values; `none` is the division by zero. -/
def DWORD_div (a b : Nat) : Option Nat := if b = 0 then none else some (a / b)

/-- The rest of `voltage_curve_translator_get` once `p0` and `p1` are
selected: the guard of the divisor, the interpolation in `DWORD` arithmetic
and the two clamps of the result, which is returned as an `INT32`. -/
def voltage_curve_translator_interpolate (t : voltage_curve_translator) (voltage : Nat)
    (p0 p1 : sampled_point_type) : curve_lookup :=
  if DWORD_sub p0.voltage p1.voltage = 0 then
    curve_lookup.capacity 0
  else
    match DWORD_div (UINT32 (DWORD_sub voltage p1.voltage * DWORD_sub p0.capacity p1.capacity))
        (DWORD_sub p0.voltage p1.voltage) with
    | none => curve_lookup.divide_by_zero
    | some q =>
      let capacity := UINT32 (q + p1.capacity)
      let capacity := if capacity > t.capacity_max then t.capacity_max else capacity
      let capacity := if capacity < t.capacity_min then t.capacity_min else capacity
      curve_lookup.capacity (INT32 capacity)

/-- The function `voltage_curve_translator_get`. -/
def voltage_curve_translator_get (t : voltage_curve_translator) (voltage : Nat) :
    curve_lookup :=
  let voltage := voltage_curve_translator_clamp t voltage
  match voltage_curve_translator_bracket t voltage with
  | none => curve_lookup.out_of_bounds
  | some (p0, p1) => voltage_curve_translator_interpolate t voltage p0 p1

/-! ## Predicates used by the theorems -/

/-- The capacity range: `0 ≤ capacity_01p ≤ 1000`. -/
def capacity_in_range (s : State) : Prop :=
  0 ≤ s.poweralg.capacity_01p ∧ s.poweralg.capacity_01p ≤ 1000

/-- The states of the cable-in group of `update_next_charge_state`. -/
def cable_in_group (c : ChargeState) : Prop :=
  c = ChargeState.CHARGE_STATE_UNKNOWN ∨ c = ChargeState.CHARGE_STATE_CHARGING ∨
    c = ChargeState.CHARGE_STATE_PENDING ∨ c = ChargeState.CHARGE_STATE_FULL_WAIT_STABLE ∨
    c = ChargeState.CHARGE_STATE_FULL_CHARGING ∨ c = ChargeState.CHARGE_STATE_FULL_RECHARGING ∨
    c = ChargeState.CHARGE_STATE_FULL_PENDING

/-- CHARGING implies the capacity is at most 990. -/
def charging_capped (s : State) : Prop :=
  s.poweralg.charge_state = ChargeState.CHARGE_STATE_CHARGING → s.poweralg.capacity_01p ≤ 990

/-- A state from which the transition loop can only come to rest with the
capacity capped whenever it rests in CHARGING. -/
def charging_capped_inv (s : State) : Prop :=
  match s.poweralg.charge_state with
  | ChargeState.CHARGE_STATE_CHARGING => s.poweralg.capacity_01p ≤ 990
  | ChargeState.CHARGE_STATE_DISCHARGE => s.poweralg.is_cable_in = false
  | ChargeState.CHARGE_STATE_PENDING =>
    s.poweralg.is_cable_in = true ∧ s.poweralg.protect_flags.is_charging_enable_available = false
  | ChargeState.CHARGE_STATE_FULL_WAIT_STABLE =>
    s.poweralg.is_cable_in = true ∧
      s.poweralg.protect_flags.is_charging_enable_available = true ∧
      terminate_condition s = true ∧ s.count_charging_full_condition = 0
  | _ => True

/-- What one pass of the loop body does to `charging_capped_inv`: it rests in
a state that satisfies `charging_capped`, or moves to a state that satisfies
the invariant, or moves into CHARGING from a state outside the invariant. -/
def charging_capped_step (s : State) (r : State × Bool) : Prop :=
  (r.2 = false ∧ charging_capped r.1) ∨
    (r.2 = true ∧
      (charging_capped_inv r.1 ∨
        (r.1.poweralg.charge_state = ChargeState.CHARGE_STATE_CHARGING ∧
          ¬ charging_capped_inv s ∧
          s.poweralg.charge_state ≠ ChargeState.CHARGE_STATE_CHARGING)))

/-- What the charger command dispatch and the timers of
`check_charging_function` leave alone: the fields read by the eligibility
tests and by the overload disable. -/
def charging_gate_frame (s t : State) : Prop :=
  t.poweralg.battery.id_index = s.poweralg.battery.id_index ∧
    t.poweralg.charge_state = s.poweralg.charge_state ∧
    t.poweralg.protect_flags.is_charging_high_current_avaialble =
      s.poweralg.protect_flags.is_charging_high_current_avaialble ∧
    t.poweralg.protect_flags.is_fake_room_temp = s.poweralg.protect_flags.is_fake_room_temp ∧
    t.poweralg.is_china_ac_in = s.poweralg.is_china_ac_in ∧
    t.poweralg.is_super_ac = s.poweralg.is_super_ac ∧
    t.poweralg.is_charge_over_load = s.poweralg.is_charge_over_load ∧
    t.config = s.config

/-- What the bound on the passes of the transition loop uses of the
configuration written by `poweralg_config_init`: the pending current is
disabled, the full-charging timeout in milliseconds, as the 32 bit product
the code compares with, is positive and the voltage that leaves the full states
is not above the voltage that enters them. -/
def settling_config (c : poweralg_config_type) : Prop :=
  c.full_pending_ma = 0 ∧ 0 < INT32_of_int (c.full_charging_timeout_sec * 1000) ∧
    c.voltage_exit_full_mv ≤ c.full_charging_mv

/-- A bound on the passes the transition loop needs from the state `s` at the
clock `now` before it comes to rest, for a configuration that satisfies
`settling_config`. -/
def settle_rank (now : Int) (s : State) : Nat :=
  match s.poweralg.charge_state with
  | ChargeState.CHARGE_STATE_PREDICTION => 4
  | ChargeState.CHARGE_STATE_UNKNOWN => 3
  | ChargeState.CHARGE_STATE_DISCHARGE => if s.poweralg.is_cable_in = true then 3 else 1
  | ChargeState.CHARGE_STATE_PENDING =>
    if s.poweralg.is_cable_in = true ∧
        s.poweralg.protect_flags.is_charging_enable_available = false then 1 else 3
  | ChargeState.CHARGE_STATE_CHARGING =>
    if s.poweralg.is_cable_in = true ∧
        s.poweralg.protect_flags.is_charging_enable_available = true ∧
        terminate_condition s = false then 1 else 2
  | ChargeState.CHARGE_STATE_FULL_WAIT_STABLE =>
    if s.poweralg.is_cable_in = true ∧
        s.poweralg.protect_flags.is_charging_enable_available = true ∧
        terminate_condition s = true ∧ s.count_charging_full_condition = 0 then 1 else 2
  | ChargeState.CHARGE_STATE_FULL_CHARGING =>
    if s.poweralg.is_cable_in = true ∧
        s.poweralg.protect_flags.is_charging_enable_available = true ∧
        s.poweralg.start_ktime = now ∧
        s.config.voltage_exit_full_mv ≤ s.poweralg.battery.voltage_mV then 1 else 4
  | ChargeState.CHARGE_STATE_FULL_PENDING => 3
  | ChargeState.CHARGE_STATE_FULL_RECHARGING => 2

/-- The configuration and sample with which the full states go round:
the pending current enabled, the cable present, charging allowed, the
voltage at or above `full_charging_mv` and `voltage_exit_full_mv`, below
`voltage_recharge_mv` and not negative, the current between 0 and the smaller
of `full_pending_ma` and `full_charging_ma`. -/
def cycle_sample (s : State) : Prop :=
  s.config.full_pending_ma ≠ 0 ∧
    s.poweralg.is_cable_in = true ∧
    s.poweralg.protect_flags.is_charging_enable_available = true ∧
    s.config.full_charging_mv ≤ s.poweralg.battery.voltage_mV ∧
    s.poweralg.battery.voltage_mV < s.config.voltage_recharge_mv ∧
    s.poweralg.battery.voltage_mV ≥ s.config.voltage_exit_full_mv ∧
    0 ≤ s.poweralg.battery.voltage_mV ∧
    0 ≤ s.poweralg.battery.current_mA ∧
    s.poweralg.battery.current_mA ≤ min s.config.full_pending_ma s.config.full_charging_ma

/-- The state reached from FULL_CHARGING after `k` steps round FULL_CHARGING,
FULL_PENDING, FULL_RECHARGING. -/
def cycle_state (k : Nat) : ChargeState :=
  match k % 3 with
  | 0 => ChargeState.CHARGE_STATE_FULL_CHARGING
  | 1 => ChargeState.CHARGE_STATE_FULL_PENDING
  | _ => ChargeState.CHARGE_STATE_FULL_RECHARGING

/-! ### Runs of the handler and of the loop -/

/-- The state handler run `n` times in a row under one clock value, each run
on the statics the previous run left: the handler of `n` consecutive cycles
that stay in one state with an unchanged sample. -/
def state_handler_runs (now : Int) : Nat → State → State
  | 0, s => s
  | n + 1, s => state_handler_runs now n (state_handler now s).1

/-- Whether the transition loop with `n` passes left comes to rest (ends in
`break`) before its passes are used up. -/
def loop_settles (p : Platform) (i : CycleInput) : Nat → State → Bool
  | 0, _ => false
  | n + 1, s =>
    let r := loop_body p i s
    if r.2 then loop_settles p i n r.1 else true

/-- The number of passes the transition loop with `n` passes left executes. -/
def loop_passes (p : Platform) (i : CycleInput) : Nat → State → Nat
  | 0, _ => 0
  | n + 1, s =>
    let r := loop_body p i s
    if r.2 then 1 + loop_passes p i n r.1 else 1

/-- Consecutive calls of `bounding_fullly_charged_level` with the ceiling
`upperbd`, one for each capacity of the list, in order: `capacity_01p` is the
listed capacity at the time of the call. -/
def bounding_calls (p : Platform) (upperbd : Int) : List Int → State → State
  | [], s => s
  | c :: cs, s =>
    bounding_calls p upperbd cs
      (bounding_fullly_charged_level p upperbd { s with poweralg.capacity_01p := c })

/-- What the driver can be asked to do between two looks at the statics: a
`do_power_alg` cycle, a run of the monitor work, a cable notification, a
reverse protection notification or a call of the charger switch, each with
the inputs it receives. -/
inductive DriverEvent where
  | POWER_ALG (i : CycleInput) (is_event_triggered : Bool)
  | BATTERY_WORK (i : CycleInput)
  | CABLE_STATUS (g_di_ptr : Bool) (action smem_cable_type : Int) (param : Option Int)
  | REVERSE_PROTECTION (status : Int)
  | CHARGER_SWITCH (g_di_ptr : Bool) (charger_switch : Int)

/-- The statics after one event. -/
def driver_event (p : Platform) (k : Enumerators) : DriverEvent → State → State
  | DriverEvent.POWER_ALG i is_event_triggered, s => (do_power_alg p i is_event_triggered s).1
  | DriverEvent.BATTERY_WORK i, s => max17050_battery_work p i s
  | DriverEvent.CABLE_STATUS g_di_ptr action smem_cable_type param, s =>
    cable_status_handler_func p k g_di_ptr action smem_cable_type param s
  | DriverEvent.REVERSE_PROTECTION status, s => reverse_protection_handler k status s
  | DriverEvent.CHARGER_SWITCH g_di_ptr charger_switch, s =>
    max17050_charger_switch g_di_ptr charger_switch s

/-- The statics after a sequence of events, in order. -/
def driver_events (p : Platform) (k : Enumerators) : List DriverEvent → State → State
  | [], s => s
  | e :: es, s => driver_events p k es (driver_event p k e s)

/-- The curve built by `voltage_curve_translator_init` followed by one
`voltage_curve_translator_add` for each point of the list, in order. -/
def curve_of (pts : List sampled_point_type) : voltage_curve_translator :=
  pts.foldl (fun t pt => voltage_curve_translator_add t pt.voltage pt.capacity)
    voltage_curve_translator_init

/-- The points of the list have strictly decreasing voltage and strictly
decreasing capacity. -/
@[reducible] def strictly_decreasing (pts : List sampled_point_type) : Prop :=
  pts.Pairwise (fun a b => b.voltage < a.voltage ∧ b.capacity < a.capacity)

/-! ## Concrete inputs -/

/-- The configuration written by `poweralg_config_init`. -/
def poweralg_config_init : poweralg_config_type :=
  { full_charging_mv := 4110
    full_charging_ma := 50
    full_pending_ma := 0
    full_charging_timeout_sec := 60 * 60
    voltage_recharge_mv := 4150
    capacity_recharge_p := 0
    voltage_exit_full_mv := 4100
    min_taper_current_mv := 0
    min_taper_current_ma := 0
    wait_votlage_statble_sec := 1 * 60
    predict_timeout_sec := 10
    software_charger_timeout_sec := 0
    superchg_software_charger_timeout_sec := 0
    charger_hw_safety_timer_watchdog_sec := 0
    debug_disable_shutdown := false
    debug_fake_room_temp := false
    debug_disable_hw_timer := false
    debug_always_predict := false
    full_level := 0 }

/-- A state before the first cycle, used as the base of the concrete inputs:
the charge state UNKNOWN, the capacity 990 and the flags that `power_alg_init`
assigns, the configuration of `poweralg_config_init`, no cable, the clock at
0, a battery of id 1 with a zeroed sample at 25 degrees, and the first-update
latch of the charger control still set.  It is not the result of a run of
`power_alg_init`, which also sends a charger command and reads the gauge. -/
def boot_state : State :=
  { poweralg :=
      { charge_state := ChargeState.CHARGE_STATE_UNKNOWN
        capacity_01p := 990
        last_capacity_01p := 990
        fst_discharge_capacity_01p := 0
        fst_discharge_acr_mAh := 0
        is_charge_over_load := false
        is_cable_in := false
        is_china_ac_in := false
        is_super_ac := false
        is_voltage_stable := false
        is_software_charger_timeout := false
        is_superchg_software_charger_timeout := false
        is_need_toggle_charger := false
        is_gauge_driver_ready := false
        last_charger_enable_toggled_time_ms := 0
        start_ktime := 0
        charging_source := 0
        charging_enable := ChargerCtl.DISABLE
        battery :=
          { voltage_adc := 0, current_adc := 0, temp_adc := 0, voltage_mV := 0, current_mA := 0
            temp_01c := 250, last_temp_01c := 0, charge_counter_mAh := 0
            charge_full_design_mAh := 1650, charge_full_real_mAh := 1650, capacity_raw := 0
            id_index := 1 }
        protect_flags :=
          { is_charging_enable_available := true
            is_charging_high_current_avaialble := false
            is_battery_dead := false
            is_charging_reverse_protect := false
            is_fake_room_temp := false
            is_temperature_fault := 0 } }
    config := poweralg_config_init
    g_first_update_charger_ctl := 1
    charger_control := 0
    force_update_batt_info := 0
    force_set_chg := 0
    delta_time_sec := 0
    chg_en_time_sec := 0
    chg_kick_time_sec := 0
    super_chg_on_time_sec := 0
    b_is_charge_off_by_bounding := false
    pingpong := 1
    count_charging_full_condition := 0
    count_charge_over_load := 0
    s_bFirstEntry := true
    s_level := 0
    s_pre_time_ktime := 0
    pre_param_update_ktime := 0
    notified := []
    state_change_log := [] }

/-- A board without hooks, with `CEILING(n, precision)` rounding up and the
unknown battery id 0. -/
def plain_board : Platform :=
  { CEILING := fun n precision => Int.tdiv (n + precision - 1) precision
    BATTERY_ID_UNKNOWN := 0
    func_update_charging_protect_flag := none
    func_kick_charger_ic := false }

/-- A gauge snapshot: 4150 mV, 10 mA, 25 degrees, 1650 mAh, 95 percent. -/
def gauge_95 : GaugeRegs :=
  { VCELL := some 53120, Current := some 64, TEMP := some 6400, FullCAP := some 3300
    RepSOC := some 24320 }

/-- A cycle at clock 1000 ms with the snapshot `gauge_95`. -/
def cycle_95 : CycleInput := { now := 1000, regs := gauge_95 }

/-- The scenario state: `boot_state` in the given charge state with the cable
in, 4150 mV, 10 mA, capacity 950 and the given full-condition counter. -/
def scenario_state (c : ChargeState) (count : Nat) : State :=
  { boot_state with
    poweralg.charge_state := c
    poweralg.is_cable_in := true
    poweralg.capacity_01p := 950
    poweralg.battery.voltage_mV := 4150
    poweralg.battery.current_mA := 10
    count_charging_full_condition := count }

/-- A cycle at clock 61000 ms with the snapshot `gauge_95`. -/
def cycle_61s : CycleInput := { now := 61000, regs := gauge_95 }

/-- The scenario state in FULL_CHARGING, entered at clock 1000 ms, with
`full_pending_ma` set to 50 and the battery discharging at 10 mA. -/
def full_charging_negative_current : State :=
  { scenario_state ChargeState.CHARGE_STATE_FULL_CHARGING 3 with
    config.full_pending_ma := 50
    poweralg.battery.current_mA := -10
    poweralg.start_ktime := 1000 }

/-- The scenario state in FULL_PENDING with a voltage reading of -1 mV. -/
def full_pending_negative_voltage : State :=
  { scenario_state ChargeState.CHARGE_STATE_FULL_PENDING 3 with
    poweralg.battery.voltage_mV := -1 }

/-- The scenario state in FULL_RECHARGING with the capacity at 900. -/
def full_recharging_low_capacity : State :=
  { scenario_state ChargeState.CHARGE_STATE_FULL_RECHARGING 3 with
    poweralg.capacity_01p := 900 }

/-- The scenario state in DISCHARGE with the battery discharging at 10 mA. -/
def discharge_negative_current : State :=
  { scenario_state ChargeState.CHARGE_STATE_DISCHARGE 0 with poweralg.battery.current_mA := -10 }

/-- A state whose transition loop does not come to rest: FULL_RECHARGING at
4120 mV and 10 mA with `full_pending_ma` 50 and `full_charging_ma` 100, so
that FULL_RECHARGING moves to FULL_CHARGING, FULL_CHARGING to FULL_PENDING
and FULL_PENDING back to FULL_RECHARGING. -/
def full_recharging_cycle : State :=
  { scenario_state ChargeState.CHARGE_STATE_FULL_RECHARGING 3 with
    config.full_pending_ma := 50
    config.full_charging_ma := 100
    poweralg.battery.voltage_mV := 4120 }

/-- The state `full_recharging_cycle` with a current of 60 mA, above
`full_pending_ma`: FULL_RECHARGING moves to FULL_CHARGING and rests there. -/
def full_recharging_settles : State :=
  { full_recharging_cycle with poweralg.battery.current_mA := 60 }

/-- The plain board with a strategy for the protection flags installed, one
that forbids charging and reports fault 1 whatever the sample. -/
def strategy_board : Platform :=
  { plain_board with
    func_update_charging_protect_flag := some (fun _ _ _ _ _ _ => (false, false, 1)) }

/-- The boot protection flags with `is_fake_room_temp` set and both charging
allowances TRUE. -/
def fake_room_temp_flags : protect_flags_type :=
  { boot_state.poweralg.protect_flags with
    is_fake_room_temp := true
    is_charging_high_current_avaialble := true }

/-- The scenario state in CHARGING on an AC cable with `is_fake_room_temp` set
and the high-current allowance FALSE. -/
def fake_room_temp_state : State :=
  { scenario_state ChargeState.CHARGE_STATE_CHARGING 0 with
    poweralg.is_china_ac_in := true
    poweralg.protect_flags.is_fake_room_temp := true }

/-- The scenario state in CHARGING with the battery id of the unknown battery
of the plain board, the first-update latch consumed and the fast charge
command in force. -/
def unknown_battery_state : State :=
  { scenario_state ChargeState.CHARGE_STATE_CHARGING 0 with
    poweralg.battery.id_index := 0
    g_first_update_charger_ctl := 0
    poweralg.charging_enable := ChargerCtl.ENABLE_FAST_CHG }

/-- The scenario state in CHARGING with the first-update latch consumed and
the fast charge command in force. -/
def fast_charging_state : State :=
  { scenario_state ChargeState.CHARGE_STATE_CHARGING 0 with
    g_first_update_charger_ctl := 0
    poweralg.charging_enable := ChargerCtl.ENABLE_FAST_CHG }

/-- The snapshot `gauge_95` with the state of charge at 50 percent. -/
def gauge_50 : GaugeRegs := { gauge_95 with RepSOC := some 12800 }

/-- A cycle at clock 1000 ms with the snapshot `gauge_50`. -/
def cycle_50 : CycleInput := { now := 1000, regs := gauge_50 }

/-- The boot state with the battery id of the unknown battery of the plain
board. -/
def unknown_battery_boot : State :=
  { boot_state with poweralg.battery.id_index := 0 }

/-- No register is read in this snapshot: all five reads fail. -/
def gauge_reads_fail : GaugeRegs :=
  { VCELL := none, Current := none, TEMP := none, FullCAP := none, RepSOC := none }

/-- A cycle at clock 5000 ms in which every register read fails. -/
def cycle_reads_fail : CycleInput := { now := 5000, regs := gauge_reads_fail }

/-- The scenario state in DISCHARGE without a cable and with the battery id
of the unknown battery of the plain board, before its first cycle. -/
def unknown_battery_discharge : State :=
  { scenario_state ChargeState.CHARGE_STATE_DISCHARGE 0 with
    poweralg.is_cable_in := false
    poweralg.battery.id_index := 0 }

/-- A choice of values for the enumerators: no cable 0, USB 1, AC 2, 9V AC 3,
the count of cable types 6, reverse protection happened 1 and counter
clear 0. -/
def board_enumerators : Enumerators :=
  { CONNECT_TYPE_NONE := 0
    CONNECT_TYPE_USB := 1
    CONNECT_TYPE_AC := 2
    CONNECT_TYPE_9V_AC := 3
    CONNECT_TYPE_MAX := 6
    REVERSE_PROTECTION_HAPPEND := 1
    REVERSE_PROTECTION_CONTER_CLEAR := 0 }

/-- The scenario state in CHARGING on an AC cable with `is_fake_room_temp` set
and charging not allowed by the protection flags. -/
def fake_room_temp_not_allowed : State :=
  { fake_room_temp_state with poweralg.protect_flags.is_charging_enable_available := false }

/-- The state `full_recharging_cycle` in FULL_CHARGING: 4120 mV and 10 mA with
`full_pending_ma` 50, `full_charging_ma` 100, `full_charging_mv` 4110,
`voltage_recharge_mv` 4150 and `voltage_exit_full_mv` 4100. -/
def full_charging_cycle : State :=
  { full_recharging_cycle with poweralg.charge_state := ChargeState.CHARGE_STATE_FULL_CHARGING }

/-- The scenario state in CHARGING on a USB cable (charging source 1). -/
def usb_charging_state : State :=
  { scenario_state ChargeState.CHARGE_STATE_CHARGING 0 with poweralg.charging_source := 1 }

/-- A day of the driver: a USB cable is plugged, the monitor work runs, a
reverse protection is reported, a cycle runs, the charger is switched off and
on, the cable is pulled and the monitor work runs again. -/
def driver_day : List DriverEvent :=
  [ DriverEvent.CABLE_STATUS true 1 1 none
  , DriverEvent.BATTERY_WORK cycle_95
  , DriverEvent.REVERSE_PROTECTION 1
  , DriverEvent.POWER_ALG cycle_61s true
  , DriverEvent.CHARGER_SWITCH true 0
  , DriverEvent.CHARGER_SWITCH true 1
  , DriverEvent.CABLE_STATUS true 0 0 none
  , DriverEvent.BATTERY_WORK cycle_61s ]

/-- The scenario state in FULL_CHARGING at 4120 mV, entered at clock 0 and
looked at an hour and one second later (`hour_later`): the full charging
timeout has run out. -/
def full_charging_timed_out : State :=
  { scenario_state ChargeState.CHARGE_STATE_FULL_CHARGING 3 with
    poweralg.battery.voltage_mV := 4120 }

/-- A cycle at clock 3601000 ms with the snapshot `gauge_95`. -/
def hour_later : CycleInput := { now := 3601000, regs := gauge_95 }

/-- The scenario state with `full_charging_timeout_sec` set to 2147484
seconds, whose product with 1000 is above the largest 32 bit `int`. -/
def long_timeout_scenario (c : ChargeState) (count : Nat) : State :=
  { scenario_state c count with config.full_charging_timeout_sec := 2147484 }

/-- The scenario state in FULL_PENDING at 4200 mV with `capacity_recharge_p`
set to 214748365, whose product with 10 is above the largest 32 bit `int`. -/
def full_pending_wide_recharge : State :=
  { scenario_state ChargeState.CHARGE_STATE_FULL_PENDING 3 with
    config.capacity_recharge_p := 214748365
    poweralg.battery.voltage_mV := 4200 }

/-- The scenario state in PREDICTION, entered at clock 0, with
`predict_timeout_sec` set to 2147484 seconds, whose product with 1000 is above
the largest 32 bit `int`. -/
def prediction_long_timeout : State :=
  { scenario_state ChargeState.CHARGE_STATE_PREDICTION 0 with
    config.predict_timeout_sec := 2147484 }

/-- The scenario state in PENDING with the fast charge command in force and
the three charging timers running. -/
def pending_charger_on : State :=
  { fast_charging_state with
    poweralg.charge_state := ChargeState.CHARGE_STATE_PENDING
    chg_en_time_sec := 120
    chg_kick_time_sec := 7
    super_chg_on_time_sec := 60 }

/-- The curve of the example in the source: 4.2 V for 100 percent, 3.9 V for
80, 3.7 V for 20 and 3.3 V for 0. -/
def example_points : List sampled_point_type :=
  [ { voltage := 4200, capacity := 10000 }
  , { voltage := 3900, capacity := 8000 }
  , { voltage := 3700, capacity := 2000 }
  , { voltage := 3300, capacity := 0 } ]

/-- Two points whose differences multiply to `2^32`. -/
def wide_points : List sampled_point_type :=
  [ { voltage := 65536, capacity := 65536 }, { voltage := 0, capacity := 0 } ]

/-- Two points, the lower one at 3.3 V with 5 percent. -/
def two_points : List sampled_point_type :=
  [ { voltage := 4200, capacity := 10000 }, { voltage := 3300, capacity := 500 } ]

/-- A curve, not built by the driver, whose first two entries have the same
voltage. -/
def flat_curve : voltage_curve_translator :=
  { voltage_min := 0
    voltage_max := 4200
    capacity_min := 0
    capacity_max := 10000
    sampled_point_count := 2
    sampled_points :=
      [ { voltage := 4200, capacity := 10000 }, { voltage := 4200, capacity := 500 } ] ++
        List.replicate 10 { voltage := 0, capacity := 0 } }

/-! ## Lemmas -/

open ChargeState

/-! ### Frame of the state handler -/

theorem state_handler_charge_state (now : Int) (s : State) :
    (state_handler now s).1.poweralg.charge_state = s.poweralg.charge_state := by
  unfold state_handler
  split <;> dsimp only <;> split_ifs <;> rfl

theorem state_handler_is_cable_in (now : Int) (s : State) :
    (state_handler now s).1.poweralg.is_cable_in = s.poweralg.is_cable_in := by
  unfold state_handler
  split <;> dsimp only <;> split_ifs <;> rfl

theorem state_handler_protect_flags (now : Int) (s : State) :
    (state_handler now s).1.poweralg.protect_flags = s.poweralg.protect_flags := by
  unfold state_handler
  split <;> dsimp only <;> split_ifs <;> rfl

theorem state_handler_config (now : Int) (s : State) :
    (state_handler now s).1.config = s.config := by
  unfold state_handler
  split <;> dsimp only <;> split_ifs <;> rfl

theorem state_handler_battery (now : Int) (s : State) :
    (state_handler now s).1.poweralg.battery = s.poweralg.battery := by
  unfold state_handler
  split <;> dsimp only <;> split_ifs <;> rfl

theorem state_handler_state_change_log (now : Int) (s : State) :
    (state_handler now s).1.state_change_log = s.state_change_log := by
  unfold state_handler
  split <;> dsimp only <;> split_ifs <;> rfl

/-! ### Frame of the exit and entry actions -/

theorem state_exit_charge_state (p : Platform) (i : CycleInput) (s : State) :
    (state_exit p i s).poweralg.charge_state = s.poweralg.charge_state := by
  unfold state_exit
  split <;> dsimp only <;> (try split_ifs) <;> rfl

theorem state_exit_is_cable_in (p : Platform) (i : CycleInput) (s : State) :
    (state_exit p i s).poweralg.is_cable_in = s.poweralg.is_cable_in := by
  unfold state_exit
  split <;> dsimp only <;> (try split_ifs) <;> rfl

theorem state_exit_config (p : Platform) (i : CycleInput) (s : State) :
    (state_exit p i s).config = s.config := by
  unfold state_exit
  split <;> dsimp only <;> (try split_ifs) <;> rfl

theorem state_exit_state_change_log (p : Platform) (i : CycleInput) (s : State) :
    (state_exit p i s).state_change_log = s.state_change_log := by
  unfold state_exit
  split <;> dsimp only <;> (try split_ifs) <;> rfl

theorem state_exit_count_charging_full_condition (p : Platform) (i : CycleInput) (s : State) :
    (state_exit p i s).count_charging_full_condition = s.count_charging_full_condition := by
  unfold state_exit
  split <;> dsimp only <;> (try split_ifs) <;> rfl

theorem state_exit_protect_flags (p : Platform) (i : CycleInput) (s : State)
    (h : s.poweralg.charge_state ≠ CHARGE_STATE_PREDICTION) :
    (state_exit p i s).poweralg.protect_flags = s.poweralg.protect_flags := by
  unfold state_exit
  split <;> dsimp only <;> (try split_ifs) <;> first | rfl | contradiction

theorem state_exit_battery (p : Platform) (i : CycleInput) (s : State)
    (h : s.poweralg.charge_state ≠ CHARGE_STATE_PREDICTION) :
    (state_exit p i s).poweralg.battery = s.poweralg.battery := by
  unfold state_exit
  split <;> dsimp only <;> (try split_ifs) <;> first | rfl | contradiction

theorem state_exit_capacity (p : Platform) (i : CycleInput) (s : State)
    (h : s.poweralg.charge_state ≠ CHARGE_STATE_PREDICTION)
    (h' : s.poweralg.charge_state ≠ CHARGE_STATE_UNKNOWN) :
    (state_exit p i s).poweralg.capacity_01p = s.poweralg.capacity_01p := by
  unfold state_exit
  split <;> dsimp only <;> (try split_ifs) <;> first | rfl | contradiction

theorem state_exit_capacity_UNKNOWN (p : Platform) (i : CycleInput) (s : State)
    (h : s.poweralg.charge_state = CHARGE_STATE_UNKNOWN) :
    (state_exit p i s).poweralg.capacity_01p ≤ 990 := by
  unfold state_exit
  rw [h]
  dsimp only
  split_ifs <;> (try dsimp only) <;> omega

theorem state_init_charge_state (i : CycleInput) (next : ChargeState) (s : State) :
    (state_init i next s).poweralg.charge_state = s.poweralg.charge_state := by
  unfold state_init
  split <;> rfl

theorem state_init_is_cable_in (i : CycleInput) (next : ChargeState) (s : State) :
    (state_init i next s).poweralg.is_cable_in = s.poweralg.is_cable_in := by
  unfold state_init
  split <;> rfl

theorem state_init_config (i : CycleInput) (next : ChargeState) (s : State) :
    (state_init i next s).config = s.config := by
  unfold state_init
  split <;> rfl

theorem state_init_state_change_log (i : CycleInput) (next : ChargeState) (s : State) :
    (state_init i next s).state_change_log = s.state_change_log := by
  unfold state_init
  split <;> rfl

theorem state_init_protect_flags (i : CycleInput) (next : ChargeState) (s : State) :
    (state_init i next s).poweralg.protect_flags = s.poweralg.protect_flags := by
  unfold state_init
  split <;> rfl

theorem state_init_capacity (i : CycleInput) (next : ChargeState) (s : State) :
    (state_init i next s).poweralg.capacity_01p = s.poweralg.capacity_01p := by
  unfold state_init
  split <;> rfl

theorem state_init_voltage_mV (i : CycleInput) (next : ChargeState) (s : State) :
    (state_init i next s).poweralg.battery.voltage_mV = s.poweralg.battery.voltage_mV := by
  unfold state_init
  split <;> rfl

theorem state_init_current_mA (i : CycleInput) (next : ChargeState) (s : State) :
    (state_init i next s).poweralg.battery.current_mA = s.poweralg.battery.current_mA := by
  unfold state_init
  split <;> rfl

theorem state_init_count_charging_full_condition (i : CycleInput) (next : ChargeState)
    (s : State) :
    (state_init i next s).count_charging_full_condition =
      if next = CHARGE_STATE_FULL_WAIT_STABLE then 0 else s.count_charging_full_condition := by
  unfold state_init
  cases next <;> rfl

/-! ### Frame of the state transition -/

theorem state_transition_charge_state (p : Platform) (i : CycleInput) (s : State)
    (next : ChargeState) : (state_transition p i s next).poweralg.charge_state = next := rfl

theorem state_transition_is_cable_in (p : Platform) (i : CycleInput) (s : State)
    (next : ChargeState) :
    (state_transition p i s next).poweralg.is_cable_in = s.poweralg.is_cable_in := by
  unfold state_transition
  dsimp only
  rw [state_init_is_cable_in]
  exact state_exit_is_cable_in p i s

theorem state_transition_config (p : Platform) (i : CycleInput) (s : State)
    (next : ChargeState) : (state_transition p i s next).config = s.config := by
  unfold state_transition
  dsimp only
  rw [state_init_config]
  exact state_exit_config p i s

theorem state_transition_protect_flags (p : Platform) (i : CycleInput) (s : State)
    (next : ChargeState) (h : s.poweralg.charge_state ≠ CHARGE_STATE_PREDICTION) :
    (state_transition p i s next).poweralg.protect_flags = s.poweralg.protect_flags := by
  unfold state_transition
  dsimp only
  rw [state_init_protect_flags]
  exact state_exit_protect_flags p i s h

theorem state_transition_voltage_mV (p : Platform) (i : CycleInput) (s : State)
    (next : ChargeState) (h : s.poweralg.charge_state ≠ CHARGE_STATE_PREDICTION) :
    (state_transition p i s next).poweralg.battery.voltage_mV =
      s.poweralg.battery.voltage_mV := by
  unfold state_transition
  dsimp only
  rw [state_init_voltage_mV]
  dsimp only
  rw [state_exit_battery p i s h]

theorem state_transition_current_mA (p : Platform) (i : CycleInput) (s : State)
    (next : ChargeState) (h : s.poweralg.charge_state ≠ CHARGE_STATE_PREDICTION) :
    (state_transition p i s next).poweralg.battery.current_mA =
      s.poweralg.battery.current_mA := by
  unfold state_transition
  dsimp only
  rw [state_init_current_mA]
  dsimp only
  rw [state_exit_battery p i s h]

theorem state_transition_capacity (p : Platform) (i : CycleInput) (s : State)
    (next : ChargeState) (h : s.poweralg.charge_state ≠ CHARGE_STATE_PREDICTION)
    (h' : s.poweralg.charge_state ≠ CHARGE_STATE_UNKNOWN) :
    (state_transition p i s next).poweralg.capacity_01p = s.poweralg.capacity_01p := by
  unfold state_transition
  dsimp only
  rw [state_init_capacity]
  exact state_exit_capacity p i s h h'

theorem state_transition_capacity_UNKNOWN (p : Platform) (i : CycleInput) (s : State)
    (next : ChargeState) (h : s.poweralg.charge_state = CHARGE_STATE_UNKNOWN) :
    (state_transition p i s next).poweralg.capacity_01p ≤ 990 := by
  unfold state_transition
  dsimp only
  rw [state_init_capacity]
  exact state_exit_capacity_UNKNOWN p i s h

theorem state_transition_state_change_log (p : Platform) (i : CycleInput) (s : State)
    (next : ChargeState) :
    (state_transition p i s next).state_change_log =
      s.state_change_log ++ [(s.poweralg.charge_state, next)] := by
  unfold state_transition
  dsimp only
  rw [state_init_state_change_log, state_init_charge_state]
  dsimp only
  rw [state_exit_state_change_log, state_exit_charge_state]

theorem state_transition_count_charging_full_condition (p : Platform) (i : CycleInput)
    (s : State) (next : ChargeState) :
    (state_transition p i s next).count_charging_full_condition =
      if next = CHARGE_STATE_FULL_WAIT_STABLE then 0 else s.count_charging_full_condition := by
  unfold state_transition
  dsimp only
  rw [state_init_count_charging_full_condition]
  dsimp only
  rw [state_exit_count_charging_full_condition]

theorem state_handler_CHARGING (now : Int) (s : State)
    (h : s.poweralg.charge_state = CHARGE_STATE_CHARGING) :
    (state_handler now s).2 =
        (if s.poweralg.battery.voltage_mV ≥ s.config.full_charging_mv ∧
            s.poweralg.battery.current_mA ≥ 0 ∧
            s.poweralg.battery.current_mA ≤ s.config.full_charging_ma ∧
            s.poweralg.capacity_01p > 930 then CHARGE_STATE_FULL_WAIT_STABLE
          else CHARGE_STATE_CHARGING) ∧
      (state_handler now s).1.poweralg.capacity_01p = min s.poweralg.capacity_01p 990 := by
  unfold state_handler terminate_condition
  rw [h]
  dsimp only
  constructor
  · split_ifs <;> simp_all
    omega
  · split_ifs <;> simp <;> omega

theorem state_handler_FULL_WAIT_STABLE (now : Int) (s : State)
    (h : s.poweralg.charge_state = CHARGE_STATE_FULL_WAIT_STABLE) :
    (state_handler now s).2 =
        (if terminate_condition s then
          if UINT32 (s.count_charging_full_condition + 1) ≥ 3 then CHARGE_STATE_FULL_CHARGING
          else CHARGE_STATE_FULL_WAIT_STABLE
        else CHARGE_STATE_CHARGING) ∧
      (state_handler now s).1.poweralg.capacity_01p =
        (if terminate_condition s ∧ UINT32 (s.count_charging_full_condition + 1) ≥ 3 then 1000
          else s.poweralg.capacity_01p) ∧
      (state_handler now s).1.count_charging_full_condition =
        (if terminate_condition s then UINT32 (s.count_charging_full_condition + 1) else 0) := by
  unfold state_handler
  rw [h]
  dsimp only
  refine ⟨?_, ?_, ?_⟩ <;> split_ifs <;> simp_all

/-- A value within the range of a 32 bit `int` is not changed by the
reduction to 32 bits. -/
theorem INT32_of_int_of_range (x : Int) (h1 : -2147483648 ≤ x) (h2 : x ≤ 2147483647) :
    INT32_of_int x = x := by
  unfold INT32_of_int
  omega

/-- A number of seconds between -2147483 and 2147483 has its millisecond
count within the range of a 32 bit `int`. -/
theorem INT32_of_int_seconds (x : Int) (h1 : -2147483 ≤ x) (h2 : x ≤ 2147483) :
    INT32_of_int (x * 1000) = x * 1000 :=
  INT32_of_int_of_range (x * 1000) (by omega) (by omega)

/-- A percentage between -214748364 and 214748364 has its count of tenths
within the range of a 32 bit `int`. -/
theorem INT32_of_int_tenths (x : Int) (h1 : -214748364 ≤ x) (h2 : x ≤ 214748364) :
    INT32_of_int (x * 10) = x * 10 :=
  INT32_of_int_of_range (x * 10) (by omega) (by omega)

theorem state_handler_FULL_CHARGING (now : Int) (s : State)
    (h : s.poweralg.charge_state = CHARGE_STATE_FULL_CHARGING) :
    (state_handler now s).2 =
        (if s.poweralg.battery.voltage_mV < s.config.voltage_exit_full_mv then
          CHARGE_STATE_CHARGING
        else if s.config.full_pending_ma ≠ 0 ∧ s.poweralg.battery.current_mA ≥ 0 ∧
            s.poweralg.battery.current_mA ≤ s.config.full_pending_ma then
          CHARGE_STATE_FULL_PENDING
        else if MSPERIOD now s.poweralg.start_ktime ≥
            INT32_of_int (s.config.full_charging_timeout_sec * 1000) then
          CHARGE_STATE_FULL_PENDING
        else CHARGE_STATE_FULL_CHARGING) ∧
      (state_handler now s).1.poweralg.capacity_01p =
        (if s.poweralg.battery.voltage_mV < s.config.voltage_exit_full_mv then
          min s.poweralg.capacity_01p 990
        else s.poweralg.capacity_01p) := by
  unfold state_handler
  rw [h]
  dsimp only
  constructor
  · split_ifs <;> rfl
  · split_ifs <;> simp <;> omega

theorem state_handler_FULL_PENDING (now : Int) (s : State)
    (h : s.poweralg.charge_state = CHARGE_STATE_FULL_PENDING) :
    (state_handler now s).2 =
        (if (s.poweralg.battery.voltage_mV ≥ 0 ∧
              s.poweralg.battery.voltage_mV < s.config.voltage_recharge_mv) ∨
            (s.poweralg.capacity_01p ≥ 0 ∧
              s.poweralg.capacity_01p ≤ INT32_of_int (s.config.capacity_recharge_p * 10)) then
          CHARGE_STATE_FULL_RECHARGING
        else CHARGE_STATE_FULL_PENDING) ∧
      (state_handler now s).1 = s := by
  unfold state_handler
  rw [h]
  dsimp only
  constructor <;> split_ifs <;> rfl

theorem state_handler_FULL_RECHARGING (now : Int) (s : State)
    (h : s.poweralg.charge_state = CHARGE_STATE_FULL_RECHARGING) :
    (state_handler now s).2 =
        (if s.poweralg.battery.voltage_mV < s.config.voltage_exit_full_mv then
          CHARGE_STATE_CHARGING
        else if s.poweralg.battery.voltage_mV ≥ s.config.full_charging_mv ∧
            s.poweralg.battery.current_mA ≥ 0 ∧
            s.poweralg.battery.current_mA ≤ s.config.full_charging_ma then
          CHARGE_STATE_FULL_CHARGING
        else CHARGE_STATE_FULL_RECHARGING) ∧
      (state_handler now s).1.poweralg.capacity_01p =
        (if s.poweralg.battery.voltage_mV < s.config.voltage_exit_full_mv then
          min s.poweralg.capacity_01p 990
        else s.poweralg.capacity_01p) := by
  unfold state_handler
  rw [h]
  dsimp only
  constructor
  · split_ifs <;> rfl
  · split_ifs <;> simp <;> omega

theorem state_handler_PENDING (now : Int) (s : State)
    (h : s.poweralg.charge_state = CHARGE_STATE_PENDING) :
    (state_handler now s).2 =
        (if s.poweralg.is_cable_in ∧ s.poweralg.protect_flags.is_charging_enable_available then
          CHARGE_STATE_CHARGING
        else CHARGE_STATE_PENDING) ∧
      (state_handler now s).1.poweralg.capacity_01p = s.poweralg.capacity_01p := by
  unfold state_handler
  rw [h]
  dsimp only
  constructor <;> split_ifs <;> simp_all

theorem state_handler_DISCHARGE (now : Int) (s : State)
    (h : s.poweralg.charge_state = CHARGE_STATE_DISCHARGE) :
    (state_handler now s).2 =
        (if s.poweralg.is_cable_in ∧ s.poweralg.protect_flags.is_charging_enable_available then
          CHARGE_STATE_CHARGING
        else CHARGE_STATE_DISCHARGE) ∧
      (state_handler now s).1.poweralg.capacity_01p = s.poweralg.capacity_01p := by
  unfold state_handler
  rw [h]
  dsimp only
  constructor <;> split_ifs <;> simp_all

theorem state_handler_PREDICTION (now : Int) (s : State)
    (h : s.poweralg.charge_state = CHARGE_STATE_PREDICTION) :
    ((state_handler now s).2 = CHARGE_STATE_PREDICTION ∨
        (state_handler now s).2 = CHARGE_STATE_UNKNOWN) ∧
      (state_handler now s).1.poweralg.capacity_01p = s.poweralg.capacity_01p := by
  unfold state_handler
  rw [h]
  dsimp only
  constructor <;> split_ifs <;> simp

theorem state_handler_UNKNOWN (now : Int) (s : State)
    (h : s.poweralg.charge_state = CHARGE_STATE_UNKNOWN) :
    state_handler now s = (s, CHARGE_STATE_UNKNOWN) := by
  unfold state_handler
  rw [h]

theorem next_state_by_cable_eq (s : State) :
    next_state_by_cable s =
      match s.poweralg.charge_state with
      | CHARGE_STATE_UNKNOWN =>
        if s.poweralg.is_cable_in then CHARGE_STATE_CHARGING else CHARGE_STATE_DISCHARGE
      | CHARGE_STATE_DISCHARGE =>
        if s.poweralg.is_cable_in then CHARGE_STATE_CHARGING else CHARGE_STATE_DISCHARGE
      | CHARGE_STATE_PREDICTION => CHARGE_STATE_PREDICTION
      | c =>
        if s.poweralg.is_cable_in = false then CHARGE_STATE_DISCHARGE
        else if s.poweralg.protect_flags.is_charging_enable_available = false then
          CHARGE_STATE_PENDING
        else c := by
  unfold next_state_by_cable
  cases h : s.poweralg.charge_state <;> cases hc : s.poweralg.is_cable_in <;>
    cases he : s.poweralg.protect_flags.is_charging_enable_available <;> simp

theorem loop_body_eq (p : Platform) (i : CycleInput) (s : State) :
    loop_body p i s =
      if next_state_by_cable s = s.poweralg.charge_state then
        if (state_handler i.now s).2 ≠ s.poweralg.charge_state then
          (state_transition p i (state_handler i.now s).1 (state_handler i.now s).2, true)
        else ((state_handler i.now s).1, false)
      else (state_transition p i s (next_state_by_cable s), true) := by
  unfold loop_body
  dsimp only
  split_ifs with h1 h2 h3 h4
  · rfl
  · rw [state_handler_charge_state] at h2; contradiction
  · rw [state_handler_charge_state] at h2; contradiction
  · rfl
  · rfl

theorem terminate_condition_eq (s : State) :
    terminate_condition s = true ↔
      (s.poweralg.battery.voltage_mV ≥ s.config.full_charging_mv ∧
        s.poweralg.battery.current_mA ≥ 0 ∧
        s.poweralg.battery.current_mA ≤ s.config.full_charging_ma ∧
        s.poweralg.capacity_01p > 930) := by
  unfold terminate_condition
  simp

theorem loop_body_step_UNKNOWN (p : Platform) (i : CycleInput) (s : State)
    (h : s.poweralg.charge_state = CHARGE_STATE_UNKNOWN) :
    charging_capped_step s (loop_body p i s) := by
  unfold charging_capped_step
  rw [loop_body_eq, next_state_by_cable_eq, h]
  dsimp only
  cases hc : s.poweralg.is_cable_in
  · simp [charging_capped_inv, state_transition_charge_state, state_transition_is_cable_in, hc]
  · simp [charging_capped_inv, state_transition_charge_state,
      state_transition_capacity_UNKNOWN p i s _ h]

theorem loop_body_step_PREDICTION (p : Platform) (i : CycleInput) (s : State)
    (h : s.poweralg.charge_state = CHARGE_STATE_PREDICTION) :
    charging_capped_step s (loop_body p i s) := by
  unfold charging_capped_step
  rw [loop_body_eq, next_state_by_cable_eq, h]
  dsimp only
  rcases (state_handler_PREDICTION i.now s h).1 with h2 | h2
  · simp [h2, charging_capped, state_handler_charge_state, h]
  · simp [h2, charging_capped_inv, state_transition_charge_state]

theorem loop_body_step_DISCHARGE (p : Platform) (i : CycleInput) (s : State)
    (h : s.poweralg.charge_state = CHARGE_STATE_DISCHARGE) :
    charging_capped_step s (loop_body p i s) := by
  unfold charging_capped_step
  rw [loop_body_eq, next_state_by_cable_eq, h]
  dsimp only
  cases hc : s.poweralg.is_cable_in
  · simp [(state_handler_DISCHARGE i.now s h).1, hc, charging_capped,
      state_handler_charge_state, h]
  · simp [charging_capped_inv, state_transition_charge_state, h, hc]

theorem loop_body_step_PENDING (p : Platform) (i : CycleInput) (s : State)
    (h : s.poweralg.charge_state = CHARGE_STATE_PENDING) :
    charging_capped_step s (loop_body p i s) := by
  unfold charging_capped_step
  rw [loop_body_eq, next_state_by_cable_eq, h]
  dsimp only
  cases hc : s.poweralg.is_cable_in <;>
    cases he : s.poweralg.protect_flags.is_charging_enable_available <;>
    simp [(state_handler_PENDING i.now s h).1, hc, he, charging_capped, charging_capped_inv,
      state_handler_charge_state, state_transition_charge_state, state_transition_is_cable_in, h]

theorem loop_body_step_CHARGING (p : Platform) (i : CycleInput) (s : State)
    (h : s.poweralg.charge_state = CHARGE_STATE_CHARGING) :
    charging_capped_step s (loop_body p i s) := by
  have hs := state_handler_charge_state i.now s
  have hp : (state_handler i.now s).1.poweralg.charge_state ≠ CHARGE_STATE_PREDICTION := by
    rw [hs, h]; decide
  have hu : (state_handler i.now s).1.poweralg.charge_state ≠ CHARGE_STATE_UNKNOWN := by
    rw [hs, h]; decide
  have hp' : s.poweralg.charge_state ≠ CHARGE_STATE_PREDICTION := by rw [h]; decide
  unfold charging_capped_step
  rw [loop_body_eq, next_state_by_cable_eq, h]
  dsimp only
  cases hc : s.poweralg.is_cable_in
  · simp [charging_capped_inv, state_transition_charge_state, state_transition_is_cable_in, hc]
  · cases he : s.poweralg.protect_flags.is_charging_enable_available
    · simp [charging_capped_inv, state_transition_charge_state, state_transition_is_cable_in, hc,
        state_transition_protect_flags p i s _ hp', he]
    · obtain ⟨h2, h3⟩ := state_handler_CHARGING i.now s h
      simp only [if_true, Bool.true_eq_false, if_false]
      by_cases h4 : s.poweralg.battery.voltage_mV ≥ s.config.full_charging_mv ∧
          s.poweralg.battery.current_mA ≥ 0 ∧
          s.poweralg.battery.current_mA ≤ s.config.full_charging_ma ∧
          s.poweralg.capacity_01p > 930
      · rw [if_pos h4] at h2
        rw [h2, if_pos (by decide)]
        right
        refine ⟨rfl, Or.inl ?_⟩
        simp only [charging_capped_inv, state_transition_charge_state,
          state_transition_is_cable_in, state_handler_is_cable_in, hc,
          state_transition_protect_flags p i _ _ hp, state_handler_protect_flags, he,
          state_transition_count_charging_full_condition, if_true, terminate_condition_eq,
          state_transition_voltage_mV p i _ _ hp, state_transition_current_mA p i _ _ hp,
          state_transition_capacity p i _ _ hp hu, state_transition_config,
          state_handler_battery, state_handler_config, h3]
        refine ⟨trivial, trivial, ⟨h4.1, h4.2.1, h4.2.2.1, ?_⟩, trivial⟩
        have := h4.2.2.2
        omega
      · rw [if_neg h4] at h2
        rw [h2, if_neg (by simp)]
        left
        refine ⟨rfl, ?_⟩
        intro _
        show (state_handler i.now s).1.poweralg.capacity_01p ≤ 990
        rw [h3]
        omega

theorem loop_body_step_FULL_WAIT_STABLE (p : Platform) (i : CycleInput) (s : State)
    (h : s.poweralg.charge_state = CHARGE_STATE_FULL_WAIT_STABLE) :
    charging_capped_step s (loop_body p i s) := by
  have hp' : s.poweralg.charge_state ≠ CHARGE_STATE_PREDICTION := by rw [h]; decide
  unfold charging_capped_step
  rw [loop_body_eq, next_state_by_cable_eq, h]
  dsimp only
  cases hc : s.poweralg.is_cable_in
  · simp [charging_capped_inv, state_transition_charge_state, state_transition_is_cable_in, hc]
  · cases he : s.poweralg.protect_flags.is_charging_enable_available
    · simp [charging_capped_inv, state_transition_charge_state, state_transition_is_cable_in, hc,
        state_transition_protect_flags p i s _ hp', he]
    · obtain ⟨h2, -, -⟩ := state_handler_FULL_WAIT_STABLE i.now s h
      simp only [if_true, Bool.true_eq_false, if_false]
      cases ht : terminate_condition s
      · rw [ht] at h2
        simp only [Bool.false_eq_true, if_false] at h2
        rw [h2, if_pos (by decide)]
        right
        refine ⟨rfl, Or.inr ⟨rfl, ?_, by decide⟩⟩
        simp [charging_capped_inv, h, ht]
      · rw [ht] at h2
        simp only [if_true] at h2
        by_cases h5 : UINT32 (s.count_charging_full_condition + 1) ≥ 3
        · rw [if_pos h5] at h2
          rw [h2, if_pos (by decide)]
          right
          exact ⟨rfl, Or.inl (by simp [charging_capped_inv, state_transition_charge_state])⟩
        · rw [if_neg h5] at h2
          rw [h2, if_neg (by simp)]
          left
          refine ⟨rfl, ?_⟩
          intro h6
          rw [state_handler_charge_state, h] at h6
          exact absurd h6 (by decide)

theorem loop_body_step_FULL_CHARGING (p : Platform) (i : CycleInput) (s : State)
    (h : s.poweralg.charge_state = CHARGE_STATE_FULL_CHARGING) :
    charging_capped_step s (loop_body p i s) := by
  have hs := state_handler_charge_state i.now s
  have hp : (state_handler i.now s).1.poweralg.charge_state ≠ CHARGE_STATE_PREDICTION := by
    rw [hs, h]; decide
  have hu : (state_handler i.now s).1.poweralg.charge_state ≠ CHARGE_STATE_UNKNOWN := by
    rw [hs, h]; decide
  have hp' : s.poweralg.charge_state ≠ CHARGE_STATE_PREDICTION := by rw [h]; decide
  unfold charging_capped_step
  rw [loop_body_eq, next_state_by_cable_eq, h]
  dsimp only
  cases hc : s.poweralg.is_cable_in
  · simp [charging_capped_inv, state_transition_charge_state, state_transition_is_cable_in, hc]
  · cases he : s.poweralg.protect_flags.is_charging_enable_available
    · simp [charging_capped_inv, state_transition_charge_state, state_transition_is_cable_in, hc,
        state_transition_protect_flags p i s _ hp', he]
    · obtain ⟨h2, h3⟩ := state_handler_FULL_CHARGING i.now s h
      simp only [if_true, Bool.true_eq_false, if_false]
      by_cases h4 : s.poweralg.battery.voltage_mV < s.config.voltage_exit_full_mv
      · rw [if_pos h4] at h2 h3
        rw [h2, if_pos (by decide)]
        right
        refine ⟨rfl, Or.inl ?_⟩
        simp only [charging_capped_inv, state_transition_charge_state,
          state_transition_capacity p i _ _ hp hu, h3]
        omega
      · rw [if_neg h4] at h2
        generalize (state_handler i.now s).2 = nx at h2 ⊢
        by_cases h7 : nx = CHARGE_STATE_FULL_CHARGING
        · rw [h7, if_neg (by simp)]
          left
          refine ⟨rfl, ?_⟩
          intro h6
          rw [state_handler_charge_state, h] at h6
          exact absurd h6 (by decide)
        · have h8 : nx = CHARGE_STATE_FULL_PENDING := by
            split_ifs at h2 <;> first | exact h2 | exact absurd h2 h7
          rw [h8, if_pos (by decide)]
          right
          exact ⟨rfl, Or.inl (by simp [charging_capped_inv, state_transition_charge_state])⟩

theorem loop_body_step_FULL_PENDING (p : Platform) (i : CycleInput) (s : State)
    (h : s.poweralg.charge_state = CHARGE_STATE_FULL_PENDING) :
    charging_capped_step s (loop_body p i s) := by
  have hp' : s.poweralg.charge_state ≠ CHARGE_STATE_PREDICTION := by rw [h]; decide
  unfold charging_capped_step
  rw [loop_body_eq, next_state_by_cable_eq, h]
  dsimp only
  cases hc : s.poweralg.is_cable_in
  · simp [charging_capped_inv, state_transition_charge_state, state_transition_is_cable_in, hc]
  · cases he : s.poweralg.protect_flags.is_charging_enable_available
    · simp [charging_capped_inv, state_transition_charge_state, state_transition_is_cable_in, hc,
        state_transition_protect_flags p i s _ hp', he]
    · obtain ⟨h2, -⟩ := state_handler_FULL_PENDING i.now s h
      simp only [if_true, Bool.true_eq_false, if_false]
      generalize (state_handler i.now s).2 = nx at h2 ⊢
      by_cases h7 : nx = CHARGE_STATE_FULL_PENDING
      · rw [h7, if_neg (by simp)]
        left
        refine ⟨rfl, ?_⟩
        intro h6
        rw [state_handler_charge_state, h] at h6
        exact absurd h6 (by decide)
      · have h8 : nx = CHARGE_STATE_FULL_RECHARGING := by
          split_ifs at h2 <;> first | exact h2 | exact absurd h2 h7
        rw [h8, if_pos (by decide)]
        right
        exact ⟨rfl, Or.inl (by simp [charging_capped_inv, state_transition_charge_state])⟩

theorem loop_body_step_FULL_RECHARGING (p : Platform) (i : CycleInput) (s : State)
    (h : s.poweralg.charge_state = CHARGE_STATE_FULL_RECHARGING) :
    charging_capped_step s (loop_body p i s) := by
  have hs := state_handler_charge_state i.now s
  have hp : (state_handler i.now s).1.poweralg.charge_state ≠ CHARGE_STATE_PREDICTION := by
    rw [hs, h]; decide
  have hu : (state_handler i.now s).1.poweralg.charge_state ≠ CHARGE_STATE_UNKNOWN := by
    rw [hs, h]; decide
  have hp' : s.poweralg.charge_state ≠ CHARGE_STATE_PREDICTION := by rw [h]; decide
  unfold charging_capped_step
  rw [loop_body_eq, next_state_by_cable_eq, h]
  dsimp only
  cases hc : s.poweralg.is_cable_in
  · simp [charging_capped_inv, state_transition_charge_state, state_transition_is_cable_in, hc]
  · cases he : s.poweralg.protect_flags.is_charging_enable_available
    · simp [charging_capped_inv, state_transition_charge_state, state_transition_is_cable_in, hc,
        state_transition_protect_flags p i s _ hp', he]
    · obtain ⟨h2, h3⟩ := state_handler_FULL_RECHARGING i.now s h
      simp only [if_true, Bool.true_eq_false, if_false]
      by_cases h4 : s.poweralg.battery.voltage_mV < s.config.voltage_exit_full_mv
      · rw [if_pos h4] at h2 h3
        rw [h2, if_pos (by decide)]
        right
        refine ⟨rfl, Or.inl ?_⟩
        simp only [charging_capped_inv, state_transition_charge_state,
          state_transition_capacity p i _ _ hp hu, h3]
        omega
      · rw [if_neg h4] at h2
        generalize (state_handler i.now s).2 = nx at h2 ⊢
        by_cases h7 : nx = CHARGE_STATE_FULL_RECHARGING
        · rw [h7, if_neg (by simp)]
          left
          refine ⟨rfl, ?_⟩
          intro h6
          rw [state_handler_charge_state, h] at h6
          exact absurd h6 (by decide)
        · have h8 : nx = CHARGE_STATE_FULL_CHARGING := by
            split_ifs at h2 <;> first | exact h2 | exact absurd h2 h7
          rw [h8, if_pos (by decide)]
          right
          exact ⟨rfl, Or.inl (by simp [charging_capped_inv, state_transition_charge_state])⟩

theorem loop_body_step (p : Platform) (i : CycleInput) (s : State) :
    charging_capped_step s (loop_body p i s) := by
  cases h : s.poweralg.charge_state
  · exact loop_body_step_UNKNOWN p i s h
  · exact loop_body_step_PREDICTION p i s h
  · exact loop_body_step_DISCHARGE p i s h
  · exact loop_body_step_CHARGING p i s h
  · exact loop_body_step_PENDING p i s h
  · exact loop_body_step_FULL_WAIT_STABLE p i s h
  · exact loop_body_step_FULL_CHARGING p i s h
  · exact loop_body_step_FULL_PENDING p i s h
  · exact loop_body_step_FULL_RECHARGING p i s h

theorem charging_capped_of_inv (s : State) (h : charging_capped_inv s) : charging_capped s := by
  intro hc
  unfold charging_capped_inv at h
  rw [hc] at h
  exact h

theorem transition_loop_zero (p : Platform) (i : CycleInput) (s : State) :
    transition_loop p i 0 s = s := rfl

theorem transition_loop_succ (p : Platform) (i : CycleInput) (n : Nat) (s : State) :
    transition_loop p i (n + 1) s =
      if (loop_body p i s).2 then transition_loop p i n (loop_body p i s).1
      else (loop_body p i s).1 := rfl

theorem transition_loop_charging_capped_of_inv (p : Platform) (i : CycleInput) (n : Nat) :
    ∀ s : State, charging_capped_inv s → charging_capped (transition_loop p i n s) := by
  induction n with
  | zero => intro s h; exact charging_capped_of_inv s h
  | succ n ih =>
    intro s h
    rw [transition_loop_succ]
    rcases loop_body_step p i s with ⟨h1, h2⟩ | ⟨h1, h2 | ⟨-, h3, -⟩⟩
    · rw [h1, if_neg (by decide)]; exact h2
    · rw [h1, if_pos rfl]; exact ih _ h2
    · exact absurd h h3

theorem transition_loop_charging_capped_of_CHARGING (p : Platform) (i : CycleInput) (n : Nat)
    (s : State) (h : s.poweralg.charge_state = CHARGE_STATE_CHARGING) :
    charging_capped (transition_loop p i (n + 1) s) := by
  rw [transition_loop_succ]
  rcases loop_body_step p i s with ⟨h1, h2⟩ | ⟨h1, h2 | ⟨-, -, h3⟩⟩
  · rw [h1, if_neg (by decide)]; exact h2
  · rw [h1, if_pos rfl]; exact transition_loop_charging_capped_of_inv p i n _ h2
  · exact absurd h h3

theorem transition_loop_charging_capped (p : Platform) (i : CycleInput) (n : Nat) (s : State) :
    charging_capped (transition_loop p i (n + 2) s) := by
  rw [transition_loop_succ]
  rcases loop_body_step p i s with ⟨h1, h2⟩ | ⟨h1, h2 | ⟨h3, -, -⟩⟩
  · rw [h1, if_neg (by decide)]; exact h2
  · rw [h1, if_pos rfl]; exact transition_loop_charging_capped_of_inv p i _ _ h2
  · rw [h1, if_pos rfl]
    exact transition_loop_charging_capped_of_CHARGING p i n _ h3

theorem update_next_charge_state_charging_capped (p : Platform) (i : CycleInput) (b : Bool)
    (s : State) : charging_capped (update_next_charge_state p i b s) := by
  unfold update_next_charge_state
  exact transition_loop_charging_capped p i 23 _

theorem loop_body_cable_removed (p : Platform) (i : CycleInput) (s : State)
    (hg : cable_in_group s.poweralg.charge_state) (hc : s.poweralg.is_cable_in = false) :
    loop_body p i s = (state_transition p i s CHARGE_STATE_DISCHARGE, true) := by
  rw [loop_body_eq, next_state_by_cable_eq]
  rcases hg with h | h | h | h | h | h | h <;> rw [h] <;> simp [hc]

theorem transition_loop_DISCHARGE_no_cable (p : Platform) (i : CycleInput) (n : Nat) (s : State)
    (h : s.poweralg.charge_state = CHARGE_STATE_DISCHARGE)
    (hc : s.poweralg.is_cable_in = false) :
    (transition_loop p i n s).poweralg.charge_state = CHARGE_STATE_DISCHARGE := by
  cases n with
  | zero => exact h
  | succ n =>
    rw [transition_loop_succ, loop_body_eq, next_state_by_cable_eq, h]
    simp [hc, (state_handler_DISCHARGE i.now s h).1, state_handler_charge_state, h]

theorem transition_loop_PENDING_not_allowed (p : Platform) (i : CycleInput) (n : Nat) (s : State)
    (h : s.poweralg.charge_state = CHARGE_STATE_PENDING)
    (hc : s.poweralg.is_cable_in = true)
    (he : s.poweralg.protect_flags.is_charging_enable_available = false) :
    (transition_loop p i n s).poweralg.charge_state = CHARGE_STATE_PENDING := by
  cases n with
  | zero => exact h
  | succ n =>
    rw [transition_loop_succ, loop_body_eq, next_state_by_cable_eq, h]
    simp [hc, he, (state_handler_PENDING i.now s h).1, state_handler_charge_state, h]

theorem transition_loop_cable_removed (p : Platform) (i : CycleInput) (n : Nat) (s : State)
    (hg : cable_in_group s.poweralg.charge_state) (hc : s.poweralg.is_cable_in = false) :
    (transition_loop p i (n + 1) s).poweralg.charge_state = CHARGE_STATE_DISCHARGE := by
  rw [transition_loop_succ, loop_body_cable_removed p i s hg hc]
  simp only [if_true]
  apply transition_loop_DISCHARGE_no_cable
  · rfl
  · rw [state_transition_is_cable_in]; exact hc

theorem loop_body_not_allowed (p : Platform) (i : CycleInput) (s : State)
    (hg : cable_in_group s.poweralg.charge_state)
    (hu : s.poweralg.charge_state ≠ CHARGE_STATE_UNKNOWN)
    (hp : s.poweralg.charge_state ≠ CHARGE_STATE_PENDING)
    (hc : s.poweralg.is_cable_in = true)
    (he : s.poweralg.protect_flags.is_charging_enable_available = false) :
    loop_body p i s = (state_transition p i s CHARGE_STATE_PENDING, true) := by
  rw [loop_body_eq, next_state_by_cable_eq]
  rcases hg with h | h | h | h | h | h | h <;> first | exact absurd h hu | exact absurd h hp | (rw [h]; simp [hc, he])

theorem loop_body_cable_out_group (p : Platform) (i : CycleInput) (s : State)
    (h : s.poweralg.charge_state = CHARGE_STATE_UNKNOWN ∨
      s.poweralg.charge_state = CHARGE_STATE_DISCHARGE)
    (hc : s.poweralg.is_cable_in = true) :
    loop_body p i s = (state_transition p i s CHARGE_STATE_CHARGING, true) := by
  rw [loop_body_eq, next_state_by_cable_eq]
  rcases h with h | h <;> rw [h] <;> simp [hc]

theorem transition_loop_not_allowed (p : Platform) (i : CycleInput) (n : Nat) (s : State)
    (hg : cable_in_group s.poweralg.charge_state)
    (hc : s.poweralg.is_cable_in = true)
    (he : s.poweralg.protect_flags.is_charging_enable_available = false) :
    (transition_loop p i (n + 2) s).poweralg.charge_state = CHARGE_STATE_PENDING := by
  by_cases hp : s.poweralg.charge_state = CHARGE_STATE_PENDING
  · exact transition_loop_PENDING_not_allowed p i _ s hp hc he
  · by_cases hu : s.poweralg.charge_state = CHARGE_STATE_UNKNOWN
    · have hnp : s.poweralg.charge_state ≠ CHARGE_STATE_PREDICTION := by rw [hu]; decide
      rw [transition_loop_succ, loop_body_cable_out_group p i s (Or.inl hu) hc]
      simp only [if_true]
      rw [transition_loop_succ, loop_body_not_allowed p i _ (Or.inr (Or.inl rfl))
        (by rw [state_transition_charge_state]; decide)
        (by rw [state_transition_charge_state]; decide)
        (by rw [state_transition_is_cable_in]; exact hc)
        (by rw [state_transition_protect_flags p i s _ hnp]; exact he)]
      simp only [if_true]
      apply transition_loop_PENDING_not_allowed
      · rfl
      · rw [state_transition_is_cable_in, state_transition_is_cable_in]; exact hc
      · rw [state_transition_protect_flags p i _ _
          (by rw [state_transition_charge_state]; decide),
          state_transition_protect_flags p i s _ hnp]
        exact he
    · have hnp : s.poweralg.charge_state ≠ CHARGE_STATE_PREDICTION := by
        rcases hg with h | h | h | h | h | h | h <;> rw [h] <;> decide
      rw [transition_loop_succ, loop_body_not_allowed p i s hg hu hp hc he]
      simp only [if_true]
      apply transition_loop_PENDING_not_allowed
      · rfl
      · rw [state_transition_is_cable_in]; exact hc
      · rw [state_transition_protect_flags p i s _ hnp]; exact he

theorem state_handler_capacity_in_range (now : Int) (s : State) (h : capacity_in_range s) :
    capacity_in_range (state_handler now s).1 := by
  unfold capacity_in_range at *
  unfold state_handler
  split <;> dsimp only <;> (try split_ifs) <;> (try dsimp only) <;> omega

theorem state_exit_capacity_in_range (p : Platform) (i : CycleInput) (s : State)
    (h : capacity_in_range s) : capacity_in_range (state_exit p i s) := by
  unfold capacity_in_range at *
  unfold state_exit
  split <;> (try dsimp only) <;> (try split_ifs) <;> (try dsimp only) <;> omega

theorem state_transition_capacity_in_range (p : Platform) (i : CycleInput) (s : State)
    (next : ChargeState) (h : capacity_in_range s) :
    capacity_in_range (state_transition p i s next) := by
  have h1 := state_exit_capacity_in_range p i s h
  unfold capacity_in_range at *
  unfold state_transition
  dsimp only
  rw [state_init_capacity]
  exact h1

theorem loop_body_capacity_in_range (p : Platform) (i : CycleInput) (s : State)
    (h : capacity_in_range s) : capacity_in_range (loop_body p i s).1 := by
  unfold loop_body
  dsimp only
  split_ifs <;>
    first
    | exact state_transition_capacity_in_range p i _ _ (state_handler_capacity_in_range _ _ h)
    | exact state_handler_capacity_in_range _ _ h
    | exact state_transition_capacity_in_range p i _ _ h

theorem transition_loop_capacity_in_range (p : Platform) (i : CycleInput) (n : Nat) :
    ∀ s : State, capacity_in_range s → capacity_in_range (transition_loop p i n s) := by
  induction n with
  | zero => intro s h; exact h
  | succ n ih =>
    intro s h
    unfold transition_loop
    dsimp only
    split_ifs
    · exact ih _ (loop_body_capacity_in_range p i s h)
    · exact loop_body_capacity_in_range p i s h

theorem update_next_charge_state_capacity_in_range (p : Platform) (i : CycleInput) (b : Bool)
    (s : State) (h : capacity_in_range s) :
    capacity_in_range (update_next_charge_state p i b s) := by
  unfold update_next_charge_state
  apply transition_loop_capacity_in_range
  unfold start_ktime_check
  split_ifs
  · exact h
  · exact h

theorem __update_capacity_in_range (b : Bool) (s : State) :
    capacity_in_range (__update_capacity b s) := by
  unfold capacity_in_range __update_capacity
  dsimp only
  split_ifs <;> (try dsimp only) <;> omega

theorem max17050_get_batt_level_range (regs : GaugeRegs) (battery : battery_type) :
    0 ≤ (max17050_get_batt_level regs battery).2 ∧
      (max17050_get_batt_level regs battery).2 ≤ 1000 := by
  unfold max17050_get_batt_level
  dsimp only
  split_ifs <;> omega


theorem max17050_blocking_notify_capacity (p : Platform) (val : NotifyEvent) (s : State) :
    (max17050_blocking_notify p val s).poweralg.capacity_01p = s.poweralg.capacity_01p := by
  unfold max17050_blocking_notify
  split <;> (try split_ifs) <;> rfl

theorem max17050_charger_control_capacity (p : Platform) (c : ChargerCtl) (s : State) :
    (max17050_charger_control p c s).poweralg.capacity_01p = s.poweralg.capacity_01p :=
  max17050_blocking_notify_capacity p _ s

theorem bounding_fullly_charged_level_capacity (p : Platform) (u : Int) (s : State) :
    (bounding_fullly_charged_level p u s).poweralg.capacity_01p = s.poweralg.capacity_01p := by
  unfold bounding_fullly_charged_level
  dsimp only
  split_ifs <;> rfl

theorem charging_time_count_capacity (p : Platform) (s : State) :
    (charging_time_count p s).poweralg.capacity_01p = s.poweralg.capacity_01p := by
  unfold charging_time_count
  dsimp only
  split_ifs <;> rfl

theorem hw_safety_timer_watchdog_capacity (p : Platform) (s : State) :
    (hw_safety_timer_watchdog p s).poweralg.capacity_01p = s.poweralg.capacity_01p := by
  unfold hw_safety_timer_watchdog
  dsimp only
  split_ifs <;> simp only [max17050_charger_control_capacity]

theorem charger_enable_by_current_capacity (p : Platform) (s : State) :
    (charger_enable_by_current p s).poweralg.capacity_01p = s.poweralg.capacity_01p := by
  unfold charger_enable_by_current
  split_ifs <;> simp only [max17050_charger_control_capacity]

theorem min_taper_current_control_capacity (p : Platform) (s : State) :
    (min_taper_current_control p s).poweralg.capacity_01p = s.poweralg.capacity_01p := by
  unfold min_taper_current_control
  split_ifs <;> simp only [max17050_charger_control_capacity]

theorem check_charging_function_capacity (p : Platform) (s : State) :
    (check_charging_function p s).poweralg.capacity_01p = s.poweralg.capacity_01p := by
  unfold check_charging_function
  dsimp only
  split_ifs <;>
    simp only [max17050_charger_control_capacity, min_taper_current_control_capacity,
      charger_enable_by_current_capacity, hw_safety_timer_watchdog_capacity,
      charging_time_count_capacity]

theorem level_update_capacity (p : Platform) (s : State) :
    (level_update p s).poweralg.capacity_01p = s.poweralg.capacity_01p := by
  unfold level_update
  dsimp only
  split_ifs <;> simp only [max17050_blocking_notify_capacity]

theorem superchg_software_charger_timer_capacity (s : State) :
    (superchg_software_charger_timer s).poweralg.capacity_01p = s.poweralg.capacity_01p := by
  unfold superchg_software_charger_timer
  dsimp only
  split_ifs <;> rfl

theorem do_power_alg_charging_capacity (p : Platform) (s : State) :
    (do_power_alg_charging p s).poweralg.capacity_01p = s.poweralg.capacity_01p := by
  unfold do_power_alg_charging
  dsimp only
  split_ifs <;>
    simp only [check_charging_function_capacity, bounding_fullly_charged_level_capacity,
      superchg_software_charger_timer_capacity, level_update_capacity]

theorem do_power_alg_sample_capacity_in_range (p : Platform) (i : CycleInput) (s : State)
    (h : capacity_in_range s) : capacity_in_range (do_power_alg_sample p i s).1 := by
  have hl := max17050_get_batt_level_range
  unfold capacity_in_range at *
  unfold do_power_alg_sample
  dsimp only
  split_ifs <;> first | exact h | exact hl _ _

theorem do_power_alg_capacity_capacity_in_range (p : Platform) (i : CycleInput) (ev : Bool)
    (s : State) (h : capacity_in_range s) :
    capacity_in_range (do_power_alg_capacity p i ev s) := by
  have h1 := update_next_charge_state_capacity_in_range p i s.s_bFirstEntry s h
  unfold do_power_alg_capacity
  dsimp only
  generalize update_next_charge_state p i s.s_bFirstEntry s = s1 at h1 ⊢
  have h2 : ∀ t : State, capacity_in_range t →
      capacity_in_range (if t.config.debug_disable_shutdown = true then
        if t.poweralg.capacity_01p ≤ 0 then { t with poweralg.capacity_01p := 1 } else t
        else t) := by
    intro t ht
    unfold capacity_in_range at *
    split_ifs <;> (try dsimp only) <;> omega
  apply h2
  have h3 : ∀ t : State, capacity_in_range t →
      capacity_in_range (if t.poweralg.charge_state ≠ ChargeState.CHARGE_STATE_UNKNOWN then
        { t with poweralg.is_gauge_driver_ready := true } else t) := by
    intro t ht
    split_ifs
    · exact ht
    · exact ht
  have h4 := h3 s1 h1
  generalize (if s1.poweralg.charge_state ≠ ChargeState.CHARGE_STATE_UNKNOWN then
        { s1 with poweralg.is_gauge_driver_ready := true } else s1) = s2 at h4 ⊢
  split_ifs
  · exact __update_capacity_in_range _ _
  · exact h4

theorem start_ktime_check_charge_state (now : Int) (s : State) :
    (start_ktime_check now s).poweralg.charge_state = s.poweralg.charge_state := by
  unfold start_ktime_check; split_ifs <;> rfl

theorem start_ktime_check_is_cable_in (now : Int) (s : State) :
    (start_ktime_check now s).poweralg.is_cable_in = s.poweralg.is_cable_in := by
  unfold start_ktime_check; split_ifs <;> rfl

theorem start_ktime_check_protect_flags (now : Int) (s : State) :
    (start_ktime_check now s).poweralg.protect_flags = s.poweralg.protect_flags := by
  unfold start_ktime_check; split_ifs <;> rfl

theorem start_ktime_check_config (now : Int) (s : State) :
    (start_ktime_check now s).config = s.config := by
  unfold start_ktime_check; split_ifs <;> rfl

theorem start_ktime_check_battery (now : Int) (s : State) :
    (start_ktime_check now s).poweralg.battery = s.poweralg.battery := by
  unfold start_ktime_check; split_ifs <;> rfl

theorem start_ktime_check_capacity (now : Int) (s : State) :
    (start_ktime_check now s).poweralg.capacity_01p = s.poweralg.capacity_01p := by
  unfold start_ktime_check; split_ifs <;> rfl

theorem start_ktime_check_state_change_log (now : Int) (s : State) :
    (start_ktime_check now s).state_change_log = s.state_change_log := by
  unfold start_ktime_check; split_ifs <;> rfl

theorem start_ktime_check_terminate_condition (now : Int) (s : State) :
    terminate_condition (start_ktime_check now s) = terminate_condition s := by
  unfold start_ktime_check; split_ifs <;> rfl

theorem state_transition_start_ktime (p : Platform) (i : CycleInput) (s : State)
    (next : ChargeState) :
    (state_transition p i s next).poweralg.start_ktime = i.now := by
  unfold state_transition state_init
  cases next <;> rfl

/-- The handler's counter and capacity outside FULL_WAIT_STABLE. -/
theorem state_handler_count_charging_full_condition (now : Int) (s : State)
    (h : s.poweralg.charge_state ≠ CHARGE_STATE_FULL_WAIT_STABLE) :
    (state_handler now s).1.count_charging_full_condition = s.count_charging_full_condition := by
  unfold state_handler
  split <;> (try dsimp only) <;> (try split_ifs) <;> first | rfl | contradiction

theorem loop_body_state_change_log (p : Platform) (i : CycleInput) (s : State) :
    ∃ l, (loop_body p i s).1.state_change_log = s.state_change_log ++ l := by
  rw [loop_body_eq]
  split_ifs
  · exact ⟨_, by rw [state_transition_state_change_log, state_handler_state_change_log]⟩
  · exact ⟨[], by rw [state_handler_state_change_log, List.append_nil]⟩
  · exact ⟨_, by rw [state_transition_state_change_log]⟩

theorem transition_loop_state_change_log (p : Platform) (i : CycleInput) (n : Nat) :
    ∀ s : State, ∃ l, (transition_loop p i n s).state_change_log = s.state_change_log ++ l := by
  induction n with
  | zero => intro s; exact ⟨[], by rw [transition_loop_zero, List.append_nil]⟩
  | succ n ih =>
    intro s
    rw [transition_loop_succ]
    obtain ⟨l1, h1⟩ := loop_body_state_change_log p i s
    split_ifs
    · obtain ⟨l2, h2⟩ := ih (loop_body p i s).1
      exact ⟨l1 ++ l2, by rw [h2, h1, List.append_assoc]⟩
    · exact ⟨l1, h1⟩

/-! ### Passes of the loop body with the cable in and charging allowed -/

theorem loop_body_handler (p : Platform) (i : CycleInput) (s : State)
    (hu : s.poweralg.charge_state ≠ CHARGE_STATE_UNKNOWN)
    (hd : s.poweralg.charge_state ≠ CHARGE_STATE_DISCHARGE)
    (hc : s.poweralg.is_cable_in = true)
    (he : s.poweralg.protect_flags.is_charging_enable_available = true) :
    loop_body p i s =
      if (state_handler i.now s).2 ≠ s.poweralg.charge_state then
        (state_transition p i (state_handler i.now s).1 (state_handler i.now s).2, true)
      else ((state_handler i.now s).1, false) := by
  rw [loop_body_eq, next_state_by_cable_eq]
  cases h : s.poweralg.charge_state <;> simp [hc, he] <;> contradiction

theorem loop_body_CHARGING_hit (p : Platform) (i : CycleInput) (s : State)
    (h : s.poweralg.charge_state = CHARGE_STATE_CHARGING)
    (hc : s.poweralg.is_cable_in = true)
    (he : s.poweralg.protect_flags.is_charging_enable_available = true)
    (ht : terminate_condition s = true) :
    loop_body p i s =
      (state_transition p i (state_handler i.now s).1 CHARGE_STATE_FULL_WAIT_STABLE, true) := by
  rw [loop_body_handler p i s (by rw [h]; decide) (by rw [h]; decide) hc he,
    (state_handler_CHARGING i.now s h).1, if_pos ((terminate_condition_eq s).1 ht), h,
    if_pos (by decide)]

theorem loop_body_CHARGING_miss (p : Platform) (i : CycleInput) (s : State)
    (h : s.poweralg.charge_state = CHARGE_STATE_CHARGING)
    (hc : s.poweralg.is_cable_in = true)
    (he : s.poweralg.protect_flags.is_charging_enable_available = true)
    (ht : terminate_condition s = false) :
    loop_body p i s = ((state_handler i.now s).1, false) := by
  have ht' : ¬ (s.poweralg.battery.voltage_mV ≥ s.config.full_charging_mv ∧
      s.poweralg.battery.current_mA ≥ 0 ∧
      s.poweralg.battery.current_mA ≤ s.config.full_charging_ma ∧
      s.poweralg.capacity_01p > 930) := by
    rw [← terminate_condition_eq, ht]; decide
  rw [loop_body_handler p i s (by rw [h]; decide) (by rw [h]; decide) hc he,
    (state_handler_CHARGING i.now s h).1, if_neg ht', h, if_neg (by simp)]

theorem loop_body_FULL_WAIT_STABLE_hit (p : Platform) (i : CycleInput) (s : State)
    (h : s.poweralg.charge_state = CHARGE_STATE_FULL_WAIT_STABLE)
    (hc : s.poweralg.is_cable_in = true)
    (he : s.poweralg.protect_flags.is_charging_enable_available = true)
    (ht : terminate_condition s = true)
    (hk : s.count_charging_full_condition < 2) :
    loop_body p i s = ((state_handler i.now s).1, false) := by
  have hk' : ¬ UINT32 (s.count_charging_full_condition + 1) ≥ 3 := by
    unfold UINT32; omega
  rw [loop_body_handler p i s (by rw [h]; decide) (by rw [h]; decide) hc he,
    (state_handler_FULL_WAIT_STABLE i.now s h).1, ht, if_pos rfl, if_neg hk', h,
    if_neg (by simp)]

theorem loop_body_FULL_CHARGING_exit (p : Platform) (i : CycleInput) (s : State)
    (h : s.poweralg.charge_state = CHARGE_STATE_FULL_CHARGING)
    (hc : s.poweralg.is_cable_in = true)
    (he : s.poweralg.protect_flags.is_charging_enable_available = true)
    (hv : s.poweralg.battery.voltage_mV < s.config.voltage_exit_full_mv) :
    loop_body p i s =
      (state_transition p i (state_handler i.now s).1 CHARGE_STATE_CHARGING, true) := by
  rw [loop_body_handler p i s (by rw [h]; decide) (by rw [h]; decide) hc he,
    (state_handler_FULL_CHARGING i.now s h).1, if_pos hv, h, if_pos (by decide)]

theorem terminate_condition_congr (s t : State) (hcfg : t.config = s.config)
    (hv : t.poweralg.battery.voltage_mV = s.poweralg.battery.voltage_mV)
    (hc : t.poweralg.battery.current_mA = s.poweralg.battery.current_mA)
    (hcap : t.poweralg.capacity_01p > 930 ↔ s.poweralg.capacity_01p > 930) :
    terminate_condition t = terminate_condition s := by
  rw [Bool.eq_iff_iff, terminate_condition_eq, terminate_condition_eq, hcfg, hv, hc, hcap]

/-- From FULL_WAIT_STABLE with fewer than two hits counted, a further hit
leaves the state where it is and counts the hit. -/
theorem transition_loop_FULL_WAIT_STABLE_hit (p : Platform) (i : CycleInput) (n : Nat)
    (s : State) (h : s.poweralg.charge_state = CHARGE_STATE_FULL_WAIT_STABLE)
    (hc : s.poweralg.is_cable_in = true)
    (he : s.poweralg.protect_flags.is_charging_enable_available = true)
    (ht : terminate_condition s = true)
    (hk : s.count_charging_full_condition < 2) :
    (transition_loop p i (n + 1) s).poweralg.charge_state = CHARGE_STATE_FULL_WAIT_STABLE ∧
      (transition_loop p i (n + 1) s).count_charging_full_condition =
        s.count_charging_full_condition + 1 ∧
      (transition_loop p i (n + 1) s).poweralg.capacity_01p = s.poweralg.capacity_01p := by
  have hk' : ¬ UINT32 (s.count_charging_full_condition + 1) ≥ 3 := by
    unfold UINT32; omega
  obtain ⟨-, h2, h3⟩ := state_handler_FULL_WAIT_STABLE i.now s h
  rw [transition_loop_succ, loop_body_FULL_WAIT_STABLE_hit p i s h hc he ht hk]
  simp only [Bool.false_eq_true, if_false]
  refine ⟨by rw [state_handler_charge_state, h], ?_, ?_⟩
  · rw [h3, ht, if_pos rfl]; unfold UINT32; omega
  · rw [h2, if_neg (fun hh => hk' hh.2)]

/-- From CHARGING with the terminate condition met, the loop moves to
FULL_WAIT_STABLE and counts the first hit there. -/
theorem transition_loop_CHARGING_hit (p : Platform) (i : CycleInput) (n : Nat)
    (s : State) (h : s.poweralg.charge_state = CHARGE_STATE_CHARGING)
    (hc : s.poweralg.is_cable_in = true)
    (he : s.poweralg.protect_flags.is_charging_enable_available = true)
    (ht : terminate_condition s = true) :
    (transition_loop p i (n + 2) s).poweralg.charge_state = CHARGE_STATE_FULL_WAIT_STABLE ∧
      (transition_loop p i (n + 2) s).count_charging_full_condition = 1 ∧
      (transition_loop p i (n + 2) s).poweralg.capacity_01p =
        min s.poweralg.capacity_01p 990 := by
  have hs := state_handler_charge_state i.now s
  have hp : (state_handler i.now s).1.poweralg.charge_state ≠ CHARGE_STATE_PREDICTION := by
    rw [hs, h]; decide
  have hu : (state_handler i.now s).1.poweralg.charge_state ≠ CHARGE_STATE_UNKNOWN := by
    rw [hs, h]; decide
  have h3 := (state_handler_CHARGING i.now s h).2
  have h930 := ((terminate_condition_eq s).1 ht).2.2.2
  rw [transition_loop_succ, loop_body_CHARGING_hit p i s h hc he ht]
  simp only [if_true]
  have key := transition_loop_FULL_WAIT_STABLE_hit p i n
    (state_transition p i (state_handler i.now s).1 CHARGE_STATE_FULL_WAIT_STABLE) rfl
    (by rw [state_transition_is_cable_in, state_handler_is_cable_in]; exact hc)
    (by rw [state_transition_protect_flags p i _ _ hp, state_handler_protect_flags]; exact he)
    (by
      rw [terminate_condition_congr s _
        (by rw [state_transition_config, state_handler_config])
        (by rw [state_transition_voltage_mV p i _ _ hp, state_handler_battery])
        (by rw [state_transition_current_mA p i _ _ hp, state_handler_battery])
        (by rw [state_transition_capacity p i _ _ hp hu, h3]; omega)]
      exact ht)
    (by rw [state_transition_count_charging_full_condition, if_pos rfl]; decide)
  refine ⟨key.1, ?_, ?_⟩
  · rw [key.2.1, state_transition_count_charging_full_condition, if_pos rfl]
  · rw [key.2.2, state_transition_capacity p i _ _ hp hu, h3]

/-- After FULL_CHARGING is left for a voltage below the exit level, the rest of
the loop keeps the capped capacity and rests in CHARGING, or in
FULL_WAIT_STABLE when the terminate condition is met. -/
theorem transition_loop_FULL_CHARGING_exit (p : Platform) (i : CycleInput) (n : Nat)
    (s : State) (h : s.poweralg.charge_state = CHARGE_STATE_FULL_CHARGING)
    (hc : s.poweralg.is_cable_in = true)
    (he : s.poweralg.protect_flags.is_charging_enable_available = true)
    (hv : s.poweralg.battery.voltage_mV < s.config.voltage_exit_full_mv) :
    (transition_loop p i (n + 3) s).poweralg.capacity_01p = min s.poweralg.capacity_01p 990 ∧
      (transition_loop p i (n + 3) s).poweralg.charge_state =
        (if terminate_condition s then CHARGE_STATE_FULL_WAIT_STABLE
          else CHARGE_STATE_CHARGING) := by
  have hs := state_handler_charge_state i.now s
  have hp : (state_handler i.now s).1.poweralg.charge_state ≠ CHARGE_STATE_PREDICTION := by
    rw [hs, h]; decide
  have hu : (state_handler i.now s).1.poweralg.charge_state ≠ CHARGE_STATE_UNKNOWN := by
    rw [hs, h]; decide
  have h3 := (state_handler_FULL_CHARGING i.now s h).2
  rw [if_pos hv] at h3
  rw [transition_loop_succ, loop_body_FULL_CHARGING_exit p i s h hc he hv]
  simp only [if_true]
  generalize hs1 : state_transition p i (state_handler i.now s).1 CHARGE_STATE_CHARGING = s1
  have c1 : s1.poweralg.charge_state = CHARGE_STATE_CHARGING := by rw [← hs1]; rfl
  have c2 : s1.poweralg.is_cable_in = true := by
    rw [← hs1, state_transition_is_cable_in, state_handler_is_cable_in]; exact hc
  have c3 : s1.poweralg.protect_flags.is_charging_enable_available = true := by
    rw [← hs1, state_transition_protect_flags p i _ _ hp, state_handler_protect_flags]
    exact he
  have c4 : s1.poweralg.capacity_01p = min s.poweralg.capacity_01p 990 := by
    rw [← hs1, state_transition_capacity p i _ _ hp hu, h3]
  have c5 : terminate_condition s1 = terminate_condition s := by
    apply terminate_condition_congr
    · rw [← hs1, state_transition_config, state_handler_config]
    · rw [← hs1, state_transition_voltage_mV p i _ _ hp, state_handler_battery]
    · rw [← hs1, state_transition_current_mA p i _ _ hp, state_handler_battery]
    · rw [c4]; omega
  cases ht : terminate_condition s
  · rw [ht] at c5
    rw [transition_loop_succ, loop_body_CHARGING_miss p i s1 c1 c2 c3 c5]
    simp only [Bool.false_eq_true, if_false]
    refine ⟨?_, by rw [state_handler_charge_state, c1]⟩
    rw [(state_handler_CHARGING i.now s1 c1).2, c4]
    omega
  · rw [ht] at c5
    obtain ⟨k1, -, k3⟩ := transition_loop_CHARGING_hit p i n s1 c1 c2 c3 c5
    simp only [if_true]
    refine ⟨?_, k1⟩
    rw [k3, c4]
    omega

/-! ### The handlers of PREDICTION and of the overload counter, the log of the loop, a second run -/

theorem state_handler_next_ne_PREDICTION (now : Int) (s : State)
    (h : s.poweralg.charge_state ≠ CHARGE_STATE_PREDICTION) :
    (state_handler now s).2 ≠ CHARGE_STATE_PREDICTION := by
  unfold state_handler
  split <;> (try dsimp only) <;> (try split_ifs) <;>
    first | contradiction | exact h | (intro hh; cases hh)

theorem next_state_by_cable_ne_PREDICTION (s : State)
    (h : s.poweralg.charge_state ≠ CHARGE_STATE_PREDICTION) :
    next_state_by_cable s ≠ CHARGE_STATE_PREDICTION := by
  rw [next_state_by_cable_eq]
  split <;> (try split_ifs) <;> first | contradiction | exact h | (intro hh; cases hh)

theorem loop_body_ne_PREDICTION (p : Platform) (i : CycleInput) (s : State)
    (h : s.poweralg.charge_state ≠ CHARGE_STATE_PREDICTION) :
    (loop_body p i s).1.poweralg.charge_state ≠ CHARGE_STATE_PREDICTION := by
  rw [loop_body_eq]
  split_ifs
  · exact state_handler_next_ne_PREDICTION i.now s h
  · dsimp only; rw [state_handler_charge_state]; exact h
  · exact next_state_by_cable_ne_PREDICTION s h

theorem transition_loop_ne_PREDICTION (p : Platform) (i : CycleInput) (n : Nat) :
    ∀ s : State, s.poweralg.charge_state ≠ CHARGE_STATE_PREDICTION →
      (transition_loop p i n s).poweralg.charge_state ≠ CHARGE_STATE_PREDICTION := by
  induction n with
  | zero => intro s h; exact h
  | succ n ih =>
    intro s h
    rw [transition_loop_succ]
    split_ifs
    · exact ih _ (loop_body_ne_PREDICTION p i s h)
    · exact loop_body_ne_PREDICTION p i s h

theorem state_handler_PREDICTION_eq (now : Int) (s : State)
    (h : s.poweralg.charge_state = CHARGE_STATE_PREDICTION) :
    state_handler now s =
      if MSPERIOD now s.poweralg.start_ktime ≥ 50 * 1000 then
        ({ s with poweralg.start_ktime := now }, CHARGE_STATE_PREDICTION)
      else if MSPERIOD now s.poweralg.start_ktime ≥
          INT32_of_int (s.config.predict_timeout_sec * 1000) then
        (s, CHARGE_STATE_UNKNOWN)
      else (s, CHARGE_STATE_PREDICTION) := by
  unfold state_handler
  rw [h]

theorem loop_body_PREDICTION (p : Platform) (i : CycleInput) (s : State)
    (h : s.poweralg.charge_state = CHARGE_STATE_PREDICTION) :
    loop_body p i s =
      if MSPERIOD i.now s.poweralg.start_ktime ≥ 50 * 1000 then
        ({ s with poweralg.start_ktime := i.now }, false)
      else if MSPERIOD i.now s.poweralg.start_ktime ≥
          INT32_of_int (s.config.predict_timeout_sec * 1000) then
        (state_transition p i s CHARGE_STATE_UNKNOWN, true)
      else (s, false) := by
  rw [loop_body_eq, next_state_by_cable_eq, h, state_handler_PREDICTION_eq i.now s h]
  dsimp only
  rw [if_pos rfl]
  split_ifs <;> first | rfl | contradiction | simp_all

theorem state_handler_PREDICTION_next (now : Int) (s : State)
    (h : s.poweralg.charge_state = CHARGE_STATE_PREDICTION) :
    (state_handler now s).2 =
      if MSPERIOD now s.poweralg.start_ktime ≥ 50 * 1000 then CHARGE_STATE_PREDICTION
      else if MSPERIOD now s.poweralg.start_ktime ≥
          INT32_of_int (s.config.predict_timeout_sec * 1000) then
        CHARGE_STATE_UNKNOWN
      else CHARGE_STATE_PREDICTION := by
  rw [state_handler_PREDICTION_eq now s h]
  split_ifs <;> rfl

theorem state_handler_PREDICTION_start_ktime (now : Int) (s : State)
    (h : s.poweralg.charge_state = CHARGE_STATE_PREDICTION) :
    (state_handler now s).1.poweralg.start_ktime =
      if MSPERIOD now s.poweralg.start_ktime ≥ 50 * 1000 then now
      else s.poweralg.start_ktime := by
  rw [state_handler_PREDICTION_eq now s h]
  split_ifs <;> rfl

theorem state_handler_CHARGING_over_load (now : Int) (s : State)
    (h : s.poweralg.charge_state = CHARGE_STATE_CHARGING) :
    (state_handler now s).1.count_charge_over_load =
        (if s.poweralg.battery.current_mA ≤ 0 then
          if s.count_charge_over_load < 5 then UINT32 (s.count_charge_over_load + 1)
          else s.count_charge_over_load
        else 0) ∧
      (state_handler now s).1.poweralg.is_charge_over_load =
        (if s.poweralg.battery.current_mA ≤ 0 then
          if s.count_charge_over_load < 5 then s.poweralg.is_charge_over_load else true
        else false) := by
  unfold state_handler
  rw [h]
  dsimp only
  constructor <;> split_ifs <;> rfl

theorem state_handler_runs_over_load (now : Int) (n : Nat) :
    ∀ (k : Nat) (s : State), s.poweralg.charge_state = CHARGE_STATE_CHARGING →
      s.poweralg.battery.current_mA ≤ 0 →
      s.count_charge_over_load = min k 5 →
      s.poweralg.is_charge_over_load = decide (6 ≤ k) →
      (state_handler_runs now n s).count_charge_over_load = min (k + n) 5 ∧
        (state_handler_runs now n s).poweralg.is_charge_over_load = decide (6 ≤ k + n) := by
  induction n with
  | zero => intro k s _ _ hk hf; exact ⟨hk, hf⟩
  | succ n ih =>
    intro k s h hc hk hf
    obtain ⟨h1, h2⟩ := state_handler_CHARGING_over_load now s h
    rw [if_pos hc] at h1 h2
    have key := ih (k + 1) (state_handler now s).1
      (by rw [state_handler_charge_state]; exact h)
      (by rw [state_handler_battery]; exact hc)
      (by
        rw [h1, hk]
        unfold UINT32
        split_ifs <;> omega)
      (by
        rw [h2, hk, hf]
        split_ifs with h5
        · have : k < 5 := by omega
          simp; omega
        · have : 5 ≤ k := by omega
          simp; omega)
    have e : k + (n + 1) = k + 1 + n := by omega
    rw [e]
    exact key

theorem loop_settles_succ (p : Platform) (i : CycleInput) (n : Nat) (s : State) :
    loop_settles p i (n + 1) s =
      if (loop_body p i s).2 then loop_settles p i n (loop_body p i s).1 else true := rfl

theorem loop_passes_succ (p : Platform) (i : CycleInput) (n : Nat) (s : State) :
    loop_passes p i (n + 1) s =
      if (loop_body p i s).2 then 1 + loop_passes p i n (loop_body p i s).1 else 1 := rfl

theorem loop_body_state_change_log_eq (p : Platform) (i : CycleInput) (s : State) :
    (loop_body p i s).1.state_change_log =
      s.state_change_log ++
        (if (loop_body p i s).2 then
          [(s.poweralg.charge_state, (loop_body p i s).1.poweralg.charge_state)]
        else []) := by
  rw [loop_body_eq]
  by_cases h1 : next_state_by_cable s = s.poweralg.charge_state
  · rw [if_pos h1]
    by_cases h2 : (state_handler i.now s).2 ≠ s.poweralg.charge_state
    · rw [if_pos h2]
      dsimp only
      rw [if_pos rfl, state_transition_state_change_log, state_handler_state_change_log,
        state_handler_charge_state, state_transition_charge_state]
    · rw [if_neg h2]
      dsimp only
      rw [if_neg (by decide), state_handler_state_change_log, List.append_nil]
  · rw [if_neg h1]
    dsimp only
    rw [if_pos rfl, state_transition_state_change_log, state_transition_charge_state]

theorem loop_body_moves (p : Platform) (i : CycleInput) (s : State)
    (h : (loop_body p i s).2 = true) :
    (loop_body p i s).1.poweralg.charge_state ≠ s.poweralg.charge_state := by
  rw [loop_body_eq] at h ⊢
  by_cases h1 : next_state_by_cable s = s.poweralg.charge_state
  · rw [if_pos h1] at h ⊢
    by_cases h2 : (state_handler i.now s).2 ≠ s.poweralg.charge_state
    · rw [if_pos h2]
      exact h2
    · rw [if_neg h2] at h
      exact Bool.noConfusion h
  · rw [if_neg h1]
    exact h1

theorem loop_body_rests (p : Platform) (i : CycleInput) (s : State)
    (h : (loop_body p i s).2 = false) :
    next_state_by_cable s = s.poweralg.charge_state ∧
      (state_handler i.now s).2 = s.poweralg.charge_state ∧
      (loop_body p i s).1 = (state_handler i.now s).1 := by
  rw [loop_body_eq] at h ⊢
  by_cases h1 : next_state_by_cable s = s.poweralg.charge_state
  · rw [if_pos h1] at h ⊢
    by_cases h2 : (state_handler i.now s).2 ≠ s.poweralg.charge_state
    · rw [if_pos h2] at h
      exact Bool.noConfusion h
    · rw [if_neg h2]
      exact ⟨h1, not_not.1 h2, rfl⟩
  · rw [if_neg h1] at h
    exact Bool.noConfusion h

/-- The log of the transition loop: the new entries number at most the passes
executed; a loop that comes to rest executes one pass more than it logs, a
loop that does not uses all its passes and logs one entry for each. -/
theorem transition_loop_log_length (p : Platform) (i : CycleInput) (n : Nat) :
    ∀ s : State, ∃ l,
      (transition_loop p i n s).state_change_log = s.state_change_log ++ l ∧
        loop_passes p i n s ≤ n ∧
        (loop_settles p i n s = true → l.length + 1 = loop_passes p i n s) ∧
        (loop_settles p i n s = false → l.length = n ∧ loop_passes p i n s = n) := by
  induction n with
  | zero =>
    intro s
    exact ⟨[], by rw [transition_loop_zero, List.append_nil], Nat.le_refl _,
      fun h => Bool.noConfusion h, fun _ => ⟨rfl, rfl⟩⟩
  | succ n ih =>
    intro s
    have hl := loop_body_state_change_log_eq p i s
    rw [transition_loop_succ, loop_settles_succ, loop_passes_succ]
    cases hm : (loop_body p i s).2
    · rw [hm] at hl
      simp only [Bool.false_eq_true, if_false] at hl ⊢
      exact ⟨[], by rw [hl, List.append_nil], by omega, fun _ => rfl,
        fun h => Bool.noConfusion h⟩
    · rw [hm] at hl
      simp only [if_true] at hl ⊢
      obtain ⟨l, h1, h2, h3, h4⟩ := ih (loop_body p i s).1
      refine ⟨(s.poweralg.charge_state, (loop_body p i s).1.poweralg.charge_state) :: l,
        ?_, by omega, ?_, ?_⟩
      · rw [h1, hl, List.append_assoc]; rfl
      · intro h; have := h3 h; simp only [List.length_cons]; omega
      · intro h; have := h4 h; simp only [List.length_cons]; omega

theorem transition_loop_exhausted (p : Platform) (i : CycleInput) (n : Nat) :
    ∀ s : State, loop_settles p i (n + 1) s = false →
      ∃ t : State, (loop_body p i t).2 = true ∧
        transition_loop p i (n + 1) s = (loop_body p i t).1 := by
  induction n with
  | zero =>
    intro s h
    rw [loop_settles_succ] at h
    rw [transition_loop_succ]
    cases hm : (loop_body p i s).2
    · rw [hm, if_neg (by decide)] at h
      exact Bool.noConfusion h
    · rw [if_pos rfl, transition_loop_zero]
      exact ⟨s, hm, rfl⟩
  | succ n ih =>
    intro s h
    rw [loop_settles_succ] at h
    rw [transition_loop_succ]
    cases hm : (loop_body p i s).2
    · rw [hm, if_neg (by decide)] at h
      exact Bool.noConfusion h
    · rw [hm, if_pos rfl] at h
      rw [if_pos rfl]
      exact ih _ h

/-- Every entry the transition loop logs is a change of state. -/
theorem transition_loop_log_moves (p : Platform) (i : CycleInput) (n : Nat) :
    ∀ s : State, ∃ l,
      (transition_loop p i n s).state_change_log = s.state_change_log ++ l ∧
        ∀ e ∈ l, e.1 ≠ e.2 := by
  induction n with
  | zero =>
    intro s
    exact ⟨[], by rw [transition_loop_zero, List.append_nil], fun e he => by cases he⟩
  | succ n ih =>
    intro s
    have hl := loop_body_state_change_log_eq p i s
    rw [transition_loop_succ]
    cases hm : (loop_body p i s).2
    · rw [hm] at hl
      simp only [Bool.false_eq_true, if_false] at hl ⊢
      exact ⟨[], by rw [hl, List.append_nil], fun e he => by cases he⟩
    · rw [hm] at hl
      simp only [if_true] at hl ⊢
      obtain ⟨l, h1, h2⟩ := ih (loop_body p i s).1
      refine ⟨(s.poweralg.charge_state, (loop_body p i s).1.poweralg.charge_state) :: l,
        ?_, ?_⟩
      · rw [h1, hl, List.append_assoc]; rfl
      · intro e he
        rcases List.mem_cons.1 he with he | he
        · rw [he]
          exact fun hh => loop_body_moves p i s hm hh.symm
        · exact h2 e he

theorem state_handler_start_ktime_le (now : Int) (s : State)
    (h : s.poweralg.start_ktime ≤ now) : (state_handler now s).1.poweralg.start_ktime ≤ now := by
  unfold state_handler
  split <;> dsimp only <;> (try split_ifs) <;> first | exact h | exact le_refl _

theorem loop_body_start_ktime_le (p : Platform) (i : CycleInput) (s : State)
    (h : s.poweralg.start_ktime ≤ i.now) : (loop_body p i s).1.poweralg.start_ktime ≤ i.now := by
  rw [loop_body_eq]
  split_ifs
  · dsimp only; rw [state_transition_start_ktime]
  · exact state_handler_start_ktime_le i.now s h
  · dsimp only; rw [state_transition_start_ktime]

theorem start_ktime_check_start_ktime_le (now : Int) (s : State) :
    (start_ktime_check now s).poweralg.start_ktime ≤ now := by
  unfold start_ktime_check MSPERIOD
  split_ifs with h
  · exact le_refl _
  · omega

theorem start_ktime_check_of_le (now : Int) (s : State) (h : s.poweralg.start_ktime ≤ now) :
    start_ktime_check now s = s := by
  unfold start_ktime_check MSPERIOD
  rw [if_neg (by omega)]

/-- A transition loop that comes to rest returns what its last pass, a pass
that ended in `break`, left. -/
theorem transition_loop_rest (p : Platform) (i : CycleInput) (n : Nat) :
    ∀ s : State, loop_settles p i n s = true → s.poweralg.start_ktime ≤ i.now →
      ∃ t : State, t.poweralg.start_ktime ≤ i.now ∧ (loop_body p i t).2 = false ∧
        transition_loop p i n s = (loop_body p i t).1 := by
  induction n with
  | zero => intro s h; exact Bool.noConfusion h
  | succ n ih =>
    intro s h hs
    rw [loop_settles_succ] at h
    rw [transition_loop_succ]
    cases hm : (loop_body p i s).2
    · rw [if_neg (by decide)]
      exact ⟨s, hs, hm, rfl⟩
    · rw [hm, if_pos rfl] at h
      rw [if_pos rfl]
      exact ih _ h (loop_body_start_ktime_le p i s hs)

theorem next_state_by_cable_congr (s t : State)
    (h1 : t.poweralg.charge_state = s.poweralg.charge_state)
    (h2 : t.poweralg.is_cable_in = s.poweralg.is_cable_in)
    (h3 : t.poweralg.protect_flags = s.poweralg.protect_flags) :
    next_state_by_cable t = next_state_by_cable s := by
  rw [next_state_by_cable_eq, next_state_by_cable_eq, h1, h2, h3]

theorem state_handler_FULL_CHARGING_keep (now : Int) (s : State)
    (h : s.poweralg.charge_state = CHARGE_STATE_FULL_CHARGING)
    (hv : s.poweralg.battery.voltage_mV ≥ s.config.voltage_exit_full_mv) :
    (state_handler now s).1 = s := by
  unfold state_handler
  rw [h]
  dsimp only
  rw [if_neg (not_lt.2 hv)]
  split_ifs <;> rfl

theorem state_handler_FULL_RECHARGING_keep (now : Int) (s : State)
    (h : s.poweralg.charge_state = CHARGE_STATE_FULL_RECHARGING)
    (hv : s.poweralg.battery.voltage_mV ≥ s.config.voltage_exit_full_mv) :
    (state_handler now s).1 = s := by
  unfold state_handler
  rw [h]
  dsimp only
  rw [if_neg (not_lt.2 hv)]
  split_ifs <;> rfl

/-- A handler that stayed in its state stays there when it is run again on
what it left, under the same clock. -/
theorem state_handler_rerun (now : Int) (t : State)
    (hstay : (state_handler now t).2 = t.poweralg.charge_state)
    (hw : t.poweralg.charge_state = CHARGE_STATE_FULL_WAIT_STABLE →
      (state_handler now t).1.count_charging_full_condition < 2)
    (hp : t.poweralg.charge_state = CHARGE_STATE_PREDICTION →
      INT32_of_int (t.config.predict_timeout_sec * 1000) > 0) :
    (state_handler now (state_handler now t).1).2 = t.poweralg.charge_state := by
  have hu := state_handler_charge_state now t
  have hb := state_handler_battery now t
  have hcfg := state_handler_config now t
  have hcab := state_handler_is_cable_in now t
  have hfl := state_handler_protect_flags now t
  cases h : t.poweralg.charge_state
  case CHARGE_STATE_UNKNOWN =>
    rw [state_handler_UNKNOWN now t h, state_handler_UNKNOWN now t h]
  case CHARGE_STATE_PREDICTION =>
    have hp := hp h
    rw [h] at hu hstay
    rw [state_handler_PREDICTION_next now t h] at hstay
    rw [state_handler_PREDICTION_next now _ hu, state_handler_PREDICTION_start_ktime now t h,
      hcfg]
    by_cases h1 : MSPERIOD now t.poweralg.start_ktime ≥ 50 * 1000
    · rw [if_pos h1]
      have e0 : MSPERIOD now now = 0 := by unfold MSPERIOD; omega
      rw [e0, if_neg (by omega), if_neg (by omega)]
    · rw [if_neg h1] at hstay
      rw [if_neg h1, if_neg h1]
      exact hstay
  case CHARGE_STATE_CHARGING =>
    rw [h] at hu hstay
    have n1 := state_handler_CHARGING now t h
    have n2 := state_handler_CHARGING now _ hu
    rw [n1.1] at hstay
    rw [n2.1, hb, hcfg, n1.2]
    by_cases hc : t.poweralg.battery.voltage_mV ≥ t.config.full_charging_mv ∧
        t.poweralg.battery.current_mA ≥ 0 ∧
        t.poweralg.battery.current_mA ≤ t.config.full_charging_ma ∧
        t.poweralg.capacity_01p > 930
    · rw [if_pos hc] at hstay
      exact absurd hstay (by decide)
    · rw [if_neg]
      intro hh
      apply hc
      refine ⟨hh.1, hh.2.1, hh.2.2.1, ?_⟩
      have := hh.2.2.2
      omega
  case CHARGE_STATE_PENDING =>
    rw [h] at hu hstay
    rw [(state_handler_PENDING now t h).1] at hstay
    rw [(state_handler_PENDING now _ hu).1, hcab, hfl]
    exact hstay
  case CHARGE_STATE_FULL_WAIT_STABLE =>
    have hw := hw h
    rw [h] at hu hstay
    have n1 := state_handler_FULL_WAIT_STABLE now t h
    have n2 := state_handler_FULL_WAIT_STABLE now _ hu
    rw [n1.1] at hstay
    cases htc : terminate_condition t
    · rw [htc, if_neg (by decide)] at hstay
      exact absurd hstay (by decide)
    · rw [htc, if_pos rfl] at hstay
      by_cases h3 : UINT32 (t.count_charging_full_condition + 1) ≥ 3
      · rw [if_pos h3] at hstay
        exact absurd hstay (by decide)
      · have hcap : (state_handler now t).1.poweralg.capacity_01p = t.poweralg.capacity_01p := by
          rw [n1.2.1, if_neg (fun hh => h3 hh.2)]
        have htc2 : terminate_condition (state_handler now t).1 = true := by
          rw [terminate_condition_congr t _ hcfg (by rw [hb]) (by rw [hb]) (by rw [hcap]), htc]
        rw [n2.1, htc2, if_pos rfl, if_neg]
        unfold UINT32
        omega
  case CHARGE_STATE_FULL_CHARGING =>
    rw [h] at hu hstay
    have n1 := state_handler_FULL_CHARGING now t h
    rw [n1.1] at hstay
    by_cases hv : t.poweralg.battery.voltage_mV < t.config.voltage_exit_full_mv
    · rw [if_pos hv] at hstay
      exact absurd hstay (by decide)
    · rw [state_handler_FULL_CHARGING_keep now t h (not_lt.1 hv), n1.1]
      exact hstay
  case CHARGE_STATE_FULL_RECHARGING =>
    rw [h] at hu hstay
    have n1 := state_handler_FULL_RECHARGING now t h
    rw [n1.1] at hstay
    by_cases hv : t.poweralg.battery.voltage_mV < t.config.voltage_exit_full_mv
    · rw [if_pos hv] at hstay
      exact absurd hstay (by decide)
    · rw [state_handler_FULL_RECHARGING_keep now t h (not_lt.1 hv), n1.1]
      exact hstay
  case CHARGE_STATE_FULL_PENDING =>
    rw [(state_handler_FULL_PENDING now t h).2]
    rw [h] at hstay
    exact hstay
  case CHARGE_STATE_DISCHARGE =>
    rw [h] at hu hstay
    rw [(state_handler_DISCHARGE now t h).1] at hstay
    rw [(state_handler_DISCHARGE now _ hu).1, hcab, hfl]
    exact hstay

theorem is_over_temp_eq (battery : battery_type) :
    is_over_temp battery = true ↔ (battery.temp_01c < 0 ∨ battery.temp_01c ≥ 600) := by
  unfold is_over_temp over_low_temp_lock_01c over_high_temp_lock_01c
  split_ifs with h <;> simp [h]

theorem is_not_over_temp_eq (battery : battery_type) :
    is_not_over_temp battery = true ↔ (battery.temp_01c ≥ 30 ∧ battery.temp_01c < 570) := by
  unfold is_not_over_temp over_low_temp_release_01c over_high_temp_release_01c
  split_ifs with h <;> simp [h]

/-- The two charging allowances after `__protect_flags_update` on a board
without strategy. -/
theorem __protect_flags_update_built_in (p : Platform) (battery : battery_type)
    (flags : protect_flags_type) (hb : p.func_update_charging_protect_flag = none) :
    (__protect_flags_update p battery flags).is_charging_enable_available =
        (if is_over_temp battery then false
          else if is_not_over_temp battery then true
          else flags.is_charging_enable_available) ∧
      (__protect_flags_update p battery flags).is_charging_high_current_avaialble =
        (if is_over_temp battery then false
          else if is_not_over_temp battery then true
          else flags.is_charging_high_current_avaialble) := by
  unfold __protect_flags_update
  rw [hb]
  dsimp only
  constructor <;> split_ifs <;> rfl

/-! ### The protection flags, the bounding latch, the charger commands, the sampling cycle -/

theorem __protect_flags_update_is_battery_dead (p : Platform) (battery : battery_type)
    (flags : protect_flags_type) :
    (__protect_flags_update p battery flags).is_battery_dead =
      if battery.voltage_mV < BATTERY_DEAD_VOLTAGE_LEVEL then true
      else if battery.voltage_mV > BATTERY_DEAD_VOLTAGE_RELEASE then false
      else flags.is_battery_dead := by
  unfold __protect_flags_update
  cases p.func_update_charging_protect_flag <;> dsimp only <;> split_ifs <;> rfl

theorem state_transition_entry_DISCHARGE_PENDING (p : Platform) (i : CycleInput) (s : State)
    (next : ChargeState)
    (h : next = CHARGE_STATE_DISCHARGE ∨ next = CHARGE_STATE_PENDING) :
    (state_transition p i s next).poweralg.fst_discharge_capacity_01p =
        (state_transition p i s next).poweralg.capacity_01p ∧
      (state_transition p i s next).poweralg.is_voltage_stable = false := by
  rcases h with h | h <;> rw [h] <;> exact ⟨rfl, rfl⟩

theorem state_transition_entry_CHARGING (p : Platform) (i : CycleInput) (s : State) :
    (state_transition p i s CHARGE_STATE_CHARGING).count_charge_over_load = 0 ∧
      (state_transition p i s CHARGE_STATE_CHARGING).poweralg.is_charge_over_load = false ∧
      (state_transition p i s CHARGE_STATE_CHARGING).poweralg.is_software_charger_timeout =
        false ∧
      (state_transition p i s CHARGE_STATE_CHARGING).poweralg.is_need_toggle_charger = false ∧
      (state_transition p i s CHARGE_STATE_CHARGING).poweralg.battery.charge_full_real_mAh =
        (state_transition p i s
          CHARGE_STATE_CHARGING).poweralg.battery.charge_full_design_mAh :=
  ⟨rfl, rfl, rfl, rfl, rfl⟩

theorem state_transition_entry_FULL_WAIT_STABLE (p : Platform) (i : CycleInput) (s : State) :
    (state_transition p i s CHARGE_STATE_FULL_WAIT_STABLE).count_charging_full_condition = 0 :=
  rfl

/-- A pass of the loop body that ends in `continue` made one transition. -/
theorem loop_body_moved_eq (p : Platform) (i : CycleInput) (s : State)
    (h : (loop_body p i s).2 = true) :
    ∃ t : State, ∃ next : ChargeState, (loop_body p i s).1 = state_transition p i t next := by
  rw [loop_body_eq] at h ⊢
  by_cases h1 : next_state_by_cable s = s.poweralg.charge_state
  · rw [if_pos h1] at h ⊢
    by_cases h2 : (state_handler i.now s).2 ≠ s.poweralg.charge_state
    · rw [if_pos h2]
      exact ⟨_, _, rfl⟩
    · rw [if_neg h2] at h
      exact Bool.noConfusion h
  · rw [if_neg h1]
    exact ⟨_, _, rfl⟩

theorem charging_gate_frame_refl (s : State) : charging_gate_frame s s :=
  ⟨rfl, rfl, rfl, rfl, rfl, rfl, rfl, rfl⟩

theorem charging_gate_frame_trans (s t u : State) (h1 : charging_gate_frame s t)
    (h2 : charging_gate_frame t u) : charging_gate_frame s u := by
  obtain ⟨a1, a2, a3, a4, a5, a6, a7, a8⟩ := h1
  obtain ⟨b1, b2, b3, b4, b5, b6, b7, b8⟩ := h2
  exact ⟨b1.trans a1, b2.trans a2, b3.trans a3, b4.trans a4, b5.trans a5, b6.trans a6,
    b7.trans a7, b8.trans a8⟩

theorem max17050_blocking_notify_gate_frame (p : Platform) (val : NotifyEvent) (s : State) :
    charging_gate_frame s (max17050_blocking_notify p val s) := by
  unfold max17050_blocking_notify
  split <;> (try split_ifs) <;> exact ⟨rfl, rfl, rfl, rfl, rfl, rfl, rfl, rfl⟩

theorem max17050_charger_control_gate_frame (p : Platform) (c : ChargerCtl) (s : State) :
    charging_gate_frame s (max17050_charger_control p c s) :=
  max17050_blocking_notify_gate_frame p _ s

theorem charging_time_count_gate_frame (p : Platform) (s : State) :
    charging_gate_frame s (charging_time_count p s) := by
  unfold charging_time_count
  dsimp only
  split_ifs <;> exact ⟨rfl, rfl, rfl, rfl, rfl, rfl, rfl, rfl⟩

theorem hw_safety_timer_watchdog_gate_frame (p : Platform) (s : State) :
    charging_gate_frame s (hw_safety_timer_watchdog p s) := by
  unfold hw_safety_timer_watchdog
  dsimp only
  split_ifs
  · exact charging_gate_frame_trans _ _ _ ⟨rfl, rfl, rfl, rfl, rfl, rfl, rfl, rfl⟩
      (max17050_charger_control_gate_frame p _ _)
  · exact charging_gate_frame_refl s
  · exact charging_gate_frame_refl s

theorem charger_enable_by_current_gate_frame (p : Platform) (s : State) :
    charging_gate_frame s (charger_enable_by_current p s) := by
  unfold charger_enable_by_current
  split_ifs <;> exact max17050_charger_control_gate_frame p _ s

theorem min_taper_current_control_gate_frame (p : Platform) (s : State) :
    charging_gate_frame s (min_taper_current_control p s) := by
  unfold min_taper_current_control
  split_ifs
  · exact max17050_charger_control_gate_frame p _ s
  · exact max17050_charger_control_gate_frame p _ s
  · exact charging_gate_frame_refl s

theorem is_high_current_charging_avaialable_congr (s t : State)
    (h : charging_gate_frame s t) :
    is_high_current_charging_avaialable t = is_high_current_charging_avaialable s := by
  obtain ⟨_, a2, a3, a4, a5, _, _, _⟩ := h
  unfold is_high_current_charging_avaialable
  rw [a2, a3, a4, a5]

theorem is_super_current_charging_avaialable_congr (s t : State)
    (h : charging_gate_frame s t) :
    is_super_current_charging_avaialable t = is_super_current_charging_avaialable s := by
  obtain ⟨_, _, _, _, _, a6, _, _⟩ := h
  unfold is_super_current_charging_avaialable
  rw [a6]

/-- A command among DISABLE and the three enable commands, sent for a known
battery outside PREDICTION, is `charging_enable` afterwards. -/
theorem max17050_charger_control_level (p : Platform) (cmd : ChargerCtl) (s : State)
    (hid : s.poweralg.battery.id_index ≠ p.BATTERY_ID_UNKNOWN)
    (hcs : s.poweralg.charge_state ≠ CHARGE_STATE_PREDICTION)
    (hcmd : cmd = ChargerCtl.DISABLE ∨ cmd = ChargerCtl.ENABLE_SLOW_CHG ∨
      cmd = ChargerCtl.ENABLE_FAST_CHG ∨ cmd = ChargerCtl.ENABLE_SUPER_CHG) :
    (max17050_charger_control p cmd s).poweralg.charging_enable = cmd := by
  have h1 : ¬ (s.poweralg.battery.id_index ≠ p.BATTERY_ID_UNKNOWN ∧
      (ChargerCtl.TOGGLE_CHARGER = cmd ∨ ChargerCtl.ENABLE_MIN_TAPER = cmd ∨
        ChargerCtl.DISABLE_MIN_TAPER = cmd)) := by
    rintro ⟨_, hh⟩
    rcases hcmd with h | h | h | h <;> rw [h] at hh <;> revert hh <;> decide
  unfold max17050_charger_control max17050_blocking_notify
  dsimp only
  rw [if_neg h1, if_pos ⟨hid, hcs⟩]
  split_ifs with h2 h3 h4
  · rfl
  · exact h3.1
  · rfl
  · rfl

/-- The DISABLE command leaves `charging_enable` DISABLE in every case. -/
theorem max17050_charger_control_DISABLE (p : Platform) (s : State) :
    (max17050_charger_control p ChargerCtl.DISABLE s).poweralg.charging_enable =
      ChargerCtl.DISABLE := by
  by_cases h : s.poweralg.battery.id_index ≠ p.BATTERY_ID_UNKNOWN ∧
      s.poweralg.charge_state ≠ CHARGE_STATE_PREDICTION
  · exact max17050_charger_control_level p _ s h.1 h.2 (Or.inl rfl)
  · unfold max17050_charger_control max17050_blocking_notify
    dsimp only
    rw [if_neg (fun hh => by rcases hh.2 with h3 | h3 | h3 <;> exact ChargerCtl.noConfusion h3),
      if_neg h]
    split_ifs with h2
    · exact h2
    · rfl

/-- The taper commands, sent for a known battery, leave `charging_enable` as
it is. -/
theorem max17050_charger_control_taper (p : Platform) (cmd : ChargerCtl) (s : State)
    (hid : s.poweralg.battery.id_index ≠ p.BATTERY_ID_UNKNOWN)
    (hcmd : cmd = ChargerCtl.ENABLE_MIN_TAPER ∨ cmd = ChargerCtl.DISABLE_MIN_TAPER) :
    (max17050_charger_control p cmd s).poweralg.charging_enable =
      s.poweralg.charging_enable := by
  have h1 : s.poweralg.battery.id_index ≠ p.BATTERY_ID_UNKNOWN ∧
      (ChargerCtl.TOGGLE_CHARGER = cmd ∨ ChargerCtl.ENABLE_MIN_TAPER = cmd ∨
        ChargerCtl.DISABLE_MIN_TAPER = cmd) := by
    refine ⟨hid, ?_⟩
    rcases hcmd with h | h <;> rw [h] <;> decide
  unfold max17050_charger_control max17050_blocking_notify
  dsimp only
  rw [if_pos h1]
  split_ifs <;> rfl

theorem is_charging_avaiable_known (p : Platform) (s : State)
    (h : is_charging_avaiable p s = true) :
    s.poweralg.battery.id_index ≠ p.BATTERY_ID_UNKNOWN ∧
      s.poweralg.charge_state ≠ CHARGE_STATE_PREDICTION := by
  simp only [is_charging_avaiable, is_charge_off_by_bounding_condition] at h
  constructor
  · intro h1
    simp [h1] at h
  · intro h1
    simp [h1] at h

/-- The command the third block leaves in `charging_enable`. -/
theorem charger_enable_by_current_charging_enable (p : Platform) (s : State)
    (hid : s.poweralg.battery.id_index ≠ p.BATTERY_ID_UNKNOWN)
    (hcs : s.poweralg.charge_state ≠ CHARGE_STATE_PREDICTION) :
    (charger_enable_by_current p s).poweralg.charging_enable =
      if is_high_current_charging_avaialable s then
        if is_super_current_charging_avaialable s then ChargerCtl.ENABLE_SUPER_CHG
        else ChargerCtl.ENABLE_FAST_CHG
      else ChargerCtl.ENABLE_SLOW_CHG := by
  unfold charger_enable_by_current
  split_ifs
  · exact max17050_charger_control_level p _ s hid hcs (Or.inr (Or.inr (Or.inr rfl)))
  · exact max17050_charger_control_level p _ s hid hcs (Or.inr (Or.inr (Or.inl rfl)))
  · exact max17050_charger_control_level p _ s hid hcs (Or.inr (Or.inl rfl))

theorem min_taper_current_control_charging_enable (p : Platform) (s : State)
    (hid : s.poweralg.battery.id_index ≠ p.BATTERY_ID_UNKNOWN) :
    (min_taper_current_control p s).poweralg.charging_enable = s.poweralg.charging_enable := by
  unfold min_taper_current_control
  split_ifs
  · exact max17050_charger_control_taper p _ s hid (Or.inl rfl)
  · exact max17050_charger_control_taper p _ s hid (Or.inr rfl)
  · rfl

/-- The available branch of `check_charging_function`: what it leaves in
`charging_enable`, and the fields it leaves alone. -/
theorem check_charging_function_available_branch (p : Platform) (s : State)
    (hid : s.poweralg.battery.id_index ≠ p.BATTERY_ID_UNKNOWN)
    (hcs : s.poweralg.charge_state ≠ CHARGE_STATE_PREDICTION) :
    (min_taper_current_control p
        (charger_enable_by_current p
          (hw_safety_timer_watchdog p (charging_time_count p s)))).poweralg.charging_enable =
        (if is_high_current_charging_avaialable s then
          if is_super_current_charging_avaialable s then ChargerCtl.ENABLE_SUPER_CHG
          else ChargerCtl.ENABLE_FAST_CHG
        else ChargerCtl.ENABLE_SLOW_CHG) ∧
      charging_gate_frame s
        (min_taper_current_control p
          (charger_enable_by_current p
            (hw_safety_timer_watchdog p (charging_time_count p s)))) := by
  have f1 := charging_time_count_gate_frame p s
  have f2 := charging_gate_frame_trans _ _ _ f1
    (hw_safety_timer_watchdog_gate_frame p (charging_time_count p s))
  generalize hw_safety_timer_watchdog p (charging_time_count p s) = s2 at f2
  have f3 := charging_gate_frame_trans _ _ _ f2 (charger_enable_by_current_gate_frame p s2)
  have hid2 : s2.poweralg.battery.id_index ≠ p.BATTERY_ID_UNKNOWN := by rw [f2.1]; exact hid
  have hcs2 : s2.poweralg.charge_state ≠ CHARGE_STATE_PREDICTION := by rw [f2.2.1]; exact hcs
  have e3 := charger_enable_by_current_charging_enable p s2 hid2 hcs2
  rw [is_high_current_charging_avaialable_congr s s2 f2,
    is_super_current_charging_avaialable_congr s s2 f2] at e3
  generalize charger_enable_by_current p s2 = s3 at f3 e3
  have hid3 : s3.poweralg.battery.id_index ≠ p.BATTERY_ID_UNKNOWN := by rw [f3.1]; exact hid
  refine ⟨?_, charging_gate_frame_trans _ _ _ f3 (min_taper_current_control_gate_frame p s3)⟩
  rw [min_taper_current_control_charging_enable p s3 hid3, e3]

/-- One call of `bounding_fullly_charged_level` with a positive ceiling and
the latch at 0 or 1. -/
theorem bounding_fullly_charged_level_step (p : Platform) (upperbd : Int) (s : State)
    (hu : 0 < upperbd) (hp : s.pingpong = 0 ∨ s.pingpong = 1) :
    (bounding_fullly_charged_level p upperbd s).pingpong =
        (if s.pingpong = 1 then
          if upperbd ≤ p.CEILING s.poweralg.capacity_01p 10 then 0 else 1
        else if max (upperbd - 5) 0 < p.CEILING s.poweralg.capacity_01p 10 then 0 else 1) ∧
      ((bounding_fullly_charged_level p upperbd s).b_is_charge_off_by_bounding = true ↔
        (bounding_fullly_charged_level p upperbd s).pingpong = 0) := by
  unfold bounding_fullly_charged_level
  dsimp only
  rw [if_neg (by omega)]
  generalize p.CEILING s.poweralg.capacity_01p 10 = level
  have hl : (if upperbd - 5 < 0 then (0 : Int) else upperbd - 5) = max (upperbd - 5) 0 := by
    split_ifs <;> omega
  rw [hl]
  generalize max (upperbd - 5) 0 = lowerbd
  rcases hp with hp | hp
  · rw [hp]
    simp only [zero_ne_one, false_and, if_false, true_and]
    by_cases h1 : lowerbd < level
    · rw [if_pos h1, if_pos h1]
      exact ⟨rfl, ⟨fun _ => rfl, fun _ => rfl⟩⟩
    · rw [if_neg h1, if_neg h1, if_pos (not_lt.1 h1)]
      exact ⟨rfl, ⟨fun h => Bool.noConfusion h, fun h => absurd h one_ne_zero⟩⟩
  · rw [hp]
    simp only [one_ne_zero, false_and, if_false, true_and, if_true]
    by_cases h1 : upperbd ≤ level
    · rw [if_pos h1, if_pos h1]
      exact ⟨rfl, ⟨fun _ => rfl, fun _ => rfl⟩⟩
    · rw [if_neg h1, if_neg h1]
      exact ⟨rfl, ⟨fun h => Bool.noConfusion h, fun h => absurd h one_ne_zero⟩⟩

theorem bounding_calls_nil (p : Platform) (upperbd : Int) (s : State) :
    bounding_calls p upperbd [] s = s := rfl

theorem bounding_calls_cons (p : Platform) (upperbd : Int) (c : Int) (cs : List Int)
    (s : State) :
    bounding_calls p upperbd (c :: cs) s =
      bounding_calls p upperbd cs
        (bounding_fullly_charged_level p upperbd { s with poweralg.capacity_01p := c }) := rfl

theorem bounding_calls_append (p : Platform) (upperbd : Int) (c : Int) (cs : List Int) :
    ∀ s : State, bounding_calls p upperbd (cs ++ [c]) s =
      bounding_fullly_charged_level p upperbd
        { bounding_calls p upperbd cs s with poweralg.capacity_01p := c } := by
  induction cs with
  | nil => intro s; rfl
  | cons d ds ih =>
    intro s
    rw [List.cons_append, bounding_calls_cons, bounding_calls_cons, ih]

theorem bounding_calls_pingpong_range (p : Platform) (upperbd : Int) (hu : 0 < upperbd)
    (caps : List Int) :
    ∀ s : State, (s.pingpong = 0 ∨ s.pingpong = 1) →
      ((bounding_calls p upperbd caps s).pingpong = 0 ∨
        (bounding_calls p upperbd caps s).pingpong = 1) := by
  induction caps with
  | nil => intro s hp; exact hp
  | cons c cs ih =>
    intro s hp
    rw [bounding_calls_cons]
    apply ih
    rw [(bounding_fullly_charged_level_step p upperbd
      { s with poweralg.capacity_01p := c } hu hp).1]
    split_ifs
    · exact Or.inl rfl
    · exact Or.inr rfl
    · exact Or.inl rfl
    · exact Or.inr rfl

/-- The latch after a sequence of calls is tripped exactly when some call
found the level at or above the ceiling and every later call found it above
the lower bound, or the latch was tripped before and every call found the
level above the lower bound. -/
theorem bounding_calls_pingpong (p : Platform) (upperbd : Int) (hu : 0 < upperbd)
    (caps : List Int) :
    ∀ s : State, (s.pingpong = 0 ∨ s.pingpong = 1) →
      ((bounding_calls p upperbd caps s).pingpong = 0 ↔
        ((∃ pre d post, caps = pre ++ d :: post ∧ upperbd ≤ p.CEILING d 10 ∧
            ∀ e ∈ post, max (upperbd - 5) 0 < p.CEILING e 10) ∨
          (s.pingpong = 0 ∧ ∀ e ∈ caps, max (upperbd - 5) 0 < p.CEILING e 10))) := by
  induction caps with
  | nil =>
    intro s _
    rw [bounding_calls_nil]
    constructor
    · intro h
      exact Or.inr ⟨h, fun e he => absurd he (List.not_mem_nil e)⟩
    · rintro (⟨pre, d, post, h, _⟩ | ⟨h, _⟩)
      · exact absurd h (by simp)
      · exact h
  | cons c cs ih =>
    intro s hp
    have hstep := (bounding_fullly_charged_level_step p upperbd
      { s with poweralg.capacity_01p := c } hu hp).1
    have hrange : (bounding_fullly_charged_level p upperbd
          { s with poweralg.capacity_01p := c }).pingpong = 0 ∨
        (bounding_fullly_charged_level p upperbd
          { s with poweralg.capacity_01p := c }).pingpong = 1 := by
      rw [hstep]
      split_ifs
      · exact Or.inl rfl
      · exact Or.inr rfl
      · exact Or.inl rfl
      · exact Or.inr rfl
    rw [bounding_calls_cons, ih _ hrange, hstep]
    dsimp only
    have hlb : ∀ x : Int, upperbd ≤ x → max (upperbd - 5) 0 < x := by
      intro x hx
      omega
    constructor
    · rintro (⟨pre, d, post, h1, h2, h3⟩ | ⟨h1, h2⟩)
      · exact Or.inl ⟨c :: pre, d, post, by rw [h1]; rfl, h2, h3⟩
      · by_cases h4 : s.pingpong = 1
        · rw [if_pos h4] at h1
          by_cases h5 : upperbd ≤ p.CEILING c 10
          · exact Or.inl ⟨[], c, cs, rfl, h5, h2⟩
          · rw [if_neg h5] at h1
            exact absurd h1 one_ne_zero
        · rw [if_neg h4] at h1
          have h6 : s.pingpong = 0 := by
            rcases hp with hp | hp
            · exact hp
            · exact absurd hp h4
          by_cases h5 : max (upperbd - 5) 0 < p.CEILING c 10
          · refine Or.inr ⟨h6, fun e he => ?_⟩
            rcases List.mem_cons.1 he with he | he
            · rw [he]; exact h5
            · exact h2 e he
          · rw [if_neg h5] at h1
            exact absurd h1 one_ne_zero
    · rintro (⟨pre, d, post, h1, h2, h3⟩ | ⟨h1, h2⟩)
      · cases pre with
        | nil =>
          rw [List.nil_append] at h1
          obtain ⟨hc, hcs⟩ := List.cons.inj h1
          rw [← hc] at h2
          rw [← hcs] at h3
          refine Or.inr ⟨?_, h3⟩
          by_cases h4 : s.pingpong = 1
          · rw [if_pos h4, if_pos h2]
          · rw [if_neg h4, if_pos (hlb _ h2)]
        | cons x pre =>
          rw [List.cons_append] at h1
          obtain ⟨_, hcs⟩ := List.cons.inj h1
          exact Or.inl ⟨pre, d, post, hcs, h2, h3⟩
      · refine Or.inr ⟨?_, fun e he => h2 e (List.mem_cons_of_mem c he)⟩
        rw [if_neg (by rw [h1]; exact zero_ne_one), if_pos (h2 c (List.mem_cons_self c cs))]

theorem __battery_param_udpate_ok (regs : GaugeRegs) (battery : battery_type) :
    (__battery_param_udpate regs battery).2 = true := rfl

theorem __battery_param_udpate_id_index (regs : GaugeRegs) (battery : battery_type) :
    (__battery_param_udpate regs battery).1.id_index = battery.id_index := rfl

theorem __battery_param_udpate_capacity_raw (regs : GaugeRegs) (battery : battery_type) :
    (__battery_param_udpate regs battery).1.capacity_raw = battery.capacity_raw := rfl

theorem battery_param_update_ok (p : Platform) (regs : GaugeRegs) (battery : battery_type)
    (flags : protect_flags_type) : (battery_param_update p regs battery flags).2.2 = true := by
  unfold battery_param_update
  dsimp only
  rw [__battery_param_udpate_ok]
  rfl

theorem battery_param_update_battery (p : Platform) (regs : GaugeRegs) (battery : battery_type)
    (flags : protect_flags_type) :
    (battery_param_update p regs battery flags).1 = (__battery_param_udpate regs battery).1 := by
  unfold battery_param_update
  dsimp only
  rw [__battery_param_udpate_ok]
  rfl

theorem battery_param_update_unknown (p : Platform) (regs : GaugeRegs) (battery : battery_type)
    (flags : protect_flags_type) (hid : battery.id_index = p.BATTERY_ID_UNKNOWN) :
    (battery_param_update p regs battery flags).2.1.is_charging_enable_available = false := by
  unfold battery_param_update
  dsimp only
  rw [__battery_param_udpate_ok, __battery_param_udpate_id_index, if_pos hid]
  rfl

theorem max17050_get_batt_level_congr (regs : GaugeRegs) (b1 b2 : battery_type)
    (h : b1.capacity_raw = b2.capacity_raw) :
    (max17050_get_batt_level regs b1).2 = (max17050_get_batt_level regs b2).2 := by
  unfold max17050_get_batt_level
  dsimp only
  rw [h]

theorem loop_body_DISCHARGE_no_cable (p : Platform) (i : CycleInput) (s : State)
    (h : s.poweralg.charge_state = CHARGE_STATE_DISCHARGE)
    (hc : s.poweralg.is_cable_in = false) :
    loop_body p i s = ((state_handler i.now s).1, false) := by
  have hn : next_state_by_cable s = s.poweralg.charge_state := by
    rw [next_state_by_cable_eq, h]
    dsimp only
    rw [hc, if_neg Bool.false_ne_true]
  have hh : (state_handler i.now s).2 = s.poweralg.charge_state := by
    rw [(state_handler_DISCHARGE i.now s h).1, hc, h, if_neg (fun hh => Bool.false_ne_true hh.1)]
  rw [loop_body_eq, if_pos hn, if_neg (not_not.2 hh)]

/-- In DISCHARGE without a cable `update_next_charge_state` makes no
transition and leaves the capacity and the configuration as they are. -/
theorem update_next_charge_state_DISCHARGE_no_cable (p : Platform) (i : CycleInput) (b : Bool)
    (s : State) (h : s.poweralg.charge_state = CHARGE_STATE_DISCHARGE)
    (hc : s.poweralg.is_cable_in = false) :
    (update_next_charge_state p i b s).poweralg.charge_state = CHARGE_STATE_DISCHARGE ∧
      (update_next_charge_state p i b s).poweralg.capacity_01p = s.poweralg.capacity_01p ∧
      (update_next_charge_state p i b s).config = s.config ∧
      (update_next_charge_state p i b s).s_bFirstEntry = s.s_bFirstEntry := by
  have h0 : (start_ktime_check i.now s).poweralg.charge_state = CHARGE_STATE_DISCHARGE := by
    rw [start_ktime_check_charge_state]; exact h
  have hc0 : (start_ktime_check i.now s).poweralg.is_cable_in = false := by
    rw [start_ktime_check_is_cable_in]; exact hc
  have e0 : (start_ktime_check i.now s).s_bFirstEntry = s.s_bFirstEntry := by
    unfold start_ktime_check; split_ifs <;> rfl
  have e1 : ∀ t : State, (state_handler i.now t).1.s_bFirstEntry = t.s_bFirstEntry := by
    intro t
    unfold state_handler
    split <;> dsimp only <;> (try split_ifs) <;> rfl
  unfold update_next_charge_state
  rw [transition_loop_succ, loop_body_DISCHARGE_no_cable p i _ h0 hc0]
  dsimp only
  rw [if_neg Bool.false_ne_true, state_handler_charge_state,
    (state_handler_DISCHARGE i.now _ h0).2, state_handler_config, start_ktime_check_capacity,
    start_ktime_check_config, e1, e0]
  exact ⟨h0, rfl, rfl, rfl⟩

theorem __update_capacity_DISCHARGE (b : Bool) (s : State)
    (h : s.poweralg.charge_state = CHARGE_STATE_DISCHARGE)
    (hr : 0 ≤ s.poweralg.capacity_01p ∧ s.poweralg.capacity_01p ≤ 1000) :
    (__update_capacity b s).poweralg.capacity_01p = s.poweralg.capacity_01p ∧
      (__update_capacity b s).config = s.config := by
  have n1 : ¬ (s.poweralg.charge_state = CHARGE_STATE_PREDICTION ∨
      s.poweralg.charge_state = CHARGE_STATE_UNKNOWN) := by rw [h]; decide
  have n2 : ¬ (s.poweralg.charge_state = CHARGE_STATE_FULL_CHARGING ∨
      s.poweralg.charge_state = CHARGE_STATE_FULL_RECHARGING ∨
      s.poweralg.charge_state = CHARGE_STATE_FULL_PENDING) := by rw [h]; decide
  unfold __update_capacity
  dsimp only
  rw [if_neg n1, if_neg n2, if_neg (not_lt.2 hr.2), if_neg (not_lt.2 hr.1)]
  exact ⟨rfl, rfl⟩

/-- The capacity after the middle of `do_power_alg` in DISCHARGE without a
cable: the capacity before it, or 1 instead of 0 under
`debug_disable_shutdown`. -/
theorem do_power_alg_capacity_DISCHARGE_no_cable (p : Platform) (i : CycleInput) (ev : Bool)
    (s : State) (h : s.poweralg.charge_state = CHARGE_STATE_DISCHARGE)
    (hc : s.poweralg.is_cable_in = false)
    (hr : 0 ≤ s.poweralg.capacity_01p ∧ s.poweralg.capacity_01p ≤ 1000) :
    (do_power_alg_capacity p i ev s).poweralg.capacity_01p =
      if s.config.debug_disable_shutdown = true ∧ s.poweralg.capacity_01p ≤ 0 then 1
      else s.poweralg.capacity_01p := by
  obtain ⟨a1, a2, a3, _⟩ := update_next_charge_state_DISCHARGE_no_cable p i s.s_bFirstEntry s h hc
  unfold do_power_alg_capacity
  dsimp only
  generalize update_next_charge_state p i s.s_bFirstEntry s = s1 at a1 a2 a3 ⊢
  have n0 : s1.poweralg.charge_state ≠ CHARGE_STATE_UNKNOWN := by rw [a1]; decide
  have hr1 : 0 ≤ s1.poweralg.capacity_01p ∧ s1.poweralg.capacity_01p ≤ 1000 := by
    rw [a2]; exact hr
  have u := __update_capacity_DISCHARGE s1.s_bFirstEntry
    { s1 with poweralg.is_gauge_driver_ready := true } a1 hr1
  dsimp only at u
  rw [if_pos n0, ← a2, ← a3]
  dsimp only
  by_cases hcond : s1.s_bFirstEntry = true ∨ MSPERIOD i.now s1.s_pre_time_ktime ≥ 10 * 1000 ∨
      (!ev) = true
  · rw [if_pos hcond]
    dsimp only
    rw [u.1, u.2]
    by_cases c1 : s1.config.debug_disable_shutdown = true
    · by_cases c2 : s1.poweralg.capacity_01p ≤ 0
      · rw [if_pos c1, if_pos c2, if_pos ⟨c1, c2⟩]
      · rw [if_pos c1, if_neg c2, if_neg (fun hh => c2 hh.2)]
        exact u.1
    · rw [if_neg c1, if_neg (fun hh => c1 hh.1)]
      exact u.1
  · rw [if_neg hcond]
    dsimp only
    by_cases c1 : s1.config.debug_disable_shutdown = true
    · by_cases c2 : s1.poweralg.capacity_01p ≤ 0
      · rw [if_pos c1, if_pos c2, if_pos ⟨c1, c2⟩]
      · rw [if_pos c1, if_neg c2, if_neg (fun hh => c2 hh.2)]
    · rw [if_neg c1, if_neg (fun hh => c1 hh.1)]

theorem do_power_alg_sample_ok (p : Platform) (i : CycleInput) (s : State) :
    (do_power_alg_sample p i s).2 = true := by
  unfold do_power_alg_sample
  dsimp only
  simp only [battery_param_update_ok, Bool.not_true, Bool.false_eq_true, if_false]
  split_ifs <;> rfl

theorem do_power_alg_sample_frame (p : Platform) (i : CycleInput) (s : State) :
    (do_power_alg_sample p i s).1.poweralg.charge_state = s.poweralg.charge_state ∧
      (do_power_alg_sample p i s).1.poweralg.is_cable_in = s.poweralg.is_cable_in ∧
      (do_power_alg_sample p i s).1.config = s.config := by
  unfold do_power_alg_sample
  dsimp only
  split_ifs <;> exact ⟨rfl, rfl, rfl⟩

/-- A cycle that takes the gauge sample leaves the level read from the gauge
in `capacity_01p`. -/
theorem do_power_alg_sample_capacity (p : Platform) (i : CycleInput) (s : State)
    (hs : s.s_bFirstEntry = true ∨
      (MSPERIOD i.now s.pre_param_update_ktime ≥ 3 * 1000 ∧ s.s_pre_time_ktime ≤ i.now)) :
    (do_power_alg_sample p i s).1.poweralg.capacity_01p =
      (max17050_get_batt_level i.regs s.poweralg.battery).2 := by
  have hl : ∀ flags : protect_flags_type,
      (max17050_get_batt_level i.regs
        (battery_param_update p i.regs s.poweralg.battery flags).1).2 =
      (max17050_get_batt_level i.regs s.poweralg.battery).2 := by
    intro flags
    apply max17050_get_batt_level_congr
    rw [battery_param_update_battery, __battery_param_udpate_capacity_raw]
  unfold do_power_alg_sample
  dsimp only
  simp only [battery_param_update_ok, Bool.not_true, Bool.false_eq_true, if_false]
  by_cases c1 : MSPERIOD s.pre_param_update_ktime i.now > 0 ∨
      MSPERIOD s.s_pre_time_ktime i.now > 0
  · have hfirst : s.s_bFirstEntry = true := by
      rcases hs with hs | hs
      · exact hs
      · exfalso
        unfold MSPERIOD at *
        omega
    rw [if_pos c1]
    dsimp only
    rw [if_pos (Or.inl hfirst)]
    exact hl _
  · have hcond : s.s_bFirstEntry = true ∨
        MSPERIOD i.now s.pre_param_update_ktime ≥ 3 * 1000 := by
      rcases hs with hs | hs
      · exact Or.inl hs
      · exact Or.inr hs.1
    rw [if_neg c1, if_pos hcond]
    exact hl _

/-- The capacity after a `do_power_alg` cycle that takes the gauge sample in
DISCHARGE without a cable: the level read from the gauge, or 1 instead of 0
under `debug_disable_shutdown`. -/
theorem do_power_alg_DISCHARGE_no_cable (p : Platform) (i : CycleInput) (ev : Bool) (s : State)
    (h : s.poweralg.charge_state = CHARGE_STATE_DISCHARGE)
    (hc : s.poweralg.is_cable_in = false)
    (hs : s.s_bFirstEntry = true ∨
      (MSPERIOD i.now s.pre_param_update_ktime ≥ 3 * 1000 ∧ s.s_pre_time_ktime ≤ i.now)) :
    (do_power_alg p i ev s).1.poweralg.capacity_01p =
      if s.config.debug_disable_shutdown = true ∧
          (max17050_get_batt_level i.regs s.poweralg.battery).2 ≤ 0 then 1
      else (max17050_get_batt_level i.regs s.poweralg.battery).2 := by
  obtain ⟨f1, f2, f3⟩ := do_power_alg_sample_frame p i s
  have f4 := do_power_alg_sample_capacity p i s hs
  have f5 := do_power_alg_sample_ok p i s
  have hr := max17050_get_batt_level_range i.regs s.poweralg.battery
  unfold do_power_alg
  dsimp only
  rw [f5]
  simp only [Bool.not_true, Bool.false_eq_true, if_false]
  rw [do_power_alg_charging_capacity]
  generalize (do_power_alg_sample p i s).1 = s1 at f1 f2 f3 f4
  rw [do_power_alg_capacity_DISCHARGE_no_cable p i ev s1 (f1.trans h) (f2.trans hc)
    (by rw [f4]; exact hr), f3, f4]

/-! ### The charger off when charging is not eligible, the reverse protection -/

theorem max17050_charger_control_timers (p : Platform) (c : ChargerCtl) (s : State) :
    (max17050_charger_control p c s).chg_en_time_sec = s.chg_en_time_sec ∧
      (max17050_charger_control p c s).chg_kick_time_sec = s.chg_kick_time_sec ∧
      (max17050_charger_control p c s).super_chg_on_time_sec = s.super_chg_on_time_sec := by
  unfold max17050_charger_control max17050_blocking_notify
  dsimp only
  split_ifs <;> exact ⟨rfl, rfl, rfl⟩

theorem max17050_charger_control_reverse_protect (p : Platform) (c : ChargerCtl) (s : State) :
    (max17050_charger_control p c s).poweralg.protect_flags.is_charging_reverse_protect =
      s.poweralg.protect_flags.is_charging_reverse_protect := by
  unfold max17050_charger_control max17050_blocking_notify
  dsimp only
  split_ifs <;> rfl

/-- The charger commands leave alone everything `is_charging_avaiable`
reads. -/
theorem is_charging_avaiable_charger_control (p : Platform) (c : ChargerCtl) (s : State) :
    is_charging_avaiable p (max17050_charger_control p c s) = is_charging_avaiable p s := by
  unfold max17050_charger_control max17050_blocking_notify
  dsimp only
  split_ifs <;> rfl

/-- The unavailable branch of `check_charging_function` as one equation. -/
theorem check_charging_function_else_branch (p : Platform) (s : State)
    (h : is_charging_avaiable p s = false) :
    check_charging_function p s =
      if ({ max17050_charger_control p ChargerCtl.DISABLE s with
            chg_en_time_sec := 0
            chg_kick_time_sec := 0
            super_chg_on_time_sec := 0
            poweralg.is_need_toggle_charger := false
            poweralg.protect_flags.is_charging_reverse_protect := false } : State).config.debug_disable_hw_timer ∧
          ({ max17050_charger_control p ChargerCtl.DISABLE s with
            chg_en_time_sec := 0
            chg_kick_time_sec := 0
            super_chg_on_time_sec := 0
            poweralg.is_need_toggle_charger := false
            poweralg.protect_flags.is_charging_reverse_protect := false } : State).poweralg.is_charge_over_load then
        max17050_charger_control p ChargerCtl.DISABLE
          { max17050_charger_control p ChargerCtl.DISABLE s with
            chg_en_time_sec := 0
            chg_kick_time_sec := 0
            super_chg_on_time_sec := 0
            poweralg.is_need_toggle_charger := false
            poweralg.protect_flags.is_charging_reverse_protect := false }
      else
        { max17050_charger_control p ChargerCtl.DISABLE s with
          chg_en_time_sec := 0
          chg_kick_time_sec := 0
          super_chg_on_time_sec := 0
          poweralg.is_need_toggle_charger := false
          poweralg.protect_flags.is_charging_reverse_protect := false } := by
  unfold check_charging_function
  dsimp only
  rw [h, if_neg Bool.false_ne_true]

theorem is_charging_avaiable_PENDING (p : Platform) (s : State)
    (h : s.poweralg.charge_state = CHARGE_STATE_PENDING) : is_charging_avaiable p s = false := by
  simp [is_charging_avaiable, h]

theorem is_charging_avaiable_reverse_protect (p : Platform) (s : State)
    (h : s.poweralg.protect_flags.is_charging_reverse_protect = true) :
    is_charging_avaiable p s = false := by
  simp [is_charging_avaiable, h]

/-! ### UNKNOWN is left at once, PREDICTION is never entered -/

theorem loop_body_UNKNOWN (p : Platform) (i : CycleInput) (s : State)
    (h : s.poweralg.charge_state = CHARGE_STATE_UNKNOWN) :
    loop_body p i s =
      (state_transition p i s
        (if s.poweralg.is_cable_in then CHARGE_STATE_CHARGING else CHARGE_STATE_DISCHARGE),
        true) := by
  rw [loop_body_eq, next_state_by_cable_eq, h]
  cases hc : s.poweralg.is_cable_in <;> simp

theorem state_handler_next_ne_UNKNOWN (now : Int) (s : State)
    (h : s.poweralg.charge_state ≠ CHARGE_STATE_UNKNOWN)
    (hp : s.poweralg.charge_state ≠ CHARGE_STATE_PREDICTION) :
    (state_handler now s).2 ≠ CHARGE_STATE_UNKNOWN := by
  unfold state_handler
  split <;> (try dsimp only) <;> (try split_ifs) <;>
    first | contradiction | exact h | (intro hh; cases hh)

theorem next_state_by_cable_ne_UNKNOWN (s : State) :
    next_state_by_cable s ≠ CHARGE_STATE_UNKNOWN := by
  rw [next_state_by_cable_eq]
  split <;> (try split_ifs) <;> first | contradiction | (intro hh; cases hh) | assumption

theorem loop_body_ne_UNKNOWN (p : Platform) (i : CycleInput) (s : State)
    (h : s.poweralg.charge_state ≠ CHARGE_STATE_UNKNOWN)
    (hp : s.poweralg.charge_state ≠ CHARGE_STATE_PREDICTION) :
    (loop_body p i s).1.poweralg.charge_state ≠ CHARGE_STATE_UNKNOWN := by
  rw [loop_body_eq]
  split_ifs
  · exact state_handler_next_ne_UNKNOWN i.now s h hp
  · dsimp only; rw [state_handler_charge_state]; exact h
  · exact next_state_by_cable_ne_UNKNOWN s

theorem transition_loop_ne_UNKNOWN (p : Platform) (i : CycleInput) (n : Nat) :
    ∀ s : State, s.poweralg.charge_state ≠ CHARGE_STATE_UNKNOWN →
      s.poweralg.charge_state ≠ CHARGE_STATE_PREDICTION →
      (transition_loop p i n s).poweralg.charge_state ≠ CHARGE_STATE_UNKNOWN := by
  induction n with
  | zero => intro s h _; exact h
  | succ n ih =>
    intro s h hp
    rw [transition_loop_succ]
    split_ifs
    · exact ih _ (loop_body_ne_UNKNOWN p i s h hp) (loop_body_ne_PREDICTION p i s hp)
    · exact loop_body_ne_UNKNOWN p i s h hp

/-- A loop that starts in UNKNOWN and has a pass left ends outside UNKNOWN
and PREDICTION. -/
theorem transition_loop_UNKNOWN (p : Platform) (i : CycleInput) (n : Nat) (s : State)
    (h : s.poweralg.charge_state = CHARGE_STATE_UNKNOWN) :
    (transition_loop p i (n + 1) s).poweralg.charge_state ≠ CHARGE_STATE_UNKNOWN ∧
      (transition_loop p i (n + 1) s).poweralg.charge_state ≠ CHARGE_STATE_PREDICTION := by
  rw [transition_loop_succ, loop_body_UNKNOWN p i s h]
  simp only [if_true]
  have h1 : (state_transition p i s
      (if s.poweralg.is_cable_in then CHARGE_STATE_CHARGING
        else CHARGE_STATE_DISCHARGE)).poweralg.charge_state ≠ CHARGE_STATE_UNKNOWN := by
    rw [state_transition_charge_state]; split_ifs <;> decide
  have h2 : (state_transition p i s
      (if s.poweralg.is_cable_in then CHARGE_STATE_CHARGING
        else CHARGE_STATE_DISCHARGE)).poweralg.charge_state ≠ CHARGE_STATE_PREDICTION := by
    rw [state_transition_charge_state]; split_ifs <;> decide
  exact ⟨transition_loop_ne_UNKNOWN p i n _ h1 h2, transition_loop_ne_PREDICTION p i n _ h2⟩

/-- A loop with two passes or more never ends in UNKNOWN. -/
theorem transition_loop_not_UNKNOWN (p : Platform) (i : CycleInput) (n : Nat) (s : State) :
    (transition_loop p i (n + 2) s).poweralg.charge_state ≠ CHARGE_STATE_UNKNOWN := by
  by_cases hu : s.poweralg.charge_state = CHARGE_STATE_UNKNOWN
  · exact (transition_loop_UNKNOWN p i (n + 1) s hu).1
  · by_cases hp : s.poweralg.charge_state = CHARGE_STATE_PREDICTION
    · rw [transition_loop_succ, loop_body_PREDICTION p i s hp]
      by_cases h1 : MSPERIOD i.now s.poweralg.start_ktime ≥ 50 * 1000
      · rw [if_pos h1]
        dsimp only
        rw [if_neg Bool.false_ne_true]
        show s.poweralg.charge_state ≠ CHARGE_STATE_UNKNOWN
        exact hu
      · rw [if_neg h1]
        by_cases h2 : MSPERIOD i.now s.poweralg.start_ktime ≥
          INT32_of_int (s.config.predict_timeout_sec * 1000)
        · rw [if_pos h2]
          dsimp only
          rw [if_pos rfl]
          exact (transition_loop_UNKNOWN p i n _ rfl).1
        · rw [if_neg h2]
          dsimp only
          rw [if_neg Bool.false_ne_true]
          exact hu
    · exact transition_loop_ne_UNKNOWN p i _ s hu hp

/-- A pass that changes the state never enters PREDICTION, whatever the state
it starts in. -/
theorem loop_body_moved_ne_PREDICTION (p : Platform) (i : CycleInput) (s : State)
    (h : (loop_body p i s).2 = true) :
    (loop_body p i s).1.poweralg.charge_state ≠ CHARGE_STATE_PREDICTION := by
  by_cases hp : s.poweralg.charge_state = CHARGE_STATE_PREDICTION
  · have hm := loop_body_moves p i s h
    rw [loop_body_PREDICTION p i s hp] at hm h ⊢
    by_cases h1 : MSPERIOD i.now s.poweralg.start_ktime ≥ 50 * 1000
    · rw [if_pos h1] at h
      exact Bool.noConfusion h
    · rw [if_neg h1] at h ⊢
      by_cases h2 : MSPERIOD i.now s.poweralg.start_ktime ≥
          INT32_of_int (s.config.predict_timeout_sec * 1000)
      · rw [if_pos h2]
        dsimp only
        rw [state_transition_charge_state]
        decide
      · rw [if_neg h2] at h
        exact Bool.noConfusion h
  · exact loop_body_ne_PREDICTION p i s hp

/-! ### What the rest of a cycle and the other events leave alone -/

theorem max17050_blocking_notify_ready (p : Platform) (val : NotifyEvent) (s : State) :
    (max17050_blocking_notify p val s).poweralg.charge_state = s.poweralg.charge_state ∧
      (max17050_blocking_notify p val s).poweralg.is_gauge_driver_ready =
        s.poweralg.is_gauge_driver_ready := by
  unfold max17050_blocking_notify
  split <;> (try split_ifs) <;> exact ⟨rfl, rfl⟩

theorem max17050_charger_control_ready (p : Platform) (c : ChargerCtl) (s : State) :
    (max17050_charger_control p c s).poweralg.charge_state = s.poweralg.charge_state ∧
      (max17050_charger_control p c s).poweralg.is_gauge_driver_ready =
        s.poweralg.is_gauge_driver_ready :=
  max17050_blocking_notify_ready p _ s

theorem bounding_fullly_charged_level_ready (p : Platform) (u : Int) (s : State) :
    (bounding_fullly_charged_level p u s).poweralg.charge_state = s.poweralg.charge_state ∧
      (bounding_fullly_charged_level p u s).poweralg.is_gauge_driver_ready =
        s.poweralg.is_gauge_driver_ready := by
  unfold bounding_fullly_charged_level
  dsimp only
  split_ifs <;> exact ⟨rfl, rfl⟩

theorem charging_time_count_ready (p : Platform) (s : State) :
    (charging_time_count p s).poweralg.charge_state = s.poweralg.charge_state ∧
      (charging_time_count p s).poweralg.is_gauge_driver_ready =
        s.poweralg.is_gauge_driver_ready := by
  unfold charging_time_count
  dsimp only
  split_ifs <;> exact ⟨rfl, rfl⟩

theorem hw_safety_timer_watchdog_ready (p : Platform) (s : State) :
    (hw_safety_timer_watchdog p s).poweralg.charge_state = s.poweralg.charge_state ∧
      (hw_safety_timer_watchdog p s).poweralg.is_gauge_driver_ready =
        s.poweralg.is_gauge_driver_ready := by
  unfold hw_safety_timer_watchdog
  dsimp only
  split_ifs
  · exact max17050_charger_control_ready p _ _
  · exact ⟨rfl, rfl⟩
  · exact ⟨rfl, rfl⟩

theorem charger_enable_by_current_ready (p : Platform) (s : State) :
    (charger_enable_by_current p s).poweralg.charge_state = s.poweralg.charge_state ∧
      (charger_enable_by_current p s).poweralg.is_gauge_driver_ready =
        s.poweralg.is_gauge_driver_ready := by
  unfold charger_enable_by_current
  split_ifs <;> exact max17050_charger_control_ready p _ s

theorem min_taper_current_control_ready (p : Platform) (s : State) :
    (min_taper_current_control p s).poweralg.charge_state = s.poweralg.charge_state ∧
      (min_taper_current_control p s).poweralg.is_gauge_driver_ready =
        s.poweralg.is_gauge_driver_ready := by
  unfold min_taper_current_control
  split_ifs
  · exact max17050_charger_control_ready p _ s
  · exact max17050_charger_control_ready p _ s
  · exact ⟨rfl, rfl⟩

theorem check_charging_function_ready (p : Platform) (s : State) :
    (check_charging_function p s).poweralg.charge_state = s.poweralg.charge_state ∧
      (check_charging_function p s).poweralg.is_gauge_driver_ready =
        s.poweralg.is_gauge_driver_ready := by
  have a1 := charging_time_count_ready p s
  have a2 := hw_safety_timer_watchdog_ready p (charging_time_count p s)
  have a3 := charger_enable_by_current_ready p
    (hw_safety_timer_watchdog p (charging_time_count p s))
  have a4 := min_taper_current_control_ready p
    (charger_enable_by_current p (hw_safety_timer_watchdog p (charging_time_count p s)))
  have b1 := max17050_charger_control_ready p ChargerCtl.DISABLE s
  have e : ∀ t : State,
      (if t.config.debug_disable_hw_timer ∧ t.poweralg.is_charge_over_load then
          max17050_charger_control p ChargerCtl.DISABLE t else t).poweralg.charge_state =
          t.poweralg.charge_state ∧
        (if t.config.debug_disable_hw_timer ∧ t.poweralg.is_charge_over_load then
          max17050_charger_control p ChargerCtl.DISABLE t
          else t).poweralg.is_gauge_driver_ready = t.poweralg.is_gauge_driver_ready := by
    intro t
    split_ifs
    · exact max17050_charger_control_ready p _ t
    · exact ⟨rfl, rfl⟩
  unfold check_charging_function
  dsimp only
  by_cases h : is_charging_avaiable p s = true
  · rw [if_pos h]
    obtain ⟨e1, e2⟩ := e (min_taper_current_control p
      (charger_enable_by_current p (hw_safety_timer_watchdog p (charging_time_count p s))))
    exact ⟨e1.trans (a4.1.trans (a3.1.trans (a2.1.trans a1.1))),
      e2.trans (a4.2.trans (a3.2.trans (a2.2.trans a1.2)))⟩
  · rw [if_neg h]
    generalize max17050_charger_control p ChargerCtl.DISABLE s = u at b1 ⊢
    obtain ⟨e1, e2⟩ := e { u with
      chg_en_time_sec := 0
      chg_kick_time_sec := 0
      super_chg_on_time_sec := 0
      poweralg.is_need_toggle_charger := false
      poweralg.protect_flags.is_charging_reverse_protect := false }
    exact ⟨e1.trans b1.1, e2.trans b1.2⟩

theorem level_update_ready (p : Platform) (s : State) :
    (level_update p s).poweralg.charge_state = s.poweralg.charge_state ∧
      (level_update p s).poweralg.is_gauge_driver_ready = s.poweralg.is_gauge_driver_ready := by
  unfold level_update
  dsimp only
  split_ifs
  · exact max17050_blocking_notify_ready p _ _
  · exact ⟨rfl, rfl⟩

theorem superchg_software_charger_timer_ready (s : State) :
    (superchg_software_charger_timer s).poweralg.charge_state = s.poweralg.charge_state ∧
      (superchg_software_charger_timer s).poweralg.is_gauge_driver_ready =
        s.poweralg.is_gauge_driver_ready := by
  unfold superchg_software_charger_timer
  dsimp only
  split_ifs <;> exact ⟨rfl, rfl⟩

theorem do_power_alg_charging_ready (p : Platform) (s : State) :
    (do_power_alg_charging p s).poweralg.charge_state = s.poweralg.charge_state ∧
      (do_power_alg_charging p s).poweralg.is_gauge_driver_ready =
        s.poweralg.is_gauge_driver_ready := by
  have a1 := level_update_ready p s
  have a2 := bounding_fullly_charged_level_ready p (level_update p s).config.full_level
    (level_update p s)
  have a3 := superchg_software_charger_timer_ready
    (bounding_fullly_charged_level p (level_update p s).config.full_level (level_update p s))
  have a4 := check_charging_function_ready p
    (superchg_software_charger_timer
      (bounding_fullly_charged_level p (level_update p s).config.full_level (level_update p s)))
  unfold do_power_alg_charging
  dsimp only
  split_ifs
  · exact ⟨a4.1.trans (a3.1.trans (a2.1.trans a1.1)), a4.2.trans (a3.2.trans (a2.2.trans a1.2))⟩
  · exact ⟨a4.1.trans (a3.1.trans (a2.1.trans a1.1)), a4.2.trans (a3.2.trans (a2.2.trans a1.2))⟩

theorem __update_capacity_ready (b : Bool) (s : State) :
    (__update_capacity b s).poweralg.charge_state = s.poweralg.charge_state ∧
      (__update_capacity b s).poweralg.is_gauge_driver_ready =
        s.poweralg.is_gauge_driver_ready := by
  unfold __update_capacity
  dsimp only
  split_ifs <;> exact ⟨rfl, rfl⟩

/-- The middle of `do_power_alg` ends in the charge state
`update_next_charge_state` left, with the gauge ready flag set when that
state is not UNKNOWN. -/
theorem do_power_alg_capacity_ready (p : Platform) (i : CycleInput) (ev : Bool) (s : State) :
    (do_power_alg_capacity p i ev s).poweralg.charge_state =
        (update_next_charge_state p i s.s_bFirstEntry s).poweralg.charge_state ∧
      ((update_next_charge_state p i s.s_bFirstEntry s).poweralg.charge_state ≠
          CHARGE_STATE_UNKNOWN →
        (do_power_alg_capacity p i ev s).poweralg.is_gauge_driver_ready = true) := by
  unfold do_power_alg_capacity
  dsimp only
  generalize update_next_charge_state p i s.s_bFirstEntry s = u
  by_cases hu : u.poweralg.charge_state ≠ CHARGE_STATE_UNKNOWN
  · rw [if_pos hu]
    dsimp only
    split_ifs <;>
      first
      | exact ⟨(__update_capacity_ready _ _).1, fun _ => (__update_capacity_ready _ _).2⟩
      | exact ⟨rfl, fun _ => rfl⟩
  · rw [if_neg hu]
    split_ifs <;>
      first
      | exact ⟨(__update_capacity_ready _ _).1, fun hh => absurd hh hu⟩
      | exact ⟨rfl, fun hh => absurd hh hu⟩

theorem do_power_alg_eq (p : Platform) (i : CycleInput) (ev : Bool) (s : State) :
    do_power_alg p i ev s =
      (do_power_alg_charging p (do_power_alg_capacity p i ev (do_power_alg_sample p i s).1),
        true) := by
  unfold do_power_alg
  dsimp only
  rw [do_power_alg_sample_ok]
  rfl

theorem update_next_charge_state_ne_UNKNOWN (p : Platform) (i : CycleInput) (b : Bool)
    (s : State) :
    (update_next_charge_state p i b s).poweralg.charge_state ≠ CHARGE_STATE_UNKNOWN := by
  unfold update_next_charge_state
  exact transition_loop_not_UNKNOWN p i 23 _

theorem update_next_charge_state_ne_PREDICTION (p : Platform) (i : CycleInput) (b : Bool)
    (s : State) (h : s.poweralg.charge_state ≠ CHARGE_STATE_PREDICTION) :
    (update_next_charge_state p i b s).poweralg.charge_state ≠ CHARGE_STATE_PREDICTION := by
  unfold update_next_charge_state
  apply transition_loop_ne_PREDICTION
  rw [start_ktime_check_charge_state]
  exact h

/-- Outside UNKNOWN and PREDICTION the first-entry argument of
`__update_capacity` is not looked at. -/
theorem __update_capacity_not_first (b : Bool) (s : State)
    (h : s.poweralg.charge_state ≠ CHARGE_STATE_UNKNOWN)
    (hp : s.poweralg.charge_state ≠ CHARGE_STATE_PREDICTION) :
    __update_capacity b s = __update_capacity false s := by
  have n : ¬ (s.poweralg.charge_state = CHARGE_STATE_PREDICTION ∨
      s.poweralg.charge_state = CHARGE_STATE_UNKNOWN) := by
    rintro (h1 | h1)
    · exact hp h1
    · exact h h1
  unfold __update_capacity
  dsimp only
  simp only [if_neg n]

theorem do_power_alg_charge_state (p : Platform) (i : CycleInput) (ev : Bool) (s : State) :
    (do_power_alg p i ev s).1.poweralg.charge_state =
      (update_next_charge_state p i (do_power_alg_sample p i s).1.s_bFirstEntry
        (do_power_alg_sample p i s).1).poweralg.charge_state := by
  rw [do_power_alg_eq]
  dsimp only
  rw [(do_power_alg_charging_ready p _).1, (do_power_alg_capacity_ready p i ev _).1]

theorem do_power_alg_ne_PREDICTION (p : Platform) (i : CycleInput) (ev : Bool) (s : State)
    (h : s.poweralg.charge_state ≠ CHARGE_STATE_PREDICTION) :
    (do_power_alg p i ev s).1.poweralg.charge_state ≠ CHARGE_STATE_PREDICTION := by
  rw [do_power_alg_charge_state]
  apply update_next_charge_state_ne_PREDICTION
  rw [(do_power_alg_sample_frame p i s).1]
  exact h

theorem max17050_program_alarm_charge_state (seconds : Nat) (s : State) :
    (max17050_program_alarm seconds s).poweralg.charge_state = s.poweralg.charge_state := rfl

theorem cable_status_handler_func_charge_state (p : Platform) (k : Enumerators)
    (g_di_ptr : Bool) (action smem_cable_type : Int) (param : Option Int) (s : State) :
    (cable_status_handler_func p k g_di_ptr action smem_cable_type param s).poweralg.charge_state
      = s.poweralg.charge_state := by
  have hb : ∀ t : State,
      (if g_di_ptr = true then max17050_program_alarm 0 t else t).poweralg.charge_state =
        t.poweralg.charge_state := by
    intro t
    split_ifs <;> rfl
  unfold cable_status_handler_func
  dsimp only
  generalize (if action ≠ smem_cable_type ∧ action < k.CONNECT_TYPE_MAX then smem_cable_type
    else action) = cable_type
  by_cases h1 : cable_type = k.CONNECT_TYPE_NONE
  · rw [if_pos h1, hb]
    split_ifs <;> rfl
  · rw [if_neg h1]
    by_cases h2 : cable_type = k.CONNECT_TYPE_USB
    · rw [if_pos h2, hb]
    · rw [if_neg h2]
      by_cases h3 : cable_type = k.CONNECT_TYPE_AC
      · rw [if_pos h3, hb]
      · rw [if_neg h3]
        by_cases h4 : cable_type = k.CONNECT_TYPE_9V_AC
        · rw [if_pos h4, hb]
        · rw [if_neg h4]
          split_ifs
          · cases param <;> rfl
          · rfl
          · rfl

theorem reverse_protection_handler_charge_state (k : Enumerators) (status : Int) (s : State) :
    (reverse_protection_handler k status s).poweralg.charge_state = s.poweralg.charge_state := by
  unfold reverse_protection_handler
  split_ifs <;> rfl

theorem max17050_charger_switch_charge_state (g_di_ptr : Bool) (charger_switch : Int)
    (s : State) :
    (max17050_charger_switch g_di_ptr charger_switch s).poweralg.charge_state =
      s.poweralg.charge_state := by
  unfold max17050_charger_switch max17050_program_alarm
  dsimp only
  split_ifs <;> rfl

theorem driver_event_ne_PREDICTION (p : Platform) (k : Enumerators) (e : DriverEvent)
    (s : State) (h : s.poweralg.charge_state ≠ CHARGE_STATE_PREDICTION) :
    (driver_event p k e s).poweralg.charge_state ≠ CHARGE_STATE_PREDICTION := by
  cases e with
  | POWER_ALG i ev => exact do_power_alg_ne_PREDICTION p i ev s h
  | BATTERY_WORK i =>
    show (max17050_battery_work p i s).poweralg.charge_state ≠ CHARGE_STATE_PREDICTION
    unfold max17050_battery_work
    rw [max17050_program_alarm_charge_state]
    exact do_power_alg_ne_PREDICTION p i false s h
  | CABLE_STATUS g a sm pa =>
    show (cable_status_handler_func p k g a sm pa s).poweralg.charge_state ≠
      CHARGE_STATE_PREDICTION
    rw [cable_status_handler_func_charge_state]
    exact h
  | REVERSE_PROTECTION st =>
    show (reverse_protection_handler k st s).poweralg.charge_state ≠ CHARGE_STATE_PREDICTION
    rw [reverse_protection_handler_charge_state]
    exact h
  | CHARGER_SWITCH g c =>
    show (max17050_charger_switch g c s).poweralg.charge_state ≠ CHARGE_STATE_PREDICTION
    rw [max17050_charger_switch_charge_state]
    exact h

theorem driver_events_ne_PREDICTION (p : Platform) (k : Enumerators) (es : List DriverEvent) :
    ∀ s : State, s.poweralg.charge_state ≠ CHARGE_STATE_PREDICTION →
      (driver_events p k es s).poweralg.charge_state ≠ CHARGE_STATE_PREDICTION := by
  induction es with
  | nil => intro s h; exact h
  | cons e es ih =>
    intro s h
    exact ih _ (driver_event_ne_PREDICTION p k e s h)

/-! ### A bound on the passes of the transition loop -/

theorem settle_rank_PREDICTION (now : Int) (s : State)
    (h : s.poweralg.charge_state = CHARGE_STATE_PREDICTION) : settle_rank now s = 4 := by
  unfold settle_rank; rw [h]

theorem settle_rank_UNKNOWN (now : Int) (s : State)
    (h : s.poweralg.charge_state = CHARGE_STATE_UNKNOWN) : settle_rank now s = 3 := by
  unfold settle_rank; rw [h]

theorem settle_rank_DISCHARGE (now : Int) (s : State)
    (h : s.poweralg.charge_state = CHARGE_STATE_DISCHARGE) :
    settle_rank now s = if s.poweralg.is_cable_in = true then 3 else 1 := by
  unfold settle_rank; rw [h]

theorem settle_rank_PENDING (now : Int) (s : State)
    (h : s.poweralg.charge_state = CHARGE_STATE_PENDING) :
    settle_rank now s =
      if s.poweralg.is_cable_in = true ∧
        s.poweralg.protect_flags.is_charging_enable_available = false then 1 else 3 := by
  unfold settle_rank; rw [h]

theorem settle_rank_CHARGING (now : Int) (s : State)
    (h : s.poweralg.charge_state = CHARGE_STATE_CHARGING) :
    settle_rank now s =
      if s.poweralg.is_cable_in = true ∧
        s.poweralg.protect_flags.is_charging_enable_available = true ∧
        terminate_condition s = false then 1 else 2 := by
  unfold settle_rank; rw [h]

theorem settle_rank_FULL_WAIT_STABLE (now : Int) (s : State)
    (h : s.poweralg.charge_state = CHARGE_STATE_FULL_WAIT_STABLE) :
    settle_rank now s =
      if s.poweralg.is_cable_in = true ∧
        s.poweralg.protect_flags.is_charging_enable_available = true ∧
        terminate_condition s = true ∧ s.count_charging_full_condition = 0 then 1 else 2 := by
  unfold settle_rank; rw [h]

theorem settle_rank_FULL_CHARGING (now : Int) (s : State)
    (h : s.poweralg.charge_state = CHARGE_STATE_FULL_CHARGING) :
    settle_rank now s =
      if s.poweralg.is_cable_in = true ∧
        s.poweralg.protect_flags.is_charging_enable_available = true ∧
        s.poweralg.start_ktime = now ∧
        s.config.voltage_exit_full_mv ≤ s.poweralg.battery.voltage_mV then 1 else 4 := by
  unfold settle_rank; rw [h]

theorem settle_rank_FULL_PENDING (now : Int) (s : State)
    (h : s.poweralg.charge_state = CHARGE_STATE_FULL_PENDING) : settle_rank now s = 3 := by
  unfold settle_rank; rw [h]

theorem settle_rank_FULL_RECHARGING (now : Int) (s : State)
    (h : s.poweralg.charge_state = CHARGE_STATE_FULL_RECHARGING) : settle_rank now s = 2 := by
  unfold settle_rank; rw [h]

theorem settle_rank_pos (now : Int) (s : State) : 1 ≤ settle_rank now s := by
  unfold settle_rank
  split <;> (try split_ifs) <;> decide

theorem settle_rank_le (now : Int) (s : State) : settle_rank now s ≤ 4 := by
  unfold settle_rank
  split <;> (try split_ifs) <;> decide

/-- Outside the two states that rest without a cable or without the
allowance, a state of the cable-in group has rank 2 at least when the cable
is out or charging is not allowed. -/
theorem settle_rank_ge_two (now : Int) (s : State)
    (hg : cable_in_group s.poweralg.charge_state)
    (h : s.poweralg.is_cable_in = false ∨
      (s.poweralg.charge_state ≠ CHARGE_STATE_PENDING ∧
        s.poweralg.protect_flags.is_charging_enable_available = false)) :
    2 ≤ settle_rank now s := by
  have n1 : ∀ q : Prop, ¬ (s.poweralg.is_cable_in = true ∧
      s.poweralg.protect_flags.is_charging_enable_available = true ∧ q) := by
    rintro q ⟨a, b, -⟩
    rcases h with h | h
    · rw [h] at a; exact Bool.noConfusion a
    · rw [h.2] at b; exact Bool.noConfusion b
  rcases hg with hs | hs | hs | hs | hs | hs | hs
  · rw [settle_rank_UNKNOWN now s hs]; decide
  · rw [settle_rank_CHARGING now s hs, if_neg (n1 _)]
  · rw [settle_rank_PENDING now s hs, if_neg]
    · decide
    · rintro ⟨a, -⟩
      rcases h with h | h
      · rw [h] at a; exact Bool.noConfusion a
      · exact h.1 hs
  · rw [settle_rank_FULL_WAIT_STABLE now s hs, if_neg (n1 _)]
  · rw [settle_rank_FULL_CHARGING now s hs, if_neg (n1 _)]; decide
  · rw [settle_rank_FULL_RECHARGING now s hs]
  · rw [settle_rank_FULL_PENDING now s hs]; decide

theorem settle_rank_CHARGING_le (now : Int) (s : State)
    (h : s.poweralg.charge_state = CHARGE_STATE_CHARGING) : settle_rank now s ≤ 2 := by
  rw [settle_rank_CHARGING now s h]
  split_ifs <;> decide

/-- What a state entered through the handler of a state other than UNKNOWN
and PREDICTION inherits. -/
theorem state_transition_after_handler (p : Platform) (i : CycleInput) (s : State)
    (next : ChargeState)
    (hp : s.poweralg.charge_state ≠ CHARGE_STATE_PREDICTION)
    (hu : s.poweralg.charge_state ≠ CHARGE_STATE_UNKNOWN) :
    (state_transition p i (state_handler i.now s).1 next).poweralg.is_cable_in =
        s.poweralg.is_cable_in ∧
      (state_transition p i (state_handler i.now s).1
        next).poweralg.protect_flags.is_charging_enable_available =
        s.poweralg.protect_flags.is_charging_enable_available ∧
      (state_transition p i (state_handler i.now s).1 next).config = s.config ∧
      (state_transition p i (state_handler i.now s).1 next).poweralg.battery.voltage_mV =
        s.poweralg.battery.voltage_mV ∧
      (state_transition p i (state_handler i.now s).1 next).poweralg.battery.current_mA =
        s.poweralg.battery.current_mA ∧
      (state_transition p i (state_handler i.now s).1 next).poweralg.capacity_01p =
        (state_handler i.now s).1.poweralg.capacity_01p ∧
      (state_transition p i (state_handler i.now s).1 next).poweralg.start_ktime = i.now := by
  have hp' : (state_handler i.now s).1.poweralg.charge_state ≠ CHARGE_STATE_PREDICTION := by
    rw [state_handler_charge_state]; exact hp
  have hu' : (state_handler i.now s).1.poweralg.charge_state ≠ CHARGE_STATE_UNKNOWN := by
    rw [state_handler_charge_state]; exact hu
  refine ⟨?_, ?_, ?_, ?_, ?_, ?_, ?_⟩
  · rw [state_transition_is_cable_in, state_handler_is_cable_in]
  · rw [state_transition_protect_flags p i _ _ hp', state_handler_protect_flags]
  · rw [state_transition_config, state_handler_config]
  · rw [state_transition_voltage_mV p i _ _ hp', state_handler_battery]
  · rw [state_transition_current_mA p i _ _ hp', state_handler_battery]
  · rw [state_transition_capacity p i _ _ hp' hu']
  · rw [state_transition_start_ktime]

theorem settle_step_cable_removed (p : Platform) (i : CycleInput) (s : State)
    (hg : cable_in_group s.poweralg.charge_state) (hc : s.poweralg.is_cable_in = false) :
    settle_rank i.now (loop_body p i s).1 < settle_rank i.now s := by
  have h2 := settle_rank_ge_two i.now s hg (Or.inl hc)
  rw [loop_body_cable_removed p i s hg hc]
  dsimp only
  rw [settle_rank_DISCHARGE _ _ rfl, state_transition_is_cable_in, hc,
    if_neg Bool.false_ne_true]
  omega

theorem settle_step_not_allowed (p : Platform) (i : CycleInput) (s : State)
    (hg : cable_in_group s.poweralg.charge_state)
    (hu : s.poweralg.charge_state ≠ CHARGE_STATE_UNKNOWN)
    (hp : s.poweralg.charge_state ≠ CHARGE_STATE_PENDING)
    (hc : s.poweralg.is_cable_in = true)
    (he : s.poweralg.protect_flags.is_charging_enable_available = false) :
    settle_rank i.now (loop_body p i s).1 < settle_rank i.now s := by
  have h2 := settle_rank_ge_two i.now s hg (Or.inr ⟨hp, he⟩)
  have hnp : s.poweralg.charge_state ≠ CHARGE_STATE_PREDICTION := by
    rcases hg with h | h | h | h | h | h | h <;> rw [h] <;> decide
  rw [loop_body_not_allowed p i s hg hu hp hc he]
  dsimp only
  rw [settle_rank_PENDING _ _ rfl, state_transition_is_cable_in,
    state_transition_protect_flags p i s _ hnp, if_pos ⟨hc, he⟩]
  omega

theorem settle_step_cable_out_group (p : Platform) (i : CycleInput) (s : State)
    (h : s.poweralg.charge_state = CHARGE_STATE_UNKNOWN ∨
      s.poweralg.charge_state = CHARGE_STATE_DISCHARGE)
    (hc : s.poweralg.is_cable_in = true) :
    settle_rank i.now (loop_body p i s).1 < settle_rank i.now s := by
  have h3 : settle_rank i.now s = 3 := by
    rcases h with h | h
    · exact settle_rank_UNKNOWN _ s h
    · rw [settle_rank_DISCHARGE _ s h, if_pos hc]
  rw [loop_body_cable_out_group p i s h hc, h3]
  dsimp only
  have := settle_rank_CHARGING_le i.now (state_transition p i s CHARGE_STATE_CHARGING) rfl
  omega

theorem settle_step_PREDICTION (p : Platform) (i : CycleInput) (s : State)
    (h : s.poweralg.charge_state = CHARGE_STATE_PREDICTION)
    (hm : (loop_body p i s).2 = true) :
    settle_rank i.now (loop_body p i s).1 < settle_rank i.now s := by
  rw [settle_rank_PREDICTION _ s h]
  rw [loop_body_PREDICTION p i s h] at hm ⊢
  by_cases h1 : MSPERIOD i.now s.poweralg.start_ktime ≥ 50 * 1000
  · rw [if_pos h1] at hm
    exact Bool.noConfusion hm
  · rw [if_neg h1] at hm ⊢
    by_cases h2 : MSPERIOD i.now s.poweralg.start_ktime ≥
          INT32_of_int (s.config.predict_timeout_sec * 1000)
    · rw [if_pos h2]
      dsimp only
      rw [settle_rank_UNKNOWN _ _ rfl]
      decide
    · rw [if_neg h2] at hm
      exact Bool.noConfusion hm

theorem settle_step_PENDING (p : Platform) (i : CycleInput) (s : State)
    (h : s.poweralg.charge_state = CHARGE_STATE_PENDING)
    (hc : s.poweralg.is_cable_in = true)
    (hm : (loop_body p i s).2 = true) :
    settle_rank i.now (loop_body p i s).1 < settle_rank i.now s := by
  cases he : s.poweralg.protect_flags.is_charging_enable_available
  · exfalso
    rw [loop_body_eq, next_state_by_cable_eq, h] at hm
    simp [hc, he, (state_handler_PENDING i.now s h).1, h] at hm
  · have h3 : settle_rank i.now s = 3 := by
      rw [settle_rank_PENDING _ s h, if_neg]
      rintro ⟨-, b⟩
      rw [he] at b
      exact Bool.noConfusion b
    have hce : s.poweralg.is_cable_in = true ∧
        s.poweralg.protect_flags.is_charging_enable_available = true := ⟨hc, he⟩
    rw [loop_body_handler p i s (by rw [h]; decide) (by rw [h]; decide) hc he,
      (state_handler_PENDING i.now s h).1, if_pos hce, h, if_pos (by decide), h3]
    dsimp only
    have := settle_rank_CHARGING_le i.now
      (state_transition p i (state_handler i.now s).1 CHARGE_STATE_CHARGING) rfl
    omega

theorem settle_step_CHARGING (p : Platform) (i : CycleInput) (s : State)
    (h : s.poweralg.charge_state = CHARGE_STATE_CHARGING)
    (hc : s.poweralg.is_cable_in = true)
    (he : s.poweralg.protect_flags.is_charging_enable_available = true)
    (hm : (loop_body p i s).2 = true) :
    settle_rank i.now (loop_body p i s).1 < settle_rank i.now s := by
  cases ht : terminate_condition s
  · rw [loop_body_CHARGING_miss p i s h hc he ht] at hm
    exact Bool.noConfusion hm
  · obtain ⟨f1, f2, f3, f4, f5, f6, -⟩ := state_transition_after_handler p i s
      CHARGE_STATE_FULL_WAIT_STABLE (by rw [h]; decide) (by rw [h]; decide)
    have e2 : settle_rank i.now s = 2 := by
      rw [settle_rank_CHARGING _ s h, if_neg]
      rintro ⟨-, -, c⟩
      rw [ht] at c
      exact Bool.noConfusion c
    have ht' : terminate_condition
        (state_transition p i (state_handler i.now s).1 CHARGE_STATE_FULL_WAIT_STABLE) = true := by
      rw [terminate_condition_congr s _ f3 f4 f5, ht]
      rw [f6, (state_handler_CHARGING i.now s h).2]
      omega
    rw [loop_body_CHARGING_hit p i s h hc he ht, e2]
    dsimp only
    rw [settle_rank_FULL_WAIT_STABLE _ _ rfl, if_pos]
    · decide
    · refine ⟨f1.trans hc, f2.trans he, ht', ?_⟩
      rw [state_transition_count_charging_full_condition, if_pos rfl]

theorem settle_step_FULL_WAIT_STABLE (p : Platform) (i : CycleInput) (s : State)
    (hcfg : settling_config s.config)
    (h : s.poweralg.charge_state = CHARGE_STATE_FULL_WAIT_STABLE)
    (hc : s.poweralg.is_cable_in = true)
    (he : s.poweralg.protect_flags.is_charging_enable_available = true)
    (hm : (loop_body p i s).2 = true) :
    settle_rank i.now (loop_body p i s).1 < settle_rank i.now s := by
  have hl := loop_body_handler p i s (by rw [h]; decide) (by rw [h]; decide) hc he
  rw [(state_handler_FULL_WAIT_STABLE i.now s h).1, h] at hl
  rw [hl] at hm ⊢
  by_cases ht : terminate_condition s = false
  · rw [ht, if_neg Bool.false_ne_true, if_pos (by decide)]
    dsimp only
    obtain ⟨f1, f2, f3, f4, f5, f6, -⟩ := state_transition_after_handler p i s
      CHARGE_STATE_CHARGING (by rw [h]; decide) (by rw [h]; decide)
    have e2 : settle_rank i.now s = 2 := by
      rw [settle_rank_FULL_WAIT_STABLE _ s h, if_neg]
      rintro ⟨-, -, c, -⟩
      rw [ht] at c
      exact Bool.noConfusion c
    have ht' : terminate_condition
        (state_transition p i (state_handler i.now s).1 CHARGE_STATE_CHARGING) = false := by
      rw [terminate_condition_congr s _ f3 f4 f5, ht]
      rw [f6, (state_handler_FULL_WAIT_STABLE i.now s h).2.1, ht,
        if_neg (fun hh => Bool.false_ne_true hh.1)]
    rw [e2, settle_rank_CHARGING _ _ rfl, if_pos ⟨f1.trans hc, f2.trans he, ht'⟩]
    decide
  · rw [Bool.not_eq_false] at ht
    rw [ht, if_pos rfl] at hm ⊢
    by_cases hk : UINT32 (s.count_charging_full_condition + 1) ≥ 3
    · rw [if_pos hk, if_pos (by decide)]
      dsimp only
      obtain ⟨f1, f2, f3, f4, -, -, f7⟩ := state_transition_after_handler p i s
        CHARGE_STATE_FULL_CHARGING (by rw [h]; decide) (by rw [h]; decide)
      have e2 : settle_rank i.now s = 2 := by
        rw [settle_rank_FULL_WAIT_STABLE _ s h, if_neg]
        rintro ⟨-, -, -, c⟩
        rw [c] at hk
        revert hk
        decide
      have hv := ((terminate_condition_eq s).1 ht).1
      rw [e2, settle_rank_FULL_CHARGING _ _ rfl, if_pos]
      · decide
      · refine ⟨f1.trans hc, f2.trans he, f7, ?_⟩
        rw [f3, f4]
        exact le_trans hcfg.2.2 hv
    · rw [if_neg hk, if_neg (by decide)] at hm
      exact Bool.noConfusion hm

theorem settle_step_FULL_CHARGING (p : Platform) (i : CycleInput) (s : State)
    (hcfg : settling_config s.config)
    (h : s.poweralg.charge_state = CHARGE_STATE_FULL_CHARGING)
    (hc : s.poweralg.is_cable_in = true)
    (he : s.poweralg.protect_flags.is_charging_enable_available = true)
    (hm : (loop_body p i s).2 = true) :
    settle_rank i.now (loop_body p i s).1 < settle_rank i.now s := by
  rw [loop_body_handler p i s (by rw [h]; decide) (by rw [h]; decide) hc he,
    (state_handler_FULL_CHARGING i.now s h).1, h] at hm ⊢
  by_cases hv : s.poweralg.battery.voltage_mV < s.config.voltage_exit_full_mv
  · rw [if_pos hv, if_pos (by decide)]
    dsimp only
    obtain ⟨f1, f2, f3, f4, -, -, -⟩ := state_transition_after_handler p i s
      CHARGE_STATE_CHARGING (by rw [h]; decide) (by rw [h]; decide)
    have e4 : settle_rank i.now s = 4 := by
      rw [settle_rank_FULL_CHARGING _ s h, if_neg]
      rintro ⟨-, -, -, c⟩
      omega
    have ht' : terminate_condition
        (state_transition p i (state_handler i.now s).1 CHARGE_STATE_CHARGING) = false := by
      rw [Bool.eq_false_iff]
      intro hh
      have := ((terminate_condition_eq _).1 hh).1
      rw [f3, f4] at this
      have := hcfg.2.2
      omega
    rw [e4, settle_rank_CHARGING _ _ rfl, if_pos ⟨f1.trans hc, f2.trans he, ht'⟩]
    decide
  · rw [if_neg hv] at hm ⊢
    have hpn : ¬ (s.config.full_pending_ma ≠ 0 ∧ s.poweralg.battery.current_mA ≥ 0 ∧
        s.poweralg.battery.current_mA ≤ s.config.full_pending_ma) := fun hh => hh.1 hcfg.1
    rw [if_neg hpn] at hm ⊢
    by_cases hto : MSPERIOD i.now s.poweralg.start_ktime ≥
        INT32_of_int (s.config.full_charging_timeout_sec * 1000)
    · rw [if_pos hto, if_pos (by decide)]
      dsimp only
      have e4 : settle_rank i.now s = 4 := by
        rw [settle_rank_FULL_CHARGING _ s h, if_neg]
        rintro ⟨-, -, c, -⟩
        unfold MSPERIOD at hto
        have := hcfg.2.1
        omega
      rw [e4, settle_rank_FULL_PENDING _ _ rfl]
      decide
    · rw [if_neg hto, if_neg (by decide)] at hm
      exact Bool.noConfusion hm

theorem settle_step_FULL_PENDING (p : Platform) (i : CycleInput) (s : State)
    (h : s.poweralg.charge_state = CHARGE_STATE_FULL_PENDING)
    (hc : s.poweralg.is_cable_in = true)
    (he : s.poweralg.protect_flags.is_charging_enable_available = true)
    (hm : (loop_body p i s).2 = true) :
    settle_rank i.now (loop_body p i s).1 < settle_rank i.now s := by
  rw [loop_body_handler p i s (by rw [h]; decide) (by rw [h]; decide) hc he,
    (state_handler_FULL_PENDING i.now s h).1, h] at hm ⊢
  rw [settle_rank_FULL_PENDING _ s h]
  by_cases hr : (s.poweralg.battery.voltage_mV ≥ 0 ∧
        s.poweralg.battery.voltage_mV < s.config.voltage_recharge_mv) ∨
      (s.poweralg.capacity_01p ≥ 0 ∧
        s.poweralg.capacity_01p ≤ INT32_of_int (s.config.capacity_recharge_p * 10))
  · rw [if_pos hr, if_pos (by decide)]
    dsimp only
    rw [settle_rank_FULL_RECHARGING _ _ rfl]
    decide
  · rw [if_neg hr, if_neg (by decide)] at hm
    exact Bool.noConfusion hm

theorem settle_step_FULL_RECHARGING (p : Platform) (i : CycleInput) (s : State)
    (hcfg : settling_config s.config)
    (h : s.poweralg.charge_state = CHARGE_STATE_FULL_RECHARGING)
    (hc : s.poweralg.is_cable_in = true)
    (he : s.poweralg.protect_flags.is_charging_enable_available = true)
    (hm : (loop_body p i s).2 = true) :
    settle_rank i.now (loop_body p i s).1 < settle_rank i.now s := by
  rw [loop_body_handler p i s (by rw [h]; decide) (by rw [h]; decide) hc he,
    (state_handler_FULL_RECHARGING i.now s h).1, h] at hm ⊢
  rw [settle_rank_FULL_RECHARGING _ s h]
  by_cases hv : s.poweralg.battery.voltage_mV < s.config.voltage_exit_full_mv
  · rw [if_pos hv, if_pos (by decide)]
    dsimp only
    obtain ⟨f1, f2, f3, f4, -, -, -⟩ := state_transition_after_handler p i s
      CHARGE_STATE_CHARGING (by rw [h]; decide) (by rw [h]; decide)
    have ht' : terminate_condition
        (state_transition p i (state_handler i.now s).1 CHARGE_STATE_CHARGING) = false := by
      rw [Bool.eq_false_iff]
      intro hh
      have := ((terminate_condition_eq _).1 hh).1
      rw [f3, f4] at this
      have := hcfg.2.2
      omega
    rw [settle_rank_CHARGING _ _ rfl, if_pos ⟨f1.trans hc, f2.trans he, ht'⟩]
    decide
  · rw [if_neg hv] at hm ⊢
    by_cases hf : s.poweralg.battery.voltage_mV ≥ s.config.full_charging_mv ∧
        s.poweralg.battery.current_mA ≥ 0 ∧
        s.poweralg.battery.current_mA ≤ s.config.full_charging_ma
    · rw [if_pos hf, if_pos (by decide)]
      dsimp only
      obtain ⟨f1, f2, f3, f4, -, -, f7⟩ := state_transition_after_handler p i s
        CHARGE_STATE_FULL_CHARGING (by rw [h]; decide) (by rw [h]; decide)
      rw [settle_rank_FULL_CHARGING _ _ rfl, if_pos]
      · decide
      · refine ⟨f1.trans hc, f2.trans he, f7, ?_⟩
        rw [f3, f4]
        omega
    · rw [if_neg hf, if_neg (by decide)] at hm
      exact Bool.noConfusion hm

/-- One pass that changes the state lowers the rank. -/
theorem settle_step (p : Platform) (i : CycleInput) (s : State)
    (hcfg : settling_config s.config) (hm : (loop_body p i s).2 = true) :
    settle_rank i.now (loop_body p i s).1 < settle_rank i.now s := by
  cases hc : s.poweralg.is_cable_in
  · cases h : s.poweralg.charge_state
    case CHARGE_STATE_PREDICTION => exact settle_step_PREDICTION p i s h hm
    case CHARGE_STATE_DISCHARGE =>
      rw [loop_body_DISCHARGE_no_cable p i s h hc] at hm
      exact Bool.noConfusion hm
    all_goals
      apply settle_step_cable_removed p i s _ hc
      rw [h]
      unfold cable_in_group
      decide
  · cases h : s.poweralg.charge_state
    case CHARGE_STATE_PREDICTION => exact settle_step_PREDICTION p i s h hm
    case CHARGE_STATE_DISCHARGE => exact settle_step_cable_out_group p i s (Or.inr h) hc
    case CHARGE_STATE_UNKNOWN => exact settle_step_cable_out_group p i s (Or.inl h) hc
    case CHARGE_STATE_PENDING => exact settle_step_PENDING p i s h hc hm
    all_goals
      cases he : s.poweralg.protect_flags.is_charging_enable_available
      · apply settle_step_not_allowed p i s _ _ _ hc he
        · rw [h]; unfold cable_in_group; decide
        · rw [h]; decide
        · rw [h]; decide
    case true.CHARGE_STATE_CHARGING.true => exact settle_step_CHARGING p i s h hc he hm
    case true.CHARGE_STATE_FULL_WAIT_STABLE.true => exact settle_step_FULL_WAIT_STABLE p i s hcfg h hc he hm
    case true.CHARGE_STATE_FULL_CHARGING.true => exact settle_step_FULL_CHARGING p i s hcfg h hc he hm
    case true.CHARGE_STATE_FULL_PENDING.true => exact settle_step_FULL_PENDING p i s h hc he hm
    case true.CHARGE_STATE_FULL_RECHARGING.true => exact settle_step_FULL_RECHARGING p i s hcfg h hc he hm

theorem loop_body_config (p : Platform) (i : CycleInput) (s : State) :
    (loop_body p i s).1.config = s.config := by
  rw [loop_body_eq]
  split_ifs
  · dsimp only; rw [state_transition_config, state_handler_config]
  · exact state_handler_config i.now s
  · dsimp only; rw [state_transition_config]

/-- With as many passes as the rank the loop comes to rest. -/
theorem loop_settles_of_rank (p : Platform) (i : CycleInput) (n : Nat) :
    ∀ s : State, settling_config s.config → settle_rank i.now s ≤ n →
      loop_settles p i n s = true := by
  induction n with
  | zero =>
    intro s _ h
    have := settle_rank_pos i.now s
    omega
  | succ n ih =>
    intro s hcfg h
    rw [loop_settles_succ]
    cases hm : (loop_body p i s).2
    · rw [if_neg Bool.false_ne_true]
    · rw [if_pos rfl]
      have := settle_step p i s hcfg hm
      exact ih _ (by rw [loop_body_config]; exact hcfg) (by omega)

/-- The loop never executes more passes than the rank. -/
theorem loop_passes_le_rank (p : Platform) (i : CycleInput) (n : Nat) :
    ∀ s : State, settling_config s.config → loop_passes p i n s ≤ settle_rank i.now s := by
  induction n with
  | zero =>
    intro s _
    exact Nat.zero_le _
  | succ n ih =>
    intro s hcfg
    rw [loop_passes_succ]
    cases hm : (loop_body p i s).2
    · rw [if_neg Bool.false_ne_true]
      exact settle_rank_pos i.now s
    · rw [if_pos rfl]
      have h1 := settle_step p i s hcfg hm
      have h2 := ih (loop_body p i s).1 (by rw [loop_body_config]; exact hcfg)
      omega

/-- A loop that comes to rest within `n` passes does with more passes what it
does with `n`. -/
theorem transition_loop_more_passes (p : Platform) (i : CycleInput) (n : Nat) :
    ∀ (m : Nat) (s : State), loop_settles p i n s = true → n ≤ m →
      transition_loop p i m s = transition_loop p i n s := by
  induction n with
  | zero => intro m s h; exact Bool.noConfusion h
  | succ n ih =>
    intro m s h hm
    obtain ⟨m', rfl⟩ : ∃ m', m = m' + 1 := ⟨m - 1, by omega⟩
    rw [loop_settles_succ] at h
    rw [transition_loop_succ, transition_loop_succ]
    cases hb : (loop_body p i s).2
    · rw [if_neg Bool.false_ne_true, if_neg Bool.false_ne_true]
    · rw [hb, if_pos rfl] at h
      rw [if_pos rfl, if_pos rfl]
      exact ih m' _ h (by omega)

theorem settling_config_poweralg_config_init : settling_config poweralg_config_init := by
  unfold settling_config poweralg_config_init
  decide

/-! ### The voltage curve translator -/

theorem INT32_of_lt (n : Nat) (h : n < 2147483648) : INT32 n = n := by
  unfold INT32
  rw [Nat.mod_eq_of_lt (by omega), if_pos h]

theorem UINT32_of_lt (n : Nat) (h : n < 4294967296) : UINT32 n = n := by
  unfold UINT32
  exact Nat.mod_eq_of_lt h

theorem DWORD_sub_of_le (a b : Nat) (ha : a < 4294967296) (h : b ≤ a) :
    DWORD_sub a b = a - b := by
  unfold DWORD_sub UINT32
  omega

theorem DWORD_sub_self (a : Nat) : DWORD_sub a a = 0 := by
  unfold DWORD_sub UINT32
  omega

theorem DWORD_sub_eq_zero (a b : Nat) (ha : a < 4294967296) (hb : b < 4294967296)
    (h : DWORD_sub a b = 0) : a = b := by
  unfold DWORD_sub UINT32 at h
  omega

theorem curve_of_nil : curve_of [] = voltage_curve_translator_init := rfl

theorem curve_of_snoc (l : List sampled_point_type) (x : sampled_point_type) :
    curve_of (l ++ [x]) = voltage_curve_translator_add (curve_of l) x.voltage x.capacity := by
  unfold curve_of
  rw [List.foldl_append]
  rfl

/-- One `voltage_curve_translator_add` on a curve with room left and the
minima at zero. -/
theorem voltage_curve_translator_add_eq (t : voltage_curve_translator) (x : sampled_point_type)
    (n : Nat) (hn : t.sampled_point_count = n) (h12 : n < 12)
    (hx : x.voltage < 4294967296 ∧ x.capacity < 4294967296)
    (hvmin : t.voltage_min = 0) (hcmin : t.capacity_min = 0) :
    voltage_curve_translator_add t x.voltage x.capacity =
      { voltage_min := 0
        voltage_max := if x.voltage > t.voltage_max then x.voltage else t.voltage_max
        capacity_min := 0
        capacity_max := if x.capacity > t.capacity_max then x.capacity else t.capacity_max
        sampled_point_count := (n + 1 : Nat)
        sampled_points := t.sampled_points.set n x } := by
  have h1 : ¬ t.sampled_point_count ≥ (NUM_SAMPLED_POINTS_MAX : Int) := by
    rw [hn]; unfold NUM_SAMPLED_POINTS_MAX; omega
  have e1 : UINT32 x.voltage = x.voltage := UINT32_of_lt _ hx.1
  have e2 : UINT32 x.capacity = x.capacity := UINT32_of_lt _ hx.2
  unfold voltage_curve_translator_add
  rw [if_neg h1]
  dsimp only
  rw [e1, e2, hn, hvmin, hcmin]
  have e3 : ((n : Int)).toNat = n := Int.toNat_natCast n
  rw [e3]
  have e4 : ((n : Int) + 1) = ((n + 1 : Nat) : Int) := by push_cast; rfl
  rw [e4]
  have n1 : ¬ x.voltage < 0 := Nat.not_lt_zero _
  have n2 : ¬ x.capacity < 0 := Nat.not_lt_zero _
  by_cases a1 : x.voltage > t.voltage_max <;> by_cases a2 : x.capacity > t.capacity_max <;>
    simp only [a1, a2, n1, n2, if_true, if_false]

/-- What `curve_of` builds from at most 12 valid points in strictly decreasing
order: the points followed by zero entries, the count, the maxima at the
first point and the minima at zero. -/
theorem curve_of_built (l : List sampled_point_type) :
    l.length ≤ 12 → strictly_decreasing l →
      (∀ pt ∈ l, pt.voltage < 4294967296 ∧ pt.capacity < 4294967296) →
      curve_of l =
        { voltage_min := 0
          voltage_max := (l.headD { voltage := 0, capacity := 0 }).voltage
          capacity_min := 0
          capacity_max := (l.headD { voltage := 0, capacity := 0 }).capacity
          sampled_point_count := (l.length : Nat)
          sampled_points := l ++ List.replicate (12 - l.length) { voltage := 0, capacity := 0 } } := by
  induction l using List.reverseRecOn with
  | nil => intro _ _ _; rfl
  | append_singleton l x ih =>
    intro hlen hd hv
    rw [List.length_append, List.length_singleton] at hlen
    have hd2 := List.pairwise_append.1 hd
    have hx := hv x (List.mem_append_right _ (List.mem_singleton_self x))
    have ih2 := ih (by omega) hd2.1 (fun pt hpt => hv pt (List.mem_append_left _ hpt))
    rw [curve_of_snoc, voltage_curve_translator_add_eq (curve_of l) x l.length
      (by rw [ih2]) (by omega) hx (by rw [ih2]) (by rw [ih2]), ih2]
    dsimp only
    have es : (l ++ List.replicate (12 - l.length) ({ voltage := 0, capacity := 0 } :
        sampled_point_type)).set l.length x =
        l ++ [x] ++ List.replicate (12 - (l ++ [x]).length) { voltage := 0, capacity := 0 } := by
      rw [List.set_append, if_neg (lt_irrefl _), Nat.sub_self, List.length_append,
        List.length_singleton]
      obtain ⟨m, hm⟩ : ∃ m, 12 - l.length = m + 1 := ⟨11 - l.length, by omega⟩
      have hm2 : 12 - (l.length + 1) = m := by omega
      rw [hm, hm2, List.replicate_succ, List.set_cons_zero, List.append_assoc]
      rfl
    rw [es, List.length_append, List.length_singleton]
    cases l with
    | nil =>
      have a1 : (if x.voltage > 0 then x.voltage else 0) = x.voltage := by
        split_ifs <;> omega
      have a2 : (if x.capacity > 0 then x.capacity else 0) = x.capacity := by
        split_ifs <;> omega
      simp only [List.headD_nil, List.nil_append, List.headD_cons, a1, a2]
    | cons a l2 =>
      have hax := hd2.2.2 a (List.mem_cons_self a l2) x (List.mem_singleton_self x)
      have a1 : ¬ x.voltage > a.voltage := by omega
      have a2 : ¬ x.capacity > a.capacity := by omega
      simp only [List.cons_append, List.headD_cons, if_neg a1, if_neg a2]

/-- The entries of a built curve below the count are the points. -/
theorem curve_of_point (l : List sampled_point_type) (hlen : l.length ≤ 12)
    (hd : strictly_decreasing l)
    (hv : ∀ pt ∈ l, pt.voltage < 4294967296 ∧ pt.capacity < 4294967296)
    (j : Nat) (hj : j < l.length) : (curve_of l).sampled_points[j]? = some l[j] := by
  rw [curve_of_built l hlen hd hv]
  dsimp only
  rw [List.getElem?_append_left hj, List.getElem?_eq_getElem hj]

/-- The search loop on a curve whose entries below `k + 1` are strictly
decreasing in voltage, asked for the voltage of the entry `k ≥ 1`: it ends
with `p0` at `k - 1`. -/
theorem voltage_curve_translator_search_anchor (t : voltage_curve_translator)
    (l : List sampled_point_type) (hd : strictly_decreasing l)
    (ht : ∀ j (hj : j < l.length), t.sampled_points[j]? = some l[j])
    (k : Nat) (hk : k < l.length) :
    ∀ (d i fuel : Nat), i + d + 1 = k → d ≤ fuel →
      voltage_curve_translator_search t l[k].voltage fuel i = some (k - 1) := by
  intro d
  induction d with
  | zero =>
    intro i fuel hi _
    cases fuel with
    | zero =>
      unfold voltage_curve_translator_search
      congr 1
      omega
    | succ f =>
      unfold voltage_curve_translator_search
      have e : i + 1 = k := by omega
      rw [e, ht k hk]
      dsimp only
      rw [if_neg (lt_irrefl _)]
      congr 1
      omega
  | succ d ih =>
    intro i fuel hi hf
    obtain ⟨f, rfl⟩ : ∃ f, fuel = f + 1 := ⟨fuel - 1, by omega⟩
    unfold voltage_curve_translator_search
    have hi1 : i + 1 < l.length := by omega
    rw [ht (i + 1) hi1]
    dsimp only
    have hlt : l[k].voltage < l[i + 1].voltage :=
      (List.pairwise_iff_getElem.1 hd (i + 1) k hi1 hk (by omega)).1
    rw [if_pos hlt]
    exact ih (i + 1) f (by omega) (by omega)

/-- The search loop asked for the voltage of the first entry: it ends at
once. -/
theorem voltage_curve_translator_search_first (t : voltage_curve_translator)
    (l : List sampled_point_type) (hd : strictly_decreasing l)
    (ht : ∀ j (hj : j < l.length), t.sampled_points[j]? = some l[j])
    (h0 : 0 < l.length) (h1 : 1 < l.length) (fuel : Nat) :
    voltage_curve_translator_search t l[0].voltage fuel 0 = some 0 := by
  cases fuel with
  | zero => rfl
  | succ f =>
    unfold voltage_curve_translator_search
    rw [ht 1 h1]
    dsimp only
    have hlt : l[1].voltage < l[0].voltage :=
      (List.pairwise_iff_getElem.1 hd 0 1 h0 h1 (by decide)).1
    rw [if_neg (by omega)]

/-- Interpolation at the voltage of `p1`: the capacity of `p1`. -/
theorem voltage_curve_translator_interpolate_low (t : voltage_curve_translator)
    (p0 p1 : sampled_point_type) (hv : p1.voltage < p0.voltage) (hv0 : p0.voltage < 4294967296)
    (hc1 : p1.capacity < 2147483648) (hmax : p1.capacity ≤ t.capacity_max)
    (hmin : t.capacity_min = 0) :
    voltage_curve_translator_interpolate t p1.voltage p0 p1 =
      curve_lookup.capacity p1.capacity := by
  have hd : DWORD_sub p0.voltage p1.voltage ≠ 0 := by
    rw [DWORD_sub_of_le _ _ hv0 (by omega)]
    omega
  unfold voltage_curve_translator_interpolate DWORD_div
  rw [if_neg hd, if_neg hd]
  dsimp only
  rw [DWORD_sub_self, Nat.zero_mul]
  have e1 : UINT32 0 / DWORD_sub p0.voltage p1.voltage = 0 := by
    unfold UINT32
    simp
  rw [e1, Nat.zero_add, UINT32_of_lt _ (by omega), hmin, if_neg (Nat.not_lt_zero _),
    if_neg (by omega : ¬ p1.capacity > t.capacity_max), INT32_of_lt _ hc1]

/-- Interpolation at the voltage of `p0` when the product of the differences
fits in 32 bits: the capacity of `p0`. -/
theorem voltage_curve_translator_interpolate_high (t : voltage_curve_translator)
    (p0 p1 : sampled_point_type) (hv : p1.voltage < p0.voltage) (hc : p1.capacity < p0.capacity)
    (hv0 : p0.voltage < 4294967296) (hc0 : p0.capacity < 2147483648)
    (hm : (p0.voltage - p1.voltage) * (p0.capacity - p1.capacity) < 4294967296)
    (hmax : p0.capacity ≤ t.capacity_max) (hmin : t.capacity_min = 0) :
    voltage_curve_translator_interpolate t p0.voltage p0 p1 =
      curve_lookup.capacity p0.capacity := by
  have e0 : DWORD_sub p0.voltage p1.voltage = p0.voltage - p1.voltage :=
    DWORD_sub_of_le _ _ hv0 (by omega)
  have e1 : DWORD_sub p0.capacity p1.capacity = p0.capacity - p1.capacity :=
    DWORD_sub_of_le _ _ (by omega) (by omega)
  have hd : p0.voltage - p1.voltage ≠ 0 := by omega
  unfold voltage_curve_translator_interpolate DWORD_div
  rw [e0, e1, if_neg hd, if_neg hd]
  dsimp only
  rw [UINT32_of_lt _ hm, Nat.mul_div_cancel_left _ (by omega : 0 < p0.voltage - p1.voltage)]
  have e2 : p0.capacity - p1.capacity + p1.capacity = p0.capacity := by omega
  rw [e2, UINT32_of_lt _ (by omega), hmin, if_neg (Nat.not_lt_zero _),
    if_neg (by omega : ¬ p0.capacity > t.capacity_max), INT32_of_lt _ hc0]

/-- Every point of a strictly decreasing list lies at or below the first. -/
theorem strictly_decreasing_le_head (l : List sampled_point_type) (hd : strictly_decreasing l)
    (k : Nat) (hk : k < l.length) :
    l[k].voltage ≤ (l.headD { voltage := 0, capacity := 0 }).voltage ∧
      l[k].capacity ≤ (l.headD { voltage := 0, capacity := 0 }).capacity := by
  cases l with
  | nil => exact absurd hk (Nat.not_lt_zero _)
  | cons a l2 =>
    cases k with
    | zero => exact ⟨le_refl _, le_refl _⟩
    | succ k =>
      have := List.pairwise_iff_getElem.1 hd 0 (k + 1) (Nat.succ_pos _) hk (Nat.succ_pos _)
      exact ⟨le_of_lt this.1, le_of_lt this.2⟩

theorem strictly_decreasing_valid (l : List sampled_point_type) (hd : strictly_decreasing l)
    (hv0 : (l.headD { voltage := 0, capacity := 0 }).voltage < 4294967296)
    (hc0 : (l.headD { voltage := 0, capacity := 0 }).capacity < 2147483648) :
    ∀ pt ∈ l, pt.voltage < 4294967296 ∧ pt.capacity < 4294967296 := by
  intro pt hpt
  obtain ⟨k, hk, rfl⟩ := List.getElem_of_mem hpt
  have := strictly_decreasing_le_head l hd k hk
  omega

/-- Lookup at an anchor point of a built curve. -/
theorem curve_of_anchor (l : List sampled_point_type) (h2 : 2 ≤ l.length)
    (h12 : l.length ≤ 12) (hd : strictly_decreasing l)
    (hv0 : (l.headD { voltage := 0, capacity := 0 }).voltage < 4294967296)
    (hc0 : (l.headD { voltage := 0, capacity := 0 }).capacity < 2147483648)
    (k : Nat) (hk : k < l.length)
    (hm : k = 0 →
      (l[0].voltage - l[1].voltage) * (l[0].capacity - l[1].capacity) < 4294967296) :
    voltage_curve_translator_get (curve_of l) l[k].voltage =
      curve_lookup.capacity l[k].capacity := by
  have hvalid := strictly_decreasing_valid l hd hv0 hc0
  have hb := curve_of_built l h12 hd hvalid
  have hpt := curve_of_point l h12 hd hvalid
  have hle := strictly_decreasing_le_head l hd
  have hmaxv : (curve_of l).voltage_max = (l.headD { voltage := 0, capacity := 0 }).voltage := by
    rw [hb]
  have hmaxc : (curve_of l).capacity_max =
      (l.headD { voltage := 0, capacity := 0 }).capacity := by
    rw [hb]
  have hminv : (curve_of l).voltage_min = 0 := by rw [hb]
  have hminc : (curve_of l).capacity_min = 0 := by rw [hb]
  have hcount : (curve_of l).sampled_point_count = (l.length : Nat) := by rw [hb]
  have hclamp : voltage_curve_translator_clamp (curve_of l) l[k].voltage = l[k].voltage := by
    unfold voltage_curve_translator_clamp
    dsimp only
    have := hle k hk
    rw [UINT32_of_lt _ (by omega), hmaxv, hminv, if_neg (Nat.not_lt_zero _),
      if_neg (by omega : ¬ l[k].voltage > (l.headD { voltage := 0, capacity := 0 }).voltage)]
  have hfuel : ((curve_of l).sampled_point_count - 1).toNat = l.length - 1 := by
    rw [hcount]
    omega
  unfold voltage_curve_translator_get
  dsimp only
  rw [hclamp]
  cases k with
  | zero =>
    have hbr : voltage_curve_translator_bracket (curve_of l) l[0].voltage =
        some (l[0], l[1]) := by
      unfold voltage_curve_translator_bracket
      rw [hfuel, voltage_curve_translator_search_first (curve_of l) l hd hpt (by omega)
        (by omega)]
      dsimp only
      rw [hpt 0 (by omega), hpt 1 (by omega)]
    rw [hbr]
    dsimp only
    have h01 := List.pairwise_iff_getElem.1 hd 0 1 (by omega) (by omega) (by decide)
    have h0 := hle 0 (by omega)
    exact voltage_curve_translator_interpolate_high (curve_of l) l[0] l[1] h01.1 h01.2
      (by omega) (by omega) (hm rfl) (by rw [hmaxc]; exact h0.2) hminc
  | succ k =>
    have hbr : voltage_curve_translator_bracket (curve_of l) l[k + 1].voltage =
        some (l[k], l[k + 1]) := by
      unfold voltage_curve_translator_bracket
      rw [hfuel, voltage_curve_translator_search_anchor (curve_of l) l hd hpt (k + 1) hk k 0
        (l.length - 1) (by omega) (by omega)]
      dsimp only
      rw [Nat.add_sub_cancel, hpt k (by omega), hpt (k + 1) hk]
    rw [hbr]
    dsimp only
    have hkk := List.pairwise_iff_getElem.1 hd k (k + 1) (by omega) hk (by omega)
    have h0 := hle k (by omega)
    have h1 := hle (k + 1) hk
    exact voltage_curve_translator_interpolate_low (curve_of l) l[k] l[k + 1] hkk.1
      (by omega) (by omega) (by rw [hmaxc]; exact h1.2) hminc

/-- The search loop on a curve asked for a voltage that lies at or below the
entry it stands at and at or above a later point: it ends between two points
that bracket the voltage. -/
theorem voltage_curve_translator_search_bracket (t : voltage_curve_translator)
    (l : List sampled_point_type)
    (ht : ∀ j (hj : j < l.length), t.sampled_points[j]? = some l[j]) (v : Nat) :
    ∀ (fuel i : Nat) (hi : i < l.length), i + fuel + 1 = l.length → v ≤ l[i].voltage →
      (∃ j, ∃ hj : j < l.length, i < j ∧ l[j].voltage ≤ v) →
      ∃ r, ∃ hr : r + 1 < l.length,
        voltage_curve_translator_search t v fuel i = some r ∧
          l[r + 1].voltage ≤ v ∧ v ≤ l[r].voltage := by
  intro fuel
  induction fuel with
  | zero =>
    intro i hi hn _ hj
    obtain ⟨j, hj, hij, -⟩ := hj
    omega
  | succ f ih =>
    intro i hi hn hv hj
    have hi1 : i + 1 < l.length := by omega
    unfold voltage_curve_translator_search
    rw [ht (i + 1) hi1]
    dsimp only
    by_cases hlt : v < l[i + 1].voltage
    · rw [if_pos hlt]
      apply ih (i + 1) hi1 (by omega) (le_of_lt hlt)
      obtain ⟨j, hj, hij, hjv⟩ := hj
      refine ⟨j, hj, ?_, hjv⟩
      by_contra hc
      have e : j = i + 1 := by omega
      subst e
      omega
    · rw [if_neg hlt]
      exact ⟨i, hi1, rfl, by omega, hv⟩

/-- Interpolation between two points that bracket the voltage, when the
largest product fits in 32 bits: a capacity between the capacities of the two
points, the capacity of `p0` at the voltage of `p0`. -/
theorem voltage_curve_translator_interpolate_between (t : voltage_curve_translator)
    (p0 p1 : sampled_point_type) (v : Nat) (hv : p1.voltage < p0.voltage)
    (hc : p1.capacity < p0.capacity) (h1 : p1.voltage ≤ v) (h0 : v ≤ p0.voltage)
    (hm : p0.voltage * p0.capacity < 4294967296) (hc0 : p0.capacity < 2147483648)
    (hmax : p0.capacity ≤ t.capacity_max) (hmin : t.capacity_min = 0) :
    ∃ c : Nat, voltage_curve_translator_interpolate t v p0 p1 = curve_lookup.capacity c ∧
      p1.capacity ≤ c ∧ c ≤ p0.capacity ∧ (v = p0.voltage → c = p0.capacity) := by
  have hv0 : p0.voltage < 4294967296 := by
    have : p0.voltage * 1 ≤ p0.voltage * p0.capacity := Nat.mul_le_mul_left _ (by omega)
    omega
  have e0 : DWORD_sub p0.voltage p1.voltage = p0.voltage - p1.voltage :=
    DWORD_sub_of_le _ _ hv0 (by omega)
  have e1 : DWORD_sub p0.capacity p1.capacity = p0.capacity - p1.capacity :=
    DWORD_sub_of_le _ _ (by omega) (by omega)
  have e2 : DWORD_sub v p1.voltage = v - p1.voltage := DWORD_sub_of_le _ _ (by omega) h1
  have hd : p0.voltage - p1.voltage ≠ 0 := by omega
  have hprod : (v - p1.voltage) * (p0.capacity - p1.capacity) ≤ p0.voltage * p0.capacity :=
    Nat.mul_le_mul (by omega) (by omega)
  have hq : (v - p1.voltage) * (p0.capacity - p1.capacity) / (p0.voltage - p1.voltage) ≤
      p0.capacity - p1.capacity := by
    apply Nat.div_le_of_le_mul
    exact Nat.mul_le_mul_right _ (by omega)
  have hqtop : v = p0.voltage →
      (v - p1.voltage) * (p0.capacity - p1.capacity) / (p0.voltage - p1.voltage) =
        p0.capacity - p1.capacity := by
    intro hvv
    rw [hvv, Nat.mul_div_cancel_left _ (by omega : 0 < p0.voltage - p1.voltage)]
  have hres : voltage_curve_translator_interpolate t v p0 p1 =
      curve_lookup.capacity
        (INT32 (UINT32 ((v - p1.voltage) * (p0.capacity - p1.capacity) /
          (p0.voltage - p1.voltage) + p1.capacity))) := by
    have hle : UINT32 ((v - p1.voltage) * (p0.capacity - p1.capacity) /
        (p0.voltage - p1.voltage) + p1.capacity) ≤ p0.capacity := by
      rw [UINT32_of_lt _ (by omega)]
      omega
    unfold voltage_curve_translator_interpolate DWORD_div
    rw [e0, e1, e2, if_neg hd, if_neg hd]
    dsimp only
    rw [UINT32_of_lt _ (lt_of_le_of_lt hprod hm), hmin, if_neg (Nat.not_lt_zero _),
      if_neg (not_lt.2 (le_trans hle hmax))]
  generalize (v - p1.voltage) * (p0.capacity - p1.capacity) / (p0.voltage - p1.voltage) = q
    at hq hqtop hres
  refine ⟨q + p1.capacity, ?_, by omega, by omega, ?_⟩
  · rw [hres, UINT32_of_lt _ (by omega), INT32_of_lt _ (by omega)]
  · intro hvv
    have := hqtop hvv
    omega

/-- Lookup on a built curve at a voltage at or above one of its points. -/
theorem curve_of_in_range (l : List sampled_point_type) (h2 : 2 ≤ l.length)
    (h12 : l.length ≤ 12) (hd : strictly_decreasing l)
    (hm : (l.headD { voltage := 0, capacity := 0 }).voltage *
      (l.headD { voltage := 0, capacity := 0 }).capacity < 4294967296)
    (hc0 : (l.headD { voltage := 0, capacity := 0 }).capacity < 2147483648)
    (voltage : Nat) (hvd : voltage < 4294967296)
    (hlow : ∃ pt ∈ l, pt.voltage ≤ voltage) :
    ∃ c : Nat, voltage_curve_translator_get (curve_of l) voltage = curve_lookup.capacity c ∧
      (∃ lo ∈ l, lo.capacity ≤ c) ∧ (∃ hi ∈ l, c ≤ hi.capacity) ∧
      ((l.headD { voltage := 0, capacity := 0 }).voltage ≤ voltage →
        c = (l.headD { voltage := 0, capacity := 0 }).capacity) := by
  obtain ⟨a, l2, rfl⟩ : ∃ a l2, l = a :: l2 := by
    cases l with
    | nil => exact absurd h2 (by decide)
    | cons a l2 => exact ⟨a, l2, rfl⟩
  have hhead : (a :: l2).headD { voltage := 0, capacity := 0 } = a := rfl
  have h01 : (a :: l2)[1].voltage < a.voltage ∧ (a :: l2)[1].capacity < a.capacity :=
    List.pairwise_iff_getElem.1 hd 0 1 (by omega) (by omega) (by decide)
  rw [hhead] at hm hc0 ⊢
  have hv0 : a.voltage < 4294967296 := by
    have : a.voltage * 1 ≤ a.voltage * a.capacity := Nat.mul_le_mul_left _ (by omega)
    omega
  have hvalid := strictly_decreasing_valid (a :: l2) hd (by rw [hhead]; exact hv0)
    (by rw [hhead]; exact hc0)
  have hb := curve_of_built (a :: l2) h12 hd hvalid
  have hpt := curve_of_point (a :: l2) h12 hd hvalid
  have hle : ∀ (k : Nat) (hk : k < (a :: l2).length),
      (a :: l2)[k].voltage ≤ a.voltage ∧ (a :: l2)[k].capacity ≤ a.capacity :=
    strictly_decreasing_le_head (a :: l2) hd
  have hmaxv : (curve_of (a :: l2)).voltage_max = a.voltage := by rw [hb, hhead]
  have hmaxc : (curve_of (a :: l2)).capacity_max = a.capacity := by rw [hb, hhead]
  have hminv : (curve_of (a :: l2)).voltage_min = 0 := by rw [hb]
  have hminc : (curve_of (a :: l2)).capacity_min = 0 := by rw [hb]
  have hfuel : ((curve_of (a :: l2)).sampled_point_count - 1).toNat = (a :: l2).length - 1 := by
    rw [hb]
    dsimp only
    omega
  clear hb
  generalize curve_of (a :: l2) = t at hpt hmaxv hmaxc hminv hminc hfuel ⊢
  have hclamp : voltage_curve_translator_clamp t voltage =
      if voltage > a.voltage then a.voltage else voltage := by
    unfold voltage_curve_translator_clamp
    dsimp only
    rw [UINT32_of_lt _ hvd, hmaxv, hminv, if_neg (Nat.not_lt_zero _)]
  generalize hv' : voltage_curve_translator_clamp t voltage = v at hclamp
  have hvle : v ≤ a.voltage := by
    rw [hclamp]; split_ifs <;> omega
  have hvtop : a.voltage ≤ voltage → v = a.voltage := by
    intro h; rw [hclamp]; split_ifs <;> omega
  have hj : ∃ j, ∃ hj : j < (a :: l2).length, 0 < j ∧ (a :: l2)[j].voltage ≤ v := by
    obtain ⟨pt, hpt, hptv⟩ := hlow
    obtain ⟨j, hj, rfl⟩ := List.getElem_of_mem hpt
    have hjv : (a :: l2)[j].voltage ≤ v := by
      have := (hle j hj).1
      rw [hclamp]; split_ifs <;> omega
    cases j with
    | zero => exact ⟨1, by omega, by decide, le_trans (le_of_lt h01.1) hjv⟩
    | succ j => exact ⟨j + 1, hj, Nat.succ_pos _, hjv⟩
  obtain ⟨r, hr, hs, hr1, hr0⟩ := voltage_curve_translator_search_bracket t (a :: l2) hpt v
    ((a :: l2).length - 1) 0 (by omega) (by omega) hvle hj
  have hbr : voltage_curve_translator_bracket t v = some ((a :: l2)[r], (a :: l2)[r + 1]) := by
    unfold voltage_curve_translator_bracket
    rw [hfuel, hs]
    dsimp only
    rw [hpt r (by omega), hpt (r + 1) hr]
  have hr' : r < (a :: l2).length := by omega
  have hrr : (a :: l2)[r + 1].voltage < (a :: l2)[r].voltage ∧
      (a :: l2)[r + 1].capacity < (a :: l2)[r].capacity :=
    List.pairwise_iff_getElem.1 hd r (r + 1) hr' hr (by omega)
  have hr0' := hle r hr'
  have hm0 : (a :: l2)[0].voltage = a.voltage := rfl
  have hmem0 : (a :: l2)[r] ∈ a :: l2 := List.getElem_mem _
  have hmem1 : (a :: l2)[r + 1] ∈ a :: l2 := List.getElem_mem _
  have hr00 : a.voltage ≤ (a :: l2)[r].voltage → (a :: l2)[r] = a := by
    intro hh
    have hz : r = 0 := by
      by_contra hne
      have := (List.pairwise_iff_getElem.1 hd 0 r (by omega) hr' (by omega)).1
      omega
    subst hz
    rfl
  generalize (a :: l2)[r] = p0 at hbr hr0 hrr hr0' hmem0 hr00
  generalize (a :: l2)[r + 1] = p1 at hbr hr1 hrr hmem1
  have hmr : p0.voltage * p0.capacity < 4294967296 :=
    lt_of_le_of_lt (Nat.mul_le_mul hr0'.1 hr0'.2) hm
  have hmax0 : p0.capacity ≤ t.capacity_max := by rw [hmaxc]; exact hr0'.2
  obtain ⟨c, hc, hc1, hc2, hc3⟩ := voltage_curve_translator_interpolate_between t
    p0 p1 v hrr.1 hrr.2 hr1 hr0 hmr (lt_of_le_of_lt hr0'.2 hc0) hmax0 hminc
  refine ⟨c, ?_, ⟨p1, hmem1, hc1⟩, ⟨p0, hmem0, hc2⟩, ?_⟩
  · unfold voltage_curve_translator_get
    dsimp only
    rw [hv', hbr]
    exact hc
  · intro htop
    have hvt := hvtop htop
    have e0 : p0 = a := hr00 (by omega)
    rw [e0] at hc3
    exact hc3 hvt

/-! ### The full states going round -/

theorem cycle_state_succ (k : Nat) :
    (cycle_state k = CHARGE_STATE_FULL_CHARGING ∧
        cycle_state (k + 1) = CHARGE_STATE_FULL_PENDING) ∨
      (cycle_state k = CHARGE_STATE_FULL_PENDING ∧
        cycle_state (k + 1) = CHARGE_STATE_FULL_RECHARGING) ∨
      (cycle_state k = CHARGE_STATE_FULL_RECHARGING ∧
        cycle_state (k + 1) = CHARGE_STATE_FULL_CHARGING) := by
  unfold cycle_state
  have h : k % 3 = 0 ∨ k % 3 = 1 ∨ k % 3 = 2 := by omega
  rcases h with h | h | h
  · have h1 : (k + 1) % 3 = 1 := by omega
    rw [h, h1]
    exact Or.inl ⟨rfl, rfl⟩
  · have h1 : (k + 1) % 3 = 2 := by omega
    rw [h, h1]
    exact Or.inr (Or.inl ⟨rfl, rfl⟩)
  · have h1 : (k + 1) % 3 = 0 := by omega
    rw [h, h1]
    exact Or.inr (Or.inr ⟨rfl, rfl⟩)

/-- With the sample of `cycle_sample` a pass in one of the three full states
moves to the next of them and keeps the sample. -/
theorem loop_body_cycle (p : Platform) (i : CycleInput) (s : State) (k : Nat)
    (hs : cycle_sample s) (hk : s.poweralg.charge_state = cycle_state k) :
    (loop_body p i s).2 = true ∧ cycle_sample (loop_body p i s).1 ∧
      (loop_body p i s).1.poweralg.charge_state = cycle_state (k + 1) := by
  obtain ⟨c1, c2, c3, c4, c5, c6, c7, c8, c9⟩ := hs
  have key : ∀ next : ChargeState, s.poweralg.charge_state ≠ CHARGE_STATE_PREDICTION →
      s.poweralg.charge_state ≠ CHARGE_STATE_UNKNOWN →
      cycle_sample (state_transition p i (state_handler i.now s).1 next) := by
    intro next hp hu
    obtain ⟨f1, f2, f3, f4, f5, -, -⟩ := state_transition_after_handler p i s next hp hu
    unfold cycle_sample
    rw [f1, f2, f3, f4, f5]
    exact ⟨c1, c2, c3, c4, c5, c6, c7, c8, c9⟩
  rcases cycle_state_succ k with ⟨h, h1⟩ | ⟨h, h1⟩ | ⟨h, h1⟩
  · rw [h] at hk
    rw [h1]
    have hl := loop_body_handler p i s (by rw [hk]; decide) (by rw [hk]; decide) c2 c3
    have hpn : s.config.full_pending_ma ≠ 0 ∧ s.poweralg.battery.current_mA ≥ 0 ∧
        s.poweralg.battery.current_mA ≤ s.config.full_pending_ma :=
      ⟨c1, c8, le_trans c9 (min_le_left _ _)⟩
    rw [(state_handler_FULL_CHARGING i.now s hk).1, if_neg (not_lt.2 c6), if_pos hpn, hk,
      if_pos (by decide)] at hl
    rw [hl]
    exact ⟨rfl, key _ (by rw [hk]; decide) (by rw [hk]; decide), rfl⟩
  · rw [h] at hk
    rw [h1]
    have hl := loop_body_handler p i s (by rw [hk]; decide) (by rw [hk]; decide) c2 c3
    have hr : (s.poweralg.battery.voltage_mV ≥ 0 ∧
          s.poweralg.battery.voltage_mV < s.config.voltage_recharge_mv) ∨
        (s.poweralg.capacity_01p ≥ 0 ∧
          s.poweralg.capacity_01p ≤ INT32_of_int (s.config.capacity_recharge_p * 10)) :=
      Or.inl ⟨c7, c5⟩
    rw [(state_handler_FULL_PENDING i.now s hk).1, if_pos hr, hk, if_pos (by decide)] at hl
    rw [hl]
    exact ⟨rfl, key _ (by rw [hk]; decide) (by rw [hk]; decide), rfl⟩
  · rw [h] at hk
    rw [h1]
    have hl := loop_body_handler p i s (by rw [hk]; decide) (by rw [hk]; decide) c2 c3
    have hf : s.poweralg.battery.voltage_mV ≥ s.config.full_charging_mv ∧
        s.poweralg.battery.current_mA ≥ 0 ∧
        s.poweralg.battery.current_mA ≤ s.config.full_charging_ma :=
      ⟨c4, c8, le_trans c9 (min_le_right _ _)⟩
    rw [(state_handler_FULL_RECHARGING i.now s hk).1, if_neg (not_lt.2 c6), if_pos hf, hk,
      if_pos (by decide)] at hl
    rw [hl]
    exact ⟨rfl, key _ (by rw [hk]; decide) (by rw [hk]; decide), rfl⟩

/-- With the sample of `cycle_sample` the loop uses all its passes. -/
theorem transition_loop_cycle (p : Platform) (i : CycleInput) (n : Nat) :
    ∀ (k : Nat) (s : State), cycle_sample s → s.poweralg.charge_state = cycle_state k →
      loop_settles p i n s = false ∧ loop_passes p i n s = n ∧
        (transition_loop p i n s).poweralg.charge_state = cycle_state (k + n) ∧
        cycle_sample (transition_loop p i n s) := by
  induction n with
  | zero => intro k s hs hk; exact ⟨rfl, rfl, hk, hs⟩
  | succ n ih =>
    intro k s hs hk
    obtain ⟨h1, h2, h3⟩ := loop_body_cycle p i s k hs hk
    obtain ⟨a1, a2, a3, a4⟩ := ih (k + 1) _ h2 h3
    rw [loop_settles_succ, loop_passes_succ, transition_loop_succ, h1, if_pos rfl, if_pos rfl,
      if_pos rfl]
    refine ⟨a1, by omega, ?_, a4⟩
    rw [a3]
    congr 1
    omega

theorem start_ktime_check_cycle_sample (now : Int) (s : State) (h : cycle_sample s) :
    cycle_sample (start_ktime_check now s) := by
  unfold start_ktime_check
  split_ifs
  · exact h
  · exact h

/-! ## The claims -/

/-- C1. Capacity range invariant of `do_power_alg`: when `capacity_01p` lies in
`[0, 1000]` before a cycle, it lies in `[0, 1000]` after the cycle, for every
gauge reading, clock value, configuration, board and state of the statics. -/
theorem do_power_alg_capacity_range (p : Platform) (i : CycleInput) (is_event_triggered : Bool)
    (s : State)
    (h : 0 ≤ s.poweralg.capacity_01p ∧ s.poweralg.capacity_01p ≤ 1000) :
    0 ≤ (do_power_alg p i is_event_triggered s).1.poweralg.capacity_01p ∧
      (do_power_alg p i is_event_triggered s).1.poweralg.capacity_01p ≤ 1000 := by
  unfold do_power_alg
  dsimp only
  split_ifs
  · exact do_power_alg_sample_capacity_in_range p i s h
  · rw [do_power_alg_charging_capacity]
    exact do_power_alg_capacity_capacity_in_range p i _ _
      (do_power_alg_sample_capacity_in_range p i s h)

/-- Witness of C1: the first cycle after boot, at the snapshot `gauge_95`. -/
theorem do_power_alg_capacity_range_witness :
    (0 ≤ boot_state.poweralg.capacity_01p ∧ boot_state.poweralg.capacity_01p ≤ 1000) ∧
      0 ≤ (do_power_alg plain_board cycle_95 false boot_state).1.poweralg.capacity_01p ∧
      (do_power_alg plain_board cycle_95 false boot_state).1.poweralg.capacity_01p ≤ 1000 :=
  ⟨by decide, do_power_alg_capacity_range plain_board cycle_95 false boot_state (by decide)⟩

/-- C2. The level returned by `max17050_get_batt_level` is `raw * 10 / 256`
clamped into `[0, 1000]`, where `raw` is `capacity_raw` after the register
read: it is `min 1000 (max 0 (raw * 10 / 256))`, it is 1000 for every
`raw ≥ 25600`, and it is never outside `[0, 1000]`. -/
theorem max17050_get_batt_level_clamp (regs : GaugeRegs) (battery : battery_type) :
    (max17050_get_batt_level regs battery).2 =
        min 1000 (max 0
          (Int.tdiv (max17050_i2c_read regs.RepSOC battery.capacity_raw * 10) 256)) ∧
      (25600 ≤ max17050_i2c_read regs.RepSOC battery.capacity_raw →
        (max17050_get_batt_level regs battery).2 = 1000) ∧
      0 ≤ (max17050_get_batt_level regs battery).2 ∧
      (max17050_get_batt_level regs battery).2 ≤ 1000 := by
  unfold max17050_get_batt_level
  dsimp only
  generalize max17050_i2c_read regs.RepSOC battery.capacity_raw = raw
  refine ⟨?_, ?_, ?_, ?_⟩
  · split_ifs <;> omega
  · intro h
    have h1 : Int.tdiv (raw * 10) 256 = raw * 10 / 256 :=
      Int.tdiv_eq_ediv (by omega) (by decide)
    rw [h1]
    split_ifs <;> omega
  · split_ifs <;> omega
  · split_ifs <;> omega

/-- C3. `is_charging_avaiable` returns TRUE if and only if none of its
disabling conditions holds. -/
theorem is_charging_avaiable_iff (p : Platform) (s : State) :
    is_charging_avaiable p s = true ↔
      ¬ (s.poweralg.is_superchg_software_charger_timeout = true ∨
        s.poweralg.is_software_charger_timeout = true ∨
        (s.poweralg.protect_flags.is_charging_enable_available = false ∧
          s.poweralg.protect_flags.is_fake_room_temp = false) ∨
        s.poweralg.protect_flags.is_charging_reverse_protect = true ∨
        s.poweralg.is_cable_in = false ∨
        s.poweralg.charge_state = CHARGE_STATE_PENDING ∨
        s.poweralg.charge_state = CHARGE_STATE_FULL_PENDING ∨
        s.poweralg.charge_state = CHARGE_STATE_PREDICTION ∨
        s.b_is_charge_off_by_bounding = true ∨
        s.poweralg.battery.id_index = p.BATTERY_ID_UNKNOWN ∨
        s.charger_control ≠ 0) := by
  simp only [is_charging_avaiable, is_charge_off_by_bounding_condition]
  constructor
  · intro h hcon
    rcases hcon with h1 | h1 | h1 | h1 | h1 | h1 | h1 | h1 | h1 | h1 | h1
    · simp [h1] at h
    · simp [h1] at h
    · simp [h1.1, h1.2] at h
    · simp [h1] at h
    · simp [h1] at h
    · simp [h1] at h
    · simp [h1] at h
    · simp [h1] at h
    · simp [h1] at h
    · simp [h1] at h
    · simp [h1] at h
  · intro h
    simp only [not_or] at h
    obtain ⟨h1, h2, h3, h4, h5, h6, h7, h8, h9, h10, h11⟩ := h
    rw [if_neg h11, if_neg h10, if_neg h9, if_neg h8, if_neg h7, if_neg h6]
    simp only [Bool.not_eq_true] at h1 h2 h4 h5 h9
    simp only [Bool.not_eq_false] at h5
    rw [h1, h2, h4, h5]
    cases he : s.poweralg.protect_flags.is_charging_enable_available
    · cases hf : s.poweralg.protect_flags.is_fake_room_temp
      · exact absurd ⟨he, hf⟩ h3
      · rfl
    · rfl

/-- C4. Cable removal: from every state of the cable-in group, with the cable
absent, `update_next_charge_state` ends in DISCHARGE, for every
configuration, sample, protection flags and clock. -/
theorem update_next_charge_state_cable_removed (p : Platform) (i : CycleInput) (b : Bool)
    (s : State) (hg : cable_in_group s.poweralg.charge_state)
    (hc : s.poweralg.is_cable_in = false) :
    (update_next_charge_state p i b s).poweralg.charge_state = CHARGE_STATE_DISCHARGE := by
  unfold update_next_charge_state
  apply transition_loop_cable_removed
  · rw [start_ktime_check_charge_state]; exact hg
  · rw [start_ktime_check_is_cable_in]; exact hc

/-- Witness of C4: FULL_CHARGING with the cable pulled. -/
theorem update_next_charge_state_cable_removed_witness :
    (update_next_charge_state plain_board cycle_95 false
      { boot_state with
        poweralg.charge_state := CHARGE_STATE_FULL_CHARGING }).poweralg.charge_state =
      CHARGE_STATE_DISCHARGE :=
  update_next_charge_state_cable_removed plain_board cycle_95 false _
    (Or.inr (Or.inr (Or.inr (Or.inr (Or.inl rfl))))) rfl

/-- C5. Charging disallowed: from every state of the cable-in group, with the
cable present and `is_charging_enable_available` FALSE,
`update_next_charge_state` ends in PENDING. -/
theorem update_next_charge_state_not_allowed (p : Platform) (i : CycleInput) (b : Bool)
    (s : State) (hg : cable_in_group s.poweralg.charge_state)
    (hc : s.poweralg.is_cable_in = true)
    (he : s.poweralg.protect_flags.is_charging_enable_available = false) :
    (update_next_charge_state p i b s).poweralg.charge_state = CHARGE_STATE_PENDING := by
  unfold update_next_charge_state
  apply transition_loop_not_allowed
  · rw [start_ktime_check_charge_state]; exact hg
  · rw [start_ktime_check_is_cable_in]; exact hc
  · rw [start_ktime_check_protect_flags]; exact he

/-- Witness of C5: UNKNOWN with the cable in and charging not allowed. -/
theorem update_next_charge_state_not_allowed_witness :
    (update_next_charge_state plain_board cycle_95 false
      { boot_state with
        poweralg.is_cable_in := true
        poweralg.protect_flags.is_charging_enable_available := false }).poweralg.charge_state =
      CHARGE_STATE_PENDING :=
  update_next_charge_state_not_allowed plain_board cycle_95 false _ (Or.inl rfl) rfl rfl

/-- C6. From UNKNOWN or DISCHARGE with the cable present (charging allowed or
not), the first pass of the loop of `update_next_charge_state` is the
transition into CHARGING applied to the unchanged statics, without any state
handler: the call is that transition followed by the remaining 24 passes, and
the first state change it logs is the one into CHARGING. -/
theorem update_next_charge_state_cable_in (p : Platform) (i : CycleInput) (b : Bool)
    (s : State)
    (h : s.poweralg.charge_state = CHARGE_STATE_UNKNOWN ∨
      s.poweralg.charge_state = CHARGE_STATE_DISCHARGE)
    (hc : s.poweralg.is_cable_in = true) :
    loop_body p i (start_ktime_check i.now s) =
        (state_transition p i (start_ktime_check i.now s) CHARGE_STATE_CHARGING, true) ∧
      (state_transition p i (start_ktime_check i.now s)
        CHARGE_STATE_CHARGING).poweralg.charge_state = CHARGE_STATE_CHARGING ∧
      update_next_charge_state p i b s =
        transition_loop p i 24
          (state_transition p i (start_ktime_check i.now s) CHARGE_STATE_CHARGING) ∧
      ∃ l, (update_next_charge_state p i b s).state_change_log =
        s.state_change_log ++ (s.poweralg.charge_state, CHARGE_STATE_CHARGING) :: l := by
  have h1 : loop_body p i (start_ktime_check i.now s) =
      (state_transition p i (start_ktime_check i.now s) CHARGE_STATE_CHARGING, true) :=
    loop_body_cable_out_group p i _ (by rw [start_ktime_check_charge_state]; exact h)
      (by rw [start_ktime_check_is_cable_in]; exact hc)
  have h2 : update_next_charge_state p i b s =
      transition_loop p i 24
        (state_transition p i (start_ktime_check i.now s) CHARGE_STATE_CHARGING) := by
    unfold update_next_charge_state
    rw [transition_loop_succ, h1]
    rfl
  refine ⟨h1, rfl, h2, ?_⟩
  obtain ⟨l, hl⟩ := transition_loop_state_change_log p i 24
    (state_transition p i (start_ktime_check i.now s) CHARGE_STATE_CHARGING)
  refine ⟨l, ?_⟩
  rw [h2, hl, state_transition_state_change_log, start_ktime_check_state_change_log,
    start_ktime_check_charge_state, List.append_assoc]
  rfl

/-- Witness of C6: DISCHARGE with the cable plugged in; the first state change
of the call is DISCHARGE to CHARGING. -/
theorem update_next_charge_state_cable_in_witness :
    ∃ l, (update_next_charge_state plain_board cycle_95 false
        (scenario_state CHARGE_STATE_DISCHARGE 0)).state_change_log =
      (CHARGE_STATE_DISCHARGE, CHARGE_STATE_CHARGING) :: l :=
  (update_next_charge_state_cable_in plain_board cycle_95 false
    (scenario_state CHARGE_STATE_DISCHARGE 0) (Or.inr rfl) rfl).2.2.2

/-- C7. CHARGING handler: with the cable present and charging allowed, one
pass of the loop in CHARGING lowers `capacity_01p` to at most 990 and moves
to FULL_WAIT_STABLE exactly when the terminate condition holds
(`voltage_mV ≥ full_charging_mv`, `0 ≤ current_mA ≤ full_charging_ma`,
`capacity_01p > 930`); otherwise the state stays CHARGING.  Hence, for every
start state, whenever `update_next_charge_state` ends in CHARGING,
`capacity_01p ≤ 990`. -/
theorem charging_handler_and_cap (p : Platform) (i : CycleInput) (s : State)
    (h : s.poweralg.charge_state = CHARGE_STATE_CHARGING)
    (hc : s.poweralg.is_cable_in = true)
    (he : s.poweralg.protect_flags.is_charging_enable_available = true) :
    (loop_body p i s).1.poweralg.capacity_01p = min s.poweralg.capacity_01p 990 ∧
      ((loop_body p i s).1.poweralg.charge_state = CHARGE_STATE_FULL_WAIT_STABLE ↔
        (s.poweralg.battery.voltage_mV ≥ s.config.full_charging_mv ∧
          0 ≤ s.poweralg.battery.current_mA ∧
          s.poweralg.battery.current_mA ≤ s.config.full_charging_ma ∧
          s.poweralg.capacity_01p > 930)) ∧
      ((loop_body p i s).1.poweralg.charge_state = CHARGE_STATE_CHARGING ↔
        ¬ (s.poweralg.battery.voltage_mV ≥ s.config.full_charging_mv ∧
          0 ≤ s.poweralg.battery.current_mA ∧
          s.poweralg.battery.current_mA ≤ s.config.full_charging_ma ∧
          s.poweralg.capacity_01p > 930)) ∧
      (∀ (b : Bool) (t : State),
        (update_next_charge_state p i b t).poweralg.charge_state = CHARGE_STATE_CHARGING →
          (update_next_charge_state p i b t).poweralg.capacity_01p ≤ 990) := by
  have hs := state_handler_charge_state i.now s
  have hp : (state_handler i.now s).1.poweralg.charge_state ≠ CHARGE_STATE_PREDICTION := by
    rw [hs, h]; decide
  have hu : (state_handler i.now s).1.poweralg.charge_state ≠ CHARGE_STATE_UNKNOWN := by
    rw [hs, h]; decide
  have h3 := (state_handler_CHARGING i.now s h).2
  refine ⟨?_, ?_, ?_, fun b t => update_next_charge_state_charging_capped p i b t⟩
  all_goals cases ht : terminate_condition s
  · rw [loop_body_CHARGING_miss p i s h hc he ht]
    exact h3
  · rw [loop_body_CHARGING_hit p i s h hc he ht, state_transition_capacity p i _ _ hp hu]
    exact h3
  · rw [loop_body_CHARGING_miss p i s h hc he ht, state_handler_charge_state, h]
    rw [Bool.eq_false_iff, Ne, terminate_condition_eq] at ht
    exact ⟨fun hh => absurd hh (by decide), fun hh => absurd hh ht⟩
  · rw [loop_body_CHARGING_hit p i s h hc he ht]
    exact ⟨fun _ => (terminate_condition_eq s).1 ht, fun _ => rfl⟩
  · rw [loop_body_CHARGING_miss p i s h hc he ht, state_handler_charge_state, h]
    rw [Bool.eq_false_iff, Ne, terminate_condition_eq] at ht
    exact ⟨fun _ => ht, fun _ => rfl⟩
  · rw [loop_body_CHARGING_hit p i s h hc he ht]
    dsimp only
    rw [state_transition_charge_state]
    exact ⟨fun hh => absurd hh (by decide), fun hh => absurd ((terminate_condition_eq s).1 ht) hh⟩

/-- Witness of C7: CHARGING at capacity 1000 with the sample 4150 mV, 10 mA. -/
theorem charging_handler_and_cap_witness :
    (loop_body plain_board cycle_95
      { scenario_state CHARGE_STATE_CHARGING 0 with
        poweralg.capacity_01p := 1000 }).1.poweralg.capacity_01p = min 1000 990 :=
  (charging_handler_and_cap plain_board cycle_95
    { scenario_state CHARGE_STATE_CHARGING 0 with poweralg.capacity_01p := 1000 }
    rfl rfl rfl).1

/-- C8. FULL_WAIT_STABLE needs exactly 3 consecutive terminate-condition hits.
Entering the state sets `count_charging_full_condition` to 0, so at a handler
run the counter is the number of consecutive hits since entry (at most 2).
A run that hits counts one more; it moves to FULL_CHARGING, with the capacity
forced to 1000, exactly when it is the third (two were counted) and otherwise
stays.  A run that misses resets the counter to 0 and moves to CHARGING.
So three runs `s1`, `s2`, `s3` that carry the counter over from the entry and
all hit end in FULL_CHARGING at the third run and not before. -/
theorem full_wait_stable_three_hits (p : Platform) (i : CycleInput) (now1 now2 now3 now : Int)
    (s0 s1 s2 s3 s : State)
    (h1 : s1.poweralg.charge_state = CHARGE_STATE_FULL_WAIT_STABLE)
    (h2 : s2.poweralg.charge_state = CHARGE_STATE_FULL_WAIT_STABLE)
    (h3 : s3.poweralg.charge_state = CHARGE_STATE_FULL_WAIT_STABLE)
    (e1 : s1.count_charging_full_condition =
      (state_transition p i s0 CHARGE_STATE_FULL_WAIT_STABLE).count_charging_full_condition)
    (e2 : s2.count_charging_full_condition =
      (state_handler now1 s1).1.count_charging_full_condition)
    (e3 : s3.count_charging_full_condition =
      (state_handler now2 s2).1.count_charging_full_condition)
    (t1 : terminate_condition s1 = true) (t2 : terminate_condition s2 = true)
    (t3 : terminate_condition s3 = true)
    (h : s.poweralg.charge_state = CHARGE_STATE_FULL_WAIT_STABLE)
    (hk : s.count_charging_full_condition ≤ 2) :
    ((state_handler now1 s1).2 = CHARGE_STATE_FULL_WAIT_STABLE ∧
        (state_handler now2 s2).2 = CHARGE_STATE_FULL_WAIT_STABLE ∧
        (state_handler now3 s3).2 = CHARGE_STATE_FULL_CHARGING ∧
        (state_handler now3 s3).1.poweralg.capacity_01p = 1000) ∧
      ((state_handler now s).2 = CHARGE_STATE_FULL_CHARGING ↔
        (terminate_condition s = true ∧ s.count_charging_full_condition = 2)) ∧
      ((state_handler now s).2 = CHARGE_STATE_FULL_WAIT_STABLE ↔
        (terminate_condition s = true ∧ s.count_charging_full_condition < 2)) ∧
      (terminate_condition s = true →
        (state_handler now s).1.count_charging_full_condition =
          s.count_charging_full_condition + 1) ∧
      (terminate_condition s = false →
        (state_handler now s).1.count_charging_full_condition = 0 ∧
          (state_handler now s).2 = CHARGE_STATE_CHARGING) := by
  have u : ∀ n : Nat, n ≤ 2 → UINT32 (n + 1) = n + 1 := by
    intro n hn; unfold UINT32; omega
  have k1 : s1.count_charging_full_condition = 0 := by
    rw [e1, state_transition_count_charging_full_condition, if_pos rfl]
  obtain ⟨a1, -, c1⟩ := state_handler_FULL_WAIT_STABLE now1 s1 h1
  obtain ⟨a2, -, c2⟩ := state_handler_FULL_WAIT_STABLE now2 s2 h2
  obtain ⟨a3, b3, -⟩ := state_handler_FULL_WAIT_STABLE now3 s3 h3
  obtain ⟨a, -, c⟩ := state_handler_FULL_WAIT_STABLE now s h
  rw [t1, if_pos rfl, k1] at c1
  have k2 : s2.count_charging_full_condition = 1 := by rw [e2, c1]; rfl
  rw [t2, if_pos rfl, k2] at c2
  have k3 : s3.count_charging_full_condition = 2 := by rw [e3, c2]; rfl
  rw [t1, if_pos rfl, k1] at a1
  rw [t2, if_pos rfl, k2] at a2
  rw [t3, if_pos rfl, k3] at a3
  rw [t3, k3] at b3
  refine ⟨⟨a1, a2, a3, b3⟩, ?_, ?_, ?_, ?_⟩
  · rw [a]
    cases ht : terminate_condition s
    · simp
    · rw [u _ hk]
      simp only [if_true, true_and]
      split_ifs with h5
      · exact ⟨fun _ => by omega, fun _ => rfl⟩
      · exact ⟨fun hh => absurd hh (by decide), fun hh => absurd (by omega) h5⟩
  · rw [a]
    cases ht : terminate_condition s
    · simp
    · rw [u _ hk]
      simp only [if_true, true_and]
      split_ifs with h5
      · exact ⟨fun hh => absurd hh (by decide), fun hh => absurd h5 (by omega)⟩
      · exact ⟨fun _ => by omega, fun _ => rfl⟩
  · intro ht
    rw [c, ht, if_pos rfl, u _ hk]
  · intro ht
    rw [c, a, ht]
    exact ⟨rfl, rfl⟩

/-- Witness of C8: the scenario sample (4150 mV, 10 mA, capacity 950) in
FULL_WAIT_STABLE with the counter at 0, 1 and 2. -/
theorem full_wait_stable_three_hits_witness :
    (state_handler 0 (scenario_state CHARGE_STATE_FULL_WAIT_STABLE 0)).2 =
        CHARGE_STATE_FULL_WAIT_STABLE ∧
      (state_handler 0 (scenario_state CHARGE_STATE_FULL_WAIT_STABLE 1)).2 =
        CHARGE_STATE_FULL_WAIT_STABLE ∧
      (state_handler 0 (scenario_state CHARGE_STATE_FULL_WAIT_STABLE 2)).2 =
        CHARGE_STATE_FULL_CHARGING ∧
      (state_handler 0 (scenario_state CHARGE_STATE_FULL_WAIT_STABLE 2)).1.poweralg.capacity_01p =
        1000 :=
  (full_wait_stable_three_hits plain_board cycle_95 0 0 0 0
    (scenario_state CHARGE_STATE_CHARGING 0)
    (scenario_state CHARGE_STATE_FULL_WAIT_STABLE 0)
    (scenario_state CHARGE_STATE_FULL_WAIT_STABLE 1)
    (scenario_state CHARGE_STATE_FULL_WAIT_STABLE 2)
    (scenario_state CHARGE_STATE_FULL_WAIT_STABLE 0)
    rfl rfl rfl (by decide) (by decide) (by decide) (by decide) (by decide) (by decide)
    rfl (by decide)).1

/-- C10. Leaving full: in FULL_CHARGING with the cable present and charging
allowed, a voltage below `voltage_exit_full_mv` makes the first pass of the
loop move to CHARGING with `capacity_01p` lowered to `min capacity_01p 990`,
whatever the current and the clock are.  The capacity keeps that value to the
end of `update_next_charge_state`, which rests in CHARGING, or in
FULL_WAIT_STABLE when the sample also meets the terminate condition. -/
theorem full_charging_voltage_drop (p : Platform) (i : CycleInput) (b : Bool) (s : State)
    (h : s.poweralg.charge_state = CHARGE_STATE_FULL_CHARGING)
    (hc : s.poweralg.is_cable_in = true)
    (he : s.poweralg.protect_flags.is_charging_enable_available = true)
    (hv : s.poweralg.battery.voltage_mV < s.config.voltage_exit_full_mv) :
    (loop_body p i s).2 = true ∧
      (loop_body p i s).1.poweralg.charge_state = CHARGE_STATE_CHARGING ∧
      (loop_body p i s).1.poweralg.capacity_01p = min s.poweralg.capacity_01p 990 ∧
      (update_next_charge_state p i b s).poweralg.capacity_01p =
        min s.poweralg.capacity_01p 990 ∧
      (update_next_charge_state p i b s).poweralg.charge_state =
        (if terminate_condition s then CHARGE_STATE_FULL_WAIT_STABLE
          else CHARGE_STATE_CHARGING) := by
  have hs := state_handler_charge_state i.now s
  have hp : (state_handler i.now s).1.poweralg.charge_state ≠ CHARGE_STATE_PREDICTION := by
    rw [hs, h]; decide
  have hu : (state_handler i.now s).1.poweralg.charge_state ≠ CHARGE_STATE_UNKNOWN := by
    rw [hs, h]; decide
  have h3 := (state_handler_FULL_CHARGING i.now s h).2
  rw [if_pos hv] at h3
  have r := transition_loop_FULL_CHARGING_exit p i 22 (start_ktime_check i.now s)
    (by rw [start_ktime_check_charge_state]; exact h)
    (by rw [start_ktime_check_is_cable_in]; exact hc)
    (by rw [start_ktime_check_protect_flags]; exact he)
    (by rw [start_ktime_check_battery, start_ktime_check_config]; exact hv)
  rw [start_ktime_check_capacity, start_ktime_check_terminate_condition] at r
  rw [loop_body_FULL_CHARGING_exit p i s h hc he hv]
  refine ⟨rfl, rfl, ?_, r.1, r.2⟩
  dsimp only
  rw [state_transition_capacity p i _ _ hp hu, h3]

/-- Witness of C10: FULL_CHARGING at capacity 1000, 4090 mV against
`voltage_exit_full_mv` 4100. -/
theorem full_charging_voltage_drop_witness :
    (update_next_charge_state plain_board cycle_95 false
        { scenario_state CHARGE_STATE_FULL_CHARGING 3 with
          poweralg.capacity_01p := 1000
          poweralg.battery.voltage_mV := 4090 }).poweralg.capacity_01p = min 1000 990 ∧
      (update_next_charge_state plain_board cycle_95 false
        { scenario_state CHARGE_STATE_FULL_CHARGING 3 with
          poweralg.capacity_01p := 1000
          poweralg.battery.voltage_mV := 4090 }).poweralg.charge_state =
        CHARGE_STATE_CHARGING :=
  (full_charging_voltage_drop plain_board cycle_95 false
    { scenario_state CHARGE_STATE_FULL_CHARGING 3 with
      poweralg.capacity_01p := 1000
      poweralg.battery.voltage_mV := 4090 }
    rfl rfl rfl (by decide)).2.2.2

/-- Counterexample to C11: in FULL_CHARGING with the cable in, charging
allowed, the voltage not below `voltage_exit_full_mv`, `full_pending_ma` 50
and a current of -10 mA, the claimed condition `full_pending_ma != 0 and
current_mA <= full_pending_ma` holds and the state stays FULL_CHARGING.  And
with `full_pending_ma` 0 and `full_charging_timeout_sec` 2147484, one second
after the state was entered, neither claimed condition holds and the state
moves to FULL_PENDING: the product `full_charging_timeout_sec * 1000` is
-2147483296 as a 32 bit `int`. -/
theorem full_charging_negative_current_stays :
    full_charging_negative_current.poweralg.charge_state = CHARGE_STATE_FULL_CHARGING ∧
      full_charging_negative_current.poweralg.is_cable_in = true ∧
      full_charging_negative_current.poweralg.protect_flags.is_charging_enable_available =
        true ∧
      full_charging_negative_current.poweralg.battery.voltage_mV ≥
        full_charging_negative_current.config.voltage_exit_full_mv ∧
      (full_charging_negative_current.config.full_pending_ma ≠ 0 ∧
        full_charging_negative_current.poweralg.battery.current_mA ≤
          full_charging_negative_current.config.full_pending_ma) ∧
      (loop_body plain_board cycle_95 full_charging_negative_current).1.poweralg.charge_state =
        CHARGE_STATE_FULL_CHARGING ∧
      (update_next_charge_state plain_board cycle_95 false
        full_charging_negative_current).poweralg.charge_state = CHARGE_STATE_FULL_CHARGING ∧
      (long_timeout_scenario CHARGE_STATE_FULL_CHARGING 3).poweralg.charge_state =
        CHARGE_STATE_FULL_CHARGING ∧
      (long_timeout_scenario CHARGE_STATE_FULL_CHARGING 3).poweralg.is_cable_in = true ∧
      (long_timeout_scenario
        CHARGE_STATE_FULL_CHARGING 3).poweralg.protect_flags.is_charging_enable_available =
        true ∧
      (long_timeout_scenario CHARGE_STATE_FULL_CHARGING 3).poweralg.battery.voltage_mV ≥
        (long_timeout_scenario CHARGE_STATE_FULL_CHARGING 3).config.voltage_exit_full_mv ∧
      (long_timeout_scenario CHARGE_STATE_FULL_CHARGING 3).config.full_pending_ma = 0 ∧
      MSPERIOD cycle_95.now
          (long_timeout_scenario CHARGE_STATE_FULL_CHARGING 3).poweralg.start_ktime = 1000 ∧
      (long_timeout_scenario CHARGE_STATE_FULL_CHARGING 3).config.full_charging_timeout_sec *
          1000 = 2147484000 ∧
      INT32_of_int
          ((long_timeout_scenario CHARGE_STATE_FULL_CHARGING 3).config.full_charging_timeout_sec *
            1000) = -2147483296 ∧
      (loop_body plain_board cycle_95
        (long_timeout_scenario CHARGE_STATE_FULL_CHARGING 3)).1.poweralg.charge_state =
        CHARGE_STATE_FULL_PENDING := by
  decide

/-- C11, as amended. FULL_CHARGING to FULL_PENDING: in FULL_CHARGING with the
cable in, charging allowed and `voltage_mV ≥ voltage_exit_full_mv`, one pass
of the loop moves the state to FULL_PENDING exactly when (`full_pending_ma`
is not 0 and `0 ≤ current_mA ≤ full_pending_ma`) or the milliseconds elapsed
since `start_ktime` are at least `full_charging_timeout_sec * 1000`, the
product being the 32 bit `int` the code computes, and leaves it in
FULL_CHARGING exactly when neither holds: a negative current never satisfies
the pending-current rule.  For a timeout from -2147483 to 2147483 seconds the
product is the timeout in milliseconds. -/
theorem full_charging_to_full_pending (p : Platform) (i : CycleInput) (s : State)
    (h : s.poweralg.charge_state = CHARGE_STATE_FULL_CHARGING)
    (hc : s.poweralg.is_cable_in = true)
    (he : s.poweralg.protect_flags.is_charging_enable_available = true)
    (hv : s.poweralg.battery.voltage_mV ≥ s.config.voltage_exit_full_mv) :
    ((loop_body p i s).1.poweralg.charge_state = CHARGE_STATE_FULL_PENDING ↔
        ((s.config.full_pending_ma ≠ 0 ∧ 0 ≤ s.poweralg.battery.current_mA ∧
            s.poweralg.battery.current_mA ≤ s.config.full_pending_ma) ∨
          MSPERIOD i.now s.poweralg.start_ktime ≥
            INT32_of_int (s.config.full_charging_timeout_sec * 1000))) ∧
      ((loop_body p i s).1.poweralg.charge_state = CHARGE_STATE_FULL_CHARGING ↔
        ¬ ((s.config.full_pending_ma ≠ 0 ∧ 0 ≤ s.poweralg.battery.current_mA ∧
            s.poweralg.battery.current_mA ≤ s.config.full_pending_ma) ∨
          MSPERIOD i.now s.poweralg.start_ktime ≥
            INT32_of_int (s.config.full_charging_timeout_sec * 1000))) ∧
      (-2147483 ≤ s.config.full_charging_timeout_sec →
        s.config.full_charging_timeout_sec ≤ 2147483 →
        INT32_of_int (s.config.full_charging_timeout_sec * 1000) =
          s.config.full_charging_timeout_sec * 1000) := by
  rw [← and_assoc]
  refine ⟨?_, INT32_of_int_seconds _⟩
  have h1 : ¬ s.poweralg.battery.voltage_mV < s.config.voltage_exit_full_mv := by omega
  have h2 := (state_handler_FULL_CHARGING i.now s h).1
  rw [if_neg h1] at h2
  rw [loop_body_handler p i s (by rw [h]; decide) (by rw [h]; decide) hc he, h2, h]
  by_cases hp : s.config.full_pending_ma ≠ 0 ∧ s.poweralg.battery.current_mA ≥ 0 ∧
      s.poweralg.battery.current_mA ≤ s.config.full_pending_ma
  · rw [if_pos hp, if_pos (by decide)]
    dsimp only
    rw [state_transition_charge_state]
    exact ⟨⟨fun _ => Or.inl hp, fun _ => rfl⟩,
      ⟨fun hh => absurd hh (by decide), fun hh => absurd (Or.inl hp) hh⟩⟩
  · rw [if_neg hp]
    by_cases ht : MSPERIOD i.now s.poweralg.start_ktime ≥
        INT32_of_int (s.config.full_charging_timeout_sec * 1000)
    · rw [if_pos ht, if_pos (by decide)]
      dsimp only
      rw [state_transition_charge_state]
      exact ⟨⟨fun _ => Or.inr ht, fun _ => rfl⟩,
        ⟨fun hh => absurd hh (by decide), fun hh => absurd (Or.inr ht) hh⟩⟩
    · rw [if_neg ht, if_neg (by simp)]
      dsimp only
      rw [state_handler_charge_state, h]
      have hn : ¬ ((s.config.full_pending_ma ≠ 0 ∧ 0 ≤ s.poweralg.battery.current_mA ∧
            s.poweralg.battery.current_mA ≤ s.config.full_pending_ma) ∨
          MSPERIOD i.now s.poweralg.start_ktime ≥
            INT32_of_int (s.config.full_charging_timeout_sec * 1000)) := by
        rintro (hh | hh)
        · exact hp hh
        · exact ht hh
      exact ⟨⟨fun hh => absurd hh (by decide), fun hh => absurd hh hn⟩,
        ⟨fun _ => hn, fun _ => rfl⟩⟩

/-- Witness of C11: the scenario state in FULL_CHARGING, entered at the clock
of the cycle. -/
theorem full_charging_to_full_pending_witness :
    (scenario_state CHARGE_STATE_FULL_CHARGING 3).poweralg.charge_state =
        CHARGE_STATE_FULL_CHARGING ∧
      (scenario_state CHARGE_STATE_FULL_CHARGING 3).poweralg.is_cable_in = true ∧
      (scenario_state CHARGE_STATE_FULL_CHARGING 3).poweralg.protect_flags.is_charging_enable_available =
        true ∧
      (scenario_state CHARGE_STATE_FULL_CHARGING 3).poweralg.battery.voltage_mV ≥
        (scenario_state CHARGE_STATE_FULL_CHARGING 3).config.voltage_exit_full_mv ∧
      ((loop_body plain_board cycle_95
          (scenario_state CHARGE_STATE_FULL_CHARGING 3)).1.poweralg.charge_state =
          CHARGE_STATE_FULL_PENDING ↔
        (((scenario_state CHARGE_STATE_FULL_CHARGING 3).config.full_pending_ma ≠ 0 ∧
            0 ≤ (scenario_state CHARGE_STATE_FULL_CHARGING 3).poweralg.battery.current_mA ∧
            (scenario_state CHARGE_STATE_FULL_CHARGING 3).poweralg.battery.current_mA ≤
              (scenario_state CHARGE_STATE_FULL_CHARGING 3).config.full_pending_ma) ∨
          MSPERIOD cycle_95.now
              (scenario_state CHARGE_STATE_FULL_CHARGING 3).poweralg.start_ktime ≥
            INT32_of_int
              ((scenario_state CHARGE_STATE_FULL_CHARGING 3).config.full_charging_timeout_sec *
                1000))) :=
  ⟨by decide, by decide, by decide, by decide,
    (full_charging_to_full_pending plain_board cycle_95
      (scenario_state CHARGE_STATE_FULL_CHARGING 3) (by decide) (by decide) (by decide)
      (by decide)).1⟩

/-- Counterexample to C12: in FULL_PENDING with the cable in, charging allowed
and a voltage reading of -1 mV, the voltage is below `voltage_recharge_mv`
and the state stays FULL_PENDING.  And at 4200 mV with the capacity at 950 and
`capacity_recharge_p` 214748365 the capacity is not above
`capacity_recharge_p * 10` and the state stays FULL_PENDING: the product is
-2147483646 as a 32 bit `int`. -/
theorem full_pending_negative_voltage_stays :
    full_pending_negative_voltage.poweralg.charge_state = CHARGE_STATE_FULL_PENDING ∧
      full_pending_negative_voltage.poweralg.is_cable_in = true ∧
      full_pending_negative_voltage.poweralg.protect_flags.is_charging_enable_available = true ∧
      full_pending_negative_voltage.poweralg.battery.voltage_mV <
        full_pending_negative_voltage.config.voltage_recharge_mv ∧
      (loop_body plain_board cycle_95 full_pending_negative_voltage).1.poweralg.charge_state =
        CHARGE_STATE_FULL_PENDING ∧
      (update_next_charge_state plain_board cycle_95 false
        full_pending_negative_voltage).poweralg.charge_state = CHARGE_STATE_FULL_PENDING ∧
      full_pending_wide_recharge.poweralg.charge_state = CHARGE_STATE_FULL_PENDING ∧
      full_pending_wide_recharge.poweralg.is_cable_in = true ∧
      full_pending_wide_recharge.poweralg.protect_flags.is_charging_enable_available = true ∧
      full_pending_wide_recharge.poweralg.capacity_01p ≤
        full_pending_wide_recharge.config.capacity_recharge_p * 10 ∧
      INT32_of_int (full_pending_wide_recharge.config.capacity_recharge_p * 10) =
        -2147483646 ∧
      (loop_body plain_board cycle_95 full_pending_wide_recharge).1.poweralg.charge_state =
        CHARGE_STATE_FULL_PENDING ∧
      (update_next_charge_state plain_board cycle_95 false
        full_pending_wide_recharge).poweralg.charge_state = CHARGE_STATE_FULL_PENDING := by
  decide

/-- C12, as amended. FULL_PENDING to FULL_RECHARGING: in FULL_PENDING with the
cable in and charging allowed, one pass of the loop moves the state to
FULL_RECHARGING exactly when `0 ≤ voltage_mV < voltage_recharge_mv` or
`0 ≤ capacity_01p ≤ capacity_recharge_p * 10`, the product being the 32 bit
`int` the code computes, and leaves it in FULL_PENDING exactly when neither
holds: a negative voltage or capacity does not trigger the recharge.  For
`capacity_recharge_p` from -214748364 to 214748364 the product is ten times
`capacity_recharge_p`. -/
theorem full_pending_to_full_recharging (p : Platform) (i : CycleInput) (s : State)
    (h : s.poweralg.charge_state = CHARGE_STATE_FULL_PENDING)
    (hc : s.poweralg.is_cable_in = true)
    (he : s.poweralg.protect_flags.is_charging_enable_available = true) :
    ((loop_body p i s).1.poweralg.charge_state = CHARGE_STATE_FULL_RECHARGING ↔
        ((0 ≤ s.poweralg.battery.voltage_mV ∧
            s.poweralg.battery.voltage_mV < s.config.voltage_recharge_mv) ∨
          (0 ≤ s.poweralg.capacity_01p ∧
            s.poweralg.capacity_01p ≤ INT32_of_int (s.config.capacity_recharge_p * 10)))) ∧
      ((loop_body p i s).1.poweralg.charge_state = CHARGE_STATE_FULL_PENDING ↔
        ¬ ((0 ≤ s.poweralg.battery.voltage_mV ∧
            s.poweralg.battery.voltage_mV < s.config.voltage_recharge_mv) ∨
          (0 ≤ s.poweralg.capacity_01p ∧
            s.poweralg.capacity_01p ≤ INT32_of_int (s.config.capacity_recharge_p * 10)))) ∧
      (-214748364 ≤ s.config.capacity_recharge_p →
        s.config.capacity_recharge_p ≤ 214748364 →
        INT32_of_int (s.config.capacity_recharge_p * 10) =
          s.config.capacity_recharge_p * 10) := by
  rw [← and_assoc]
  refine ⟨?_, INT32_of_int_tenths _⟩
  have h2 := (state_handler_FULL_PENDING i.now s h).1
  rw [loop_body_handler p i s (by rw [h]; decide) (by rw [h]; decide) hc he, h2, h]
  by_cases hp : (s.poweralg.battery.voltage_mV ≥ 0 ∧
        s.poweralg.battery.voltage_mV < s.config.voltage_recharge_mv) ∨
      (s.poweralg.capacity_01p ≥ 0 ∧
        s.poweralg.capacity_01p ≤ INT32_of_int (s.config.capacity_recharge_p * 10))
  · rw [if_pos hp, if_pos (by decide)]
    dsimp only
    rw [state_transition_charge_state]
    exact ⟨⟨fun _ => hp, fun _ => rfl⟩,
      ⟨fun hh => absurd hh (by decide), fun hh => absurd hp hh⟩⟩
  · rw [if_neg hp, if_neg (by simp)]
    dsimp only
    rw [state_handler_charge_state, h]
    exact ⟨⟨fun hh => absurd hh (by decide), fun hh => absurd hh hp⟩,
      ⟨fun _ => hp, fun _ => rfl⟩⟩

/-- Witness of C12: the scenario state in FULL_PENDING. -/
theorem full_pending_to_full_recharging_witness :
    (scenario_state CHARGE_STATE_FULL_PENDING 3).poweralg.charge_state =
        CHARGE_STATE_FULL_PENDING ∧
      (scenario_state CHARGE_STATE_FULL_PENDING 3).poweralg.is_cable_in = true ∧
      (scenario_state CHARGE_STATE_FULL_PENDING 3).poweralg.protect_flags.is_charging_enable_available =
        true ∧
      ((loop_body plain_board cycle_95
          (scenario_state CHARGE_STATE_FULL_PENDING 3)).1.poweralg.charge_state =
          CHARGE_STATE_FULL_RECHARGING ↔
        ((0 ≤ (scenario_state CHARGE_STATE_FULL_PENDING 3).poweralg.battery.voltage_mV ∧
            (scenario_state CHARGE_STATE_FULL_PENDING 3).poweralg.battery.voltage_mV <
              (scenario_state CHARGE_STATE_FULL_PENDING 3).config.voltage_recharge_mv) ∨
          (0 ≤ (scenario_state CHARGE_STATE_FULL_PENDING 3).poweralg.capacity_01p ∧
            (scenario_state CHARGE_STATE_FULL_PENDING 3).poweralg.capacity_01p ≤
              INT32_of_int
                ((scenario_state CHARGE_STATE_FULL_PENDING 3).config.capacity_recharge_p *
                  10)))) :=
  ⟨by decide, by decide, by decide,
    (full_pending_to_full_recharging plain_board cycle_95
      (scenario_state CHARGE_STATE_FULL_PENDING 3) (by decide) (by decide) (by decide)).1⟩

/-- Counterexample to C13: in FULL_RECHARGING with the cable in, charging
allowed, the voltage not below `voltage_exit_full_mv` and the capacity at
900, the terminate condition is not met (the capacity is not above 930) and
the state moves to FULL_CHARGING. -/
theorem full_recharging_low_capacity_moves :
    full_recharging_low_capacity.poweralg.charge_state = CHARGE_STATE_FULL_RECHARGING ∧
      full_recharging_low_capacity.poweralg.is_cable_in = true ∧
      full_recharging_low_capacity.poweralg.protect_flags.is_charging_enable_available = true ∧
      full_recharging_low_capacity.poweralg.battery.voltage_mV ≥
        full_recharging_low_capacity.config.voltage_exit_full_mv ∧
      ¬ full_recharging_low_capacity.poweralg.capacity_01p > 930 ∧
      terminate_condition full_recharging_low_capacity = false ∧
      (loop_body plain_board cycle_95 full_recharging_low_capacity).1.poweralg.charge_state =
        CHARGE_STATE_FULL_CHARGING := by
  decide

/-- C13, as amended. FULL_RECHARGING with the cable in and charging allowed:
`voltage_mV < voltage_exit_full_mv` moves it to CHARGING with the capacity
capped at 990; otherwise it moves to FULL_CHARGING exactly when
`voltage_mV ≥ full_charging_mv` and `0 ≤ current_mA ≤ full_charging_ma`,
whatever the capacity, and stays FULL_RECHARGING exactly when that fails. -/
theorem full_recharging_handler (p : Platform) (i : CycleInput) (s : State)
    (h : s.poweralg.charge_state = CHARGE_STATE_FULL_RECHARGING)
    (hc : s.poweralg.is_cable_in = true)
    (he : s.poweralg.protect_flags.is_charging_enable_available = true) :
    (s.poweralg.battery.voltage_mV < s.config.voltage_exit_full_mv →
        (loop_body p i s).1.poweralg.charge_state = CHARGE_STATE_CHARGING ∧
          (loop_body p i s).1.poweralg.capacity_01p = min s.poweralg.capacity_01p 990) ∧
      (s.poweralg.battery.voltage_mV ≥ s.config.voltage_exit_full_mv →
        ((loop_body p i s).1.poweralg.charge_state = CHARGE_STATE_FULL_CHARGING ↔
          (s.poweralg.battery.voltage_mV ≥ s.config.full_charging_mv ∧
            0 ≤ s.poweralg.battery.current_mA ∧
            s.poweralg.battery.current_mA ≤ s.config.full_charging_ma)) ∧
        ((loop_body p i s).1.poweralg.charge_state = CHARGE_STATE_FULL_RECHARGING ↔
          ¬ (s.poweralg.battery.voltage_mV ≥ s.config.full_charging_mv ∧
            0 ≤ s.poweralg.battery.current_mA ∧
            s.poweralg.battery.current_mA ≤ s.config.full_charging_ma))) := by
  have hs := state_handler_charge_state i.now s
  have hp : (state_handler i.now s).1.poweralg.charge_state ≠ CHARGE_STATE_PREDICTION := by
    rw [hs, h]; decide
  have hu : (state_handler i.now s).1.poweralg.charge_state ≠ CHARGE_STATE_UNKNOWN := by
    rw [hs, h]; decide
  obtain ⟨h2, h3⟩ := state_handler_FULL_RECHARGING i.now s h
  rw [loop_body_handler p i s (by rw [h]; decide) (by rw [h]; decide) hc he, h2, h]
  constructor
  · intro hv
    rw [if_pos hv] at h3
    rw [if_pos hv, if_pos (by decide)]
    dsimp only
    rw [state_transition_capacity p i _ _ hp hu, h3]
    exact ⟨rfl, rfl⟩
  · intro hv
    have h1 : ¬ s.poweralg.battery.voltage_mV < s.config.voltage_exit_full_mv := by omega
    rw [if_neg h1]
    by_cases ht : s.poweralg.battery.voltage_mV ≥ s.config.full_charging_mv ∧
        s.poweralg.battery.current_mA ≥ 0 ∧
        s.poweralg.battery.current_mA ≤ s.config.full_charging_ma
    · rw [if_pos ht, if_pos (by decide)]
      dsimp only
      rw [state_transition_charge_state]
      exact ⟨⟨fun _ => ht, fun _ => rfl⟩,
        ⟨fun hh => absurd hh (by decide), fun hh => absurd ht hh⟩⟩
    · rw [if_neg ht, if_neg (by simp)]
      dsimp only
      rw [state_handler_charge_state, h]
      exact ⟨⟨fun hh => absurd hh (by decide), fun hh => absurd hh ht⟩,
        ⟨fun _ => ht, fun _ => rfl⟩⟩

/-- Witness of C13: the scenario state in FULL_RECHARGING, whose voltage is
not below `voltage_exit_full_mv`. -/
theorem full_recharging_handler_witness :
    (scenario_state CHARGE_STATE_FULL_RECHARGING 3).poweralg.charge_state =
        CHARGE_STATE_FULL_RECHARGING ∧
      (scenario_state CHARGE_STATE_FULL_RECHARGING 3).poweralg.is_cable_in = true ∧
      (scenario_state CHARGE_STATE_FULL_RECHARGING 3).poweralg.protect_flags.is_charging_enable_available =
        true ∧
      (loop_body plain_board cycle_95
          (scenario_state CHARGE_STATE_FULL_RECHARGING 3)).1.poweralg.charge_state =
        CHARGE_STATE_FULL_CHARGING :=
  ⟨by decide, by decide, by decide,
    ((full_recharging_handler plain_board cycle_95
      (scenario_state CHARGE_STATE_FULL_RECHARGING 3) (by decide) (by decide)
      (by decide)).2 (by decide)).1.2 (by decide)⟩

/-- Counterexample to C14: a battery discharging at 10 mA enters CHARGING from
DISCHARGE; after five consecutive runs of the CHARGING handler, and after
five consecutive invocations of `update_next_charge_state`, the current was
never positive, the counter reads 5 and `is_charge_over_load` is still
FALSE. -/
theorem charge_over_load_five_runs :
    (state_transition plain_board cycle_95 discharge_negative_current
        CHARGE_STATE_CHARGING).poweralg.battery.current_mA ≤ 0 ∧
      (state_handler_runs cycle_95.now 5
        (state_transition plain_board cycle_95 discharge_negative_current
          CHARGE_STATE_CHARGING)).poweralg.is_charge_over_load = false ∧
      (state_handler_runs cycle_95.now 5
        (state_transition plain_board cycle_95 discharge_negative_current
          CHARGE_STATE_CHARGING)).count_charge_over_load = 5 ∧
      (Nat.iterate (update_next_charge_state plain_board cycle_95 false) 5
        discharge_negative_current).poweralg.charge_state = CHARGE_STATE_CHARGING ∧
      (Nat.iterate (update_next_charge_state plain_board cycle_95 false) 5
        discharge_negative_current).poweralg.is_charge_over_load = false := by
  decide

/-- C14, as amended. Entry into CHARGING resets the overload counter and the
flag; when the current is not positive, after `n` consecutive runs of the
CHARGING handler the counter is `min n 5` and `is_charge_over_load` is TRUE
exactly when `n ≥ 6`, so the flag is raised by the sixth run, not the fifth;
a run of the CHARGING handler with a positive current clears the flag and
the counter. -/
theorem charge_over_load_sixth_run (p : Platform) (i : CycleInput) (s : State) (n : Nat)
    (hc : (state_transition p i s CHARGE_STATE_CHARGING).poweralg.battery.current_mA ≤ 0) :
    (state_transition p i s CHARGE_STATE_CHARGING).count_charge_over_load = 0 ∧
      (state_transition p i s CHARGE_STATE_CHARGING).poweralg.is_charge_over_load = false ∧
      (state_handler_runs i.now n
        (state_transition p i s CHARGE_STATE_CHARGING)).count_charge_over_load = min n 5 ∧
      (state_handler_runs i.now n
        (state_transition p i s CHARGE_STATE_CHARGING)).poweralg.is_charge_over_load =
          decide (6 ≤ n) ∧
      (∀ t : State, t.poweralg.charge_state = CHARGE_STATE_CHARGING →
        t.poweralg.battery.current_mA > 0 →
        (state_handler i.now t).1.count_charge_over_load = 0 ∧
          (state_handler i.now t).1.poweralg.is_charge_over_load = false) := by
  have e1 : (state_transition p i s CHARGE_STATE_CHARGING).count_charge_over_load = 0 := rfl
  have e2 : (state_transition p i s CHARGE_STATE_CHARGING).poweralg.is_charge_over_load =
      false := rfl
  have key := state_handler_runs_over_load i.now n 0
    (state_transition p i s CHARGE_STATE_CHARGING) rfl hc e1 e2
  rw [Nat.zero_add] at key
  refine ⟨e1, e2, key.1, key.2, ?_⟩
  intro t ht hpos
  obtain ⟨h1, h2⟩ := state_handler_CHARGING_over_load i.now t ht
  rw [h1, h2, if_neg (by omega), if_neg (by omega)]
  exact ⟨rfl, rfl⟩

/-- Witness of C14: the discharging battery entering CHARGING from
DISCHARGE, six handler runs. -/
theorem charge_over_load_sixth_run_witness :
    (state_transition plain_board cycle_95 discharge_negative_current
        CHARGE_STATE_CHARGING).poweralg.battery.current_mA ≤ 0 ∧
      (state_handler_runs cycle_95.now 6
        (state_transition plain_board cycle_95 discharge_negative_current
          CHARGE_STATE_CHARGING)).poweralg.is_charge_over_load = decide (6 ≤ 6) :=
  ⟨by decide,
    (charge_over_load_sixth_run plain_board cycle_95 discharge_negative_current 6
      (by decide)).2.2.2.1⟩

/-- Counterexample to C15: in PREDICTION with `start_ktime` 0, a timeout of
10 s and the clock at 61 s, the elapsed time is at least the timeout, and
`update_next_charge_state` stays in PREDICTION and restarts the timer.  And
with a timeout of 2147484 s and the clock at 1 s the elapsed time is below the
timeout and `update_next_charge_state` leaves PREDICTION: the product
`predict_timeout_sec * 1000` is -2147483296 as a 32 bit `int`. -/
theorem prediction_stays_after_fifty_seconds :
    (scenario_state CHARGE_STATE_PREDICTION 0).poweralg.charge_state =
        CHARGE_STATE_PREDICTION ∧
      MSPERIOD cycle_61s.now (scenario_state CHARGE_STATE_PREDICTION 0).poweralg.start_ktime ≥
        (scenario_state CHARGE_STATE_PREDICTION 0).config.predict_timeout_sec * 1000 ∧
      (update_next_charge_state plain_board cycle_61s false
        (scenario_state CHARGE_STATE_PREDICTION 0)).poweralg.charge_state =
          CHARGE_STATE_PREDICTION ∧
      (update_next_charge_state plain_board cycle_61s false
        (scenario_state CHARGE_STATE_PREDICTION 0)).poweralg.start_ktime = 61000 ∧
      prediction_long_timeout.poweralg.charge_state = CHARGE_STATE_PREDICTION ∧
      MSPERIOD cycle_95.now prediction_long_timeout.poweralg.start_ktime = 1000 ∧
      prediction_long_timeout.config.predict_timeout_sec * 1000 = 2147484000 ∧
      INT32_of_int (prediction_long_timeout.config.predict_timeout_sec * 1000) =
        -2147483296 ∧
      (update_next_charge_state plain_board cycle_95 false
        prediction_long_timeout).poweralg.charge_state = CHARGE_STATE_FULL_WAIT_STABLE ∧
      (update_next_charge_state plain_board cycle_95 false
        prediction_long_timeout).state_change_log =
        [(CHARGE_STATE_PREDICTION, CHARGE_STATE_UNKNOWN),
          (CHARGE_STATE_UNKNOWN, CHARGE_STATE_CHARGING),
          (CHARGE_STATE_CHARGING, CHARGE_STATE_FULL_WAIT_STABLE)] := by
  decide

/-- C15, as amended. In PREDICTION, with `e` the time elapsed since
`start_ktime` after the clock-regression check (which sets a `start_ktime`
that lies after the clock to the clock): when `e ≥ 50 s` the timer is
restarted and the state stays PREDICTION without a transition; when
`e < 50 s` and `e` in milliseconds is at least `predict_timeout_sec * 1000`,
the product being the 32 bit `int` the code computes, the first transition is
PREDICTION to UNKNOWN and the invocation does not end in PREDICTION; when `e`
is below both, the invocation changes nothing beyond the regression check.
For a timeout from -2147483 to 2147483 seconds the product is the timeout in
milliseconds. -/
theorem prediction_timeout (p : Platform) (i : CycleInput) (b : Bool) (s : State)
    (h : s.poweralg.charge_state = CHARGE_STATE_PREDICTION) :
    (s.poweralg.start_ktime > i.now →
        (start_ktime_check i.now s).poweralg.start_ktime = i.now) ∧
      (s.poweralg.start_ktime ≤ i.now → start_ktime_check i.now s = s) ∧
      (MSPERIOD i.now (start_ktime_check i.now s).poweralg.start_ktime ≥ 50 * 1000 →
        (update_next_charge_state p i b s).poweralg.charge_state = CHARGE_STATE_PREDICTION ∧
          (update_next_charge_state p i b s).poweralg.start_ktime = i.now ∧
          (update_next_charge_state p i b s).state_change_log = s.state_change_log) ∧
      (MSPERIOD i.now (start_ktime_check i.now s).poweralg.start_ktime < 50 * 1000 →
        MSPERIOD i.now (start_ktime_check i.now s).poweralg.start_ktime ≥
          INT32_of_int (s.config.predict_timeout_sec * 1000) →
        (update_next_charge_state p i b s).poweralg.charge_state ≠ CHARGE_STATE_PREDICTION ∧
          ∃ l, (update_next_charge_state p i b s).state_change_log =
            s.state_change_log ++
              (CHARGE_STATE_PREDICTION, CHARGE_STATE_UNKNOWN) :: l) ∧
      (MSPERIOD i.now (start_ktime_check i.now s).poweralg.start_ktime < 50 * 1000 →
        MSPERIOD i.now (start_ktime_check i.now s).poweralg.start_ktime <
          INT32_of_int (s.config.predict_timeout_sec * 1000) →
        update_next_charge_state p i b s = start_ktime_check i.now s) ∧
      (-2147483 ≤ s.config.predict_timeout_sec → s.config.predict_timeout_sec ≤ 2147483 →
        INT32_of_int (s.config.predict_timeout_sec * 1000) =
          s.config.predict_timeout_sec * 1000) := by
  have h0 : (start_ktime_check i.now s).poweralg.charge_state = CHARGE_STATE_PREDICTION := by
    rw [start_ktime_check_charge_state]; exact h
  have hcfg := start_ktime_check_config i.now s
  have hlog := start_ktime_check_state_change_log i.now s
  have hbody := loop_body_PREDICTION p i (start_ktime_check i.now s) h0
  rw [hcfg] at hbody
  unfold update_next_charge_state
  rw [transition_loop_succ, hbody]
  refine ⟨?_, start_ktime_check_of_le i.now s, ?_, ?_, ?_, INT32_of_int_seconds _⟩
  · intro hr
    unfold start_ktime_check MSPERIOD
    rw [if_pos (by omega)]
  all_goals generalize start_ktime_check i.now s = s0 at h0 hcfg hlog hbody ⊢
  · intro h1
    rw [if_pos h1]
    dsimp only
    rw [if_neg (by decide)]
    exact ⟨h0, rfl, hlog⟩
  · intro h1 h2
    rw [if_neg (not_le.2 h1), if_pos h2]
    dsimp only
    rw [if_pos rfl]
    constructor
    · exact transition_loop_ne_PREDICTION p i 24 _
        (by rw [state_transition_charge_state]; decide)
    · obtain ⟨l, hl⟩ := transition_loop_state_change_log p i 24
        (state_transition p i s0 CHARGE_STATE_UNKNOWN)
      refine ⟨l, ?_⟩
      rw [hl, state_transition_state_change_log, hlog, h0, List.append_assoc]
      rfl
  · intro h1 h2
    rw [if_neg (not_le.2 h1), if_neg (not_le.2 h2)]
    dsimp only
    rw [if_neg (by decide)]

/-- Witness of C15: PREDICTION entered at clock 0 and evaluated at clock
1000 ms with the default timeout of 10 s. -/
theorem prediction_timeout_witness :
    (scenario_state CHARGE_STATE_PREDICTION 0).poweralg.charge_state =
        CHARGE_STATE_PREDICTION ∧
      (MSPERIOD cycle_95.now (start_ktime_check cycle_95.now
            (scenario_state CHARGE_STATE_PREDICTION 0)).poweralg.start_ktime < 50 * 1000 →
        MSPERIOD cycle_95.now (start_ktime_check cycle_95.now
            (scenario_state CHARGE_STATE_PREDICTION 0)).poweralg.start_ktime <
          INT32_of_int
            ((scenario_state CHARGE_STATE_PREDICTION 0).config.predict_timeout_sec * 1000) →
        update_next_charge_state plain_board cycle_95 false
            (scenario_state CHARGE_STATE_PREDICTION 0) =
          start_ktime_check cycle_95.now (scenario_state CHARGE_STATE_PREDICTION 0)) :=
  ⟨by decide,
    (prediction_timeout plain_board cycle_95 false (scenario_state CHARGE_STATE_PREDICTION 0)
      (by decide)).2.2.2.2.1⟩

/-- Counterexample to C16: from FULL_WAIT_STABLE with one hit counted and the
terminate condition met, a first run of `update_next_charge_state` stays in
FULL_WAIT_STABLE and a second run with the same sample, flags, configuration
and clock moves to FULL_CHARGING.  And from PREDICTION entered at clock 0 with
a timeout of 2147484 s, whose product with 1000 is negative as a 32 bit `int`,
a first run at 61 s restarts the timer and rests in PREDICTION, and a second
run at the same clock leaves PREDICTION. -/
theorem second_run_leaves_full_wait_stable :
    (update_next_charge_state plain_board cycle_95 false
        (scenario_state CHARGE_STATE_FULL_WAIT_STABLE 1)).poweralg.charge_state =
        CHARGE_STATE_FULL_WAIT_STABLE ∧
      (update_next_charge_state plain_board cycle_95 false
        (update_next_charge_state plain_board cycle_95 false
          (scenario_state CHARGE_STATE_FULL_WAIT_STABLE 1))).poweralg.charge_state =
        CHARGE_STATE_FULL_CHARGING ∧
      (update_next_charge_state plain_board cycle_95 false
        (scenario_state CHARGE_STATE_FULL_WAIT_STABLE 1)).poweralg.battery =
        (scenario_state CHARGE_STATE_FULL_WAIT_STABLE 1).poweralg.battery ∧
      (update_next_charge_state plain_board cycle_95 false
        (scenario_state CHARGE_STATE_FULL_WAIT_STABLE 1)).poweralg.protect_flags =
        (scenario_state CHARGE_STATE_FULL_WAIT_STABLE 1).poweralg.protect_flags ∧
      (update_next_charge_state plain_board cycle_95 false
        (scenario_state CHARGE_STATE_FULL_WAIT_STABLE 1)).config =
        (scenario_state CHARGE_STATE_FULL_WAIT_STABLE 1).config ∧
      loop_settles plain_board cycle_61s 25
        (start_ktime_check cycle_61s.now prediction_long_timeout) = true ∧
      (update_next_charge_state plain_board cycle_61s false
        prediction_long_timeout).poweralg.charge_state = CHARGE_STATE_PREDICTION ∧
      (update_next_charge_state plain_board cycle_61s false
        prediction_long_timeout).config.predict_timeout_sec = 2147484 ∧
      INT32_of_int
          ((update_next_charge_state plain_board cycle_61s false
            prediction_long_timeout).config.predict_timeout_sec * 1000) = -2147483296 ∧
      (update_next_charge_state plain_board cycle_61s false
        (update_next_charge_state plain_board cycle_61s false
          prediction_long_timeout)).poweralg.charge_state = CHARGE_STATE_FULL_WAIT_STABLE := by
  decide

/-- C16, as amended. When the first run of `update_next_charge_state` comes to
rest within its 25 passes, does not rest in FULL_WAIT_STABLE with two hits
counted, and does not rest in PREDICTION unless `predict_timeout_sec * 1000`,
as the 32 bit `int` the code computes, is positive (as it is for a timeout
from 1 to 2147483 seconds), a second run on what the first left, with the
same clock and registers, makes no state transition: the charge state and
the transition log are those of the first run. -/
theorem update_next_charge_state_rerun (p : Platform) (i : CycleInput) (b : Bool) (s : State)
    (hs : loop_settles p i 25 (start_ktime_check i.now s) = true)
    (hw : (update_next_charge_state p i b s).poweralg.charge_state =
        CHARGE_STATE_FULL_WAIT_STABLE →
      (update_next_charge_state p i b s).count_charging_full_condition < 2)
    (hp : (update_next_charge_state p i b s).poweralg.charge_state = CHARGE_STATE_PREDICTION →
      INT32_of_int ((update_next_charge_state p i b s).config.predict_timeout_sec * 1000) >
        0) :
    (update_next_charge_state p i b (update_next_charge_state p i b s)).poweralg.charge_state =
        (update_next_charge_state p i b s).poweralg.charge_state ∧
      (update_next_charge_state p i b (update_next_charge_state p i b s)).state_change_log =
        (update_next_charge_state p i b s).state_change_log := by
  obtain ⟨t, ht, hrest, hu⟩ := transition_loop_rest p i 25 (start_ktime_check i.now s) hs
    (start_ktime_check_start_ktime_le i.now s)
  obtain ⟨r1, r2, r3⟩ := loop_body_rests p i t hrest
  have hu1 : update_next_charge_state p i b s = (state_handler i.now t).1 := by
    unfold update_next_charge_state
    rw [hu, r3]
  rw [hu1] at hw hp ⊢
  rw [state_handler_charge_state] at hw hp
  rw [state_handler_config] at hp
  have hstay := state_handler_rerun i.now t r2 hw hp
  have hle := state_handler_start_ktime_le i.now t ht
  have hcs := state_handler_charge_state i.now t
  have hn : next_state_by_cable (state_handler i.now t).1 =
      (state_handler i.now t).1.poweralg.charge_state := by
    rw [next_state_by_cable_congr t _ hcs (state_handler_is_cable_in i.now t)
      (state_handler_protect_flags i.now t), r1, hcs]
  rw [← hcs] at hstay
  generalize (state_handler i.now t).1 = u at hstay hle hn
  have hb : loop_body p i u = ((state_handler i.now u).1, false) := by
    rw [loop_body_eq, if_pos hn, if_neg (not_not.2 hstay)]
  unfold update_next_charge_state
  rw [start_ktime_check_of_le i.now u hle, transition_loop_succ, hb]
  dsimp only
  rw [if_neg (by decide), state_handler_charge_state, state_handler_state_change_log]
  exact ⟨rfl, rfl⟩

/-- Witness of C16: the scenario state in CHARGING, where the first run moves
to FULL_WAIT_STABLE and counts one hit. -/
theorem update_next_charge_state_rerun_witness :
    loop_settles plain_board cycle_95 25
        (start_ktime_check cycle_95.now (scenario_state CHARGE_STATE_CHARGING 0)) = true ∧
      (update_next_charge_state plain_board cycle_95 false
        (update_next_charge_state plain_board cycle_95 false
          (scenario_state CHARGE_STATE_CHARGING 0))).poweralg.charge_state =
        (update_next_charge_state plain_board cycle_95 false
          (scenario_state CHARGE_STATE_CHARGING 0)).poweralg.charge_state :=
  ⟨by decide,
    (update_next_charge_state_rerun plain_board cycle_95 false
      (scenario_state CHARGE_STATE_CHARGING 0) (by decide) (by decide) (by decide)).1⟩

/-- C17. Bounded transition resolution: for every board, clock, registers and
statics, the transition loop of `update_next_charge_state` executes at most
25 passes, and the state changes it makes in one invocation, each of them a
change to a different state, number at most the passes executed, hence at
most 25. -/
theorem update_next_charge_state_bounded (p : Platform) (i : CycleInput) (b : Bool)
    (s : State) :
    loop_passes p i 25 (start_ktime_check i.now s) ≤ 25 ∧
      ∃ l, (update_next_charge_state p i b s).state_change_log = s.state_change_log ++ l ∧
        l.length ≤ loop_passes p i 25 (start_ktime_check i.now s) ∧
        l.length ≤ 25 ∧
        ∀ e ∈ l, e.1 ≠ e.2 := by
  obtain ⟨l, h1, h2, h3, h4⟩ :=
    transition_loop_log_length p i 25 (start_ktime_check i.now s)
  obtain ⟨m, k1, k2⟩ := transition_loop_log_moves p i 25 (start_ktime_check i.now s)
  rw [start_ktime_check_state_change_log] at h1 k1
  have hlm : l = m := List.append_cancel_left (h1.symm.trans k1)
  refine ⟨h2, l, h1, ?_, ?_, ?_⟩
  · cases hs : loop_settles p i 25 (start_ktime_check i.now s)
    · have := h4 hs
      omega
    · have := h3 hs
      omega
  · cases hs : loop_settles p i 25 (start_ktime_check i.now s)
    · have := h4 hs
      omega
    · have := h3 hs
      omega
  · rw [hlm]
    exact k2

/-- Counterexample to C18: the run from `full_recharging_cycle` uses up all 25
passes, its 25th pass still changes the state and a further pass would
change it again; the run from `full_recharging_settles` comes to rest after
one transition.  Both end in FULL_CHARGING, and the statics the exhausted
run leaves are, apart from the current of the sample that was supplied and
the log lines, exactly the statics the settled run leaves. -/
theorem exhausted_run_like_settled_run :
    loop_settles plain_board cycle_95 25
        (start_ktime_check cycle_95.now full_recharging_cycle) = false ∧
      (update_next_charge_state plain_board cycle_95 false
        full_recharging_cycle).state_change_log.length = 25 ∧
      (loop_body plain_board cycle_95
        (update_next_charge_state plain_board cycle_95 false full_recharging_cycle)).2 = true ∧
      loop_settles plain_board cycle_95 25
        (start_ktime_check cycle_95.now full_recharging_settles) = true ∧
      (update_next_charge_state plain_board cycle_95 false
        full_recharging_settles).state_change_log =
          [(CHARGE_STATE_FULL_RECHARGING, CHARGE_STATE_FULL_CHARGING)] ∧
      { update_next_charge_state plain_board cycle_95 false full_recharging_cycle with
          poweralg.battery.current_mA := 60
          state_change_log := [(CHARGE_STATE_FULL_RECHARGING, CHARGE_STATE_FULL_CHARGING)] } =
        update_next_charge_state plain_board cycle_95 false full_recharging_settles := by
  decide

/-- C18, as amended. Bound exhaustion is not reported:
`update_next_charge_state` has no result and sets no flag.  When the loop
does not come to rest within its 25 passes the invocation returns the
statics that the state change of its last pass left, as after any other
state change; what tells the two kinds of run apart is the number of state
changes logged, which is 25 exactly when the loop did not come to rest and
at most 24 when it did. -/
theorem update_next_charge_state_exhaustion (p : Platform) (i : CycleInput) (b : Bool)
    (s : State) :
    (loop_settles p i 25 (start_ktime_check i.now s) = false →
        ∃ t : State, (loop_body p i t).2 = true ∧
          update_next_charge_state p i b s = (loop_body p i t).1) ∧
      ∃ l, (update_next_charge_state p i b s).state_change_log = s.state_change_log ++ l ∧
        (loop_settles p i 25 (start_ktime_check i.now s) = false ↔ l.length = 25) ∧
        (loop_settles p i 25 (start_ktime_check i.now s) = true → l.length ≤ 24) := by
  obtain ⟨l, h1, h2, h3, h4⟩ :=
    transition_loop_log_length p i 25 (start_ktime_check i.now s)
  rw [start_ktime_check_state_change_log] at h1
  refine ⟨fun hs => transition_loop_exhausted p i 24 (start_ktime_check i.now s) hs,
    l, h1, ⟨fun hs => (h4 hs).1, fun hl => ?_⟩, fun hs => ?_⟩
  · cases hs : loop_settles p i 25 (start_ktime_check i.now s)
    · rfl
    · have := h3 hs
      omega
  · have := h3 hs
    omega

/-- C19. Over-temperature lock band of the built-in evaluator: on a board
without a strategy hook, for every sample with
`temp_01c < over_low_temp_lock_01c` (0) or
`temp_01c ≥ over_high_temp_lock_01c` (600), `__protect_flags_update` sets
both `is_charging_enable_available` and `is_charging_high_current_avaialble`
to FALSE, whatever their previous values. -/
theorem protect_flags_lock_band (p : Platform) (battery : battery_type)
    (flags : protect_flags_type)
    (hb : p.func_update_charging_protect_flag = none)
    (ht : battery.temp_01c < over_low_temp_lock_01c ∨
      battery.temp_01c ≥ over_high_temp_lock_01c) :
    (__protect_flags_update p battery flags).is_charging_enable_available = false ∧
      (__protect_flags_update p battery flags).is_charging_high_current_avaialble = false ∧
      over_low_temp_lock_01c = 0 ∧ over_high_temp_lock_01c = 600 := by
  obtain ⟨h1, h2⟩ := __protect_flags_update_built_in p battery flags hb
  have h3 : is_over_temp battery = true := (is_over_temp_eq battery).2 ht
  rw [h1, h2, h3]
  exact ⟨rfl, rfl, rfl, rfl⟩

/-- Witness of C19: a sample of 60.5 degrees on the plain board, with both
allowances TRUE before. -/
theorem protect_flags_lock_band_witness :
    plain_board.func_update_charging_protect_flag = none ∧
      ({ boot_state.poweralg.battery with temp_01c := 605 }.temp_01c < over_low_temp_lock_01c ∨
        { boot_state.poweralg.battery with temp_01c := 605 }.temp_01c ≥
          over_high_temp_lock_01c) ∧
      (__protect_flags_update plain_board { boot_state.poweralg.battery with temp_01c := 605 }
        { boot_state.poweralg.protect_flags with
          is_charging_high_current_avaialble := true }).is_charging_enable_available = false ∧
      (__protect_flags_update plain_board { boot_state.poweralg.battery with temp_01c := 605 }
        { boot_state.poweralg.protect_flags with
          is_charging_high_current_avaialble := true }).is_charging_high_current_avaialble =
        false :=
  ⟨rfl, by decide,
    (protect_flags_lock_band plain_board { boot_state.poweralg.battery with temp_01c := 605 }
      { boot_state.poweralg.protect_flags with is_charging_high_current_avaialble := true }
      rfl (by decide)).1,
    (protect_flags_lock_band plain_board { boot_state.poweralg.battery with temp_01c := 605 }
      { boot_state.poweralg.protect_flags with is_charging_high_current_avaialble := true }
      rfl (by decide)).2.1⟩

/-- C20. Temperature release band with hysteresis of the built-in evaluator: on
a board without a strategy hook, for `temp_01c` in `[30, 570)`
`__protect_flags_update` sets both charging allowances to TRUE, and for
`temp_01c` in the gaps `[0, 30)` and `[570, 600)` between the lock and the
release bands it leaves both allowances as they were, so a locked battery
stays locked until the temperature is inside the release band. -/
theorem protect_flags_release_band (p : Platform) (battery : battery_type)
    (flags : protect_flags_type)
    (hb : p.func_update_charging_protect_flag = none) :
    (over_low_temp_release_01c ≤ battery.temp_01c ∧
          battery.temp_01c < over_high_temp_release_01c →
        (__protect_flags_update p battery flags).is_charging_enable_available = true ∧
          (__protect_flags_update p battery flags).is_charging_high_current_avaialble = true) ∧
      ((over_low_temp_lock_01c ≤ battery.temp_01c ∧
            battery.temp_01c < over_low_temp_release_01c) ∨
          (over_high_temp_release_01c ≤ battery.temp_01c ∧
            battery.temp_01c < over_high_temp_lock_01c) →
        (__protect_flags_update p battery flags).is_charging_enable_available =
            flags.is_charging_enable_available ∧
          (__protect_flags_update p battery flags).is_charging_high_current_avaialble =
            flags.is_charging_high_current_avaialble) ∧
      over_low_temp_lock_01c = 0 ∧ over_low_temp_release_01c = 30 ∧
      over_high_temp_release_01c = 570 ∧ over_high_temp_lock_01c = 600 := by
  obtain ⟨h1, h2⟩ := __protect_flags_update_built_in p battery flags hb
  unfold over_low_temp_lock_01c over_high_temp_lock_01c over_low_temp_release_01c
    over_high_temp_release_01c
  refine ⟨?_, ?_, rfl, rfl, rfl, rfl⟩
  · intro ht
    have h3 : ¬ is_over_temp battery = true := by rw [is_over_temp_eq]; omega
    have h4 : is_not_over_temp battery = true := (is_not_over_temp_eq battery).2 ht
    rw [h1, h2, if_neg h3, if_pos h4, if_neg h3, if_pos h4]
    exact ⟨rfl, rfl⟩
  · intro ht
    have h3 : ¬ is_over_temp battery = true := by rw [is_over_temp_eq]; omega
    have h4 : ¬ is_not_over_temp battery = true := by rw [is_not_over_temp_eq]; omega
    rw [h1, h2, if_neg h3, if_neg h4, if_neg h3, if_neg h4]
    exact ⟨rfl, rfl⟩

/-- Witness of C20: a sample of 58 degrees on the plain board with both
allowances FALSE before: they stay FALSE. -/
theorem protect_flags_release_band_witness :
    plain_board.func_update_charging_protect_flag = none ∧
      (__protect_flags_update plain_board { boot_state.poweralg.battery with temp_01c := 580 }
        { boot_state.poweralg.protect_flags with
          is_charging_enable_available := false }).is_charging_enable_available = false :=
  ⟨rfl,
    ((protect_flags_release_band plain_board
      { boot_state.poweralg.battery with temp_01c := 580 }
      { boot_state.poweralg.protect_flags with is_charging_enable_available := false }
      rfl).2.1 (by decide)).1⟩

/-- C21. Battery-dead hysteresis: after `__protect_flags_update`,
`is_battery_dead` is TRUE for every `voltage_mV < 3420`, FALSE for every
`voltage_mV > 3450`, and keeps its previous value for every voltage in
between, whatever the temperature, the other flags and the board (with or
without a strategy). -/
theorem protect_flags_battery_dead (p : Platform) (battery : battery_type)
    (flags : protect_flags_type) :
    (battery.voltage_mV < 3420 →
        (__protect_flags_update p battery flags).is_battery_dead = true) ∧
      (battery.voltage_mV > 3450 →
        (__protect_flags_update p battery flags).is_battery_dead = false) ∧
      (3420 ≤ battery.voltage_mV ∧ battery.voltage_mV ≤ 3450 →
        (__protect_flags_update p battery flags).is_battery_dead = flags.is_battery_dead) ∧
      BATTERY_DEAD_VOLTAGE_LEVEL = 3420 ∧ BATTERY_DEAD_VOLTAGE_RELEASE = 3450 := by
  rw [__protect_flags_update_is_battery_dead]
  unfold BATTERY_DEAD_VOLTAGE_LEVEL BATTERY_DEAD_VOLTAGE_RELEASE
  refine ⟨fun h => ?_, fun h => ?_, fun h => ?_, rfl, rfl⟩
  · rw [if_pos h]
  · rw [if_neg (by omega), if_pos h]
  · rw [if_neg (by omega), if_neg (by omega)]

/-- C23. Bounding ping-pong latch: for a ceiling `upperbd > 0`, with the lower
bound `max (upperbd - 5) 0`, over any sequence of calls of
`bounding_fullly_charged_level` that starts with the latch armed
(`pingpong = 1`), at each call, with `level` the percent level
`CEILING(capacity_01p, 10)` at that call: an armed latch with
`level ≥ upperbd` switches charging off and disarms; an armed latch with
`level < upperbd` leaves charging on and stays armed; a disarmed latch with
`level > lowerbd` keeps charging off; a disarmed latch with `level ≤ lowerbd`
switches charging on again and re-arms.  Hence charging is off after a call
exactly when some call up to it found `level ≥ upperbd` and every call after
that one, up to it, found `level > lowerbd`. -/
theorem bounding_latch (p : Platform) (upperbd : Int) (caps : List Int) (c : Int) (s : State)
    (hu : 0 < upperbd) (ha : s.pingpong = 1) :
    ((bounding_calls p upperbd caps s).pingpong = 0 ∨
        (bounding_calls p upperbd caps s).pingpong = 1) ∧
      ((bounding_calls p upperbd caps s).pingpong = 1 → upperbd ≤ p.CEILING c 10 →
        (bounding_calls p upperbd (caps ++ [c]) s).b_is_charge_off_by_bounding = true ∧
          (bounding_calls p upperbd (caps ++ [c]) s).pingpong = 0) ∧
      ((bounding_calls p upperbd caps s).pingpong = 1 → p.CEILING c 10 < upperbd →
        (bounding_calls p upperbd (caps ++ [c]) s).b_is_charge_off_by_bounding = false ∧
          (bounding_calls p upperbd (caps ++ [c]) s).pingpong = 1) ∧
      ((bounding_calls p upperbd caps s).pingpong = 0 →
          max (upperbd - 5) 0 < p.CEILING c 10 →
        (bounding_calls p upperbd (caps ++ [c]) s).b_is_charge_off_by_bounding = true ∧
          (bounding_calls p upperbd (caps ++ [c]) s).pingpong = 0) ∧
      ((bounding_calls p upperbd caps s).pingpong = 0 →
          p.CEILING c 10 ≤ max (upperbd - 5) 0 →
        (bounding_calls p upperbd (caps ++ [c]) s).b_is_charge_off_by_bounding = false ∧
          (bounding_calls p upperbd (caps ++ [c]) s).pingpong = 1) ∧
      ((bounding_calls p upperbd (caps ++ [c]) s).b_is_charge_off_by_bounding = true ↔
        ∃ pre d post, caps ++ [c] = pre ++ d :: post ∧ upperbd ≤ p.CEILING d 10 ∧
          ∀ e ∈ post, max (upperbd - 5) 0 < p.CEILING e 10) := by
  have hr := bounding_calls_pingpong_range p upperbd hu caps s (Or.inr ha)
  have hstep := bounding_fullly_charged_level_step p upperbd
    { bounding_calls p upperbd caps s with poweralg.capacity_01p := c } hu hr
  have hclosed := bounding_calls_pingpong p upperbd hu (caps ++ [c]) s (Or.inr ha)
  rw [bounding_calls_append] at hclosed ⊢
  obtain ⟨h1, h2⟩ := hstep
  dsimp only at h1
  generalize bounding_fullly_charged_level p upperbd
    { bounding_calls p upperbd caps s with poweralg.capacity_01p := c } = after
    at h1 h2 hclosed ⊢
  generalize bounding_calls p upperbd caps s = before at h1 hr ⊢
  have hoff : after.pingpong ≠ 0 → after.b_is_charge_off_by_bounding = false := by
    intro hne
    cases hb : after.b_is_charge_off_by_bounding
    · rfl
    · exact absurd (h2.1 hb) hne
  refine ⟨hr, fun a1 a2 => ?_, fun a1 a2 => ?_, fun a1 a2 => ?_, fun a1 a2 => ?_, ?_⟩
  · rw [if_pos a1, if_pos a2] at h1
    exact ⟨h2.2 h1, h1⟩
  · rw [if_pos a1, if_neg (not_le.2 a2)] at h1
    exact ⟨hoff (by rw [h1]; exact one_ne_zero), h1⟩
  · rw [if_neg (by rw [a1]; exact zero_ne_one), if_pos a2] at h1
    exact ⟨h2.2 h1, h1⟩
  · rw [if_neg (by rw [a1]; exact zero_ne_one), if_neg (not_lt.2 a2)] at h1
    exact ⟨hoff (by rw [h1]; exact one_ne_zero), h1⟩
  · rw [h2, hclosed]
    constructor
    · rintro (h | ⟨h, _⟩)
      · exact h
      · rw [ha] at h
        exact absurd h one_ne_zero
    · intro h
      exact Or.inl h

/-- Witness of C23: ceiling 80 on the plain board, capacities 75, 82, 76 and
75 percent from the boot state, where the latch is armed: charging is off
after the second and the third call and on after the first and the
fourth. -/
theorem bounding_latch_witness :
    (0 : Int) < 80 ∧ boot_state.pingpong = 1 ∧
      (bounding_calls plain_board 80 [750] boot_state).b_is_charge_off_by_bounding = false ∧
      (bounding_calls plain_board 80 [750, 820] boot_state).b_is_charge_off_by_bounding =
        true ∧
      (bounding_calls plain_board 80 [750, 820, 760] boot_state).b_is_charge_off_by_bounding =
        true ∧
      (bounding_calls plain_board 80 [750, 820, 760, 750]
        boot_state).b_is_charge_off_by_bounding = false ∧
      ((bounding_calls plain_board 80 [750, 820] boot_state).pingpong = 0 →
          max ((80 : Int) - 5) 0 < plain_board.CEILING 760 10 →
        (bounding_calls plain_board 80 ([750, 820] ++ [760])
            boot_state).b_is_charge_off_by_bounding = true ∧
          (bounding_calls plain_board 80 ([750, 820] ++ [760]) boot_state).pingpong = 0) :=
  ⟨by decide, rfl, by decide, by decide, by decide, by decide,
    (bounding_latch plain_board 80 [750, 820] 760 boot_state (by decide) rfl).2.2.2.1⟩

/-- Counterexample to C24: in CHARGING on an AC cable with
`is_charging_high_current_avaialble` FALSE and `is_fake_room_temp` set,
`is_high_current_charging_avaialable` returns TRUE. -/
theorem high_current_without_allowance :
    fake_room_temp_state.poweralg.protect_flags.is_charging_high_current_avaialble = false ∧
      is_high_current_charging_avaialable fake_room_temp_state = true := by
  decide

/-- C24, as amended. High-current eligibility:
`is_high_current_charging_avaialable` returns TRUE exactly when
(`is_charging_high_current_avaialble` or `is_fake_room_temp` is set) and an
AC-type cable is present and the charge state is not UNKNOWN; in particular
it returns TRUE whenever the allowance is set, the AC cable is present and
the state is not UNKNOWN. -/
theorem is_high_current_charging_avaialable_iff (s : State) :
    (is_high_current_charging_avaialable s = true ↔
        ((s.poweralg.protect_flags.is_charging_high_current_avaialble = true ∨
            s.poweralg.protect_flags.is_fake_room_temp = true) ∧
          s.poweralg.is_china_ac_in = true ∧
          s.poweralg.charge_state ≠ CHARGE_STATE_UNKNOWN)) ∧
      (s.poweralg.protect_flags.is_charging_high_current_avaialble = true ∧
          s.poweralg.is_china_ac_in = true ∧
          s.poweralg.charge_state ≠ CHARGE_STATE_UNKNOWN →
        is_high_current_charging_avaialable s = true) := by
  unfold is_high_current_charging_avaialable
  cases h1 : s.poweralg.protect_flags.is_charging_high_current_avaialble <;>
    cases h2 : s.poweralg.protect_flags.is_fake_room_temp <;>
    cases h3 : s.poweralg.is_china_ac_in <;>
    by_cases h4 : s.poweralg.charge_state = CHARGE_STATE_UNKNOWN <;>
    simp [h4]

/-- C25. Unknown battery forces DISABLE: when `battery.id_index` is
`BATTERY_ID_UNKNOWN`, for each of the seven charger commands and whatever the
cable state, the charge state and the rest of the statics, after
`max17050_blocking_notify(MAX17050_CHARGING_CONTROL, cmd)`
`poweralg.charging_enable` is DISABLE, and `max17050_get_battery_info` then
reports `charging_enabled` DISABLE. -/
theorem unknown_battery_forces_disable (p : Platform) (cmd : ChargerCtl) (s : State)
    (hid : s.poweralg.battery.id_index = p.BATTERY_ID_UNKNOWN) :
    (max17050_blocking_notify p (NotifyEvent.MAX17050_CHARGING_CONTROL cmd)
        s).poweralg.charging_enable = ChargerCtl.DISABLE ∧
      (max17050_get_battery_info p
        (max17050_blocking_notify p (NotifyEvent.MAX17050_CHARGING_CONTROL cmd)
          s)).charging_enabled = ChargerCtl.DISABLE := by
  have h1 : (max17050_blocking_notify p (NotifyEvent.MAX17050_CHARGING_CONTROL cmd)
      s).poweralg.charging_enable = ChargerCtl.DISABLE := by
    unfold max17050_blocking_notify
    dsimp only
    rw [if_neg (fun hh => hh.1 hid), if_neg (fun hh => hh.1 hid)]
    split_ifs with h
    · exact h
    · rfl
  refine ⟨h1, ?_⟩
  unfold max17050_get_battery_info
  dsimp only
  split_ifs <;> exact h1

/-- Witness of C25: the fast charge command in force, the battery id unknown,
the super charge command sent. -/
theorem unknown_battery_forces_disable_witness :
    unknown_battery_state.poweralg.battery.id_index = plain_board.BATTERY_ID_UNKNOWN ∧
      unknown_battery_state.poweralg.charging_enable = ChargerCtl.ENABLE_FAST_CHG ∧
      (max17050_get_battery_info plain_board
        (max17050_blocking_notify plain_board
          (NotifyEvent.MAX17050_CHARGING_CONTROL ChargerCtl.ENABLE_SUPER_CHG)
          unknown_battery_state)).charging_enabled = ChargerCtl.DISABLE :=
  ⟨rfl, rfl,
    (unknown_battery_forces_disable plain_board ChargerCtl.ENABLE_SUPER_CHG
      unknown_battery_state rfl).2⟩

/-- C26. Commands are forwarded only on change: for a known battery id, a
charge state other than PREDICTION and the first-update latch consumed, a
command among DISABLE, ENABLE_SLOW_CHG, ENABLE_FAST_CHG, ENABLE_SUPER_CHG
that equals `charging_enable` while `force_set_chg` is 0 is not handed to the
notifier chain and leaves the statics as they are; a command that differs
from `charging_enable` while `force_set_chg` is 0 is handed to the chain and
becomes `charging_enable`, nothing else changing; with `force_set_chg` 1 the
command is handed to the chain also when equal, becomes `charging_enable`,
and `force_set_chg` is cleared. -/
theorem command_forwarded_on_change (p : Platform) (cmd : ChargerCtl) (s : State)
    (hid : s.poweralg.battery.id_index ≠ p.BATTERY_ID_UNKNOWN)
    (hcs : s.poweralg.charge_state ≠ CHARGE_STATE_PREDICTION)
    (hfirst : s.g_first_update_charger_ctl ≠ 1)
    (hcmd : cmd = ChargerCtl.DISABLE ∨ cmd = ChargerCtl.ENABLE_SLOW_CHG ∨
      cmd = ChargerCtl.ENABLE_FAST_CHG ∨ cmd = ChargerCtl.ENABLE_SUPER_CHG) :
    (s.force_set_chg = 0 → s.poweralg.charging_enable = cmd →
        max17050_blocking_notify p (NotifyEvent.MAX17050_CHARGING_CONTROL cmd) s = s) ∧
      (s.force_set_chg = 0 → s.poweralg.charging_enable ≠ cmd →
        max17050_blocking_notify p (NotifyEvent.MAX17050_CHARGING_CONTROL cmd) s =
          { s with
            poweralg.charging_enable := cmd
            notified := s.notified ++ [Notification.CHARGING_CONTROL (some cmd)] }) ∧
      (s.force_set_chg = 1 →
        max17050_blocking_notify p (NotifyEvent.MAX17050_CHARGING_CONTROL cmd) s =
          { s with
            force_set_chg := 0
            poweralg.charging_enable := cmd
            notified := s.notified ++ [Notification.CHARGING_CONTROL (some cmd)] }) := by
  have h1 : ¬ (s.poweralg.battery.id_index ≠ p.BATTERY_ID_UNKNOWN ∧
      (ChargerCtl.TOGGLE_CHARGER = cmd ∨ ChargerCtl.ENABLE_MIN_TAPER = cmd ∨
        ChargerCtl.DISABLE_MIN_TAPER = cmd)) := by
    rintro ⟨_, hh⟩
    rcases hcmd with h | h | h | h <;> rw [h] at hh <;> revert hh <;> decide
  unfold max17050_blocking_notify
  dsimp only
  rw [if_neg h1, if_pos ⟨hid, hcs⟩, if_neg hfirst]
  refine ⟨fun hf he => ?_, fun hf he => ?_, fun hf => ?_⟩
  · rw [if_pos ⟨he, hf⟩]
  · rw [if_neg (fun hh => he hh.1), if_neg (by rw [hf]; decide)]
  · rw [if_neg (fun hh => by rw [hf] at hh; exact absurd hh.2 (by decide)), if_pos hf]

/-- Witness of C26: the fast charge command in force and sent again, with
`force_set_chg` 0. -/
theorem command_forwarded_on_change_witness :
    fast_charging_state.poweralg.battery.id_index ≠ plain_board.BATTERY_ID_UNKNOWN ∧
      fast_charging_state.poweralg.charge_state ≠ CHARGE_STATE_PREDICTION ∧
      fast_charging_state.g_first_update_charger_ctl ≠ 1 ∧
      fast_charging_state.force_set_chg = 0 ∧
      fast_charging_state.poweralg.charging_enable = ChargerCtl.ENABLE_FAST_CHG ∧
      max17050_blocking_notify plain_board
          (NotifyEvent.MAX17050_CHARGING_CONTROL ChargerCtl.ENABLE_FAST_CHG)
          fast_charging_state = fast_charging_state :=
  ⟨by decide, by decide, by decide, rfl, rfl,
    (command_forwarded_on_change plain_board ChargerCtl.ENABLE_FAST_CHG fast_charging_state
      (by decide) (by decide) (by decide) (Or.inr (Or.inr (Or.inl rfl)))).1 rfl rfl⟩

/-- C27. Command derivation: when `is_charging_avaiable` holds at entry and
the overload disable (`debug_disable_hw_timer` with `is_charge_over_load`)
does not apply, `check_charging_function` leaves `charging_enable`
ENABLE_SUPER_CHG if the high-current and the super-current eligibility both
hold, ENABLE_FAST_CHG if the high-current eligibility holds without the
super-current one, and ENABLE_SLOW_CHG otherwise; when `is_charging_avaiable`
does not hold, or the overload disable applies, it leaves `charging_enable`
DISABLE. -/
theorem check_charging_function_command (p : Platform) (s : State) :
    (is_charging_avaiable p s = true →
        ¬ (s.config.debug_disable_hw_timer = true ∧ s.poweralg.is_charge_over_load = true) →
        (check_charging_function p s).poweralg.charging_enable =
          if is_high_current_charging_avaialable s then
            if is_super_current_charging_avaialable s then ChargerCtl.ENABLE_SUPER_CHG
            else ChargerCtl.ENABLE_FAST_CHG
          else ChargerCtl.ENABLE_SLOW_CHG) ∧
      (is_charging_avaiable p s = false →
        (check_charging_function p s).poweralg.charging_enable = ChargerCtl.DISABLE) ∧
      (s.config.debug_disable_hw_timer = true ∧ s.poweralg.is_charge_over_load = true →
        (check_charging_function p s).poweralg.charging_enable = ChargerCtl.DISABLE) := by
  have hav : is_charging_avaiable p s = true → check_charging_function p s =
      if (min_taper_current_control p (charger_enable_by_current p
            (hw_safety_timer_watchdog p (charging_time_count p s)))).config.debug_disable_hw_timer
            = true ∧
          (min_taper_current_control p (charger_enable_by_current p
            (hw_safety_timer_watchdog p
              (charging_time_count p s)))).poweralg.is_charge_over_load = true then
        max17050_charger_control p ChargerCtl.DISABLE
          (min_taper_current_control p (charger_enable_by_current p
            (hw_safety_timer_watchdog p (charging_time_count p s))))
      else
        min_taper_current_control p (charger_enable_by_current p
          (hw_safety_timer_watchdog p (charging_time_count p s))) := by
    intro ha
    unfold check_charging_function
    dsimp only
    rw [ha, if_pos rfl]
  have hun : is_charging_avaiable p s = false →
      (check_charging_function p s).poweralg.charging_enable = ChargerCtl.DISABLE := by
    intro ha
    unfold check_charging_function
    dsimp only
    rw [ha, if_neg Bool.false_ne_true]
    have e := max17050_charger_control_DISABLE p s
    generalize max17050_charger_control p ChargerCtl.DISABLE s = s1 at e
    split_ifs
    · exact max17050_charger_control_DISABLE p _
    · exact e
  refine ⟨fun ha hd => ?_, hun, fun hd => ?_⟩
  · obtain ⟨hid, hcs⟩ := is_charging_avaiable_known p s ha
    obtain ⟨e, f⟩ := check_charging_function_available_branch p s hid hcs
    rw [hav ha]
    generalize min_taper_current_control p
      (charger_enable_by_current p (hw_safety_timer_watchdog p (charging_time_count p s))) = s4
      at e f
    rw [f.2.2.2.2.2.2.2, f.2.2.2.2.2.2.1, if_neg hd]
    exact e
  · cases ha : is_charging_avaiable p s
    · exact hun ha
    · obtain ⟨hid, hcs⟩ := is_charging_avaiable_known p s ha
      obtain ⟨_, f⟩ := check_charging_function_available_branch p s hid hcs
      rw [hav ha]
      generalize min_taper_current_control p
        (charger_enable_by_current p (hw_safety_timer_watchdog p (charging_time_count p s))) = s4
        at f
      rw [f.2.2.2.2.2.2.2, f.2.2.2.2.2.2.1, if_pos hd]
      exact max17050_charger_control_DISABLE p _

/-- C28. Entry actions: after every pass of the loop of
`update_next_charge_state` that makes a transition, `start_ktime` is the
current time; when the state entered is DISCHARGE or PENDING,
`fst_discharge_capacity_01p` is the current `capacity_01p` and
`is_voltage_stable` is FALSE; when it is CHARGING, the overload counter is 0,
`is_charge_over_load` and `is_software_charger_timeout` are FALSE and
`battery.charge_full_real_mAh` is `battery.charge_full_design_mAh`; when it
is FULL_WAIT_STABLE, the full-condition counter is 0. -/
theorem transition_entry_actions (p : Platform) (i : CycleInput) (s : State)
    (h : (loop_body p i s).2 = true) :
    (loop_body p i s).1.poweralg.start_ktime = i.now ∧
      ((loop_body p i s).1.poweralg.charge_state = CHARGE_STATE_DISCHARGE ∨
          (loop_body p i s).1.poweralg.charge_state = CHARGE_STATE_PENDING →
        (loop_body p i s).1.poweralg.fst_discharge_capacity_01p =
            (loop_body p i s).1.poweralg.capacity_01p ∧
          (loop_body p i s).1.poweralg.is_voltage_stable = false) ∧
      ((loop_body p i s).1.poweralg.charge_state = CHARGE_STATE_CHARGING →
        (loop_body p i s).1.count_charge_over_load = 0 ∧
          (loop_body p i s).1.poweralg.is_charge_over_load = false ∧
          (loop_body p i s).1.poweralg.is_software_charger_timeout = false ∧
          (loop_body p i s).1.poweralg.battery.charge_full_real_mAh =
            (loop_body p i s).1.poweralg.battery.charge_full_design_mAh) ∧
      ((loop_body p i s).1.poweralg.charge_state = CHARGE_STATE_FULL_WAIT_STABLE →
        (loop_body p i s).1.count_charging_full_condition = 0) := by
  obtain ⟨t, next, ht⟩ := loop_body_moved_eq p i s h
  rw [ht, state_transition_charge_state]
  refine ⟨state_transition_start_ktime p i t next, fun hn => ?_, fun hn => ?_, fun hn => ?_⟩
  · exact state_transition_entry_DISCHARGE_PENDING p i t next hn
  · rw [hn]
    have := state_transition_entry_CHARGING p i t
    exact ⟨this.1, this.2.1, this.2.2.1, this.2.2.2.2⟩
  · rw [hn]
    exact state_transition_entry_FULL_WAIT_STABLE p i t

/-- Witness of C28: DISCHARGE with the cable in, which enters CHARGING. -/
theorem transition_entry_actions_witness :
    (loop_body plain_board cycle_95 (scenario_state CHARGE_STATE_DISCHARGE 0)).2 = true ∧
      (loop_body plain_board cycle_95
        (scenario_state CHARGE_STATE_DISCHARGE 0)).1.poweralg.charge_state =
          CHARGE_STATE_CHARGING ∧
      (loop_body plain_board cycle_95
        (scenario_state CHARGE_STATE_DISCHARGE 0)).1.poweralg.start_ktime = cycle_95.now :=
  ⟨by decide, by decide,
    (transition_entry_actions plain_board cycle_95 (scenario_state CHARGE_STATE_DISCHARGE 0)
      (by decide)).1⟩

/-- C29, the code at the failing input. `battery_param_update` returns TRUE
whatever the register reads deliver; after one good cycle from the boot
state, a cycle in which every register read fails still makes
`battery_param_update` and `do_power_alg` return TRUE, and the sample is not
left as it was: `charge_full_real_mAh`, which the failed read left at its
converted value 1650, is converted again to 825. -/
theorem read_failure_not_reported :
    (∀ (p : Platform) (regs : GaugeRegs) (battery : battery_type) (flags : protect_flags_type),
        (battery_param_update p regs battery flags).2.2 = true) ∧
      (∀ (p : Platform) (i : CycleInput) (ev : Bool) (s : State),
        (do_power_alg p i ev s).2 = true) ∧
      (do_power_alg plain_board cycle_95 false
        boot_state).1.poweralg.battery.charge_full_real_mAh = 1650 ∧
      (battery_param_update plain_board gauge_reads_fail
        (do_power_alg plain_board cycle_95 false boot_state).1.poweralg.battery
        (do_power_alg plain_board cycle_95 false boot_state).1.poweralg.protect_flags).2.2 =
          true ∧
      (do_power_alg plain_board cycle_reads_fail false
        (do_power_alg plain_board cycle_95 false boot_state).1).2 = true ∧
      (do_power_alg plain_board cycle_reads_fail false
        (do_power_alg plain_board cycle_95 false
          boot_state).1).1.poweralg.battery.charge_full_real_mAh = 825 := by
  refine ⟨battery_param_update_ok, ?_, by decide, by decide, by decide, by decide⟩
  intro p i ev s
  unfold do_power_alg
  dsimp only
  rw [do_power_alg_sample_ok]
  rfl

/-- Counterexample to C30: from the boot state with the unknown battery id,
without a cable, the capacity after the `do_power_alg` cycle is 950 when the
gauge reads 95 percent and 500 when it reads 50 percent; with the cable in
it is 500 as well at 50 percent. -/
theorem unknown_battery_capacity_follows_gauge :
    unknown_battery_boot.poweralg.battery.id_index = plain_board.BATTERY_ID_UNKNOWN ∧
      (do_power_alg plain_board cycle_95 false unknown_battery_boot).1.poweralg.capacity_01p =
        950 ∧
      (do_power_alg plain_board cycle_50 false unknown_battery_boot).1.poweralg.capacity_01p =
        500 ∧
      (do_power_alg plain_board cycle_50 false
        { unknown_battery_boot with poweralg.is_cable_in := true }).1.poweralg.capacity_01p =
          500 := by
  decide

/-- C30, as amended. Unknown battery identity: when `battery.id_index` is
`BATTERY_ID_UNKNOWN`, `battery_param_update` leaves
`is_charging_enable_available` FALSE, whatever the flags before (also with
`is_fake_room_temp` set) and whatever the board (also with a strategy
installed), and keeps the id.  The capacity is not replaced by a
placeholder: after a `do_power_alg` cycle that takes the gauge sample in
DISCHARGE without a cable, `capacity_01p` is the level read from the gauge
(1 instead of 0 under `debug_disable_shutdown`). -/
theorem unknown_battery_degraded (p : Platform) (regs : GaugeRegs) (battery : battery_type)
    (flags : protect_flags_type) (hid : battery.id_index = p.BATTERY_ID_UNKNOWN) :
    (battery_param_update p regs battery flags).2.1.is_charging_enable_available = false ∧
      (battery_param_update p regs battery flags).1.id_index = battery.id_index ∧
      (∀ (i : CycleInput) (ev : Bool) (s : State),
        s.poweralg.battery.id_index = p.BATTERY_ID_UNKNOWN →
        s.poweralg.charge_state = CHARGE_STATE_DISCHARGE →
        s.poweralg.is_cable_in = false →
        (s.s_bFirstEntry = true ∨
          (MSPERIOD i.now s.pre_param_update_ktime ≥ 3 * 1000 ∧ s.s_pre_time_ktime ≤ i.now)) →
        (do_power_alg p i ev s).1.poweralg.capacity_01p =
          if s.config.debug_disable_shutdown = true ∧
              (max17050_get_batt_level i.regs s.poweralg.battery).2 ≤ 0 then 1
          else (max17050_get_batt_level i.regs s.poweralg.battery).2) := by
  refine ⟨battery_param_update_unknown p regs battery flags hid, ?_, ?_⟩
  · rw [battery_param_update_battery, __battery_param_udpate_id_index]
  · intro i ev s _ h hc hs
    exact do_power_alg_DISCHARGE_no_cable p i ev s h hc hs

/-- Witness of C30: the boot sample with the unknown id on the board with the
strategy installed, with `is_fake_room_temp` set and both allowances TRUE
before; and a first cycle in DISCHARGE without a cable on the plain board
with the gauge at 50 percent. -/
theorem unknown_battery_degraded_witness :
    unknown_battery_boot.poweralg.battery.id_index = strategy_board.BATTERY_ID_UNKNOWN ∧
      fake_room_temp_flags.is_fake_room_temp = true ∧
      fake_room_temp_flags.is_charging_enable_available = true ∧
      (battery_param_update strategy_board gauge_95 unknown_battery_boot.poweralg.battery
        fake_room_temp_flags).2.1.is_charging_enable_available = false ∧
      (do_power_alg plain_board cycle_50 false
        unknown_battery_discharge).1.poweralg.capacity_01p =
          (if unknown_battery_discharge.config.debug_disable_shutdown = true ∧
              (max17050_get_batt_level cycle_50.regs
                unknown_battery_discharge.poweralg.battery).2 ≤ 0 then 1
          else (max17050_get_batt_level cycle_50.regs
            unknown_battery_discharge.poweralg.battery).2) ∧
      (max17050_get_batt_level cycle_50.regs unknown_battery_discharge.poweralg.battery).2 =
        500 :=
  ⟨rfl, rfl, rfl,
    (unknown_battery_degraded strategy_board gauge_95 unknown_battery_boot.poweralg.battery
      fake_room_temp_flags rfl).1,
    (unknown_battery_degraded plain_board gauge_95 unknown_battery_boot.poweralg.battery
      fake_room_temp_flags rfl).2.2 cycle_50 false unknown_battery_discharge rfl rfl rfl
      (Or.inl rfl),
    by decide⟩

/-- Counterexample to C31 as stated: the curve built from the two points
(65536, 65536) and (0, 0), which are strictly decreasing in voltage and in
capacity.  Asked for the voltage 65536 of its first point the lookup returns
0, not the capacity 65536 of that point: the product of the two differences
is `2^32`, which is 0 in `DWORD` arithmetic. -/
theorem anchor_lookup_overflow :
    strictly_decreasing wide_points ∧ wide_points.length = 2 ∧
      voltage_curve_translator_get (curve_of wide_points) 65536 = curve_lookup.capacity 0 := by
  decide

/-- C31, as amended. Curve lookup is exact at anchor points within the 32 bit
range: for every curve built by `voltage_curve_translator_init` followed by
`voltage_curve_translator_add` of 2 to 11 points with strictly decreasing
voltage and strictly decreasing capacity, the first voltage a `DWORD` and the
first capacity below `2^31`, and for every point `k` of the curve,
`voltage_curve_translator_get` at that point's voltage returns that point's
capacity; for the first point this needs the product of the voltage
difference and the capacity difference of the first two points to be below
`2^32`, for the other points it needs nothing more. -/
theorem anchor_lookup_exact (pts : List sampled_point_type) (h2 : 2 ≤ pts.length)
    (h11 : pts.length ≤ 11) (hd : strictly_decreasing pts)
    (hv0 : (pts.headD { voltage := 0, capacity := 0 }).voltage < 4294967296)
    (hc0 : (pts.headD { voltage := 0, capacity := 0 }).capacity < 2147483648)
    (k : Nat) (hk : k < pts.length)
    (hm : k = 0 →
      (pts[0].voltage - pts[1].voltage) * (pts[0].capacity - pts[1].capacity) < 4294967296) :
    voltage_curve_translator_get (curve_of pts) pts[k].voltage =
      curve_lookup.capacity pts[k].capacity :=
  curve_of_anchor pts h2 (by omega) hd hv0 hc0 k hk hm

/-- Witness of C31 as amended: the curve of the example in the source, asked
for the voltage 4200 of its first point. -/
theorem anchor_lookup_exact_witness :
    strictly_decreasing example_points ∧
      (4200 - 3900) * (10000 - 8000) < 4294967296 ∧
      voltage_curve_translator_get (curve_of example_points) 4200 =
        curve_lookup.capacity 10000 :=
  ⟨by decide, by decide,
    anchor_lookup_exact example_points (by decide) (by decide) (by decide) (by decide)
      (by decide) 0 (by decide) (fun _ => by decide)⟩

/-- C32. Degenerate interpolation is guarded.  For every curve whose entries
hold `DWORD` voltages and for every query voltage,
`voltage_curve_translator_get` never divides by zero; whenever it selects two
bracketing points, if they have equal voltage it returns 0, and in every
other case the divisor `p0.voltage - p1.voltage` is not zero and a capacity
is returned. -/
theorem lookup_guarded (t : voltage_curve_translator) (voltage : Nat)
    (ht : ∀ pt ∈ t.sampled_points, pt.voltage < 4294967296) :
    voltage_curve_translator_get t voltage ≠ curve_lookup.divide_by_zero ∧
      ∀ p0 p1 : sampled_point_type,
        voltage_curve_translator_bracket t (voltage_curve_translator_clamp t voltage) =
            some (p0, p1) →
          (p0.voltage = p1.voltage →
            voltage_curve_translator_get t voltage = curve_lookup.capacity 0) ∧
          (p0.voltage ≠ p1.voltage →
            DWORD_sub p0.voltage p1.voltage ≠ 0 ∧
              ∃ c, voltage_curve_translator_get t voltage = curve_lookup.capacity c) := by
  have hi : ∀ (v : Nat) (p0 p1 : sampled_point_type),
      (DWORD_sub p0.voltage p1.voltage = 0 →
        voltage_curve_translator_interpolate t v p0 p1 = curve_lookup.capacity 0) ∧
      (DWORD_sub p0.voltage p1.voltage ≠ 0 →
        ∃ c, voltage_curve_translator_interpolate t v p0 p1 = curve_lookup.capacity c) := by
    intro v p0 p1
    constructor
    · intro h
      unfold voltage_curve_translator_interpolate
      rw [if_pos h]
    · intro h
      unfold voltage_curve_translator_interpolate DWORD_div
      rw [if_neg h, if_neg h]
      exact ⟨_, rfl⟩
  constructor
  · unfold voltage_curve_translator_get
    dsimp only
    cases hb : voltage_curve_translator_bracket t (voltage_curve_translator_clamp t voltage) with
    | none => intro h; cases h
    | some pr =>
      obtain ⟨p0, p1⟩ := pr
      dsimp only
      by_cases h : DWORD_sub p0.voltage p1.voltage = 0
      · rw [(hi _ p0 p1).1 h]
        intro hh; cases hh
      · obtain ⟨c, hc⟩ := (hi (voltage_curve_translator_clamp t voltage) p0 p1).2 h
        rw [hc]
        intro hh; cases hh
  · intro p0 p1 hb
    have hmem : p0 ∈ t.sampled_points ∧ p1 ∈ t.sampled_points := by
      unfold voltage_curve_translator_bracket at hb
      split at hb
      · cases hb
      · split at hb
        · rename_i i _ q0 q1 e0 e1
          cases hb
          exact ⟨List.getElem?_mem e0, List.getElem?_mem e1⟩
        · cases hb
    have hg : voltage_curve_translator_get t voltage =
        voltage_curve_translator_interpolate t (voltage_curve_translator_clamp t voltage)
          p0 p1 := by
      unfold voltage_curve_translator_get
      dsimp only
      rw [hb]
    constructor
    · intro h
      rw [hg]
      apply (hi _ p0 p1).1
      rw [h]
      exact DWORD_sub_self _
    · intro h
      have hd : DWORD_sub p0.voltage p1.voltage ≠ 0 := fun hh =>
        h (DWORD_sub_eq_zero _ _ (ht p0 hmem.1) (ht p1 hmem.2) hh)
      rw [hg]
      exact ⟨hd, (hi _ p0 p1).2 hd⟩

/-- Witness of C32: a curve whose first two entries have the voltage 4200,
asked for 4200; the two entries are selected and 0 is returned. -/
theorem lookup_guarded_witness :
    (∀ pt ∈ flat_curve.sampled_points, pt.voltage < 4294967296) ∧
      voltage_curve_translator_bracket flat_curve
          (voltage_curve_translator_clamp flat_curve 4200) =
        some ({ voltage := 4200, capacity := 10000 }, { voltage := 4200, capacity := 500 }) ∧
      voltage_curve_translator_get flat_curve 4200 = curve_lookup.capacity 0 ∧
      (voltage_curve_translator_get flat_curve 4200 ≠ curve_lookup.divide_by_zero ∧
        ∀ p0 p1 : sampled_point_type,
          voltage_curve_translator_bracket flat_curve
              (voltage_curve_translator_clamp flat_curve 4200) = some (p0, p1) →
            (p0.voltage = p1.voltage →
              voltage_curve_translator_get flat_curve 4200 = curve_lookup.capacity 0) ∧
            (p0.voltage ≠ p1.voltage →
              DWORD_sub p0.voltage p1.voltage ≠ 0 ∧
                ∃ c, voltage_curve_translator_get flat_curve 4200 = curve_lookup.capacity c)) :=
  ⟨by decide, by decide, by decide, lookup_guarded flat_curve 4200 (by decide)⟩

/-- Counterexample to C33 as stated.  The curve built from the two points
(4200, 10000) and (3300, 500), strictly decreasing in voltage and capacity,
has `voltage_min` and `capacity_min` at 0, where `memset` left them.  Asked
for 3000, below the voltage 3300 of its lowest point, the lookup does not
clamp the voltage, selects the lowest point and the zero entry after it, and
returns 454: neither the capacity 500 of the lowest point nor a value between
the smallest capacity 500 and the largest capacity 10000.  The curve built
from (65536, 65536) and (0, 0), asked for 70000, above its highest point,
returns 0 and not the capacity 65536 of the highest point: the product of the
differences is `2^32`. -/
theorem lookup_not_clamped :
    strictly_decreasing two_points ∧
      (curve_of two_points).voltage_min = 0 ∧
      (curve_of two_points).capacity_min = 0 ∧
      voltage_curve_translator_clamp (curve_of two_points) 3000 = 3000 ∧
      voltage_curve_translator_bracket (curve_of two_points) 3000 =
        some ({ voltage := 3300, capacity := 500 }, { voltage := 0, capacity := 0 }) ∧
      voltage_curve_translator_get (curve_of two_points) 3000 = curve_lookup.capacity 454 ∧
      strictly_decreasing wide_points ∧
      voltage_curve_translator_clamp (curve_of wide_points) 70000 = 65536 ∧
      voltage_curve_translator_get (curve_of wide_points) 70000 = curve_lookup.capacity 0 := by
  decide

/-- C33, as amended. Curve clamping from the lowest point upwards, within the
32 bit range: for every curve built by `voltage_curve_translator_init` and
`voltage_curve_translator_add` from 2 to 12 points with strictly decreasing
voltage and capacity, the product of the first voltage and the first capacity
below `2^32` and the first capacity below `2^31`, and for every query voltage
at or above the voltage of one of the points, `voltage_curve_translator_get`
returns a capacity that lies between the capacities of two points of the
curve, hence between the smallest and the largest; a query voltage at or
above the highest point's voltage returns the highest point's capacity.
Nothing is said of a query below the lowest point's voltage. -/
theorem lookup_clamped (pts : List sampled_point_type) (h2 : 2 ≤ pts.length)
    (h12 : pts.length ≤ 12) (hd : strictly_decreasing pts)
    (hm : (pts.headD { voltage := 0, capacity := 0 }).voltage *
      (pts.headD { voltage := 0, capacity := 0 }).capacity < 4294967296)
    (hc0 : (pts.headD { voltage := 0, capacity := 0 }).capacity < 2147483648)
    (voltage : Nat) (hvd : voltage < 4294967296)
    (hlow : ∃ pt ∈ pts, pt.voltage ≤ voltage) :
    ∃ c : Nat, voltage_curve_translator_get (curve_of pts) voltage = curve_lookup.capacity c ∧
      (∃ lo ∈ pts, lo.capacity ≤ c) ∧ (∃ hi ∈ pts, c ≤ hi.capacity) ∧
      ((pts.headD { voltage := 0, capacity := 0 }).voltage ≤ voltage →
        c = (pts.headD { voltage := 0, capacity := 0 }).capacity) :=
  curve_of_in_range pts h2 h12 hd hm hc0 voltage hvd hlow

/-- Witness of C33 as amended: the curve of the example in the source, asked
for 4000 as in that example; the lookup returns 8666. -/
theorem lookup_clamped_witness :
    strictly_decreasing example_points ∧
      voltage_curve_translator_get (curve_of example_points) 4000 =
        curve_lookup.capacity 8666 ∧
      ∃ c : Nat,
        voltage_curve_translator_get (curve_of example_points) 4000 =
            curve_lookup.capacity c ∧
          (∃ lo ∈ example_points, lo.capacity ≤ c) ∧
          (∃ hi ∈ example_points, c ≤ hi.capacity) ∧
          ((example_points.headD { voltage := 0, capacity := 0 }).voltage ≤ 4000 →
            c = (example_points.headD { voltage := 0, capacity := 0 }).capacity) :=
  ⟨by decide, by decide,
    lookup_clamped example_points (by decide) (by decide) (by decide) (by decide) (by decide)
      4000 (by decide) ⟨{ voltage := 3900, capacity := 8000 }, by decide, by decide⟩⟩

/-- C34. The charger is off whenever charging is not eligible: for every
board and every state (known or unknown battery id, any charge state), if
`is_charging_avaiable` is FALSE when `check_charging_function` is entered,
then when it returns `poweralg.charging_enable` is DISABLE and the charging
timers `chg_en_time_sec`, `chg_kick_time_sec` and `super_chg_on_time_sec`
are 0. -/
theorem check_charging_function_unavailable (p : Platform) (s : State)
    (h : is_charging_avaiable p s = false) :
    (check_charging_function p s).poweralg.charging_enable = ChargerCtl.DISABLE ∧
      (check_charging_function p s).chg_en_time_sec = 0 ∧
      (check_charging_function p s).chg_kick_time_sec = 0 ∧
      (check_charging_function p s).super_chg_on_time_sec = 0 := by
  rw [check_charging_function_else_branch p s h]
  have hd := max17050_charger_control_DISABLE p s
  generalize max17050_charger_control p ChargerCtl.DISABLE s = u at hd ⊢
  split_ifs
  · obtain ⟨t1, t2, t3⟩ := max17050_charger_control_timers p ChargerCtl.DISABLE
      { u with
        chg_en_time_sec := 0
        chg_kick_time_sec := 0
        super_chg_on_time_sec := 0
        poweralg.is_need_toggle_charger := false
        poweralg.protect_flags.is_charging_reverse_protect := false }
    exact ⟨max17050_charger_control_DISABLE p _, t1, t2, t3⟩
  · exact ⟨hd, rfl, rfl, rfl⟩

/-- Witness of C34: the scenario state in PENDING, where charging is not
available, entered with the fast charge command in force and the three timers
at 120, 7 and 60 seconds; `check_charging_function` leaves the charger
disabled and the timers at 0. -/
theorem check_charging_function_unavailable_witness :
    is_charging_avaiable plain_board pending_charger_on = false ∧
      pending_charger_on.poweralg.charging_enable = ChargerCtl.ENABLE_FAST_CHG ∧
      pending_charger_on.chg_en_time_sec = 120 ∧
      pending_charger_on.chg_kick_time_sec = 7 ∧
      pending_charger_on.super_chg_on_time_sec = 60 ∧
      (check_charging_function plain_board pending_charger_on).poweralg.charging_enable =
        ChargerCtl.DISABLE ∧
      (check_charging_function plain_board pending_charger_on).chg_en_time_sec = 0 ∧
      (check_charging_function plain_board pending_charger_on).chg_kick_time_sec = 0 ∧
      (check_charging_function plain_board pending_charger_on).super_chg_on_time_sec = 0 :=
  ⟨by decide, by decide, by decide, by decide, by decide,
    check_charging_function_unavailable plain_board pending_charger_on (by decide)⟩

/-- C35. The transition loop does not always settle.  For every board, clock
and state in FULL_CHARGING with `full_pending_ma` not 0, the cable present,
charging allowed, `full_charging_mv` ≤ `voltage_mV` < `voltage_recharge_mv`,
`voltage_mV` ≥ `voltage_exit_full_mv`, `voltage_mV` not negative and
0 ≤ `current_mA` ≤ min(`full_pending_ma`, `full_charging_ma`)
(`cycle_sample`), `update_next_charge_state` goes round FULL_CHARGING,
FULL_PENDING, FULL_RECHARGING: the loop changes the state in each of its 25
passes and the call returns in FULL_PENDING, from where the next pass would
change the state again. -/
theorem transition_loop_does_not_settle (p : Platform) (i : CycleInput) (b : Bool) (s : State)
    (hcs : s.poweralg.charge_state = CHARGE_STATE_FULL_CHARGING) (hs : cycle_sample s) :
    loop_settles p i 25 (start_ktime_check i.now s) = false ∧
      loop_passes p i 25 (start_ktime_check i.now s) = 25 ∧
      (update_next_charge_state p i b s).poweralg.charge_state = CHARGE_STATE_FULL_PENDING ∧
      (loop_body p i (update_next_charge_state p i b s)).2 = true := by
  obtain ⟨h1, h2, h3, h4⟩ := transition_loop_cycle p i 25 0 (start_ktime_check i.now s)
    (start_ktime_check_cycle_sample i.now s hs)
    (by rw [start_ktime_check_charge_state, hcs]; rfl)
  refine ⟨h1, h2, h3, ?_⟩
  exact (loop_body_cycle p i _ 25 h4 h3).1

/-- Witness of C35: FULL_CHARGING at 4120 mV and 10 mA with `full_pending_ma`
50, `full_charging_ma` 100, `full_charging_mv` 4110, `voltage_recharge_mv`
4150 and `voltage_exit_full_mv` 4100; the log of the call is the round
FULL_CHARGING, FULL_PENDING, FULL_RECHARGING eight times and one step
more. -/
theorem transition_loop_does_not_settle_witness :
    (full_charging_cycle.poweralg.charge_state = CHARGE_STATE_FULL_CHARGING ∧
        full_charging_cycle.config.full_pending_ma ≠ 0 ∧
        full_charging_cycle.poweralg.is_cable_in = true ∧
        full_charging_cycle.poweralg.protect_flags.is_charging_enable_available = true ∧
        full_charging_cycle.config.full_charging_mv ≤
          full_charging_cycle.poweralg.battery.voltage_mV ∧
        full_charging_cycle.poweralg.battery.voltage_mV <
          full_charging_cycle.config.voltage_recharge_mv ∧
        full_charging_cycle.poweralg.battery.voltage_mV ≥
          full_charging_cycle.config.voltage_exit_full_mv ∧
        0 ≤ full_charging_cycle.poweralg.battery.current_mA ∧
        full_charging_cycle.poweralg.battery.current_mA ≤
          min full_charging_cycle.config.full_pending_ma
            full_charging_cycle.config.full_charging_ma) ∧
      (update_next_charge_state plain_board cycle_95 false
        full_charging_cycle).state_change_log =
          [(CHARGE_STATE_FULL_CHARGING, CHARGE_STATE_FULL_PENDING),
            (CHARGE_STATE_FULL_PENDING, CHARGE_STATE_FULL_RECHARGING),
            (CHARGE_STATE_FULL_RECHARGING, CHARGE_STATE_FULL_CHARGING),
            (CHARGE_STATE_FULL_CHARGING, CHARGE_STATE_FULL_PENDING),
            (CHARGE_STATE_FULL_PENDING, CHARGE_STATE_FULL_RECHARGING),
            (CHARGE_STATE_FULL_RECHARGING, CHARGE_STATE_FULL_CHARGING),
            (CHARGE_STATE_FULL_CHARGING, CHARGE_STATE_FULL_PENDING),
            (CHARGE_STATE_FULL_PENDING, CHARGE_STATE_FULL_RECHARGING),
            (CHARGE_STATE_FULL_RECHARGING, CHARGE_STATE_FULL_CHARGING),
            (CHARGE_STATE_FULL_CHARGING, CHARGE_STATE_FULL_PENDING),
            (CHARGE_STATE_FULL_PENDING, CHARGE_STATE_FULL_RECHARGING),
            (CHARGE_STATE_FULL_RECHARGING, CHARGE_STATE_FULL_CHARGING),
            (CHARGE_STATE_FULL_CHARGING, CHARGE_STATE_FULL_PENDING),
            (CHARGE_STATE_FULL_PENDING, CHARGE_STATE_FULL_RECHARGING),
            (CHARGE_STATE_FULL_RECHARGING, CHARGE_STATE_FULL_CHARGING),
            (CHARGE_STATE_FULL_CHARGING, CHARGE_STATE_FULL_PENDING),
            (CHARGE_STATE_FULL_PENDING, CHARGE_STATE_FULL_RECHARGING),
            (CHARGE_STATE_FULL_RECHARGING, CHARGE_STATE_FULL_CHARGING),
            (CHARGE_STATE_FULL_CHARGING, CHARGE_STATE_FULL_PENDING),
            (CHARGE_STATE_FULL_PENDING, CHARGE_STATE_FULL_RECHARGING),
            (CHARGE_STATE_FULL_RECHARGING, CHARGE_STATE_FULL_CHARGING),
            (CHARGE_STATE_FULL_CHARGING, CHARGE_STATE_FULL_PENDING),
            (CHARGE_STATE_FULL_PENDING, CHARGE_STATE_FULL_RECHARGING),
            (CHARGE_STATE_FULL_RECHARGING, CHARGE_STATE_FULL_CHARGING),
            (CHARGE_STATE_FULL_CHARGING, CHARGE_STATE_FULL_PENDING)] ∧
      (loop_settles plain_board cycle_95 25
          (start_ktime_check cycle_95.now full_charging_cycle) = false ∧
        loop_passes plain_board cycle_95 25
          (start_ktime_check cycle_95.now full_charging_cycle) = 25 ∧
        (update_next_charge_state plain_board cycle_95 false
          full_charging_cycle).poweralg.charge_state = CHARGE_STATE_FULL_PENDING ∧
        (loop_body plain_board cycle_95
          (update_next_charge_state plain_board cycle_95 false full_charging_cycle)).2 =
            true) :=
  ⟨by decide, by decide,
    transition_loop_does_not_settle plain_board cycle_95 false full_charging_cycle rfl
      (by unfold cycle_sample; decide)⟩

/-- C36. Under the configuration written by `poweralg_config_init`, for every
board, starting state, sample, cable and protection flags, with the clock
reading one instant throughout the call, `update_next_charge_state` comes to
rest in fewer than 5 passes of its loop: the loop with 4 passes ends in
`break`, the 25 pass loop executes 4 passes at most, and the call returns
what the loop with 4 passes returns. -/
theorem update_next_charge_state_settles (p : Platform) (i : CycleInput) (b : Bool)
    (s : State) (hcfg : s.config = poweralg_config_init) :
    loop_settles p i 4 (start_ktime_check i.now s) = true ∧
      loop_passes p i 25 (start_ktime_check i.now s) < 5 ∧
      update_next_charge_state p i b s = transition_loop p i 4 (start_ktime_check i.now s) := by
  have hc : settling_config (start_ktime_check i.now s).config := by
    rw [start_ktime_check_config, hcfg]
    exact settling_config_poweralg_config_init
  have h1 := loop_settles_of_rank p i 4 _ hc (settle_rank_le i.now _)
  have h2 := loop_passes_le_rank p i 25 _ hc
  have h3 := settle_rank_le i.now (start_ktime_check i.now s)
  refine ⟨h1, by omega, ?_⟩
  unfold update_next_charge_state
  exact transition_loop_more_passes p i 4 25 _ h1 (by decide)

/-- Witness of C36: FULL_CHARGING at 4120 mV looked at an hour and a second
after it was entered; the loop executes 4 passes (to FULL_PENDING, to
FULL_RECHARGING, back to FULL_CHARGING, rest). -/
theorem update_next_charge_state_settles_witness :
    full_charging_timed_out.config = poweralg_config_init ∧
      loop_passes plain_board hour_later 25
        (start_ktime_check hour_later.now full_charging_timed_out) = 4 ∧
      (loop_settles plain_board hour_later 4
          (start_ktime_check hour_later.now full_charging_timed_out) = true ∧
        loop_passes plain_board hour_later 25
          (start_ktime_check hour_later.now full_charging_timed_out) < 5 ∧
        update_next_charge_state plain_board hour_later false full_charging_timed_out =
          transition_loop plain_board hour_later 4
            (start_ktime_check hour_later.now full_charging_timed_out)) :=
  ⟨rfl, by decide,
    update_next_charge_state_settles plain_board hour_later false full_charging_timed_out rfl⟩

/-- C37. UNKNOWN is transient.  For every board, cycle input and starting
state, `update_next_charge_state` never returns with the charge state
UNKNOWN.  Consequently every `do_power_alg` cycle, the first one after
`power_alg_init` included, ends with the charge state not UNKNOWN and with
`is_gauge_driver_ready` TRUE; and in a cycle that starts outside PREDICTION,
as the first cycle does, `__update_capacity` runs on a state that is neither
UNKNOWN nor PREDICTION, where it does what it does with the first-entry
argument FALSE: the placeholder capacity 550 is not applied. -/
theorem unknown_is_transient (p : Platform) (i : CycleInput) (ev : Bool) (s : State) :
    (∀ b : Bool,
        (update_next_charge_state p i b s).poweralg.charge_state ≠ CHARGE_STATE_UNKNOWN) ∧
      (do_power_alg p i ev s).1.poweralg.charge_state ≠ CHARGE_STATE_UNKNOWN ∧
      (do_power_alg p i ev s).1.poweralg.is_gauge_driver_ready = true ∧
      (s.poweralg.charge_state ≠ CHARGE_STATE_PREDICTION →
        ∀ b b' : Bool,
          (update_next_charge_state p i b
            (do_power_alg_sample p i s).1).poweralg.charge_state ≠ CHARGE_STATE_PREDICTION ∧
          __update_capacity b'
              { update_next_charge_state p i b (do_power_alg_sample p i s).1 with
                poweralg.is_gauge_driver_ready := true } =
            __update_capacity false
              { update_next_charge_state p i b (do_power_alg_sample p i s).1 with
                poweralg.is_gauge_driver_ready := true }) := by
  refine ⟨fun b => update_next_charge_state_ne_UNKNOWN p i b s, ?_, ?_, ?_⟩
  · rw [do_power_alg_charge_state]
    exact update_next_charge_state_ne_UNKNOWN p i _ _
  · rw [do_power_alg_eq]
    dsimp only
    rw [(do_power_alg_charging_ready p _).2]
    exact (do_power_alg_capacity_ready p i ev _).2
      (update_next_charge_state_ne_UNKNOWN p i _ _)
  · intro h b b'
    have hp : (update_next_charge_state p i b
        (do_power_alg_sample p i s).1).poweralg.charge_state ≠ CHARGE_STATE_PREDICTION := by
      apply update_next_charge_state_ne_PREDICTION
      rw [(do_power_alg_sample_frame p i s).1]
      exact h
    exact ⟨hp, __update_capacity_not_first b' _
      (update_next_charge_state_ne_UNKNOWN p i b _) hp⟩

/-- C38. PREDICTION is unreachable.  From a state whose charge state is
UNKNOWN, which is what `power_alg_init` sets up, no sequence of `do_power_alg`
cycles, runs of the monitor work, cable notifications, reverse protection
notifications and charger switch calls, whatever their inputs, puts the
charge state into PREDICTION; and no pass of the loop of
`update_next_charge_state` that changes the state, from any state, ends in
PREDICTION. -/
theorem prediction_unreachable (p : Platform) (k : Enumerators) (es : List DriverEvent)
    (s : State) (h : s.poweralg.charge_state = CHARGE_STATE_UNKNOWN) :
    (driver_events p k es s).poweralg.charge_state ≠ CHARGE_STATE_PREDICTION ∧
      ∀ (i : CycleInput) (t : State), (loop_body p i t).2 = true →
        (loop_body p i t).1.poweralg.charge_state ≠ CHARGE_STATE_PREDICTION :=
  ⟨driver_events_ne_PREDICTION p k es s (by rw [h]; decide),
    fun i t ht => loop_body_moved_ne_PREDICTION p i t ht⟩

/-- Witness of C38: the boot state on the plain board through a day of
events. -/
theorem prediction_unreachable_witness :
    boot_state.poweralg.charge_state = CHARGE_STATE_UNKNOWN ∧
      (driver_events plain_board board_enumerators driver_day
        boot_state).poweralg.charge_state ≠ CHARGE_STATE_PREDICTION ∧
      ∀ (i : CycleInput) (t : State), (loop_body plain_board i t).2 = true →
        (loop_body plain_board i t).1.poweralg.charge_state ≠ CHARGE_STATE_PREDICTION :=
  ⟨rfl, prediction_unreachable plain_board board_enumerators driver_day boot_state rfl⟩

/-- C39. The fake room temperature does not keep charging eligible through
the state machine: for every state in the cable-in group with the cable
present and `is_charging_enable_available` FALSE, whatever the value of
`is_fake_room_temp`, after `update_next_charge_state` the charge state is
PENDING and `is_charging_avaiable` returns FALSE. -/
theorem fake_room_temp_pending (p : Platform) (i : CycleInput) (b : Bool) (s : State)
    (hg : cable_in_group s.poweralg.charge_state)
    (hc : s.poweralg.is_cable_in = true)
    (he : s.poweralg.protect_flags.is_charging_enable_available = false) :
    (update_next_charge_state p i b s).poweralg.charge_state = CHARGE_STATE_PENDING ∧
      is_charging_avaiable p (update_next_charge_state p i b s) = false := by
  have h1 : (update_next_charge_state p i b s).poweralg.charge_state = CHARGE_STATE_PENDING := by
    unfold update_next_charge_state
    apply transition_loop_not_allowed p i 23
    · rw [start_ktime_check_charge_state]; exact hg
    · rw [start_ktime_check_is_cable_in]; exact hc
    · rw [start_ktime_check_protect_flags]; exact he
  exact ⟨h1, is_charging_avaiable_PENDING p _ h1⟩

/-- Witness of C39: CHARGING on an AC cable with `is_fake_room_temp` set and
charging not allowed; before the state machine runs the availability gate
lets charging through, after it the gate is closed. -/
theorem fake_room_temp_pending_witness :
    fake_room_temp_not_allowed.poweralg.protect_flags.is_fake_room_temp = true ∧
      is_charging_avaiable plain_board fake_room_temp_not_allowed = true ∧
      (update_next_charge_state plain_board cycle_95 false
        fake_room_temp_not_allowed).poweralg.protect_flags.is_fake_room_temp = true ∧
      (update_next_charge_state plain_board cycle_95 false
        fake_room_temp_not_allowed).poweralg.charge_state = CHARGE_STATE_PENDING ∧
      is_charging_avaiable plain_board
        (update_next_charge_state plain_board cycle_95 false fake_room_temp_not_allowed) =
          false :=
  ⟨by decide, by decide, by decide,
    fake_room_temp_pending plain_board cycle_95 false fake_room_temp_not_allowed
      (Or.inr (Or.inl rfl)) (by decide) (by decide)⟩

/-- C40. Reverse protection is one-shot.
`reverse_protection_handler(REVERSE_PROTECTION_HAPPEND)` sets
`is_charging_reverse_protect` when the charging source is not
`CONNECT_TYPE_NONE` and changes nothing else; with no source, and for every
other status, it leaves the statics as they are.  For every state with the
flag set,
`is_charging_avaiable` is FALSE, and the next `check_charging_function`
leaves `charging_enable` DISABLE and the flag FALSE; after it
`is_charging_avaiable` answers what it answers on the state before the
evaluation with the flag cleared, so the flag blocks one evaluation only. -/
theorem reverse_protection_one_shot (p : Platform) (k : Enumerators) (s : State) :
    (s.poweralg.charging_source ≠ k.CONNECT_TYPE_NONE →
        reverse_protection_handler k k.REVERSE_PROTECTION_HAPPEND s =
          { s with poweralg.protect_flags.is_charging_reverse_protect := true }) ∧
      (s.poweralg.charging_source = k.CONNECT_TYPE_NONE →
        reverse_protection_handler k k.REVERSE_PROTECTION_HAPPEND s = s) ∧
      (∀ status : Int, status ≠ k.REVERSE_PROTECTION_HAPPEND →
        reverse_protection_handler k status s = s) ∧
      (s.poweralg.protect_flags.is_charging_reverse_protect = true →
        is_charging_avaiable p s = false ∧
          (check_charging_function p s).poweralg.charging_enable = ChargerCtl.DISABLE ∧
          (check_charging_function p s).poweralg.protect_flags.is_charging_reverse_protect =
            false ∧
          is_charging_avaiable p (check_charging_function p s) =
            is_charging_avaiable p
              { s with poweralg.protect_flags.is_charging_reverse_protect := false }) := by
  refine ⟨?_, ?_, ?_, ?_⟩
  · intro h
    unfold reverse_protection_handler
    rw [if_pos rfl, if_pos h]
  · intro h
    unfold reverse_protection_handler
    rw [if_pos rfl, if_neg (not_not.2 h)]
  · intro status h
    unfold reverse_protection_handler
    rw [if_neg h]
  · intro h
    have ha := is_charging_avaiable_reverse_protect p s h
    refine ⟨ha, ?_, ?_, ?_⟩
    · rw [check_charging_function_else_branch p s ha]
      have hd := max17050_charger_control_DISABLE p s
      generalize max17050_charger_control p ChargerCtl.DISABLE s = u at hd ⊢
      split_ifs
      · exact max17050_charger_control_DISABLE p _
      · exact hd
    · rw [check_charging_function_else_branch p s ha]
      split_ifs
      · rw [max17050_charger_control_reverse_protect]
      · rfl
    · rw [check_charging_function_else_branch p s ha]
      have e : is_charging_avaiable p
          { max17050_charger_control p ChargerCtl.DISABLE s with
            chg_en_time_sec := 0
            chg_kick_time_sec := 0
            super_chg_on_time_sec := 0
            poweralg.is_need_toggle_charger := false
            poweralg.protect_flags.is_charging_reverse_protect := false } =
          is_charging_avaiable p
            { s with poweralg.protect_flags.is_charging_reverse_protect := false } := by
        unfold max17050_charger_control max17050_blocking_notify
        dsimp only
        split_ifs <;> rfl
      split_ifs
      · rw [is_charging_avaiable_charger_control, e]
      · exact e

end Max17050
